import Mathlib

/-!
# Diet planner: metabolic calculator and plan generation

A shallow embedding of the calculator and plan-generation code of the diet planner
(`src/database/User.js`, `src/database/Food.js`, `src/database/DietPlan.js`,
`src/routes/api.js`, `src/utils/initializeDatabase.js`, `public/js/demo-backend.js`,
`public/js/api.js`, `public/js/form-validation.js`).

Conventions of the embedding. The source functions are embedded in two readings.
* In the first reading a JavaScript number is an exact rational (`ℚ`), `Math.round` is
  `⌊x + 1/2⌋`, an object literal indexed by a string is a finite map over the keys the literal
  writes, and `table[key] || d` is the entry at `key` when there is one and it is truthy, `d`
  otherwise.
* In the second reading, whose definitions carry the names of the source functions under
  `Runtime`, a number is a `JSNumber` (a finite value, `NaN` or one of the two infinities),
  every arithmetic operation rounds its exact result to the nearest double (`Float64.ofRat`),
  and a lookup `table[key]` on an object literal also finds the properties every object
  inherits from `Object.prototype` (`getProperty`). Statements on the values the calculators,
  the meal generator of `src/routes/api.js` and the shopping list produce are made in this
  reading.
* A method that assigns to `this` returns the value together with the updated document.
* `Math.random()` is read from an explicit stream of draws.
* Form values are the strings read from the form controls; `parseInt` and `parseFloat` return
  a `JSNumber`.
-/

namespace DietPlanner

/-! ## JavaScript primitives -/

/-- `Math.round`: the nearest integer, a half rounded up. -/
def Math.round (x : ℚ) : ℤ := ⌊x + 1 / 2⌋

/-- `x || d` for a number-valued lookup `x`: `undefined` and `0` are falsy. -/
def orElse (x : Option ℚ) (d : ℚ) : ℚ :=
  match x with
  | some v => if v = 0 then d else v
  | none => d

/-- `!x` for a number-valued field `x`: `undefined` and `0` are falsy. -/
def falsy (x : Option ℚ) : Bool :=
  match x with
  | some v => decide (v = 0)
  | none => true

/-! ## User model (`src/database/User.js`) -/

/-- The `personalInfo` fields the calculator reads. -/
structure PersonalInfo where
  age : ℚ
  gender : String
  deriving DecidableEq

/-- The `physicalData` fields the calculator reads. -/
structure PhysicalData where
  currentWeight : ℚ
  weightUnit : String
  height : ℚ
  heightUnit : String
  deriving DecidableEq

/-- The `goals` fields the calculator reads. -/
structure Goals where
  primaryGoal : String
  activityLevel : String
  deriving DecidableEq

/-- Daily macro targets in grams. -/
structure MacroTargets where
  protein : ℤ
  carbs : ℤ
  fats : ℤ
  deriving DecidableEq

/-- The `calculations` sub-document: every field is unset until a method stores it. -/
structure Calculations where
  bmr : Option ℚ
  tdee : Option ℚ
  targetCalories : Option ℚ
  macros : Option MacroTargets
  deriving DecidableEq

/-- The `dietaryPreferences` fields of the schema that plan generation could read. -/
structure DietaryPreferences where
  dietType : String
  foodAllergies : List String
  deriving DecidableEq

/-- A User document. -/
structure User where
  personalInfo : PersonalInfo
  physicalData : PhysicalData
  goals : Goals
  dietaryPreferences : DietaryPreferences
  calculations : Calculations
  deriving DecidableEq

/-- `userSchema.methods.calculateBMR`: the value returned and the document with
`calculations.bmr` stored. -/
def User.calculateBMR (u : User) : ℤ × User :=
  let age := u.personalInfo.age
  let gender := u.personalInfo.gender
  let weightInKg :=
    if u.physicalData.weightUnit = "kg" then u.physicalData.currentWeight
    else u.physicalData.currentWeight * 0.453592
  let heightInCm :=
    if u.physicalData.heightUnit = "cm" then u.physicalData.height
    else u.physicalData.height * 30.48
  let bmr : ℚ :=
    if gender = "male" then (10 * weightInKg) + (6.25 * heightInCm) - (5 * age) + 5
    else (10 * weightInKg) + (6.25 * heightInCm) - (5 * age) - 161
  let r := Math.round bmr
  (r, { u with calculations := { u.calculations with bmr := some (r : ℚ) } })

/-- The `activityMultipliers` table of `User.calculateTDEE`. -/
def User.activityMultipliers : List (String × ℚ) :=
  [("sedentary", 1.2), ("lightly_active", 1.375), ("moderately_active", 1.55),
   ("very_active", 1.725), ("extremely_active", 1.9)]

/-- `userSchema.methods.calculateTDEE`: `calculateBMR` runs first only when
`calculations.bmr` is falsy; the stored `calculations.bmr` is what gets multiplied. -/
def User.calculateTDEE (u : User) : ℤ × User :=
  let u1 := if falsy u.calculations.bmr then (User.calculateBMR u).2 else u
  let bmr : ℚ := if falsy u.calculations.bmr then ((User.calculateBMR u).1 : ℚ)
    else u.calculations.bmr.getD 0
  let multiplier := orElse (User.activityMultipliers.lookup u1.goals.activityLevel) 1.2
  let r := Math.round (bmr * multiplier)
  (r, { u1 with calculations := { u1.calculations with tdee := some (r : ℚ) } })

/-- The `goalAdjustments` table of `User.calculateTargetCalories`. -/
def User.goalAdjustments : List (String × ℚ) :=
  [("weight_loss", -500), ("weight_gain", 500), ("muscle_building", 300), ("maintenance", 0)]

/-- `userSchema.methods.calculateTargetCalories`: `calculateTDEE` runs first only when
`calculations.tdee` is falsy; the minimum intake is applied after the adjustment. -/
def User.calculateTargetCalories (u : User) : ℚ × User :=
  let u1 := if falsy u.calculations.tdee then (User.calculateTDEE u).2 else u
  let tdee : ℚ := if falsy u.calculations.tdee then ((User.calculateTDEE u).1 : ℚ)
    else u.calculations.tdee.getD 0
  let adjustment := orElse (User.goalAdjustments.lookup u1.goals.primaryGoal) 0
  let targetCalories : ℚ := (Math.round (tdee + adjustment) : ℚ)
  let minimumCalories : ℚ := if u1.personalInfo.gender = "male" then 1500 else 1200
  let r := if targetCalories < minimumCalories then minimumCalories else targetCalories
  (r, { u1 with calculations := { u1.calculations with targetCalories := some r } })

/-- A protein/carbs/fats split: fractions in `User.calculateMacros`, percentages in the
demo backend. -/
structure MacroRatios where
  protein : ℚ
  carbs : ℚ
  fats : ℚ
  deriving DecidableEq

/-- The `macroRatios.maintenance` entry of `User.calculateMacros`. -/
def User.macroRatios.maintenance : MacroRatios := ⟨0.30, 0.40, 0.30⟩

/-- The `macroRatios` table of `User.calculateMacros`. -/
def User.macroRatios : List (String × MacroRatios) :=
  [("weight_loss", ⟨0.35, 0.35, 0.30⟩), ("weight_gain", ⟨0.25, 0.45, 0.30⟩),
   ("muscle_building", ⟨0.40, 0.35, 0.25⟩), ("maintenance", User.macroRatios.maintenance)]

/-- The split `macroRatios[goal] || macroRatios.maintenance` of `User.calculateMacros`. -/
def User.calculateMacros.ratios (primaryGoal : String) : MacroRatios :=
  (User.macroRatios.lookup primaryGoal).getD User.macroRatios.maintenance

/-- The gram targets `User.calculateMacros` derives from `calories` and a split. -/
def User.calculateMacros.macros (calories : ℚ) (ratios : MacroRatios) : MacroTargets :=
  { protein := Math.round ((calories * ratios.protein) / 4)
    carbs := Math.round ((calories * ratios.carbs) / 4)
    fats := Math.round ((calories * ratios.fats) / 9) }

/-- `userSchema.methods.calculateMacros`: `calculateTargetCalories` runs first only when
`calculations.targetCalories` is falsy. -/
def User.calculateMacros (u : User) : MacroTargets × User :=
  let u1 := if falsy u.calculations.targetCalories then (User.calculateTargetCalories u).2 else u
  let calories : ℚ := if falsy u.calculations.targetCalories then (User.calculateTargetCalories u).1
    else u.calculations.targetCalories.getD 0
  let ratios := User.calculateMacros.ratios u1.goals.primaryGoal
  let m := User.calculateMacros.macros calories ratios
  (m, { u1 with calculations := { u1.calculations with macros := some m } })

/-! ## Demo backend (`public/js/demo-backend.js`) -/

/-- The fields of `userData` that `DemoBackend.createUser` reads. -/
structure UserData where
  weight : ℚ
  height : ℚ
  age : ℚ
  gender : String
  activityLevel : String
  primaryGoal : String
  deriving DecidableEq

/-- `DemoBackend.calculateBMR`. -/
def DemoBackend.calculateBMR (userData : UserData) : ℤ :=
  if userData.gender = "male" then
    Math.round (10 * userData.weight + 6.25 * userData.height - 5 * userData.age + 5)
  else
    Math.round (10 * userData.weight + 6.25 * userData.height - 5 * userData.age - 161)

/-- The `multipliers` table of `DemoBackend.calculateTDEE`. -/
def DemoBackend.multipliers : List (String × ℚ) :=
  [("sedentary", 1.2), ("lightly_active", 1.375), ("moderately_active", 1.55),
   ("very_active", 1.725), ("extra_active", 1.9)]

/-- `DemoBackend.calculateTDEE`. -/
def DemoBackend.calculateTDEE (bmr : ℚ) (activityLevel : String) : ℤ :=
  Math.round (bmr * orElse (DemoBackend.multipliers.lookup activityLevel) 1.2)

/-- The `ratios['maintenance']` entry of `DemoBackend.calculateMacroRatios`. -/
def DemoBackend.ratios.maintenance : MacroRatios := ⟨25, 45, 30⟩

/-- The `ratios` table of `DemoBackend.calculateMacroRatios` (percentages). -/
def DemoBackend.ratios : List (String × MacroRatios) :=
  [("weight_loss", ⟨30, 35, 35⟩), ("weight_gain", ⟨25, 45, 30⟩),
   ("muscle_gain", ⟨35, 40, 25⟩), ("maintenance", DemoBackend.ratios.maintenance)]

/-- `DemoBackend.calculateMacroRatios`. -/
def DemoBackend.calculateMacroRatios (goal : String) : MacroRatios :=
  (DemoBackend.ratios.lookup goal).getD DemoBackend.ratios.maintenance

/-- A user as `DemoBackend.createUser` stores it: `{ id, ...userData, bmr, tdee, macroRatios }`. -/
structure StoredUser where
  id : String
  userData : UserData
  bmr : ℚ
  tdee : ℚ
  macroRatios : MacroRatios
  deriving DecidableEq

/-- `Map.prototype.set` on an insertion-ordered association list. -/
def mapSet {β : Type} (m : List (String × β)) (k : String) (v : β) : List (String × β) :=
  match m with
  | [] => [(k, v)]
  | (k1, v1) :: rest => if k1 = k then (k, v) :: rest else (k1, v1) :: mapSet rest k v

/-- The calorie target of plan generation: the `switch` on the primary goal, shared verbatim by
`DemoBackend.generateDietPlan` and `generatePersonalizedDietPlan` (`routes/api.js`). -/
def dailyCaloriesFor (tdee : ℚ) (primaryGoal : String) : ℚ :=
  if primaryGoal = "weight_loss" then (Math.round (tdee * 0.8) : ℚ)
  else if primaryGoal = "weight_gain" then (Math.round (tdee * 1.2) : ℚ)
  else if primaryGoal = "muscle_gain" then (Math.round (tdee * 1.15) : ℚ)
  else tdee

/-- The macro targets of plan generation, shared verbatim by `DemoBackend.generateDietPlan` and
`generatePersonalizedDietPlan`: percentages of `dailyCalories` at 4, 4 and 9 kcal per gram. -/
def macroTargetsFor (dailyCalories : ℚ) (macroRatios : MacroRatios) : MacroTargets :=
  { protein := Math.round ((dailyCalories * macroRatios.protein / 100) / 4)
    carbs := Math.round ((dailyCalories * macroRatios.carbs / 100) / 4)
    fats := Math.round ((dailyCalories * macroRatios.fats / 100) / 9) }

/-- A value of `Math.random()`: a number in `[0, 1)`. -/
structure Draw where
  val : ℚ
  nonneg : 0 ≤ val
  lt_one : val < 1

/-- The successive values of `Math.random()`, by call number. -/
abbrev Draws := ℕ → Draw

/-- `xs[i]` for a number `i`: `undefined` outside the list. -/
def jsIndex {α : Type} (xs : List α) (i : ℤ) : Option α :=
  if i < 0 then none else xs.get? i.toNat

/-- An entry of `DEMO_FOODS` (nutrition per 100 g). -/
structure DemoFood where
  id : String
  name : String
  category : String
  calories : ℚ
  protein : ℚ
  carbs : ℚ
  fats : ℚ
  serving : String
  deriving DecidableEq

/-- The sample food database `DEMO_FOODS`. -/
def DEMO_FOODS : List DemoFood :=
  [⟨"food_001", "Chicken Breast", "protein", 165, 31, 0, 3.6, "100g"⟩,
   ⟨"food_002", "Brown Rice", "grains", 123, 2.6, 23, 0.9, "100g cooked"⟩,
   ⟨"food_003", "Broccoli", "vegetables", 34, 2.8, 7, 0.4, "100g"⟩,
   ⟨"food_004", "Salmon", "protein", 208, 22.1, 0, 12.4, "100g"⟩,
   ⟨"food_005", "Sweet Potato", "vegetables", 86, 1.6, 20.1, 0.1, "100g"⟩,
   ⟨"food_006", "Greek Yogurt", "dairy", 59, 10, 3.6, 0.4, "100g"⟩]

/-- A food line of a meal template. -/
structure TemplateFood where
  foodId : String
  quantity : ℚ
  name : String
  deriving DecidableEq

/-- A meal template of `DEMO_MEALS`. -/
structure MealTemplate where
  name : String
  foods : List TemplateFood
  deriving DecidableEq

/-- The meal templates `DEMO_MEALS`, by meal type. -/
def DEMO_MEALS : List (String × List MealTemplate) :=
  [("breakfast",
     [⟨"Protein Breakfast Bowl", [⟨"food_006", 200, "Greek Yogurt"⟩, ⟨"food_003", 50, "Broccoli"⟩]⟩,
      ⟨"Power Breakfast", [⟨"food_002", 100, "Brown Rice"⟩, ⟨"food_001", 80, "Chicken Breast"⟩]⟩]),
   ("lunch",
     [⟨"Balanced Lunch", [⟨"food_001", 120, "Chicken Breast"⟩, ⟨"food_002", 150, "Brown Rice"⟩,
        ⟨"food_003", 100, "Broccoli"⟩]⟩,
      ⟨"Fish & Sweet Potato", [⟨"food_004", 100, "Salmon"⟩, ⟨"food_005", 200, "Sweet Potato"⟩]⟩]),
   ("dinner",
     [⟨"Light Dinner", [⟨"food_004", 150, "Salmon"⟩, ⟨"food_003", 150, "Broccoli"⟩]⟩,
      ⟨"Hearty Dinner", [⟨"food_001", 150, "Chicken Breast"⟩, ⟨"food_005", 200, "Sweet Potato"⟩,
        ⟨"food_003", 100, "Broccoli"⟩]⟩]),
   ("snack",
     [⟨"Protein Snack", [⟨"food_006", 150, "Greek Yogurt"⟩]⟩])]

/-- The nutrition record of the demo backend. -/
structure DemoNutrition where
  calories : ℚ
  protein : ℚ
  carbs : ℚ
  fats : ℚ
  deriving DecidableEq

/-- A food of a meal the demo backend returns. -/
structure DemoMealFood where
  name : String
  quantity : ℚ
  unit : String
  nutrition : DemoNutrition
  deriving DecidableEq

/-- A meal the demo backend returns; the placeholder meal has no `instructions`, `prepTime`
or `cookTime`. -/
structure DemoMeal where
  name : String
  foods : List DemoMealFood
  nutrition : DemoNutrition
  instructions : List String
  prepTime : Option ℤ
  cookTime : Option ℤ
  deriving DecidableEq

/-- One turn of the `selectedMeal.foods.map(...)` callback of `selectMeal`, with the running
`totalNutrition` it updates and the foods kept by `.filter(Boolean)`. -/
def DemoBackend.selectMeal.visit (acc : DemoNutrition × List DemoMealFood) (food : TemplateFood) :
    DemoNutrition × List DemoMealFood :=
  match DEMO_FOODS.find? (fun f => f.id == food.foodId) with
  | some foodData =>
    let multiplier := food.quantity / 100
    let nutrition : DemoNutrition :=
      { calories := (Math.round (foodData.calories * multiplier) : ℚ)
        protein := (Math.round (foodData.protein * multiplier * 10) : ℚ) / 10
        carbs := (Math.round (foodData.carbs * multiplier * 10) : ℚ) / 10
        fats := (Math.round (foodData.fats * multiplier * 10) : ℚ) / 10 }
    ({ calories := acc.1.calories + nutrition.calories
       protein := acc.1.protein + nutrition.protein
       carbs := acc.1.carbs + nutrition.carbs
       fats := acc.1.fats + nutrition.fats },
     acc.2 ++ [{ name := food.name, quantity := food.quantity, unit := "g", nutrition := nutrition }])
  | none => acc

/-- `DemoBackend.selectMeal`, reading `Math.random()` from call number `pos` on; returns the meal
and the next call number. -/
def DemoBackend.selectMeal (mealType : String) (_targetCalories : ℚ) (draws : Draws) (pos : ℕ) :
    DemoMeal × ℕ :=
  let availableMeals := (DEMO_MEALS.lookup mealType).getD []
  match jsIndex availableMeals ⌊(draws pos).val * availableMeals.length⌋ with
  | none =>
    ({ name := "Sample " ++ mealType, foods := [],
       nutrition := { calories := 0, protein := 0, carbs := 0, fats := 0 },
       instructions := [], prepTime := none, cookTime := none }, pos + 1)
  | some selectedMeal =>
    let r := selectedMeal.foods.foldl DemoBackend.selectMeal.visit
      ({ calories := 0, protein := 0, carbs := 0, fats := 0 }, [])
    let totalNutrition := r.1
    let mealFoods := r.2
    ({ name := selectedMeal.name
       foods := mealFoods
       nutrition :=
         { calories := (Math.round totalNutrition.calories : ℚ)
           protein := (Math.round (totalNutrition.protein * 10) : ℚ) / 10
           carbs := (Math.round (totalNutrition.carbs * 10) : ℚ) / 10
           fats := (Math.round (totalNutrition.fats * 10) : ℚ) / 10 }
       instructions := ["Prepare " ++ ", ".intercalate (mealFoods.map (fun f => f.name))]
       prepTime := some (⌊(draws (pos + 1)).val * 20⌋ + 10)
       cookTime := some (⌊(draws (pos + 2)).val * 30⌋ + 10) }, pos + 3)

/-- The `meals` object of a day of the demo plan, in key order. -/
structure DemoDayMeals where
  breakfast : DemoMeal
  lunch : DemoMeal
  dinner : DemoMeal
  snack : DemoMeal
  deriving DecidableEq

/-- A day of the demo plan. -/
structure DemoDayPlan where
  day : String
  meals : DemoDayMeals
  deriving DecidableEq

/-- `Object.values(day.meals)` of a demo day. -/
def DemoDayMeals.values (m : DemoDayMeals) : List DemoMeal :=
  [m.breakfast, m.lunch, m.dinner, m.snack]

/-- One turn of the `days.forEach` callback of `DemoBackend.generateWeeklyMealPlan`. -/
def DemoBackend.generateWeeklyMealPlan.visit (dailyCalories : ℚ) (draws : Draws)
    (acc : List DemoDayPlan × ℕ) (day : String) : List DemoDayPlan × ℕ :=
  let b := DemoBackend.selectMeal "breakfast" (dailyCalories * 0.25) draws acc.2
  let l := DemoBackend.selectMeal "lunch" (dailyCalories * 0.35) draws b.2
  let d := DemoBackend.selectMeal "dinner" (dailyCalories * 0.3) draws l.2
  let s := DemoBackend.selectMeal "snack" (dailyCalories * 0.1) draws d.2
  (acc.1 ++ [{ day := day, meals := { breakfast := b.1, lunch := l.1, dinner := d.1, snack := s.1 } }],
   s.2)

/-- `DemoBackend.generateWeeklyMealPlan`; `macroTargets` and `user` are not read. -/
def DemoBackend.generateWeeklyMealPlan (dailyCalories : ℚ) (draws : Draws) (pos : ℕ) :
    List DemoDayPlan × ℕ :=
  ["monday", "tuesday", "wednesday", "thursday", "friday", "saturday", "sunday"].foldl
    (DemoBackend.generateWeeklyMealPlan.visit dailyCalories draws) ([], pos)

/-- An entry of the shopping list. -/
structure ShoppingItem where
  name : String
  quantity : ℚ
  unit : String
  category : String
  deriving DecidableEq

/-- One turn of the `meal.foods.forEach` callback of `DemoBackend.generateShoppingList` on the
insertion-ordered `shoppingItems` map. -/
def DemoBackend.generateShoppingList.visit (shoppingItems : List (String × ShoppingItem))
    (food : DemoMealFood) : List (String × ShoppingItem) :=
  match shoppingItems.lookup food.name with
  | some item => mapSet shoppingItems food.name { item with quantity := item.quantity + food.quantity }
  | none => mapSet shoppingItems food.name
      { name := food.name, quantity := food.quantity, unit := food.unit, category := "General" }

/-- `DemoBackend.generateShoppingList`. -/
def DemoBackend.generateShoppingList (weeklyPlan : List DemoDayPlan) : List ShoppingItem :=
  ((weeklyPlan.foldl (fun items day =>
      day.meals.values.foldl (fun items meal =>
        meal.foods.foldl DemoBackend.generateShoppingList.visit items) items) []).map
    (fun kv => kv.2))

/-- The `goals` object of a generated plan. -/
structure PlanGoals where
  primaryGoal : String
  dailyCalories : ℚ
  macroTargets : MacroTargets
  deriving DecidableEq

/-- A plan as `DemoBackend.generateDietPlan` stores it (without its display name, description,
pass-through goal fields and timestamp). -/
structure DemoDietPlan where
  id : String
  userId : String
  goals : PlanGoals
  weeklyPlan : List DemoDayPlan
  shoppingList : List ShoppingItem
  deriving DecidableEq

/-- The state of a `DemoBackend` instance. -/
structure DemoBackend where
  users : List (String × StoredUser)
  dietPlans : List (String × DemoDietPlan)
  currentUserId : Option String
  currentPlanId : Option String
  deriving DecidableEq

/-- The state `new DemoBackend()` starts in. -/
def DemoBackend.new : DemoBackend :=
  { users := [], dietPlans := [], currentUserId := none, currentPlanId := none }

/-- The `data` of the response of `DemoBackend.createUser`. -/
structure CreateUserData where
  userId : String
  bmr : ℚ
  tdee : ℚ
  macroRatios : MacroRatios
  deriving DecidableEq

/-- `DemoBackend.createUser`; `userId` is the identifier `generateId('user')` produced. The body
raises nothing, so the response is the success one. -/
def DemoBackend.createUser (self : DemoBackend) (userId : String) (userData : UserData) :
    CreateUserData × DemoBackend :=
  let bmr : ℚ := (DemoBackend.calculateBMR userData : ℚ)
  let tdee : ℚ := (DemoBackend.calculateTDEE bmr userData.activityLevel : ℚ)
  let macroRatios := DemoBackend.calculateMacroRatios userData.primaryGoal
  let user : StoredUser :=
    { id := userId, userData := userData, bmr := bmr, tdee := tdee, macroRatios := macroRatios }
  ({ userId := userId, bmr := bmr, tdee := tdee, macroRatios := macroRatios },
   { self with users := mapSet self.users userId user, currentUserId := some userId })

/-- `DemoBackend.generateDietPlan`; `planId` is the identifier `generateId('plan')` produced and
`draws` feeds the meal selection. The error is the `error` of the failure response. -/
def DemoBackend.generateDietPlan (self : DemoBackend) (userId : String) (planId : String)
    (draws : Draws) : Except String DemoDietPlan × DemoBackend :=
  match self.users.lookup userId with
  | none => (.error "User not found", self)
  | some user =>
    let dailyCalories := dailyCaloriesFor user.tdee user.userData.primaryGoal
    let macroTargets := macroTargetsFor dailyCalories user.macroRatios
    let weeklyPlan := (DemoBackend.generateWeeklyMealPlan dailyCalories draws 0).1
    let dietPlan : DemoDietPlan :=
      { id := planId
        userId := userId
        goals := { primaryGoal := user.userData.primaryGoal, dailyCalories := dailyCalories,
                   macroTargets := macroTargets }
        weeklyPlan := weeklyPlan
        shoppingList := DemoBackend.generateShoppingList weeklyPlan }
    (.ok dietPlan,
     { self with dietPlans := mapSet self.dietPlans planId dietPlan, currentPlanId := some planId })

/-! ## Food model (`src/database/Food.js`) and plan generation (`src/routes/api.js`) -/

/-- An exception raised by the JavaScript code. -/
inductive JSError where
  | typeError (message : String)
  | error (message : String)
  deriving DecidableEq

/-- The `nutrition.macronutrients` fields that are read (per 100 g). -/
structure Macronutrients where
  protein : ℚ
  carbohydrates : ℚ
  fats : ℚ
  fiber : ℚ
  deriving DecidableEq

/-- The `nutrition.minerals` field that is read. -/
structure Minerals where
  sodium : ℚ
  deriving DecidableEq

/-- The `nutrition` sub-document of a food (per 100 g). -/
structure FoodNutrition where
  calories : ℚ
  macronutrients : Macronutrients
  minerals : Minerals
  deriving DecidableEq

/-- The `dietaryInfo` flags a query can test. -/
structure DietaryInfo where
  isVegetarian : Bool
  isVegan : Bool
  isKeto : Bool
  isPaleo : Bool
  deriving DecidableEq

/-- The `cuisineInfo` field that is read; `commonUses` may be missing. -/
structure CuisineInfo where
  commonUses : Option (List String)
  deriving DecidableEq

/-- A Food document. -/
structure Food where
  _id : String
  name : String
  nutrition : FoodNutrition
  dietaryInfo : DietaryInfo
  allergens : List String
  cuisineInfo : CuisineInfo
  isActive : Bool
  deriving DecidableEq

/-- The nutrition record of a quantity of food. -/
structure Nutrition where
  calories : ℚ
  protein : ℚ
  carbs : ℚ
  fats : ℚ
  fiber : ℚ
  sodium : ℚ
  deriving DecidableEq

/-- `foodSchema.methods.calculateNutritionForQuantity(quantity)` with the default unit `'g'`,
the only way `generateMeal` calls it. -/
def Food.calculateNutritionForQuantity (self : Food) (quantity : ℚ) : Nutrition :=
  let multiplier := quantity / 100
  { calories := (Math.round (self.nutrition.calories * multiplier) : ℚ)
    protein := (Math.round (self.nutrition.macronutrients.protein * multiplier * 10) : ℚ) / 10
    carbs := (Math.round (self.nutrition.macronutrients.carbohydrates * multiplier * 10) : ℚ) / 10
    fats := (Math.round (self.nutrition.macronutrients.fats * multiplier * 10) : ℚ) / 10
    fiber := (Math.round (self.nutrition.macronutrients.fiber * multiplier * 10) : ℚ) / 10
    sodium := (Math.round (self.nutrition.minerals.sodium * multiplier) : ℚ) }

/-- The query object `generateMeal` builds: `'metadata.isActive': true`, the dietary flags it
requires to be `true`, and the `$nin` list on `allergens` when it sets one. -/
structure FoodQuery where
  isActive : Bool
  isVegetarian : Bool
  isVegan : Bool
  isKeto : Bool
  isPaleo : Bool
  allergensNin : Option (List String)
  deriving DecidableEq

/-- What `generateMeal` reads of its `user` argument: `user.dietaryPreferences.dietType` and
`user.dietaryPreferences.allergies`, the latter `undefined` when the object has no such
property. -/
structure MealUser where
  dietType : String
  allergies : Option (List String)
  deriving DecidableEq

/-- A User document as `generateMeal` sees it: the schema has `foodAllergies` and no
`allergies` path, so that property reads `undefined`. -/
def User.asMealUser (u : User) : MealUser :=
  { dietType := u.dietaryPreferences.dietType, allergies := none }

/-- The query `generateMeal` builds; reading `.length` of an `undefined` `allergies` raises. -/
def generateMeal.query (user : MealUser) : Except JSError FoodQuery :=
  let base : FoodQuery :=
    { isActive := true, isVegetarian := false, isVegan := false, isKeto := false,
      isPaleo := false, allergensNin := none }
  let q : FoodQuery :=
    if user.dietType ≠ "none" then
      if user.dietType = "vegetarian" then { base with isVegetarian := true }
      else if user.dietType = "vegan" then { base with isVegan := true }
      else if user.dietType = "keto" then { base with isKeto := true }
      else if user.dietType = "paleo" then { base with isPaleo := true }
      else base
    else base
  match user.allergies with
  | none => .error (.typeError "Cannot read properties of undefined (reading 'length')")
  | some allergies =>
    if allergies.length > 0 then .ok { q with allergensNin := some allergies } else .ok q

/-- A food of a meal `generateMeal` returns. -/
structure MealFood where
  foodId : String
  name : String
  quantity : ℚ
  unit : String
  nutrition : Nutrition
  deriving DecidableEq

/-- A meal `generateMeal` returns. -/
structure Meal where
  name : String
  foods : List MealFood
  totalNutrition : Nutrition
  instructions : List String
  prepTime : ℤ
  cookTime : ℤ
  deriving DecidableEq

/-- `Math.floor((remainingCalories / calories) * 100)`. Division by `0` gives `Infinity`,
`-Infinity` or `NaN` by the sign of the dividend, which `* 100` and `Math.floor` keep. -/
inductive MaxQuantity where
  | finite (n : ℤ)
  | posInf
  | negInf
  | nan
  deriving DecidableEq

/-- The `maxQuantity` of `generateMeal`. -/
def generateMeal.maxQuantity (remainingCalories calories : ℚ) : MaxQuantity :=
  if calories = 0 then
    if 0 < remainingCalories then .posInf
    else if remainingCalories < 0 then .negInf
    else .nan
  else .finite ⌊(remainingCalories / calories) * 100⌋

/-- The `quantity` of `generateMeal`, `Math.min(maxQuantity, r)` for the drawn integer `r`:
`none` when it is `-Infinity` or `NaN`, neither of which passes `quantity > 0`. -/
def generateMeal.quantity (maxQuantity : MaxQuantity) (r : ℤ) : Option ℤ :=
  match maxQuantity with
  | .finite n => some (min n r)
  | .posInf => some r
  | .negInf => none
  | .nan => none

/-- The variables the selection loop of `generateMeal` updates, with the call number of the
next `Math.random()`. -/
structure MealLoop where
  availableFoods : List Food
  currentCalories : ℚ
  selectedFoods : List MealFood
  pos : ℕ
  deriving DecidableEq

/-- The selection loop of `generateMeal`, `fuel` being the turns left (`numFoods - i`). An
exception carries the call number reached. -/
def generateMeal.loop (targetCalories : ℚ) (draws : Draws) :
    (fuel : ℕ) → MealLoop → Except (JSError × ℕ) MealLoop
  | 0, st => .ok st
  | fuel + 1, st =>
    if st.availableFoods.length > 0 ∧ st.currentCalories < targetCalories then
      let randomIndex : ℤ := ⌊(draws st.pos).val * st.availableFoods.length⌋
      match jsIndex st.availableFoods randomIndex with
      | none =>
        .error (.typeError "Cannot read properties of undefined (reading 'nutrition')", st.pos + 1)
      | some selectedFood =>
        let availableFoods := st.availableFoods.eraseIdx randomIndex.toNat
        let remainingCalories := targetCalories - st.currentCalories
        let maxQuantity := generateMeal.maxQuantity remainingCalories selectedFood.nutrition.calories
        let drawn : ℤ := ⌊(draws (st.pos + 1)).val * 150⌋ + 50
        match generateMeal.quantity maxQuantity drawn with
        | some quantity =>
          if quantity > 0 then
            let nutrition := selectedFood.calculateNutritionForQuantity quantity
            generateMeal.loop targetCalories draws fuel
              { availableFoods := availableFoods
                currentCalories := st.currentCalories + nutrition.calories
                selectedFoods := st.selectedFoods ++
                  [{ foodId := selectedFood._id, name := selectedFood.name, quantity := quantity,
                     unit := "g", nutrition := nutrition }]
                pos := st.pos + 2 }
          else
            generateMeal.loop targetCalories draws fuel
              { st with availableFoods := availableFoods, pos := st.pos + 2 }
        | none =>
          generateMeal.loop targetCalories draws fuel
            { st with availableFoods := availableFoods, pos := st.pos + 2 }
    else .ok st

/-- The `totalNutrition` of `generateMeal`: the `reduce` over `selectedFoods`. -/
def generateMeal.totalNutrition (selectedFoods : List MealFood) : Nutrition :=
  selectedFoods.foldl (fun total food =>
    { calories := total.calories + food.nutrition.calories
      protein := total.protein + food.nutrition.protein
      carbs := total.carbs + food.nutrition.carbs
      fats := total.fats + food.nutrition.fats
      fiber := total.fiber + food.nutrition.fiber
      sodium := total.sodium + food.nutrition.sodium })
    { calories := 0, protein := 0, carbs := 0, fats := 0, fiber := 0, sodium := 0 }

/-- The callback of the `foods.filter(...)` that yields `mealAppropriatefoods`: a missing
`commonUses` reads as `[]`. -/
def generateMeal.mealAppropriate (mealType : String) (food : Food) : Bool :=
  let commonUses := food.cuisineInfo.commonUses.getD []
  commonUses.contains mealType || commonUses.length == 0

/-- The body of the `try` block of `generateMeal`; `find` stands for
`Food.find(query).sort(...).limit(100)`. -/
def generateMeal.attempt (mealType : String) (targetCalories : ℚ) (user : MealUser)
    (find : FoodQuery → Except JSError (List Food)) (draws : Draws) (pos : ℕ) :
    Except (JSError × ℕ) (Meal × ℕ) := do
  let query ← (generateMeal.query user).mapError (fun e => (e, pos))
  let foods ← (find query).mapError (fun e => (e, pos))
  let mealAppropriatefoods := foods.filter (generateMeal.mealAppropriate mealType)
  let numFoods : ℤ := ⌊(draws pos).val * 3⌋ + 2
  let st ← generateMeal.loop targetCalories draws numFoods.toNat
    { availableFoods := mealAppropriatefoods, currentCalories := 0, selectedFoods := [],
      pos := pos + 1 }
  let selectedFoods := st.selectedFoods
  pure
    ({ name := mealType.capitalize ++ " " ++ toString ⌊(draws st.pos).val * 1000⌋
       foods := selectedFoods
       totalNutrition := generateMeal.totalNutrition selectedFoods
       instructions := ["Prepare " ++ ", ".intercalate (selectedFoods.map (fun f => f.name))]
       prepTime := ⌊(draws (st.pos + 1)).val * 30⌋ + 10
       cookTime := ⌊(draws (st.pos + 2)).val * 30⌋ + 5 }, st.pos + 3)

/-- `generateMeal` (`routes/api.js`): the `try` block, and the fallback meal of its `catch`.
`macroTargets` is not read. Returns the meal and the call number of the next `Math.random()`. -/
def generateMeal (mealType : String) (targetCalories : ℚ) (user : MealUser)
    (find : FoodQuery → Except JSError (List Food)) (draws : Draws) (pos : ℕ) : Meal × ℕ :=
  match generateMeal.attempt mealType targetCalories user find draws pos with
  | .ok r => r
  | .error (_, pos1) =>
    ({ name := "Simple " ++ mealType
       foods := []
       totalNutrition := { calories := 0, protein := 0, carbs := 0, fats := 0, fiber := 0, sodium := 0 }
       instructions := ["Meal generation failed - please customize"]
       prepTime := 15
       cookTime := 15 }, pos1)

/-- The `meals` object of a day of the plan, in key order. -/
structure DayMeals where
  breakfast : Meal
  lunch : Meal
  dinner : Meal
  snacks : Meal
  deriving DecidableEq

/-- A day of the plan. -/
structure DayPlan where
  day : String
  meals : DayMeals
  deriving DecidableEq

/-- `Object.values(day.meals)`. -/
def DayMeals.values (m : DayMeals) : List Meal :=
  [m.breakfast, m.lunch, m.dinner, m.snacks]

/-- One turn of the `for (const day of daysOfWeek)` loop of `generateWeeklyMealPlan`. -/
def generateWeeklyMealPlan.visit (user : MealUser) (dailyCalories : ℚ)
    (find : FoodQuery → Except JSError (List Food)) (draws : Draws)
    (acc : List DayPlan × ℕ) (day : String) : List DayPlan × ℕ :=
  let b := generateMeal "breakfast" (dailyCalories * 0.25) user find draws acc.2
  let l := generateMeal "lunch" (dailyCalories * 0.35) user find draws b.2
  let d := generateMeal "dinner" (dailyCalories * 0.3) user find draws l.2
  let s := generateMeal "snack" (dailyCalories * 0.1) user find draws d.2
  (acc.1 ++ [{ day := day, meals := { breakfast := b.1, lunch := l.1, dinner := d.1, snacks := s.1 } }],
   s.2)

/-- `generateWeeklyMealPlan` (`routes/api.js`); `macroTargets` is only passed on to
`generateMeal`, which does not read it. -/
def generateWeeklyMealPlan (user : MealUser) (dailyCalories : ℚ)
    (find : FoodQuery → Except JSError (List Food)) (draws : Draws) (pos : ℕ) :
    List DayPlan × ℕ :=
  ["monday", "tuesday", "wednesday", "thursday", "friday", "saturday", "sunday"].foldl
    (generateWeeklyMealPlan.visit user dailyCalories find draws) ([], pos)

/-- An entry of the shopping list of `routes/api.js`. -/
structure ShoppingEntry where
  name : String
  foodId : String
  quantity : ℚ
  unit : String
  category : String
  deriving DecidableEq

/-- One turn of the `meal.foods.forEach` callback of `generateShoppingList` on the
`shoppingList` object, kept in insertion order of its keys. -/
def generateShoppingList.visit (shoppingList : List (String × ShoppingEntry)) (food : MealFood) :
    List (String × ShoppingEntry) :=
  match shoppingList.lookup food.name with
  | some entry => mapSet shoppingList food.name { entry with quantity := entry.quantity + food.quantity }
  | none => mapSet shoppingList food.name
      { name := food.name, foodId := food.foodId, quantity := food.quantity, unit := food.unit,
        category := "general" }

/-- `generateShoppingList` (`routes/api.js`). -/
def generateShoppingList (weeklyPlan : List DayPlan) : List ShoppingEntry :=
  ((weeklyPlan.foldl (fun shoppingList day =>
      day.meals.values.foldl (fun shoppingList meal =>
        meal.foods.foldl generateShoppingList.visit shoppingList) shoppingList) []).map
    (fun kv => kv.2))

/-- The result of `calculateWeeklyNutrition`. -/
structure WeeklyNutrition where
  weekly : Nutrition
  daily : Nutrition
  deriving DecidableEq

/-- The `totalNutrition` that `calculateWeeklyNutrition` accumulates over the meals of the week. -/
def calculateWeeklyNutrition.total (weeklyPlan : List DayPlan) : Nutrition :=
  weeklyPlan.foldl (fun total day =>
    day.meals.values.foldl (fun (total : Nutrition) meal =>
      { calories := total.calories + meal.totalNutrition.calories
        protein := total.protein + meal.totalNutrition.protein
        carbs := total.carbs + meal.totalNutrition.carbs
        fats := total.fats + meal.totalNutrition.fats
        fiber := total.fiber + meal.totalNutrition.fiber
        sodium := total.sodium + meal.totalNutrition.sodium }) total)
    { calories := 0, protein := 0, carbs := 0, fats := 0, fiber := 0, sodium := 0 }

/-- `calculateWeeklyNutrition` (`routes/api.js`). -/
def calculateWeeklyNutrition (weeklyPlan : List DayPlan) : WeeklyNutrition :=
  let totalNutrition := calculateWeeklyNutrition.total weeklyPlan
  { weekly := totalNutrition
    daily :=
      { calories := (Math.round (totalNutrition.calories / 7) : ℚ)
        protein := (Math.round (totalNutrition.protein / 7) : ℚ)
        carbs := (Math.round (totalNutrition.carbs / 7) : ℚ)
        fats := (Math.round (totalNutrition.fats / 7) : ℚ)
        fiber := (Math.round (totalNutrition.fiber / 7) : ℚ)
        sodium := (Math.round (totalNutrition.sodium / 7) : ℚ) } }

/-- The fields of the object `generatePersonalizedDietPlan` builds and saves that the
calculator, the assembler and the aggregators fill. -/
structure PlanDocument where
  goals : PlanGoals
  weeklyPlan : List DayPlan
  shoppingList : List ShoppingEntry
  nutritionSummary : WeeklyNutrition
  deriving DecidableEq

/-- The `user` argument of `generatePersonalizedDietPlan`: the document, and two properties the
User schema does not define, as found on the object: `calculateMacroRatios` when it is a
function, and `dietaryPreferences.allergies`. -/
structure PlanUser where
  doc : User
  calculateMacroRatios : Option (User → MacroRatios)
  allergies : Option (List String)

/-- A document of the User model as `generatePersonalizedDietPlan` receives it from
`User.findById`. `userSchema.methods` defines `toSafeObject`, `calculateBMR`, `calculateTDEE`,
`calculateTargetCalories` and `calculateMacros` only, and the schema has no
`dietaryPreferences.allergies` path. -/
def User.asPlanUser (u : User) : PlanUser :=
  { doc := u, calculateMacroRatios := none, allergies := none }

/-- The body of the `try` block of `generatePersonalizedDietPlan`; `save` stands for
`new DietPlan(...)` followed by `dietPlan.save()`. -/
def generatePersonalizedDietPlan.attempt (user : PlanUser)
    (find : FoodQuery → Except JSError (List Food)) (draws : Draws)
    (save : PlanDocument → Except JSError PlanDocument) : Except JSError PlanDocument := do
  let u1 := (User.calculateBMR user.doc).2
  let r := User.calculateTDEE u1
  let tdee : ℚ := (r.1 : ℚ)
  let u2 := r.2
  let macroRatios ←
    match user.calculateMacroRatios with
    | some f => pure (f u2)
    | none => throw (.typeError "user.calculateMacroRatios is not a function")
  let dailyCalories := dailyCaloriesFor tdee u2.goals.primaryGoal
  let macroTargets := macroTargetsFor dailyCalories macroRatios
  let mealUser : MealUser :=
    { dietType := u2.dietaryPreferences.dietType, allergies := user.allergies }
  let weeklyPlan := (generateWeeklyMealPlan mealUser dailyCalories find draws 0).1
  let shoppingList := generateShoppingList weeklyPlan
  save
    { goals := { primaryGoal := u2.goals.primaryGoal, dailyCalories := dailyCalories,
                 macroTargets := macroTargets }
      weeklyPlan := weeklyPlan
      shoppingList := shoppingList
      nutritionSummary := calculateWeeklyNutrition weeklyPlan }

/-- `generatePersonalizedDietPlan` (`routes/api.js`): whatever the `try` block raises is
replaced by `Error('Failed to generate diet plan')`. -/
def generatePersonalizedDietPlan (user : PlanUser)
    (find : FoodQuery → Except JSError (List Food)) (draws : Draws)
    (save : PlanDocument → Except JSError PlanDocument) : Except JSError PlanDocument :=
  match generatePersonalizedDietPlan.attempt user find draws save with
  | .ok dietPlan => .ok dietPlan
  | .error _ => .error (.error "Failed to generate diet plan")

/-! ## Stored diet plans (`src/database/DietPlan.js`) -/

/-- The `dailyTotals` of a day of a stored plan; `fiber` and `sodium` are optional. -/
structure DailyTotals where
  calories : ℚ
  protein : ℚ
  carbs : ℚ
  fats : ℚ
  fiber : Option ℚ
  sodium : Option ℚ
  deriving DecidableEq

/-- What `getWeeklyNutritionSummary` reads of a day of `weeklyMealPlan`. -/
structure StoredDay where
  dailyTotals : DailyTotals
  deriving DecidableEq

/-- The `totals` that the `reduce` of `getWeeklyNutritionSummary` accumulates. -/
def getWeeklyNutritionSummary.totals (weeklyMealPlan : List StoredDay) : Nutrition :=
  weeklyMealPlan.foldl (fun acc day =>
    { calories := acc.calories + day.dailyTotals.calories
      protein := acc.protein + day.dailyTotals.protein
      carbs := acc.carbs + day.dailyTotals.carbs
      fats := acc.fats + day.dailyTotals.fats
      fiber := acc.fiber + orElse day.dailyTotals.fiber 0
      sodium := acc.sodium + orElse day.dailyTotals.sodium 0 })
    { calories := 0, protein := 0, carbs := 0, fats := 0, fiber := 0, sodium := 0 }

/-- `dietPlanSchema.methods.getWeeklyNutritionSummary`, on the `weeklyMealPlan` of the document
(`none` when the field is missing); the result is `null` without days. -/
def getWeeklyNutritionSummary (weeklyMealPlan : Option (List StoredDay)) :
    Option WeeklyNutrition :=
  match weeklyMealPlan with
  | none => none
  | some plan =>
    if plan.length = 0 then none
    else
      let totals := getWeeklyNutritionSummary.totals plan
      let days : ℚ := plan.length
      some
        { weekly := totals
          daily :=
            { calories := (Math.round (totals.calories / days) : ℚ)
              protein := (Math.round ((totals.protein / days) * 10) : ℚ) / 10
              carbs := (Math.round ((totals.carbs / days) * 10) : ℚ) / 10
              fats := (Math.round ((totals.fats / days) * 10) : ℚ) / 10
              fiber := (Math.round ((totals.fiber / days) * 10) : ℚ) / 10
              sodium := (Math.round (totals.sodium / days) : ℚ) } }

/-! ## The catalog query as MongoDB reads it -/

/-- Whether a food matches the query object: every key of the query must hold of the document,
a flag key requiring the flag to be `true`, and `allergens: { $nin: list }` requiring that no
element of the document's `allergens` array is in `list`. -/
def FoodQuery.matches (q : FoodQuery) (food : Food) : Bool :=
  (!q.isActive || food.isActive)
    && (!q.isVegetarian || food.dietaryInfo.isVegetarian)
    && (!q.isVegan || food.dietaryInfo.isVegan)
    && (!q.isKeto || food.dietaryInfo.isKeto)
    && (!q.isPaleo || food.dietaryInfo.isPaleo)
    && (match q.allergensNin with
        | none => true
        | some list => food.allergens.all (fun a => !list.contains a))

/-! ## Strings, `parseInt`, `parseFloat` and regular expressions -/

/-- White space and line terminators: the characters `String.prototype.trim` strips, `parseInt`
and `parseFloat` skip at the start, and `\s` matches. -/
def isWhiteSpace (c : Char) : Bool :=
  [9, 10, 11, 12, 13, 32, 160, 5760, 8232, 8233, 8239, 8287, 12288, 65279].contains c.toNat
    || (decide (8192 ≤ c.toNat) && decide (c.toNat ≤ 8202))

/-- `String.prototype.trim`. -/
def trim (s : String) : String :=
  ⟨((s.toList.dropWhile isWhiteSpace).reverse.dropWhile isWhiteSpace).reverse⟩

/-- `!value || value.toString().trim() === ''` for a string `value`. -/
def blank (value : String) : Bool :=
  decide (value = "") || decide (trim value = "")

/-- `String.prototype.length`: the number of UTF-16 code units. -/
def jsLength (s : String) : ℕ :=
  (s.toList.map (fun c => if 65536 ≤ c.toNat then 2 else 1)).sum

/-- The number `parseInt` or `parseFloat` returns. -/
inductive JSNumber where
  | nan
  | posInf
  | negInf
  | finite (q : ℚ)
  deriving DecidableEq

/-- `isNaN(x)`. -/
def JSNumber.isNaN : JSNumber → Bool
  | .nan => true
  | _ => false

/-- `x < b` for a finite `b`; every comparison with `NaN` is false. -/
def JSNumber.lt : JSNumber → ℚ → Bool
  | .nan, _ => false
  | .posInf, _ => false
  | .negInf, _ => true
  | .finite q, b => decide (q < b)

/-- `x > b` for a finite `b`; every comparison with `NaN` is false. -/
def JSNumber.gt : JSNumber → ℚ → Bool
  | .nan, _ => false
  | .posInf, _ => true
  | .negInf, _ => false
  | .finite q, b => decide (q > b)

/-! ### Double-precision arithmetic

The operations below are those of IEEE 754 binary64 numbers, which is what a JavaScript number
is: the exact result of an operation is rounded to the nearest double, a tie going to the one
with an even significand, and a result of magnitude `2 ^ 1024` or more is infinite. The two
zeros are not distinguished. -/

/-- The integer nearest to `x`, a tie going to the even one. -/
def roundHalfEven (x : ℚ) : ℤ :=
  if x - ⌊x⌋ < 1 / 2 then ⌊x⌋
  else if 1 / 2 < x - ⌊x⌋ then ⌊x⌋ + 1
  else if ⌊x⌋ % 2 = 0 then ⌊x⌋ else ⌊x⌋ + 1

/-- The exponent `e` of the spacing `2 ^ e` of the doubles around `x`: 52 below the binary
exponent of `x`, and `-1074` in the subnormal range. -/
def Float64.exponent (x : ℚ) : ℤ := max (Int.log 2 |x| - 52) (-1074)

/-- The double nearest to the rational `x`. -/
def Float64.ofRat (x : ℚ) : JSNumber :=
  let y : ℚ := (roundHalfEven (x / 2 ^ Float64.exponent x) : ℚ) * 2 ^ Float64.exponent x
  if (2 : ℚ) ^ (1024 : ℤ) ≤ |y| then (if 0 < x then .posInf else .negInf) else .finite y

/-- `-x`. -/
def JSNumber.neg : JSNumber → JSNumber
  | .nan => .nan
  | .posInf => .negInf
  | .negInf => .posInf
  | .finite a => .finite (-a)

/-- `x + y`. -/
def JSNumber.add : JSNumber → JSNumber → JSNumber
  | .finite a, .finite b => Float64.ofRat (a + b)
  | .nan, _ => .nan
  | _, .nan => .nan
  | .posInf, .negInf => .nan
  | .negInf, .posInf => .nan
  | .posInf, _ => .posInf
  | .negInf, _ => .negInf
  | .finite _, .posInf => .posInf
  | .finite _, .negInf => .negInf

/-- `x - y`. -/
def JSNumber.sub (x y : JSNumber) : JSNumber := x.add y.neg

/-- The infinity of the sign of `s * b` for an infinite factor of sign `s` and a finite `b`;
`NaN` when `b` is zero. -/
def JSNumber.infTimes (positive : Bool) (b : ℚ) : JSNumber :=
  if b = 0 then .nan
  else if (0 < b) = positive then .posInf else .negInf

/-- `x * y`. -/
def JSNumber.mul : JSNumber → JSNumber → JSNumber
  | .finite a, .finite b => Float64.ofRat (a * b)
  | .nan, _ => .nan
  | _, .nan => .nan
  | .posInf, .posInf => .posInf
  | .posInf, .negInf => .negInf
  | .negInf, .posInf => .negInf
  | .negInf, .negInf => .posInf
  | .posInf, .finite b => JSNumber.infTimes true b
  | .negInf, .finite b => JSNumber.infTimes false b
  | .finite a, .posInf => JSNumber.infTimes true a
  | .finite a, .negInf => JSNumber.infTimes false a

/-- `x / y`; a zero divisor counts as `+0`. -/
def JSNumber.div : JSNumber → JSNumber → JSNumber
  | .finite a, .finite b =>
    if b = 0 then (if a = 0 then .nan else if 0 < a then .posInf else .negInf)
    else Float64.ofRat (a / b)
  | .nan, _ => .nan
  | _, .nan => .nan
  | .finite _, .posInf => .finite 0
  | .finite _, .negInf => .finite 0
  | .posInf, .finite b => if 0 ≤ b then .posInf else .negInf
  | .negInf, .finite b => if 0 ≤ b then .negInf else .posInf
  | .posInf, .posInf => .nan
  | .posInf, .negInf => .nan
  | .negInf, .posInf => .nan
  | .negInf, .negInf => .nan

/-- `Math.round(x)`: the nearest integer, a half rounded up. -/
def JSNumber.round : JSNumber → JSNumber
  | .finite a => .finite (⌊a + 1 / 2⌋ : ℤ)
  | x => x

/-- `Math.floor(x)`. -/
def JSNumber.floor : JSNumber → JSNumber
  | .finite a => .finite (⌊a⌋ : ℤ)
  | x => x

/-- `Math.min(x, y)`. -/
def JSNumber.min : JSNumber → JSNumber → JSNumber
  | .finite a, .finite b => .finite (Min.min a b)
  | .nan, _ => .nan
  | _, .nan => .nan
  | .negInf, _ => .negInf
  | _, .negInf => .negInf
  | .posInf, y => y
  | .finite a, .posInf => .finite a

/-- `x < y`; every comparison with `NaN` is false. -/
def JSNumber.less : JSNumber → JSNumber → Bool
  | .finite a, .finite b => decide (a < b)
  | .nan, _ => false
  | _, .nan => false
  | .negInf, .negInf => false
  | .negInf, _ => true
  | _, .negInf => false
  | .posInf, _ => false
  | .finite _, .posInf => true

/-- `!x` for a number: `0` and `NaN` are falsy. -/
def JSNumber.falsy : JSNumber → Bool
  | .finite a => decide (a = 0)
  | .nan => true
  | _ => false

/-- The value of a digit character in radix 10 or 16. -/
def digitValue (c : Char) : Option ℕ :=
  if 48 ≤ c.toNat ∧ c.toNat ≤ 57 then some (c.toNat - 48)
  else if 97 ≤ c.toNat ∧ c.toNat ≤ 102 then some (c.toNat - 87)
  else if 65 ≤ c.toNat ∧ c.toNat ≤ 70 then some (c.toNat - 55)
  else none

/-- Whether the character is a digit of the radix. -/
def isDigitIn (radix : ℕ) (c : Char) : Bool :=
  match digitValue c with
  | some v => decide (v < radix)
  | none => false

/-- The number a run of digits writes in the radix. -/
def digitsValue (radix : ℕ) (digits : List Char) : ℕ :=
  digits.foldl (fun acc c => acc * radix + (digitValue c).getD 0) 0

/-- The characters after an optional sign. -/
def afterSign : List Char → List Char
  | '-' :: rest => rest
  | '+' :: rest => rest
  | cs => cs

/-- The sign a leading `-` gives. -/
def signOf : List Char → ℚ
  | '-' :: _ => -1
  | _ => 1

/-- `parseInt(string)` without a radix: leading white space is skipped, a sign and a `0x` or `0X`
mark are read, then the longest run of digits; `NaN` when that run is empty. -/
def parseInt (s : String) : JSNumber :=
  let cs := s.toList.dropWhile isWhiteSpace
  let cs1 := afterSign cs
  let hex : Bool :=
    match cs1 with
    | '0' :: 'x' :: _ => true
    | '0' :: 'X' :: _ => true
    | _ => false
  let radix : ℕ := if hex then 16 else 10
  let digits := (if hex then cs1.drop 2 else cs1).takeWhile (isDigitIn radix)
  if digits.isEmpty then .nan else .finite (signOf cs * (digitsValue radix digits : ℚ))

/-- The exponent part `e`, sign, digits at the start of the characters, `0` when there is
none. -/
def parseFloat.exponent : List Char → ℤ
  | [] => 0
  | c :: rest =>
    if c = 'e' ∨ c = 'E' then
      let digits := (afterSign rest).takeWhile (isDigitIn 10)
      if digits.isEmpty then 0
      else if rest.head? = some '-' then -(digitsValue 10 digits : ℤ)
      else (digitsValue 10 digits : ℤ)
    else 0

/-- `parseFloat(string)`: leading white space is skipped, then the longest prefix that is a
decimal literal (sign, `Infinity` or digits with an optional fraction and exponent) is read
and rounded to the nearest double; `NaN` when there is none. -/
def parseFloat (s : String) : JSNumber :=
  let cs := s.toList.dropWhile isWhiteSpace
  let cs1 := afterSign cs
  if cs1.take 8 = ['I', 'n', 'f', 'i', 'n', 'i', 't', 'y'] then
    (if signOf cs = -1 then .negInf else .posInf)
  else
    let intDigits := cs1.takeWhile (isDigitIn 10)
    let r1 := cs1.drop intDigits.length
    let fracDigits : List Char :=
      match r1 with
      | '.' :: rest => rest.takeWhile (isDigitIn 10)
      | _ => []
    let r2 : List Char :=
      match r1 with
      | '.' :: rest => rest.drop fracDigits.length
      | _ => r1
    if intDigits.isEmpty && fracDigits.isEmpty then .nan
    else
      Float64.ofRat (signOf cs
        * ((digitsValue 10 intDigits : ℚ)
            + (digitsValue 10 fracDigits : ℚ) / (10 : ℚ) ^ fracDigits.length)
        * (10 : ℚ) ^ parseFloat.exponent r2)

/-- One item of an anchored pattern `^...$`: a character class repeated at least `min` and, when
`max` is given, at most `max` times. -/
structure RegExp.Item where
  min : ℕ
  max : Option ℕ
  cls : Char → Bool

/-- Matching one item after `count` repetitions of it, `rest` matching what follows it. -/
def RegExp.run (item : RegExp.Item) (rest : List Char → Bool) : ℕ → List Char → Bool
  | count, [] => decide (item.min ≤ count) && rest []
  | count, c :: cs =>
    (decide (item.min ≤ count) && rest (c :: cs))
      || (item.cls c
          && (match item.max with
              | some m => decide (count < m)
              | none => true)
          && RegExp.run item rest (count + 1) cs)

/-- Matching the items of an anchored pattern against all of the characters. -/
def RegExp.matchItems : List RegExp.Item → List Char → Bool
  | [] => fun cs => cs.isEmpty
  | item :: items => RegExp.run item (RegExp.matchItems items) 0

/-- `pattern.test(string)` for an anchored pattern. -/
def RegExp.test (pattern : List RegExp.Item) (s : String) : Bool :=
  RegExp.matchItems pattern s.toList

/-- The class `[^\s@]`. -/
def notSpaceOrAt (c : Char) : Bool := !(isWhiteSpace c || c == '@')

/-- The pattern `/^[^\s@]+@[^\s@]+\.[^\s@]+$/`. -/
def emailRegex : List RegExp.Item :=
  [⟨1, none, notSpaceOrAt⟩, ⟨1, some 1, fun c => c == '@'⟩, ⟨1, none, notSpaceOrAt⟩,
   ⟨1, some 1, fun c => c == '.'⟩, ⟨1, none, notSpaceOrAt⟩]

/-! ## Submission check (`public/js/api.js`) -/

/-- The object `validateFormDataForSubmission` returns. -/
structure ValidationResult where
  isValid : Bool
  message : Option String
  deriving DecidableEq

/-- The `requiredFields` of `validateFormDataForSubmission`. -/
def requiredFields : List String :=
  ["fullName", "age", "gender", "email", "currentWeight", "height", "primaryGoal",
   "activityLevel", "dietType", "workSchedule"]

/-- `validateFormDataForSubmission` (`public/js/api.js`) on form data whose properties hold the
strings read from the form controls; a property the object lacks is `undefined`. -/
def validateFormDataForSubmission (formData : List (String × String)) : ValidationResult :=
  match requiredFields.find? (fun field =>
      match formData.lookup field with
      | none => true
      | some value => blank value) with
  | some field => { isValid := false, message := some ("Missing required field: " ++ field) }
  | none =>
    if !(RegExp.test emailRegex ((formData.lookup "email").getD "undefined")) then
      { isValid := false, message := some "Invalid email format" }
    else
      let age := parseInt ((formData.lookup "age").getD "undefined")
      if age.lt 18 || age.gt 100 then
        { isValid := false, message := some "Age must be between 18 and 100" }
      else { isValid := true, message := none }

/-! ## Field validation (`public/js/form-validation.js`) -/

/-- An entry of `validationRules`; `isNumber` is `type === 'number'`. The `message` only feeds
the error display. -/
structure Rules where
  required : Bool
  min : Option ℚ
  max : Option ℚ
  isNumber : Bool
  minLength : Option ℕ
  maxLength : Option ℕ
  pattern : Option (List RegExp.Item)

/-- A rule that only sets `required`. -/
def Rules.only (required : Bool) : Rules :=
  { required := required, min := none, max := none, isNumber := false, minLength := none,
    maxLength := none, pattern := none }

/-- A rule of `type: 'number'` with `min` and `max`. -/
def Rules.number (required : Bool) (min max : ℚ) : Rules :=
  { required := required, min := some min, max := some max, isNumber := true, minLength := none,
    maxLength := none, pattern := none }

/-- The class `[a-zA-Z\s]`. -/
def letterOrSpace (c : Char) : Bool :=
  (decide (97 ≤ c.toNat) && decide (c.toNat ≤ 122))
    || (decide (65 ≤ c.toNat) && decide (c.toNat ≤ 90)) || isWhiteSpace c

/-- The class `[\d\s\-\(\)]`. -/
def phoneChar (c : Char) : Bool :=
  isDigitIn 10 c || isWhiteSpace c || c == '-' || c == '(' || c == ')'

/-- The `validationRules` table. -/
def validationRules : List (String × Rules) :=
  [("fullName", { required := true, min := none, max := none, isNumber := false,
                  minLength := some 2, maxLength := some 50,
                  pattern := some [⟨1, none, letterOrSpace⟩] }),
   ("age", Rules.number true 18 100),
   ("gender", Rules.only true),
   ("email", { required := true, min := none, max := none, isNumber := false,
               minLength := none, maxLength := none, pattern := some emailRegex }),
   ("phone", { required := false, min := none, max := none, isNumber := false,
               minLength := none, maxLength := none,
               pattern := some [⟨0, some 1, fun c => c == '+'⟩, ⟨10, none, phoneChar⟩] }),
   ("currentWeight", Rules.number true 30 300),
   ("height", Rules.number true 120 250),
   ("bodyFat", Rules.number false 5 50),
   ("primaryGoal", Rules.only true),
   ("timeline", Rules.only true),
   ("activityLevel", Rules.only true),
   ("dietType", Rules.only true),
   ("mealFrequency", Rules.only true),
   ("workSchedule", Rules.only true),
   ("cookingSkills", Rules.only true)]

/-- A form control as `validateField` reads it: its `name`, the string `getFieldValue` returns
for it, and the `value` of the unit `select` that `getWeightUnit` and `getHeightUnit` look up
(`none` when they find no such element). -/
structure Field where
  name : String
  value : String
  unit : Option String
  deriving DecidableEq

/-- `validateEmail(email).isValid`. -/
def validateEmail (email : String) : Bool :=
  if !(RegExp.test emailRegex email) then false
  else
    match (email.splitOn "@").get? 1 with
    | some domain =>
      if domain ≠ "" ∧ ¬ ["gmail.com", "yahoo.com", "hotmail.com", "outlook.com"].contains domain
          ∧ ¬ domain.toList.contains '.' then false
      else true
    | none => true

/-- `validateAge(age).isValid`. -/
def validateAge (age : String) : Bool :=
  let numAge := parseInt age
  if numAge.lt 18 then false
  else if numAge.gt 100 then false
  else true

/-- `validateWeight(weight, field).isValid`. -/
def validateWeight (weight : String) (field : Field) : Bool :=
  let numWeight := parseFloat weight
  let unit := field.unit.getD "kg"
  if unit = "kg" then
    (if numWeight.lt 30 || numWeight.gt 300 then false else true)
  else
    (if numWeight.lt 66 || numWeight.gt 660 then false else true)

/-- `validateHeight(height, field).isValid`. -/
def validateHeight (height : String) (field : Field) : Bool :=
  let numHeight := parseFloat height
  let unit := field.unit.getD "cm"
  if unit = "cm" then
    (if numHeight.lt 120 || numHeight.gt 250 then false else true)
  else
    (if numHeight.lt 4 || numHeight.gt 8 then false else true)

/-- `validatePhone(phone).isValid`. -/
def validatePhone (phone : String) : Bool :=
  if phone = "" then true
  else if (phone.toList.filter (isDigitIn 10)).length < 10 then false
  else true

/-- `performCustomValidation(fieldName, fieldValue, field).isValid` on the field names
`validateField` reaches it with: `targetWeight` has no entry in `validationRules`, so
`validateField` returns before its case. -/
def performCustomValidation (fieldName fieldValue : String) (field : Field) : Bool :=
  if fieldName = "email" then validateEmail fieldValue
  else if fieldName = "age" then validateAge fieldValue
  else if fieldName = "currentWeight" then validateWeight fieldValue field
  else if fieldName = "height" then validateHeight fieldValue field
  else if fieldName = "phone" then validatePhone fieldValue
  else true

/-- `validateField(field)`: the value returned; the error display is left out. -/
def validateField (field : Field) : Bool :=
  let fieldName := field.name
  let fieldValue := field.value
  match validationRules.lookup fieldName with
  | none => true
  | some rules =>
    if rules.required && blank fieldValue then false
    else if !rules.required && blank fieldValue then true
    else if rules.isNumber && (parseFloat fieldValue).isNaN then false
    else if rules.isNumber && rules.min.any (fun min => (parseFloat fieldValue).lt min) then false
    else if rules.isNumber && rules.max.any (fun max => (parseFloat fieldValue).gt max) then false
    else if rules.minLength.any (fun minLength => decide (jsLength fieldValue < minLength)) then
      false
    else if rules.maxLength.any (fun maxLength => decide (jsLength fieldValue > maxLength)) then
      false
    else if rules.pattern.any (fun pattern => !(RegExp.test pattern fieldValue)) then false
    else performCustomValidation fieldName fieldValue field

/-! ## Seed catalog (`src/utils/initializeDatabase.js`) and the save-time check of a food -/

/-- What the macro check of the Food model reads of a seeded food (per 100 g), with its name and
category. -/
structure SeedFood where
  name : String
  category : String
  calories : ℚ
  protein : ℚ
  carbohydrates : ℚ
  fats : ℚ
  fiber : ℚ
  sugar : ℚ
  deriving DecidableEq

/-- `macroCalories` of the `pre('save')` hook of the Food model. -/
def macroCalories (food : SeedFood) : ℚ :=
  (food.protein * 4) + (food.carbohydrates * 4) + (food.fats * 9)

/-- The macro validation of the `pre('save')` hook of the Food model (`Food.js`): the error it
passes to `next`, if any. -/
def foodPreSave (food : SeedFood) : Except JSError Unit :=
  if macroCalories food > food.calories * 1.1 then
    .error (.error "Macro nutrients exceed total calories")
  else .ok ()

/-- `sampleFoods`, in source order. -/
def sampleFoods : List SeedFood :=
  [{ name := "Brown Rice", category := "grains", calories := 123, protein := 2.6, carbohydrates := 23,
     fats := 0.9, fiber := 1.8, sugar := 0.4 },
   { name := "Broccoli", category := "vegetables", calories := 34, protein := 2.8, carbohydrates := 7,
     fats := 0.4, fiber := 2.6, sugar := 1.5 },
   { name := "Chicken Breast", category := "poultry", calories := 165, protein := 31, carbohydrates := 0,
     fats := 3.6, fiber := 0, sugar := 0 },
   { name := "Apple", category := "fruits", calories := 52, protein := 0.3, carbohydrates := 14,
     fats := 0.2, fiber := 2.4, sugar := 10.4 },
   { name := "Greek Yogurt", category := "dairy", calories := 59, protein := 10, carbohydrates := 3.6,
     fats := 0.4, fiber := 0, sugar := 3.6 },
   { name := "Almonds", category := "nuts_seeds", calories := 579, protein := 21.15, carbohydrates := 21.55,
     fats := 49.93, fiber := 12.5, sugar := 4.35 },
   { name := "Black Beans", category := "legumes", calories := 132, protein := 8.86, carbohydrates := 23.71,
     fats := 0.54, fiber := 8.7, sugar := 0.28 },
   { name := "Salmon", category := "seafood", calories := 208, protein := 22.1, carbohydrates := 0,
     fats := 12.4, fiber := 0, sugar := 0 },
   { name := "Olive Oil", category := "oils_fats", calories := 884, protein := 0, carbohydrates := 0,
     fats := 100, fiber := 0, sugar := 0 },
   { name := "Spinach", category := "vegetables", calories := 23, protein := 2.9, carbohydrates := 3.6,
     fats := 0.4, fiber := 2.2, sugar := 0.4 }]

/-- The `additionalFoods` of `addMoreFoods`, in source order. -/
def addMoreFoods.additionalFoods : List SeedFood :=
  [{ name := "Sweet Potato", category := "vegetables", calories := 86, protein := 1.6, carbohydrates := 20.1,
     fats := 0.1, fiber := 3, sugar := 4.2 },
   { name := "Quinoa", category := "grains", calories := 120, protein := 4.4, carbohydrates := 22,
     fats := 1.9, fiber := 2.8, sugar := 0.9 }]

/-! ## The calculators as the runtime evaluates them

The sections above read a JavaScript number as an exact rational and a table written as an
object literal as a finite map. The definitions of this section embed the same source functions
with what that reading leaves out: every arithmetic operation rounds to a double, and a lookup
`table[key]` on an object literal also finds the properties that every object inherits from
`Object.prototype`, such as `constructor`. They carry the names of the source functions under
`Runtime`. -/

instance : Add JSNumber := ⟨JSNumber.add⟩

instance : Sub JSNumber := ⟨JSNumber.sub⟩

instance : Mul JSNumber := ⟨JSNumber.mul⟩

instance : Div JSNumber := ⟨JSNumber.div⟩

/-- A decimal literal of the source is the double nearest to it. -/
instance : OfScientific JSNumber :=
  ⟨fun mantissa exponentSign decimalExponent =>
    Float64.ofRat (OfScientific.ofScientific mantissa exponentSign decimalExponent)⟩

/-- An integer literal of the source is the double nearest to it. -/
instance (n : ℕ) : OfNat JSNumber n := ⟨Float64.ofRat n⟩

/-- The names of the properties that every object inherits from `Object.prototype`. Each of
them holds a function, except `__proto__`, which holds `Object.prototype` itself; all are
truthy, none converts to a number, and none has a `protein`, `carbs` or `fats` property. -/
def Object.prototype : List String :=
  ["constructor", "__defineGetter__", "__defineSetter__", "hasOwnProperty", "__lookupGetter__",
   "__lookupSetter__", "isPrototypeOf", "propertyIsEnumerable", "toString", "valueOf",
   "__proto__", "toLocaleString"]

/-- What `object[key]` finds on an object written as a literal with the given own properties:
an own property, a property inherited from `Object.prototype`, or nothing. -/
inductive Property (β : Type) where
  | own (value : β)
  | inherited
  | undefined
  deriving DecidableEq

/-- `object[key]` on an object written as a literal. -/
def getProperty {β : Type} (object : List (String × β)) (key : String) : Property β :=
  match object.lookup key with
  | some value => .own value
  | none => if key ∈ Object.prototype then .inherited else .undefined

/-- `table[key] || d` for a table of numbers, as an operand of `*` or `+`: an own entry that is
not `0`, else `d`; an inherited function is truthy and makes the result of the operation `NaN`
(`x * f` is `NaN`; `x + f` is a string that `Math.round` turns into `NaN`), so it is `NaN`
here. -/
def Property.orElse (p : Property ℚ) (d : JSNumber) : JSNumber :=
  match p with
  | .own value => if value = 0 then d else Float64.ofRat value
  | .inherited => .nan
  | .undefined => d

/-- The value of `table[key] || table[fallback]` for a table of records: a record of the table,
or an object inherited from `Object.prototype`. -/
inductive TableEntry (β : Type) where
  | record (value : β)
  | inheritedObject
  deriving DecidableEq

/-- `entry.field` for a number field of the records: `undefined` on an inherited object, which
every arithmetic operation turns into `NaN`. -/
def TableEntry.field {β : Type} (entry : TableEntry β) (field : β → ℚ) : JSNumber :=
  match entry with
  | .record value => Float64.ofRat (field value)
  | .inheritedObject => .nan

/-- Daily macro targets in grams. -/
structure Runtime.MacroTargets where
  protein : JSNumber
  carbs : JSNumber
  fats : JSNumber
  deriving DecidableEq

/-- The `calculations` sub-document. -/
structure Runtime.Calculations where
  bmr : Option JSNumber
  tdee : Option JSNumber
  targetCalories : Option JSNumber
  macros : Option Runtime.MacroTargets
  deriving DecidableEq

/-- A User document: the fields the calculator reads hold finite numbers. -/
structure Runtime.User where
  personalInfo : PersonalInfo
  physicalData : PhysicalData
  goals : Goals
  calculations : Runtime.Calculations
  deriving DecidableEq

/-- `!x` for a field of `calculations`: `undefined`, `0` and `NaN` are falsy. -/
def Runtime.falsy (x : Option JSNumber) : Bool :=
  match x with
  | some value => value.falsy
  | none => true

/-- `userSchema.methods.calculateBMR`: the value returned and the document with
`calculations.bmr` stored. -/
def Runtime.User.calculateBMR (u : Runtime.User) : JSNumber × Runtime.User :=
  let age : JSNumber := .finite u.personalInfo.age
  let gender := u.personalInfo.gender
  let weightInKg : JSNumber :=
    if u.physicalData.weightUnit = "kg" then .finite u.physicalData.currentWeight
    else .finite u.physicalData.currentWeight * 0.453592
  let heightInCm : JSNumber :=
    if u.physicalData.heightUnit = "cm" then .finite u.physicalData.height
    else .finite u.physicalData.height * 30.48
  let bmr : JSNumber :=
    if gender = "male" then (10 * weightInKg) + (6.25 * heightInCm) - (5 * age) + 5
    else (10 * weightInKg) + (6.25 * heightInCm) - (5 * age) - 161
  let r := bmr.round
  (r, { u with calculations := { u.calculations with bmr := some r } })

/-- `userSchema.methods.calculateTDEE`: `calculateBMR` runs first only when
`calculations.bmr` is falsy; the stored `calculations.bmr` is what gets multiplied. -/
def Runtime.User.calculateTDEE (u : Runtime.User) : JSNumber × Runtime.User :=
  let u1 := if Runtime.falsy u.calculations.bmr then (Runtime.User.calculateBMR u).2 else u
  let bmr : JSNumber := u1.calculations.bmr.getD .nan
  let multiplier := (getProperty User.activityMultipliers u1.goals.activityLevel).orElse 1.2
  let r := (bmr * multiplier).round
  (r, { u1 with calculations := { u1.calculations with tdee := some r } })

/-- `userSchema.methods.calculateTargetCalories`: `calculateTDEE` runs first only when
`calculations.tdee` is falsy; the minimum intake is applied after the adjustment, and not at all
to `NaN`, which is below nothing. -/
def Runtime.User.calculateTargetCalories (u : Runtime.User) : JSNumber × Runtime.User :=
  let u1 := if Runtime.falsy u.calculations.tdee then (Runtime.User.calculateTDEE u).2 else u
  let tdee : JSNumber := u1.calculations.tdee.getD .nan
  let adjustment := (getProperty User.goalAdjustments u1.goals.primaryGoal).orElse 0
  let targetCalories := (tdee + adjustment).round
  let minimumCalories : JSNumber := if u1.personalInfo.gender = "male" then 1500 else 1200
  let r := if targetCalories.less minimumCalories then minimumCalories else targetCalories
  (r, { u1 with calculations := { u1.calculations with targetCalories := some r } })

/-- `table[key] || table[fallback]` for a table of records. -/
def getRecord {β : Type} (table : List (String × β)) (key : String) (fallback : β) :
    TableEntry β :=
  match getProperty table key with
  | .own value => .record value
  | .inherited => .inheritedObject
  | .undefined => .record fallback

/-- The split `macroRatios[goal] || macroRatios.maintenance` of `User.calculateMacros`. -/
def Runtime.User.calculateMacros.ratios (primaryGoal : String) : TableEntry MacroRatios :=
  getRecord User.macroRatios primaryGoal User.macroRatios.maintenance

/-- The gram targets `User.calculateMacros` derives from `calories` and a split. -/
def Runtime.User.calculateMacros.macros (calories : JSNumber)
    (ratios : TableEntry MacroRatios) : Runtime.MacroTargets :=
  { protein := ((calories * ratios.field (fun r => r.protein)) / 4).round
    carbs := ((calories * ratios.field (fun r => r.carbs)) / 4).round
    fats := ((calories * ratios.field (fun r => r.fats)) / 9).round }

/-- `userSchema.methods.calculateMacros`: `calculateTargetCalories` runs first only when
`calculations.targetCalories` is falsy. -/
def Runtime.User.calculateMacros (u : Runtime.User) : Runtime.MacroTargets × Runtime.User :=
  let u1 :=
    if Runtime.falsy u.calculations.targetCalories then (Runtime.User.calculateTargetCalories u).2
    else u
  let calories : JSNumber := u1.calculations.targetCalories.getD .nan
  let ratios := Runtime.User.calculateMacros.ratios u1.goals.primaryGoal
  let m := Runtime.User.calculateMacros.macros calories ratios
  (m, { u1 with calculations := { u1.calculations with macros := some m } })

/-- `DemoBackend.calculateBMR`. -/
def Runtime.DemoBackend.calculateBMR (userData : UserData) : JSNumber :=
  let weight : JSNumber := .finite userData.weight
  let height : JSNumber := .finite userData.height
  let age : JSNumber := .finite userData.age
  if userData.gender = "male" then (10 * weight + 6.25 * height - 5 * age + 5).round
  else (10 * weight + 6.25 * height - 5 * age - 161).round

/-- `DemoBackend.calculateTDEE`. -/
def Runtime.DemoBackend.calculateTDEE (bmr : JSNumber) (activityLevel : String) : JSNumber :=
  (bmr * (getProperty DemoBackend.multipliers activityLevel).orElse 1.2).round

/-- `DemoBackend.calculateMacroRatios`. -/
def Runtime.DemoBackend.calculateMacroRatios (goal : String) : TableEntry MacroRatios :=
  getRecord DemoBackend.ratios goal DemoBackend.ratios.maintenance

/-- A user as `DemoBackend.createUser` stores it. -/
structure Runtime.StoredUser where
  id : String
  userData : UserData
  bmr : JSNumber
  tdee : JSNumber
  macroRatios : TableEntry MacroRatios
  deriving DecidableEq

/-- The user `DemoBackend.createUser` stores under `userId`. -/
def Runtime.DemoBackend.createUser.user (userId : String) (userData : UserData) :
    Runtime.StoredUser :=
  let bmr := Runtime.DemoBackend.calculateBMR userData
  let tdee := Runtime.DemoBackend.calculateTDEE bmr userData.activityLevel
  let macroRatios := Runtime.DemoBackend.calculateMacroRatios userData.primaryGoal
  { id := userId, userData := userData, bmr := bmr, tdee := tdee, macroRatios := macroRatios }

/-- The calorie target of plan generation: the `switch` on the primary goal, shared verbatim by
`DemoBackend.generateDietPlan` and `generatePersonalizedDietPlan` (`routes/api.js`). -/
def Runtime.dailyCaloriesFor (tdee : JSNumber) (primaryGoal : String) : JSNumber :=
  if primaryGoal = "weight_loss" then (tdee * 0.8).round
  else if primaryGoal = "weight_gain" then (tdee * 1.2).round
  else if primaryGoal = "muscle_gain" then (tdee * 1.15).round
  else tdee

/-- The macro targets of plan generation, shared verbatim by `DemoBackend.generateDietPlan` and
`generatePersonalizedDietPlan`: percentages of `dailyCalories` at 4, 4 and 9 kcal per gram. -/
def Runtime.macroTargetsFor (dailyCalories : JSNumber) (macroRatios : TableEntry MacroRatios) :
    Runtime.MacroTargets :=
  { protein := ((dailyCalories * macroRatios.field (fun r => r.protein) / 100) / 4).round
    carbs := ((dailyCalories * macroRatios.field (fun r => r.carbs) / 100) / 4).round
    fats := ((dailyCalories * macroRatios.field (fun r => r.fats) / 100) / 9).round }

/-- The `goals` object of a generated plan. -/
structure Runtime.PlanGoals where
  primaryGoal : String
  dailyCalories : JSNumber
  macroTargets : Runtime.MacroTargets
  deriving DecidableEq

/-- The `goals` of the plan `DemoBackend.generateDietPlan` builds for a stored user (without
the pass-through fields `targetWeight` and `timeframe`): the calculator stage of plan
generation. -/
def Runtime.DemoBackend.generateDietPlan.goals (user : Runtime.StoredUser) : Runtime.PlanGoals :=
  let dailyCalories := Runtime.dailyCaloriesFor user.tdee user.userData.primaryGoal
  let macroTargets := Runtime.macroTargetsFor dailyCalories user.macroRatios
  { primaryGoal := user.userData.primaryGoal, dailyCalories := dailyCalories,
    macroTargets := macroTargets }

/-! ## Specification-side definitions -/

/-- Multiplier of an activity tier as the specification words it: the five tiers, the top one
named `top`, and 1.2 for every other value. -/
def specMultiplier (top : String) (a : String) : ℚ :=
  if a = "sedentary" then 1.2
  else if a = "lightly_active" then 1.375
  else if a = "moderately_active" then 1.55
  else if a = "very_active" then 1.725
  else if a = top then 1.9
  else 1.2

/-- Calories per 100 g of the `DEMO_FOODS` entry called `name` (`0` when there is none). -/
def DemoBackend.caloriesPer100 (name : String) : ℚ :=
  match DEMO_FOODS.find? (fun f => f.name == name) with
  | some f => f.calories
  | none => 0

/-- The calories of a list of demo meal items as the specification words them: the sum over
the items of calories per 100 g × quantity / 100, nothing rounded. -/
def DemoBackend.specCalories (foods : List DemoMealFood) : ℚ :=
  (foods.map (fun f => DemoBackend.caloriesPer100 f.name * f.quantity / 100)).sum

/-- The meal item `generateMeal` pushes for a catalog food and a quantity. -/
def generateMeal.item (food : Food) (quantity : ℤ) : MealFood :=
  { foodId := food._id, name := food.name, quantity := quantity, unit := "g",
    nutrition := food.calculateNutritionForQuantity quantity }

/-- What holds of a turn of the selection loop that adds an item `p.2` for the catalog food
`p.1`, `currentCalories` being the calories accumulated before the turn: the loop was still
below its target, the quantity is an integer in 1..199 within the calorie-based `maxQuantity`,
and the unrounded calories of that quantity fit the remaining budget. -/
def generateMeal.Added (targetCalories currentCalories : ℚ) (p : Food × MealFood) : Prop :=
  currentCalories < targetCalories ∧
    ∃ q : ℤ, 0 < q ∧ q ≤ 199 ∧
      (∀ n, generateMeal.maxQuantity (targetCalories - currentCalories) p.1.nutrition.calories
          = .finite n → q ≤ n) ∧
      p.1.nutrition.calories * ((q : ℚ) / 100) ≤ targetCalories - currentCalories ∧
      p.2 = generateMeal.item p.1 q

/-- The items of a meal paired with the catalog foods they were made from, each added as
`generateMeal.Added` describes, the calories accumulating from `currentCalories` on. -/
def generateMeal.Trace (targetCalories : ℚ) : ℚ → List (Food × MealFood) → Prop
  | _, [] => True
  | currentCalories, p :: rest =>
    generateMeal.Added targetCalories currentCalories p ∧
      generateMeal.Trace targetCalories (currentCalories + p.2.nutrition.calories) rest

/-- The days of the week in calendar order, as the specification names them. -/
def specDays : List String :=
  ["monday", "tuesday", "wednesday", "thursday", "friday", "saturday", "sunday"]

/-- The meal items of a weekly plan in the order `generateShoppingList` visits them: day by
day, meal by meal, food by food. -/
def planItems (weeklyPlan : List DayPlan) : List MealFood :=
  (weeklyPlan.map (fun day => (day.meals.values.map (fun meal => meal.foods)).flatten)).flatten

/-- The meal items of a demo weekly plan in the order `DemoBackend.generateShoppingList` visits
them. -/
def DemoBackend.planItems (weeklyPlan : List DemoDayPlan) : List DemoMealFood :=
  (weeklyPlan.map (fun day => (day.meals.values.map (fun meal => meal.foods)).flatten)).flatten

/-- Grouping by key as both shopping-list builders do it: an item whose key is already in the
map is added to the entry there, any other item starts a new entry at the end. -/
def groupVisit {α β : Type} (key : α → String) (new : α → β) (add : β → α → β)
    (m : List (String × β)) (x : α) : List (String × β) :=
  match m.lookup (key x) with
  | some e => mapSet m (key x) (add e x)
  | none => mapSet m (key x) (new x)

/-! ## Sample inputs -/

/-- The profile of the worked example, as `userData` of the demo backend. -/
def exampleData : UserData :=
  { weight := 80, height := 180, age := 30, gender := "male", activityLevel := "sedentary",
    primaryGoal := "weight_loss" }

/-- The profile of the worked example, as a new User document (nothing calculated yet). -/
def exampleUser : User :=
  { personalInfo := { age := 30, gender := "male" }
    physicalData := { currentWeight := 80, weightUnit := "kg", height := 180, heightUnit := "cm" }
    goals := { primaryGoal := "weight_loss", activityLevel := "sedentary" }
    dietaryPreferences := { dietType := "non_vegetarian", foodAllergies := [] }
    calculations := { bmr := none, tdee := none, targetCalories := none, macros := none } }

/-- A stream of `Math.random()` values that are all `0`. -/
def zeroDraws : Draws := fun _ => { val := 0, nonneg := le_refl 0, lt_one := by norm_num }

/-- The demo backend after `createUser` stored the profile of the worked example. -/
def exampleBackend : DemoBackend := (DemoBackend.new.createUser "user_1" exampleData).2

/-- A small, light, older woman who wants to lose weight. -/
def lowIntakeData : UserData :=
  { weight := 45, height := 150, age := 60, gender := "female", activityLevel := "sedentary",
    primaryGoal := "weight_loss" }

/-- A catalog food of 50 kcal per 100 g, tagged for breakfast. -/
def lightFood : Food :=
  { _id := "food_light", name := "Porridge"
    nutrition := { calories := 50, macronutrients := ⟨2, 9, 1, 1⟩, minerals := ⟨3⟩ }
    dietaryInfo := ⟨true, true, false, false⟩
    allergens := []
    cuisineInfo := ⟨some ["breakfast"]⟩
    isActive := true }

/-- A user object with a diet type and an empty `allergies` list. -/
def veganUser : MealUser := { dietType := "vegan", allergies := some [] }

/-- A stream of `Math.random()` values that are all `1/2`. -/
def halfDraws : Draws := fun _ => { val := 1 / 2, nonneg := by norm_num, lt_one := by norm_num }

/-- A catalog food of 410 kcal per 100 g with no `commonUses` tag. -/
def denseFood : Food :=
  { _id := "food_dense", name := "Granola"
    nutrition := { calories := 410, macronutrients := ⟨10, 60, 14, 7⟩, minerals := ⟨20⟩ }
    dietaryInfo := ⟨true, true, false, false⟩
    allergens := []
    cuisineInfo := ⟨none⟩
    isActive := true }

/-- A catalog food that contains nuts. -/
def nutFood : Food :=
  { _id := "food_nut", name := "Almond Butter"
    nutrition := { calories := 600, macronutrients := ⟨21, 19, 55, 10⟩, minerals := ⟨7⟩ }
    dietaryInfo := ⟨true, true, true, true⟩
    allergens := ["nuts"]
    cuisineInfo := ⟨some ["breakfast", "snack"]⟩
    isActive := true }

/-- A vegan user object whose `allergies` list names nuts. -/
def allergicUser : MealUser := { dietType := "vegan", allergies := some ["nuts"] }

/-- A catalog lookup that returns exactly the entries of a two-food catalog matching the
query. -/
def exampleFind : FoodQuery → Except JSError (List Food) :=
  fun q => .ok ([nutFood, lightFood].filter q.matches)

/-- A stored week of two days, the second without `fiber` and `sodium`. -/
def exampleStoredWeek : List StoredDay :=
  [{ dailyTotals := { calories := 1700, protein := 120, carbs := 150, fats := 60,
                      fiber := some 25, sodium := some 1800 } },
   { dailyTotals := { calories := 1650, protein := 110.5, carbs := 160, fats := 55,
                      fiber := none, sodium := none } }]

/-- A meal item of the given name and gram quantity, taken from the light catalog food. -/
def exampleItem (name : String) (quantity : ℚ) : MealFood :=
  { foodId := "food_light", name := name, quantity := quantity, unit := "g",
    nutrition := lightFood.calculateNutritionForQuantity quantity }

/-- A meal made of the given items. -/
def exampleMeal (foods : List MealFood) : Meal :=
  { name := "Breakfast Meal", foods := foods, totalNutrition := generateMeal.totalNutrition foods,
    instructions := [], prepTime := 15, cookTime := 15 }

/-- A plan of two days in which "Porridge" occurs in three meals and "Apple" in two. -/
def exampleWeek : List DayPlan :=
  [{ day := "monday",
     meals := { breakfast := exampleMeal [exampleItem "Porridge" 120, exampleItem "Apple" 80],
                lunch := exampleMeal [exampleItem "Rice" 150],
                dinner := exampleMeal [exampleItem "Porridge" 60],
                snacks := exampleMeal [] } },
   { day := "tuesday",
     meals := { breakfast := exampleMeal [exampleItem "Porridge" 100],
                lunch := exampleMeal [],
                dinner := exampleMeal [exampleItem "Rice" 90],
                snacks := exampleMeal [exampleItem "Apple" 70] } }]

/-- A meal item of the demo backend of the given name and gram quantity. -/
def exampleDemoItem (name : String) (quantity : ℚ) : DemoMealFood :=
  { name := name, quantity := quantity, unit := "g", nutrition := ⟨0, 0, 0, 0⟩ }

/-- A demo meal made of the given items. -/
def exampleDemoMeal (foods : List DemoMealFood) : DemoMeal :=
  { name := "Meal", foods := foods, nutrition := ⟨0, 0, 0, 0⟩, instructions := [],
    prepTime := none, cookTime := none }

/-- A demo plan of one day in which "Banana" occurs in two meals. -/
def exampleDemoWeek : List DemoDayPlan :=
  [{ day := "monday",
     meals := { breakfast := exampleDemoMeal [exampleDemoItem "Oats" 50,
                                               exampleDemoItem "Banana" 100],
                lunch := exampleDemoMeal [exampleDemoItem "Brown Rice" 150],
                dinner := exampleDemoMeal [],
                snack := exampleDemoMeal [exampleDemoItem "Banana" 120] } }]

/-- The worked example's document with the top activity tier of the User schema and
`calculations.bmr` stored as 1780. -/
def topTierUser : User :=
  { exampleUser with
    goals := { primaryGoal := "weight_loss", activityLevel := "extremely_active" }
    calculations := { bmr := some 1780, tdee := none, targetCalories := none, macros := none } }

/-- Form data with every required field filled in and the age field holding `abc`. -/
def nonNumericAgeForm : List (String × String) :=
  [("fullName", "Ada Lovelace"), ("age", "abc"), ("gender", "female"),
   ("email", "ada@example.com"), ("currentWeight", "60"), ("height", "165"),
   ("primaryGoal", "maintenance"), ("activityLevel", "sedentary"), ("dietType", "vegan"),
   ("workSchedule", "office")]

/-- The worked example's document with the activity level `'constructor'` and
`calculations.bmr` stored as 1780. -/
def constructorUser : Runtime.User :=
  { personalInfo := { age := 30, gender := "male" }
    physicalData := { currentWeight := 80, weightUnit := "kg", height := 180, heightUnit := "cm" }
    goals := { primaryGoal := "weight_loss", activityLevel := "constructor" }
    calculations := { bmr := some (.finite 1780), tdee := none, targetCalories := none,
                      macros := none } }

/-- The worked example's document with nothing calculated yet. -/
def runtimeUser : Runtime.User :=
  { personalInfo := { age := 30, gender := "male" }
    physicalData := { currentWeight := 80, weightUnit := "kg", height := 180, heightUnit := "cm" }
    goals := { primaryGoal := "weight_loss", activityLevel := "sedentary" }
    calculations := { bmr := none, tdee := none, targetCalories := none, macros := none } }

/-- The worked example's document with `calculations.bmr` stored as 1780. -/
def storedBmrUser : Runtime.User :=
  { runtimeUser with
    calculations := { bmr := some (.finite 1780), tdee := none, targetCalories := none,
                      macros := none } }

/-- The worked example's document after an earlier `calculateBMR` call stored
`calculations.bmr`, with the weight changed from 80 kg to 90 kg afterwards. -/
def runtimeStaleUser : Runtime.User :=
  { (Runtime.User.calculateBMR runtimeUser).2 with
    physicalData := { currentWeight := 90, weightUnit := "kg", height := 180,
                      heightUnit := "cm" } }

/-- The worked example's document with `calculations.tdee` stored as 2136. -/
def runtimeStoredTdeeUser : Runtime.User :=
  { runtimeUser with
    calculations := { bmr := some (.finite 1780), tdee := some (.finite 2136),
                      targetCalories := none, macros := none } }

/-- The worked example's document with `calculations.tdee` stored as 2136 and the primary
goal `'constructor'`. -/
def constructorGoalUser : Runtime.User :=
  { runtimeStoredTdeeUser with
    goals := { primaryGoal := "constructor", activityLevel := "sedentary" } }

/-- A stored demo user with TDEE 2790 and the goal `'muscle_gain'`. -/
def muscleGainUser : Runtime.StoredUser :=
  { id := "user_2"
    userData := { weight := 105, height := 190, age := 35, gender := "male",
                  activityLevel := "lightly_active", primaryGoal := "muscle_gain" }
    bmr := .finite 2029, tdee := .finite 2790
    macroRatios := Runtime.DemoBackend.calculateMacroRatios "muscle_gain" }

/-- Calorie adjustment by goal in the User model as the specification words it. -/
def specAdjustment (g : String) : ℚ :=
  if g = "weight_loss" then -500
  else if g = "weight_gain" then 500
  else if g = "muscle_building" then 300
  else 0

/-- The multiplier `activityMultipliers[a] || 1.2` of the User model as an operand of `*`: the
double of the tier's multiplier, `NaN` for the name of an inherited property. -/
def Runtime.activityMultiplier (a : String) : JSNumber :=
  if a ∈ Object.prototype then .nan else Float64.ofRat (specMultiplier "extremely_active" a)

/-- The factor the specification gives for a goal: 0.8, 1.2 and 1.15 for weight loss, weight
gain and muscle gain, 1 for maintenance and every other value. -/
def specFactor (g : String) : ℚ :=
  if g = "weight_loss" then 0.8
  else if g = "weight_gain" then 1.2
  else if g = "muscle_gain" then 1.15
  else 1

/-- The profile of the worked example with the activity level `'constructor'`. -/
def constructorData : UserData :=
  { weight := 80, height := 180, age := 30, gender := "male", activityLevel := "constructor",
    primaryGoal := "weight_loss" }

/-- A document with the goal `'constructor'` and the calorie target 1709 stored. -/
def constructorTargetUser : Runtime.User :=
  { constructorGoalUser with
    calculations := { bmr := some (.finite 1780), tdee := some (.finite 2136),
                      targetCalories := some (.finite 1709), macros := none } }

/-- The array index a property key writes, if any: the key is the canonical decimal form (no
sign, no leading zero) of an integer below `2 ^ 32 - 1`. -/
def arrayIndex (key : String) : Option ℕ :=
  let digits := key.toList
  if digits ≠ [] ∧ digits.all (isDigitIn 10) = true
      ∧ (digits.head? = some '0' → digits.length = 1)
      ∧ digitsValue 10 digits < 4294967295 then
    some (digitsValue 10 digits)
  else none

/-- The order in which the own keys of an object are enumerated: array indices first, in
ascending numeric order, then the other keys; keys of the second kind keep the order in which
they were created. -/
def Object.keysBefore (a b : String) : Bool :=
  match arrayIndex a, arrayIndex b with
  | some i, some j => decide (i ≤ j)
  | some _, none => true
  | none, some _ => false
  | none, none => true

/-- `Object.keys(object)` for an object whose own properties are listed in creation order: a
stable sort that moves the array indices to the front in ascending order. -/
def Object.keys {β : Type} (object : List (String × β)) : List String :=
  (object.map Prod.fst).insertionSort (fun a b => Object.keysBefore a b = true)

/-- What `generateShoppingList` of `routes/api.js` stores under a food name. -/
structure Runtime.ShoppingValue where
  foodId : String
  quantity : JSNumber
  unit : String
  category : String
  deriving DecidableEq

/-- An entry of the shopping list of `routes/api.js`: `{ name, ...shoppingList[name] }`. -/
structure Runtime.ShoppingEntry where
  name : String
  foodId : String
  quantity : JSNumber
  unit : String
  category : String
  deriving DecidableEq

/-- One turn of the `meal.foods.forEach` callback of `generateShoppingList` on the
`shoppingList` object, whose own properties are kept in creation order. When `food.name` is
the name of a property inherited from `Object.prototype`, `shoppingList[food.name]` is that
inherited object, which is truthy: the `+=` goes to it and `shoppingList` gets no property. -/
def Runtime.generateShoppingList.visit (shoppingList : List (String × Runtime.ShoppingValue))
    (food : DietPlanner.MealFood) : List (String × Runtime.ShoppingValue) :=
  match getProperty shoppingList food.name with
  | .own entry =>
    mapSet shoppingList food.name
      { entry with quantity := entry.quantity + JSNumber.finite food.quantity }
  | .inherited => shoppingList
  | .undefined =>
    mapSet shoppingList food.name
      { foodId := food.foodId, quantity := JSNumber.finite food.quantity, unit := food.unit,
        category := "general" }

/-- `generateShoppingList` (`routes/api.js`). -/
def Runtime.generateShoppingList (weeklyPlan : List DayPlan) : List Runtime.ShoppingEntry :=
  let shoppingList := weeklyPlan.foldl (fun shoppingList day =>
      day.meals.values.foldl (fun shoppingList meal =>
        meal.foods.foldl Runtime.generateShoppingList.visit shoppingList) shoppingList) []
  (Object.keys shoppingList).filterMap (fun name =>
    (shoppingList.lookup name).map (fun entry =>
      { name := name, foodId := entry.foodId, quantity := entry.quantity, unit := entry.unit,
        category := entry.category }))

/-- An entry of the shopping list of the demo backend. -/
structure Runtime.ShoppingItem where
  name : String
  quantity : JSNumber
  unit : String
  category : String
  deriving DecidableEq

/-- One turn of the `meal.foods.forEach` callback of `DemoBackend.generateShoppingList` on the
insertion-ordered `shoppingItems` map. -/
def Runtime.DemoBackend.generateShoppingList.visit
    (shoppingItems : List (String × Runtime.ShoppingItem)) (food : DemoMealFood) :
    List (String × Runtime.ShoppingItem) :=
  match shoppingItems.lookup food.name with
  | some item =>
    mapSet shoppingItems food.name
      { item with quantity := item.quantity + JSNumber.finite food.quantity }
  | none =>
    mapSet shoppingItems food.name
      { name := food.name, quantity := JSNumber.finite food.quantity, unit := food.unit,
        category := "General" }

/-- `DemoBackend.generateShoppingList`. -/
def Runtime.DemoBackend.generateShoppingList (weeklyPlan : List DemoDayPlan) :
    List Runtime.ShoppingItem :=
  ((weeklyPlan.foldl (fun items day =>
      day.meals.values.foldl (fun items meal =>
        meal.foods.foldl Runtime.DemoBackend.generateShoppingList.visit items) items) []).map
    (fun kv => kv.2))

/-- The quantity of a shopping-list entry: the quantities of the items of one name, added one
after the other in double arithmetic, starting from the first. -/
def addedQuantities (first : ℚ) (rest : List ℚ) : JSNumber :=
  rest.foldl (fun total quantity => total + JSNumber.finite quantity) (JSNumber.finite first)

/-- A plan of one day in which a food is called "constructor". -/
def constructorWeek : List DayPlan :=
  [{ day := "monday",
     meals := { breakfast := exampleMeal [exampleItem "constructor" 120, exampleItem "Rice" 80],
                lunch := exampleMeal [exampleItem "Rice" 150],
                dinner := exampleMeal [],
                snacks := exampleMeal [] } }]

/-! ## The meal generator as the runtime evaluates it -/

/-- The nutrition record of a quantity of food, as the numbers the runtime computes. -/
structure Runtime.Nutrition where
  calories : JSNumber
  protein : JSNumber
  carbs : JSNumber
  fats : JSNumber
  fiber : JSNumber
  sodium : JSNumber
  deriving DecidableEq

/-- `foodSchema.methods.calculateNutritionForQuantity(quantity)` with the default unit `'g'`,
the only way `generateMeal` calls it, every operation rounding to a double. -/
def Runtime.Food.calculateNutritionForQuantity (self : Food) (quantity : JSNumber) :
    Runtime.Nutrition :=
  let multiplier := quantity / 100
  { calories := (JSNumber.finite self.nutrition.calories * multiplier).round
    protein := (JSNumber.finite self.nutrition.macronutrients.protein * multiplier * 10).round / 10
    carbs :=
      (JSNumber.finite self.nutrition.macronutrients.carbohydrates * multiplier * 10).round / 10
    fats := (JSNumber.finite self.nutrition.macronutrients.fats * multiplier * 10).round / 10
    fiber := (JSNumber.finite self.nutrition.macronutrients.fiber * multiplier * 10).round / 10
    sodium := (JSNumber.finite self.nutrition.minerals.sodium * multiplier).round }

/-- A food of a meal `generateMeal` returns. -/
structure Runtime.MealFood where
  foodId : String
  name : String
  quantity : JSNumber
  unit : String
  nutrition : Runtime.Nutrition
  deriving DecidableEq

/-- A meal `generateMeal` returns. -/
structure Runtime.Meal where
  name : String
  foods : List Runtime.MealFood
  totalNutrition : Runtime.Nutrition
  instructions : List String
  prepTime : JSNumber
  cookTime : JSNumber
  deriving DecidableEq

/-- `Math.floor(Math.random() * n)` for the drawn value. -/
@[irreducible]
def Runtime.randomBelow (draw : Draw) (n : ℕ) : JSNumber :=
  (JSNumber.finite draw.val * JSNumber.finite n).floor

/-- `xs[i]` for a number `i`: `undefined` unless `i` is an integer within the list. -/
def Runtime.jsIndex {α : Type} (xs : List α) (i : JSNumber) : Option α :=
  match i with
  | .finite a => if a = (⌊a⌋ : ℤ) then DietPlanner.jsIndex xs ⌊a⌋ else none
  | _ => none

/-- The `maxQuantity` of `generateMeal`:
`Math.floor((remainingCalories / selectedFood.nutrition.calories) * 100)`. -/
def Runtime.generateMeal.maxQuantity (remainingCalories : JSNumber) (calories : ℚ) : JSNumber :=
  ((remainingCalories / JSNumber.finite calories) * 100).floor

/-- The variables the selection loop of `generateMeal` updates, with the call number of the
next `Math.random()`. -/
structure Runtime.MealLoop where
  availableFoods : List Food
  currentCalories : JSNumber
  selectedFoods : List Runtime.MealFood
  pos : ℕ
  deriving DecidableEq

/-- The selection loop of `generateMeal`, `fuel` being the turns left (`numFoods - i`). An
exception carries the call number reached. -/
def Runtime.generateMeal.loop (targetCalories : JSNumber) (draws : Draws) :
    (fuel : ℕ) → Runtime.MealLoop → Except (JSError × ℕ) Runtime.MealLoop
  | 0, st => .ok st
  | fuel + 1, st =>
    if st.availableFoods.length > 0 ∧ st.currentCalories.less targetCalories = true then
      let randomIndex := Runtime.randomBelow (draws st.pos) st.availableFoods.length
      match Runtime.jsIndex st.availableFoods randomIndex with
      | none =>
        .error (.typeError "Cannot read properties of undefined (reading 'nutrition')", st.pos + 1)
      | some selectedFood =>
        let availableFoods :=
          match randomIndex with
          | .finite a => st.availableFoods.eraseIdx ⌊a⌋.toNat
          | _ => st.availableFoods
        let remainingCalories := targetCalories - st.currentCalories
        let maxQuantity :=
          Runtime.generateMeal.maxQuantity remainingCalories selectedFood.nutrition.calories
        let quantity :=
          JSNumber.min maxQuantity (Runtime.randomBelow (draws (st.pos + 1)) 150 + JSNumber.finite 50)
        if JSNumber.less (JSNumber.finite 0) quantity = true then
          let nutrition := Runtime.Food.calculateNutritionForQuantity selectedFood quantity
          Runtime.generateMeal.loop targetCalories draws fuel
            { availableFoods := availableFoods
              currentCalories := st.currentCalories + nutrition.calories
              selectedFoods := st.selectedFoods ++
                [{ foodId := selectedFood._id, name := selectedFood.name, quantity := quantity,
                   unit := "g", nutrition := nutrition }]
              pos := st.pos + 2 }
        else
          Runtime.generateMeal.loop targetCalories draws fuel
            { st with availableFoods := availableFoods, pos := st.pos + 2 }
    else .ok st

/-- The `totalNutrition` of `generateMeal`: the `reduce` over `selectedFoods`. -/
def Runtime.generateMeal.totalNutrition (selectedFoods : List Runtime.MealFood) :
    Runtime.Nutrition :=
  selectedFoods.foldl (fun total food =>
    { calories := total.calories + food.nutrition.calories
      protein := total.protein + food.nutrition.protein
      carbs := total.carbs + food.nutrition.carbs
      fats := total.fats + food.nutrition.fats
      fiber := total.fiber + food.nutrition.fiber
      sodium := total.sodium + food.nutrition.sodium })
    { calories := 0, protein := 0, carbs := 0, fats := 0, fiber := 0, sodium := 0 }

/-- The decimal digits `${n}` writes for the result of `Math.floor(Math.random() * 1000)`. -/
def Runtime.digits (n : JSNumber) : String :=
  match n with
  | .finite a => toString ⌊a⌋
  | .nan => "NaN"
  | .posInf => "Infinity"
  | .negInf => "-Infinity"

/-- The body of the `try` block of `generateMeal`; `find` stands for
`Food.find(query).sort(...).limit(100)`. -/
def Runtime.generateMeal.attempt (mealType : String) (targetCalories : JSNumber)
    (user : MealUser) (find : FoodQuery → Except JSError (List Food)) (draws : Draws) (pos : ℕ) :
    Except (JSError × ℕ) (Runtime.Meal × ℕ) := do
  let query ← (generateMeal.query user).mapError (fun e => (e, pos))
  let foods ← (find query).mapError (fun e => (e, pos))
  let mealAppropriatefoods := foods.filter (generateMeal.mealAppropriate mealType)
  let numFoods := Runtime.randomBelow (draws pos) 3 + 2
  let turns : ℕ :=
    match numFoods with
    | .finite a => ⌈a⌉.toNat
    | _ => 0
  let st ← Runtime.generateMeal.loop targetCalories draws turns
    { availableFoods := mealAppropriatefoods, currentCalories := 0, selectedFoods := [],
      pos := pos + 1 }
  let selectedFoods := st.selectedFoods
  pure
    ({ name := mealType.capitalize ++ " " ++ Runtime.digits (Runtime.randomBelow (draws st.pos) 1000)
       foods := selectedFoods
       totalNutrition := Runtime.generateMeal.totalNutrition selectedFoods
       instructions := ["Prepare " ++ ", ".intercalate (selectedFoods.map (fun f => f.name))]
       prepTime := Runtime.randomBelow (draws (st.pos + 1)) 30 + 10
       cookTime := Runtime.randomBelow (draws (st.pos + 2)) 30 + 5 }, st.pos + 3)

/-- `generateMeal` (`routes/api.js`): the `try` block, and the fallback meal of its `catch`.
`macroTargets` is not read. Returns the meal and the call number of the next `Math.random()`. -/
def Runtime.generateMeal (mealType : String) (targetCalories : JSNumber) (user : MealUser)
    (find : FoodQuery → Except JSError (List Food)) (draws : Draws) (pos : ℕ) :
    Runtime.Meal × ℕ :=
  match Runtime.generateMeal.attempt mealType targetCalories user find draws pos with
  | .ok r => r
  | .error (_, pos1) =>
    ({ name := "Simple " ++ mealType
       foods := []
       totalNutrition :=
         { calories := 0, protein := 0, carbs := 0, fats := 0, fiber := 0, sodium := 0 }
       instructions := ["Meal generation failed - please customize"]
       prepTime := 15
       cookTime := 15 }, pos1)

/-- The meal item `generateMeal` pushes for a catalog food and an integer quantity. -/
def Runtime.generateMeal.item (food : Food) (quantity : ℤ) : Runtime.MealFood :=
  { foodId := food._id, name := food.name, quantity := JSNumber.finite quantity, unit := "g",
    nutrition := Runtime.Food.calculateNutritionForQuantity food (JSNumber.finite quantity) }

/-- What holds of a turn of the selection loop that adds an item `p.2` for the catalog food
`p.1`, `currentCalories` being the calories accumulated before the turn: the loop was still
below its target, and the quantity is a positive integer, the smaller of the calorie-based
`maxQuantity` and the drawn integer, which is at most 200. -/
def Runtime.generateMeal.Added (targetCalories currentCalories : JSNumber)
    (p : Food × Runtime.MealFood) : Prop :=
  currentCalories.less targetCalories = true ∧
    ∃ q r : ℤ, 0 < q ∧ r ≤ 200 ∧
      JSNumber.min
          (Runtime.generateMeal.maxQuantity (targetCalories - currentCalories)
            p.1.nutrition.calories)
          (JSNumber.finite r) = JSNumber.finite q ∧
      p.2 = Runtime.generateMeal.item p.1 q

/-- The calories accumulated after the items of a list were added one after the other. -/
def Runtime.caloriesAfter (start : JSNumber) (tr : List (Food × Runtime.MealFood)) : JSNumber :=
  tr.foldl (fun currentCalories p => currentCalories + p.2.nutrition.calories) start

/-- The items of a meal paired with the catalog foods they were made from, each added as
`Runtime.generateMeal.Added` describes, the calories accumulating from `currentCalories` on. -/
def Runtime.generateMeal.Trace (targetCalories : JSNumber) :
    JSNumber → List (Food × Runtime.MealFood) → Prop
  | _, [] => True
  | currentCalories, p :: rest =>
    Runtime.generateMeal.Added targetCalories currentCalories p ∧
      Runtime.generateMeal.Trace targetCalories (currentCalories + p.2.nutrition.calories) rest

/-- What the amended budget claim says of one item `p.2`, made from the catalog food `p.1` when
the calories accumulated before it were the integer `currentCalories`: the loop was below its
target; the quantity is a positive integer `q` of at most 200 that does not exceed the
calorie-based `maxQuantity`, which is above 0; the unrounded calories `calories * q / 100`
exceed the remaining budget by at most `10 ^ -6`; the calories recorded for the item are an
integer `k` within `1/2 + 10 ^ -8` of the unrounded calories, and `k` exceeds the remaining
budget by at most `1/2 + 10 ^ -6`. -/
def Runtime.generateMeal.WithinBudget (targetCalories : ℚ) (currentCalories : ℤ)
    (p : Food × Runtime.MealFood) : Prop :=
  (currentCalories : ℚ) < targetCalories ∧
    ∃ q k : ℤ, 0 < q ∧ q ≤ 200 ∧ p.2 = Runtime.generateMeal.item p.1 q
      ∧ JSNumber.less (JSNumber.finite 0)
          (Runtime.generateMeal.maxQuantity
            (JSNumber.finite targetCalories - JSNumber.finite currentCalories)
            p.1.nutrition.calories) = true
      ∧ (∀ n : ℚ,
          Runtime.generateMeal.maxQuantity
            (JSNumber.finite targetCalories - JSNumber.finite currentCalories)
            p.1.nutrition.calories = JSNumber.finite n → (q : ℚ) ≤ n)
      ∧ p.2.nutrition.calories = JSNumber.finite k ∧ 0 ≤ k
      ∧ p.1.nutrition.calories * q / 100 ≤ targetCalories - currentCalories + 1 / 10 ^ 6
      ∧ |(k : ℚ) - p.1.nutrition.calories * q / 100| ≤ 1 / 2 + 1 / 10 ^ 8
      ∧ (k : ℚ) ≤ targetCalories - currentCalories + 1 / 2 + 1 / 10 ^ 6

/-! ## Lemmas on the primitives -/

theorem roundHalfEven_sub_le (x : ℚ) : |(roundHalfEven x : ℚ) - x| ≤ 1 / 2 := by
  have h1 := Int.floor_le x
  have h2 := Int.lt_floor_add_one x
  unfold roundHalfEven
  split_ifs with a b c
  · rw [abs_le]; constructor <;> linarith
  · rw [abs_le]; push_cast; constructor <;> linarith
  · rw [abs_le]; constructor <;> linarith
  · rw [abs_le]; push_cast; constructor <;> linarith

theorem roundHalfEven_eq_of_lt (x : ℚ) (m : ℤ) (h : |x - m| < 1 / 2) : roundHalfEven x = m := by
  rw [abs_lt] at h
  have hf : ⌊x⌋ = m ∨ ⌊x⌋ = m - 1 := by
    have h1 : m - 1 ≤ ⌊x⌋ := by
      rw [Int.le_floor]; push_cast; linarith
    have h2 : ⌊x⌋ < m + 1 := by
      rw [Int.floor_lt]; push_cast; linarith
    omega
  unfold roundHalfEven
  rcases hf with hf | hf
  · rw [hf, if_pos (by linarith)]
  · rw [hf]
    have e : ((m - 1 : ℤ) : ℚ) = (m : ℚ) - 1 := by push_cast; ring
    rw [e, if_neg (by linarith), if_pos (by linarith)]
    ring

theorem roundHalfEven_intCast (n : ℤ) : roundHalfEven (n : ℚ) = n :=
  roundHalfEven_eq_of_lt _ n (by simp)

theorem Float64.log_spec (x : ℚ) (hx : x ≠ 0) :
    (2 : ℚ) ^ Int.log 2 |x| ≤ |x| ∧ |x| < (2 : ℚ) ^ (Int.log 2 |x| + 1) := by
  have hpos : 0 < |x| := abs_pos.mpr hx
  have h1 := Int.zpow_log_le_self (b := 2) (by norm_num) hpos
  have h2 := Int.lt_zpow_succ_log_self (b := 2) (by norm_num) |x|
  exact ⟨by exact_mod_cast h1, by exact_mod_cast h2⟩

theorem Float64.log_eq (x : ℚ) (k : ℤ) (h1 : (2 : ℚ) ^ k ≤ |x|) (h2 : |x| < (2 : ℚ) ^ (k + 1)) :
    Int.log 2 |x| = k := by
  have hpos : 0 < |x| := lt_of_lt_of_le (by positivity) h1
  have a : k ≤ Int.log 2 |x| :=
    (Int.zpow_le_iff_le_log (b := 2) (by norm_num) hpos).mp (by exact_mod_cast h1)
  have b : Int.log 2 |x| < k + 1 :=
    (Int.lt_zpow_iff_log_lt (b := 2) (by norm_num) hpos).mp (by exact_mod_cast h2)
  omega

theorem Float64.exponent_eq (x : ℚ) (e : ℤ) (he : -1074 ≤ e)
    (h1 : (2 : ℚ) ^ (e + 52) ≤ |x|) (h2 : |x| < (2 : ℚ) ^ (e + 53)) :
    Float64.exponent x = e := by
  have := Float64.log_eq x (e + 52) h1 (by rw [show e + 52 + 1 = e + 53 by ring]; exact h2)
  unfold Float64.exponent
  rw [this]
  omega


theorem Float64.ofRat_of_exponent (x : ℚ) (e : ℤ) (he : Float64.exponent x = e)
    (hfin : |(roundHalfEven (x / 2 ^ e) : ℚ) * 2 ^ e| < (2 : ℚ) ^ (1024 : ℤ)) :
    Float64.ofRat x = .finite ((roundHalfEven (x / 2 ^ e) : ℚ) * 2 ^ e) := by
  unfold Float64.ofRat
  simp only [he]
  rw [if_neg (not_le.mpr hfin)]

/-- Evaluation of a rounding: `x` lies in the binade whose doubles are spaced `2 ^ e` apart and
`m * 2 ^ e` is the one nearest to it. -/
theorem Float64.ofRat_eq (x : ℚ) (e m : ℤ) (he : -1074 ≤ e)
    (h1 : (2 : ℚ) ^ (e + 52) ≤ |x|) (h2 : |x| < (2 : ℚ) ^ (e + 53))
    (hnear : |x / 2 ^ e - m| < 1 / 2)
    (hfin : |(m : ℚ) * 2 ^ e| < (2 : ℚ) ^ (1024 : ℤ)) :
    Float64.ofRat x = .finite ((m : ℚ) * 2 ^ e) := by
  have hm := roundHalfEven_eq_of_lt _ m hnear
  have hx := Float64.exponent_eq x e he h1 h2
  rw [Float64.ofRat_of_exponent x e hx (by rw [hm]; exact hfin), hm]

theorem Float64.ofRat_zero : Float64.ofRat 0 = .finite 0 := by
  unfold Float64.ofRat
  simp [roundHalfEven]
  positivity

/-- A rational that is a multiple of the spacing at its own binade is a double. -/
theorem Float64.ofRat_exact (x : ℚ) (n : ℤ) (hx : x = n * 2 ^ Float64.exponent x)
    (hfin : |x| < (2 : ℚ) ^ (1024 : ℤ)) : Float64.ofRat x = .finite x := by
  have hdiv : x / 2 ^ Float64.exponent x = n := by
    have hpos : (0 : ℚ) < 2 ^ Float64.exponent x := by positivity
    rw [div_eq_iff hpos.ne']
    exact hx
  have h := Float64.ofRat_of_exponent x (Float64.exponent x) rfl
    (by rw [hdiv, roundHalfEven_intCast, ← hx]; exact hfin)
  rw [h, hdiv, roundHalfEven_intCast, ← hx]

theorem Float64.exponent_le (x : ℚ) (k : ℤ) (hk : -1074 ≤ k) (hx : x ≠ 0)
    (h : |x| < (2 : ℚ) ^ (k + 53)) : Float64.exponent x ≤ k := by
  have hpos : 0 < |x| := abs_pos.mpr hx
  have b : Int.log 2 |x| < k + 53 :=
    (Int.lt_zpow_iff_log_lt (b := 2) (by norm_num) hpos).mp (by exact_mod_cast h)
  unfold Float64.exponent
  omega

/-- Every integer of magnitude at most `2 ^ 53` is a double. -/
theorem Float64.ofRat_intCast (n : ℤ) (h : |n| ≤ 2 ^ 53) : Float64.ofRat (n : ℚ) = .finite n := by
  by_cases h0 : n = 0
  · subst h0; simpa using Float64.ofRat_zero
  have hq : |(n : ℚ)| ≤ 2 ^ 53 := by exact_mod_cast h
  have hn0 : (n : ℚ) ≠ 0 := by exact_mod_cast h0
  have hfin : |(n : ℚ)| < (2 : ℚ) ^ (1024 : ℤ) :=
    lt_of_le_of_lt hq (by norm_num)
  by_cases htop : |n| = 2 ^ 53
  · -- the top of the range: spacing 2
    have hq2 : |(n : ℚ)| = 2 ^ 53 := by exact_mod_cast htop
    have he : Float64.exponent (n : ℚ) = 1 :=
      Float64.exponent_eq _ 1 (by norm_num) (by rw [hq2]; norm_num) (by rw [hq2]; norm_num)
    have hdvd : (2 : ℤ) ∣ n := by
      have : (2 : ℤ) ∣ |n| := by rw [htop]; exact ⟨2 ^ 52, by norm_num⟩
      exact (dvd_abs 2 n).mp this
    obtain ⟨k, hk⟩ := hdvd
    refine Float64.ofRat_exact _ k ?_ hfin
    rw [he, hk]; push_cast; ring
  · have hlt : |(n : ℚ)| < 2 ^ 53 := by
      have : |n| < 2 ^ 53 := lt_of_le_of_ne h htop
      exact_mod_cast this
    have he : Float64.exponent (n : ℚ) ≤ 0 :=
      Float64.exponent_le _ 0 (by norm_num) hn0 (by
        rw [show ((0 : ℤ) + 53) = ((53 : ℕ) : ℤ) by norm_num, zpow_natCast]
        exact hlt)
    obtain ⟨j, hj⟩ : ∃ j : ℕ, Float64.exponent (n : ℚ) = -(j : ℤ) :=
      ⟨(-Float64.exponent (n : ℚ)).toNat, by omega⟩
    refine Float64.ofRat_exact _ (n * 2 ^ j) ?_ hfin
    rw [hj, zpow_neg, zpow_natCast]
    push_cast
    field_simp

/-- The relative error of a rounding in the normal range is at most `2 ^ -53`. -/
theorem Float64.ofRat_error (x : ℚ) (h1 : (2 : ℚ) ^ (-1022 : ℤ) ≤ |x|)
    (h2 : |x| ≤ (2 : ℚ) ^ (1023 : ℤ)) :
    ∃ y, Float64.ofRat x = .finite y ∧ |y - x| ≤ |x| / 2 ^ 53 := by
  have hx0 : x ≠ 0 := by
    intro h; rw [h] at h1; simp at h1
    exact absurd h1 (not_le.mpr (by positivity))
  obtain ⟨l1, l2⟩ := Float64.log_spec x hx0
  have hlog : -1022 ≤ Int.log 2 |x| := by
    have hpos : 0 < |x| := abs_pos.mpr hx0
    exact (Int.zpow_le_iff_le_log (b := 2) (by norm_num) hpos).mp (by exact_mod_cast h1)
  have he : Float64.exponent x = Int.log 2 |x| - 52 := by
    unfold Float64.exponent; omega
  set e := Float64.exponent x with hedef
  have hpe : (0 : ℚ) < 2 ^ e := by positivity
  have hr := roundHalfEven_sub_le (x / 2 ^ e)
  -- the error is at most half the spacing
  have herr : |(roundHalfEven (x / 2 ^ e) : ℚ) * 2 ^ e - x| ≤ 2 ^ e / 2 := by
    have : (roundHalfEven (x / 2 ^ e) : ℚ) * 2 ^ e - x
        = ((roundHalfEven (x / 2 ^ e) : ℚ) - x / 2 ^ e) * 2 ^ e := by
      field_simp
    rw [this, abs_mul, abs_of_pos hpe]
    calc |(roundHalfEven (x / 2 ^ e) : ℚ) - x / 2 ^ e| * 2 ^ e ≤ 1 / 2 * 2 ^ e :=
          mul_le_mul_of_nonneg_right hr hpe.le
      _ = 2 ^ e / 2 := by ring
  -- the spacing is at most |x| / 2 ^ 52
  have hsp : (2 : ℚ) ^ e ≤ |x| / 2 ^ 52 := by
    rw [le_div_iff₀ (by positivity)]
    calc (2 : ℚ) ^ e * 2 ^ 52 = 2 ^ (e + 52) := by
          rw [zpow_add₀ (by norm_num)]; norm_num
      _ = 2 ^ Int.log 2 |x| := by rw [he]; congr 1; ring
      _ ≤ |x| := l1
  have hbound : |(roundHalfEven (x / 2 ^ e) : ℚ) * 2 ^ e - x| ≤ |x| / 2 ^ 53 := by
    calc _ ≤ 2 ^ e / 2 := herr
      _ ≤ |x| / 2 ^ 52 / 2 := by linarith
      _ = |x| / 2 ^ 53 := by ring
  have hfin : |(roundHalfEven (x / 2 ^ e) : ℚ) * 2 ^ e| < (2 : ℚ) ^ (1024 : ℤ) := by
    have t := abs_sub_abs_le_abs_sub ((roundHalfEven (x / 2 ^ e) : ℚ) * 2 ^ e) x
    have hx53 : |x| / 2 ^ 53 ≤ |x| := by
      apply div_le_self (abs_nonneg x); norm_num
    have : (2 : ℚ) ^ (1024 : ℤ) = 2 * 2 ^ (1023 : ℤ) := by norm_num
    rw [this]
    have hxpos : 0 < |x| := abs_pos.mpr hx0
    have hx53' : |x| / 2 ^ 53 < |x| := by
      apply div_lt_self hxpos; norm_num
    linarith
  exact ⟨_, Float64.ofRat_of_exponent x e rfl hfin, hbound⟩



theorem Math.round_eq_iff (x : ℚ) (z : ℤ) :
    Math.round x = z ↔ (z : ℚ) ≤ x + 1 / 2 ∧ x + 1 / 2 < z + 1 := by
  unfold Math.round
  exact Int.floor_eq_iff

theorem Math.round_le (x : ℚ) : (Math.round x : ℚ) ≤ x + 1 / 2 := by
  unfold Math.round
  exact Int.floor_le _

theorem Math.lt_round (x : ℚ) : x - 1 / 2 < (Math.round x : ℚ) := by
  unfold Math.round
  have := Int.lt_floor_add_one (x + 1 / 2)
  linarith

theorem Math.round_intCast (n : ℤ) : Math.round (n : ℚ) = n := by
  rw [Math.round_eq_iff]
  constructor <;> linarith

theorem lookup_cons {β : Type} (k k1 : String) (v : β) (rest : List (String × β)) :
    List.lookup k ((k1, v) :: rest) = if k = k1 then some v else List.lookup k rest := by
  by_cases h : k = k1
  · simp [List.lookup, h]
  · have : (k == k1) = false := by simpa using h
    simp [List.lookup, this, h]

theorem DemoBackend.multipliers_eq_spec (a : String) :
    orElse (DemoBackend.multipliers.lookup a) 1.2 = specMultiplier "extra_active" a := by
  simp only [DemoBackend.multipliers, lookup_cons, specMultiplier, List.lookup_nil]
  split_ifs <;> norm_num [orElse]

theorem User.activityMultipliers_eq_spec (a : String) :
    orElse (User.activityMultipliers.lookup a) 1.2 = specMultiplier "extremely_active" a := by
  simp only [User.activityMultipliers, lookup_cons, specMultiplier, List.lookup_nil]
  split_ifs <;> norm_num [orElse]

/-! ## Metabolic calculator -/

theorem User.calculateBMR_eq_round (u : User)
    (hw : u.physicalData.weightUnit = "kg") (hh : u.physicalData.heightUnit = "cm") :
    (User.calculateBMR u).1 =
      Math.round (10 * u.physicalData.currentWeight + 6.25 * u.physicalData.height
        - 5 * u.personalInfo.age + (if u.personalInfo.gender = "male" then 5 else -161)) := by
  simp only [User.calculateBMR, hw, hh, if_true]
  split_ifs <;> (congr 1; try ring)

theorem DemoBackend.calculateBMR_mifflin (d : UserData) :
    DemoBackend.calculateBMR d =
      Math.round (10 * d.weight + 6.25 * d.height - 5 * d.age
        + (if d.gender = "male" then 5 else -161)) := by
  simp only [DemoBackend.calculateBMR]
  split_ifs <;> (congr 1; try ring)

theorem DemoBackend.calculateTDEE_eq (b : ℚ) (a : String) :
    DemoBackend.calculateTDEE b a = Math.round (b * specMultiplier "extra_active" a) := by
  simp only [DemoBackend.calculateTDEE, DemoBackend.multipliers_eq_spec]

theorem User.calculateTDEE_of_stored (u : User) (b : ℚ)
    (hb : u.calculations.bmr = some b) (hb0 : b ≠ 0) :
    (User.calculateTDEE u).1 =
      Math.round (b * specMultiplier "extremely_active" u.goals.activityLevel) := by
  have hf : falsy (some b) = false := by simp [falsy, hb0]
  simp [User.calculateTDEE, hf, hb, User.activityMultipliers_eq_spec]

/-- C1: for a profile given in kg and cm, `User.calculateBMR` and `DemoBackend.calculateBMR`
return `Math.round(10*weight + 6.25*height - 5*age + s)`, where `s` is `5` when the gender is
exactly `'male'` and `-161` for every other gender value. -/
theorem calculateBMR_eq_mifflin (u : User) (d : UserData)
    (hw : u.physicalData.weightUnit = "kg") (hh : u.physicalData.heightUnit = "cm") :
    (User.calculateBMR u).1 =
        Math.round (10 * u.physicalData.currentWeight + 6.25 * u.physicalData.height
          - 5 * u.personalInfo.age + (if u.personalInfo.gender = "male" then 5 else -161))
      ∧ DemoBackend.calculateBMR d =
        Math.round (10 * d.weight + 6.25 * d.height - 5 * d.age
          + (if d.gender = "male" then 5 else -161)) :=
  ⟨User.calculateBMR_eq_round u hw hh, DemoBackend.calculateBMR_mifflin d⟩

/-- Witness of C1 at the profile of the worked example. -/
theorem calculateBMR_eq_mifflin_witness :
    (User.calculateBMR exampleUser).1 =
        Math.round (10 * exampleUser.physicalData.currentWeight
          + 6.25 * exampleUser.physicalData.height - 5 * exampleUser.personalInfo.age
          + (if exampleUser.personalInfo.gender = "male" then 5 else -161))
      ∧ DemoBackend.calculateBMR exampleData =
        Math.round (10 * exampleData.weight + 6.25 * exampleData.height - 5 * exampleData.age
          + (if exampleData.gender = "male" then 5 else -161)) :=
  calculateBMR_eq_mifflin exampleUser exampleData rfl rfl

theorem DemoBackend.generateDietPlan_dailyCalories (userId planId : String) (userData : UserData)
    (draws : Draws) :
    ∃ plan, ((DemoBackend.new.createUser userId userData).2.generateDietPlan userId planId draws).1
        = .ok plan
      ∧ plan.goals.dailyCalories =
        dailyCaloriesFor
          (DemoBackend.calculateTDEE (DemoBackend.calculateBMR userData) userData.activityLevel)
          userData.primaryGoal := by
  have hl : List.lookup userId (DemoBackend.new.createUser userId userData).2.users =
      some { id := userId, userData := userData
             bmr := (DemoBackend.calculateBMR userData : ℚ)
             tdee := (DemoBackend.calculateTDEE (DemoBackend.calculateBMR userData)
               userData.activityLevel : ℚ)
             macroRatios := DemoBackend.calculateMacroRatios userData.primaryGoal } := by
    simp [DemoBackend.createUser, DemoBackend.new, mapSet, List.lookup]
  simp only [DemoBackend.generateDietPlan, hl]
  exact ⟨_, rfl, rfl⟩

theorem lowIntake_calculateBMR : DemoBackend.calculateBMR lowIntakeData = 927 := by
  simp only [DemoBackend.calculateBMR, lowIntakeData]
  rw [if_neg (by decide), Math.round_eq_iff]
  norm_num

theorem lowIntake_calculateTDEE : DemoBackend.calculateTDEE 927 "sedentary" = 1112 := by
  rw [DemoBackend.calculateTDEE, DemoBackend.multipliers_eq_spec, Math.round_eq_iff]
  norm_num [specMultiplier]

theorem lowIntake_dailyCalories : dailyCaloriesFor 1112 "weight_loss" = 890 := by
  have h : Math.round (1112 * 0.8) = 890 := by
    rw [Math.round_eq_iff]
    norm_num
  simp [dailyCaloriesFor, h]

/-- C4, at the failing input: for the 60-year-old woman of 45 kg and 150 cm who is sedentary and
wants to lose weight, `DemoBackend.generateDietPlan` stores `dailyCalories = 890`, below the
1200 kcal minimum; no minimum is applied after the goal adjustment. -/
theorem generateDietPlan_below_minimum :
    ∃ plan, ((DemoBackend.new.createUser "user_1" lowIntakeData).2.generateDietPlan
          "user_1" "plan_1" zeroDraws).1 = .ok plan
      ∧ plan.goals.dailyCalories = 890 ∧ plan.goals.dailyCalories < 1200 := by
  obtain ⟨plan, hp, hd⟩ :=
    DemoBackend.generateDietPlan_dailyCalories "user_1" "plan_1" lowIntakeData zeroDraws
  have h890 : plan.goals.dailyCalories = 890 := by
    rw [hd, lowIntake_calculateBMR]
    have : lowIntakeData.activityLevel = "sedentary" := rfl
    rw [this]
    have h2 := lowIntake_calculateTDEE
    norm_num at h2 ⊢
    rw [h2]
    exact_mod_cast lowIntake_dailyCalories
  exact ⟨plan, hp, h890, by rw [h890]; norm_num⟩

theorem example_calculateBMR : DemoBackend.calculateBMR exampleData = 1780 := by
  simp only [DemoBackend.calculateBMR, exampleData, if_true]
  rw [Math.round_eq_iff]
  norm_num

theorem example_calculateTDEE : DemoBackend.calculateTDEE 1780 "sedentary" = 2136 := by
  rw [DemoBackend.calculateTDEE, DemoBackend.multipliers_eq_spec, Math.round_eq_iff]
  norm_num [specMultiplier]

theorem example_dailyCalories : dailyCaloriesFor 2136 "weight_loss" = 1709 := by
  have h : Math.round (2136 * 0.8) = 1709 := by
    rw [Math.round_eq_iff]
    norm_num
  simp [dailyCaloriesFor, h]

/-- C6: the worked example holds end to end in the demo backend: for the profile male, 30 years,
80 kg, 180 cm, sedentary, weight loss, `calculateBMR` returns 1780, `calculateTDEE(1780,
'sedentary')` returns 2136, and `generateDietPlan` for the user created from the profile sets
`goals.dailyCalories` to 1709. -/
theorem worked_example_demo :
    DemoBackend.calculateBMR exampleData = 1780
      ∧ DemoBackend.calculateTDEE 1780 "sedentary" = 2136
      ∧ ∃ plan, ((DemoBackend.new.createUser "user_1" exampleData).2.generateDietPlan
            "user_1" "plan_1" zeroDraws).1 = .ok plan
          ∧ plan.goals.dailyCalories = 1709 := by
  refine ⟨example_calculateBMR, example_calculateTDEE, ?_⟩
  obtain ⟨plan, hp, hd⟩ :=
    DemoBackend.generateDietPlan_dailyCalories "user_1" "plan_1" exampleData zeroDraws
  refine ⟨plan, hp, ?_⟩
  rw [hd, example_calculateBMR]
  have : exampleData.activityLevel = "sedentary" := rfl
  rw [this]
  have h2 := example_calculateTDEE
  norm_num at h2 ⊢
  rw [h2]
  exact_mod_cast example_dailyCalories

theorem lookup_getD_cases {β : Type} (P : β → Prop) (tbl : List (String × β)) (dflt : β)
    (k : String) (hd : P dflt) (ht : ∀ kv ∈ tbl, P kv.2) : P ((tbl.lookup k).getD dflt) := by
  induction tbl with
  | nil => simpa using hd
  | cons kv rest ih =>
    obtain ⟨k1, v⟩ := kv
    rw [lookup_cons]
    split_ifs
    · exact ht (k1, v) (List.mem_cons_self _ _)
    · exact ih (fun kv hkv => ht kv (List.mem_cons_of_mem _ hkv))

theorem DemoBackend.calculateMacroRatios_sum (goal : String) :
    (DemoBackend.calculateMacroRatios goal).protein + (DemoBackend.calculateMacroRatios goal).carbs
      + (DemoBackend.calculateMacroRatios goal).fats = 100 :=
  lookup_getD_cases (fun r : MacroRatios => r.protein + r.carbs + r.fats = 100)
    DemoBackend.ratios DemoBackend.ratios.maintenance goal
    (by norm_num [DemoBackend.ratios.maintenance])
    (by
      intro kv hkv
      simp only [DemoBackend.ratios, List.mem_cons, List.mem_singleton, List.not_mem_nil,
        or_false] at hkv
      rcases hkv with h | h | h | h <;> subst h <;> norm_num [DemoBackend.ratios.maintenance])

theorem User.calculateMacros.ratios_sum (goal : String) :
    (User.calculateMacros.ratios goal).protein + (User.calculateMacros.ratios goal).carbs
      + (User.calculateMacros.ratios goal).fats = 1 :=
  lookup_getD_cases (fun r : MacroRatios => r.protein + r.carbs + r.fats = 1)
    User.macroRatios User.macroRatios.maintenance goal
    (by norm_num [User.macroRatios.maintenance])
    (by
      intro kv hkv
      simp only [User.macroRatios, List.mem_cons, List.mem_singleton, List.not_mem_nil,
        or_false] at hkv
      rcases hkv with h | h | h | h <;> subst h <;> norm_num [User.macroRatios.maintenance])

theorem Math.le_round_of_le (n : ℤ) (x : ℚ) (h : (n : ℚ) ≤ x) : n ≤ Math.round x := by
  have h1 := Math.lt_round x
  have h3 : ((n - 1 : ℤ) : ℚ) < (Math.round x : ℚ) := by push_cast; linarith
  have h4 : n - 1 < Math.round x := by exact_mod_cast h3
  omega

/-! ## Plan generation and meal totals -/

/-- C9, on the code: for every document of the User model, whatever the catalog query returns,
whatever the random draws and whether or not saving would succeed, `generatePersonalizedDietPlan`
ends in `Error('Failed to generate diet plan')`: the call `user.calculateMacroRatios()` names a
method the model does not define, so the calculator stage never completes. -/
theorem generatePersonalizedDietPlan_fails (u : User)
    (find : FoodQuery → Except JSError (List Food)) (draws : Draws)
    (save : PlanDocument → Except JSError PlanDocument) :
    generatePersonalizedDietPlan (User.asPlanUser u) find draws save
      = .error (.error "Failed to generate diet plan") := by
  simp only [generatePersonalizedDietPlan, generatePersonalizedDietPlan.attempt, User.asPlanUser]
  rfl

theorem generateMeal.totalNutrition_foldl (foods : List MealFood) (init : Nutrition) :
    foods.foldl (fun total food =>
      ({ calories := total.calories + food.nutrition.calories
         protein := total.protein + food.nutrition.protein
         carbs := total.carbs + food.nutrition.carbs
         fats := total.fats + food.nutrition.fats
         fiber := total.fiber + food.nutrition.fiber
         sodium := total.sodium + food.nutrition.sodium } : Nutrition)) init =
      { calories := init.calories + (foods.map (fun f => f.nutrition.calories)).sum
        protein := init.protein + (foods.map (fun f => f.nutrition.protein)).sum
        carbs := init.carbs + (foods.map (fun f => f.nutrition.carbs)).sum
        fats := init.fats + (foods.map (fun f => f.nutrition.fats)).sum
        fiber := init.fiber + (foods.map (fun f => f.nutrition.fiber)).sum
        sodium := init.sodium + (foods.map (fun f => f.nutrition.sodium)).sum } := by
  induction foods generalizing init with
  | nil => simp
  | cons f rest ih =>
    rw [List.foldl_cons, ih]
    simp only [List.map_cons, List.sum_cons, add_assoc]

theorem generateMeal.totalNutrition_eq (foods : List MealFood) :
    generateMeal.totalNutrition foods =
      { calories := (foods.map (fun f => f.nutrition.calories)).sum
        protein := (foods.map (fun f => f.nutrition.protein)).sum
        carbs := (foods.map (fun f => f.nutrition.carbs)).sum
        fats := (foods.map (fun f => f.nutrition.fats)).sum
        fiber := (foods.map (fun f => f.nutrition.fiber)).sum
        sodium := (foods.map (fun f => f.nutrition.sodium)).sum } := by
  rw [generateMeal.totalNutrition, generateMeal.totalNutrition_foldl]
  simp

theorem generateMeal.attempt_totalNutrition (mealType : String) (targetCalories : ℚ)
    (user : MealUser) (find : FoodQuery → Except JSError (List Food)) (draws : Draws) (pos : ℕ)
    (r : Meal × ℕ)
    (h : generateMeal.attempt mealType targetCalories user find draws pos = .ok r) :
    r.1.totalNutrition = generateMeal.totalNutrition r.1.foods := by
  unfold generateMeal.attempt at h
  cases hq : generateMeal.query user with
  | error e => simp [hq, Except.mapError, bind, Except.bind] at h
  | ok q =>
    cases hfind : find q with
    | error e => simp [hq, hfind, Except.mapError, bind, Except.bind] at h
    | ok foods =>
      simp only [hq, hfind, Except.mapError, bind, Except.bind] at h
      split at h
      · simp at h
      · simp only [pure, Except.pure, Except.ok.injEq] at h
        subst h
        rfl

theorem DemoBackend.selectMeal.visit_calories (acc : DemoNutrition × List DemoMealFood)
    (food : TemplateFood)
    (h : ∃ n : ℤ, acc.1.calories = n ∧ (acc.2.map (fun f => f.nutrition.calories)).sum = n) :
    ∃ n : ℤ, (DemoBackend.selectMeal.visit acc food).1.calories = n
      ∧ ((DemoBackend.selectMeal.visit acc food).2.map (fun f => f.nutrition.calories)).sum = n := by
  obtain ⟨n, h1, h2⟩ := h
  unfold DemoBackend.selectMeal.visit
  cases DEMO_FOODS.find? (fun f => f.id == food.foodId) with
  | none => exact ⟨n, h1, h2⟩
  | some foodData =>
    refine ⟨n + Math.round (foodData.calories * (food.quantity / 100)), ?_, ?_⟩
    · simp [h1]
    · simp [h2]

theorem DemoBackend.selectMeal.foldl_calories (foods : List TemplateFood)
    (acc : DemoNutrition × List DemoMealFood)
    (h : ∃ n : ℤ, acc.1.calories = n ∧ (acc.2.map (fun f => f.nutrition.calories)).sum = n) :
    ∃ n : ℤ, (foods.foldl DemoBackend.selectMeal.visit acc).1.calories = n
      ∧ ((foods.foldl DemoBackend.selectMeal.visit acc).2.map
          (fun f => f.nutrition.calories)).sum = n := by
  induction foods generalizing acc with
  | nil => exact h
  | cons f rest ih => exact ih _ (DemoBackend.selectMeal.visit_calories acc f h)

theorem DemoBackend.selectMeal_calories (mealType : String) (targetCalories : ℚ) (draws : Draws)
    (pos : ℕ) :
    (DemoBackend.selectMeal mealType targetCalories draws pos).1.nutrition.calories =
      ((DemoBackend.selectMeal mealType targetCalories draws pos).1.foods.map
        (fun f => f.nutrition.calories)).sum := by
  simp only [DemoBackend.selectMeal]
  cases jsIndex ((DEMO_MEALS.lookup mealType).getD [])
      ⌊(draws pos).val * ((DEMO_MEALS.lookup mealType).getD []).length⌋ with
  | none => simp
  | some selectedMeal =>
    obtain ⟨n, h1, h2⟩ := DemoBackend.selectMeal.foldl_calories selectedMeal.foods
      ({ calories := 0, protein := 0, carbs := 0, fats := 0 }, []) ⟨0, by simp, by simp⟩
    simp only [h1, h2, Math.round_intCast]

theorem generateMeal_totalNutrition (mealType : String) (targetCalories : ℚ) (user : MealUser)
    (find : FoodQuery → Except JSError (List Food)) (draws : Draws) (pos : ℕ) :
    (generateMeal mealType targetCalories user find draws pos).1.totalNutrition =
      generateMeal.totalNutrition
        (generateMeal mealType targetCalories user find draws pos).1.foods := by
  unfold generateMeal
  cases h : generateMeal.attempt mealType targetCalories user find draws pos with
  | ok r => exact generateMeal.attempt_totalNutrition _ _ _ _ _ _ r h
  | error e => rfl

/-- C10: for every meal `generateMeal` returns (the assembled one or the fallback of its
`catch`), each of the six fields of `totalNutrition` equals the sum of that field over the
nutrition records of the meal's foods, with no adjustment toward `targetCalories`; and the
calories of a meal `DemoBackend.selectMeal` returns equal the sum of its foods' calories. -/
theorem meal_totals_are_sums (mealType : String) (targetCalories : ℚ) (user : MealUser)
    (find : FoodQuery → Except JSError (List Food)) (draws : Draws) (pos : ℕ) :
    (generateMeal mealType targetCalories user find draws pos).1.totalNutrition =
        { calories := ((generateMeal mealType targetCalories user find draws pos).1.foods.map
            (fun f => f.nutrition.calories)).sum
          protein := ((generateMeal mealType targetCalories user find draws pos).1.foods.map
            (fun f => f.nutrition.protein)).sum
          carbs := ((generateMeal mealType targetCalories user find draws pos).1.foods.map
            (fun f => f.nutrition.carbs)).sum
          fats := ((generateMeal mealType targetCalories user find draws pos).1.foods.map
            (fun f => f.nutrition.fats)).sum
          fiber := ((generateMeal mealType targetCalories user find draws pos).1.foods.map
            (fun f => f.nutrition.fiber)).sum
          sodium := ((generateMeal mealType targetCalories user find draws pos).1.foods.map
            (fun f => f.nutrition.sodium)).sum }
      ∧ (DemoBackend.selectMeal mealType targetCalories draws pos).1.nutrition.calories =
        ((DemoBackend.selectMeal mealType targetCalories draws pos).1.foods.map
          (fun f => f.nutrition.calories)).sum := by
  constructor
  · rw [generateMeal_totalNutrition, generateMeal.totalNutrition_eq]
  · exact DemoBackend.selectMeal_calories mealType targetCalories draws pos

/-! ## The selection loop of `generateMeal` -/

theorem perm_cons_eraseIdx {α : Type} (l : List α) (n : ℕ) (a : α) (h : l.get? n = some a) :
    (a :: l.eraseIdx n).Perm l := by
  induction l generalizing n with
  | nil => simp at h
  | cons b rest ih =>
    cases n with
    | zero =>
      simp only [List.get?_cons_zero, Option.some.injEq] at h
      subst h
      simp
    | succ m =>
      simp only [List.get?_cons_succ] at h
      simp only [List.eraseIdx_cons_succ]
      exact (List.Perm.swap b a _).trans ((ih m h).cons b)

theorem jsIndex_some {α : Type} (xs : List α) (i : ℤ) (a : α) (h : jsIndex xs i = some a) :
    xs.get? i.toNat = some a := by
  unfold jsIndex at h
  split_ifs at h
  exact h

theorem generateMeal.Trace_append (target : ℚ) (tr : List (Food × MealFood)) (cur : ℚ)
    (p : Food × MealFood) :
    generateMeal.Trace target cur (tr ++ [p]) ↔
      generateMeal.Trace target cur tr ∧
        generateMeal.Added target (cur + (tr.map (fun x => x.2.nutrition.calories)).sum) p := by
  induction tr generalizing cur with
  | nil => simp [generateMeal.Trace]
  | cons x rest ih =>
    have h := ih (cur + x.2.nutrition.calories)
    show generateMeal.Added target cur x ∧
        generateMeal.Trace target (cur + x.2.nutrition.calories) (rest ++ [p]) ↔ _
    rw [h]
    simp only [generateMeal.Trace, List.map_cons, List.sum_cons, and_assoc, add_assoc]

theorem drawn_bounds (d : Draw) : 50 ≤ ⌊d.val * 150⌋ + 50 ∧ ⌊d.val * 150⌋ + 50 ≤ 199 := by
  have h0 : (0 : ℤ) ≤ ⌊d.val * 150⌋ := Int.floor_nonneg.mpr (by nlinarith [d.nonneg])
  have h1 : ⌊d.val * 150⌋ < 150 := by
    rw [Int.floor_lt]
    push_cast
    nlinarith [d.lt_one]
  omega

theorem generateMeal.quantity_facts (rem cal : ℚ) (r q : ℤ) (hrem : 0 < rem)
    (hq : generateMeal.quantity (generateMeal.maxQuantity rem cal) r = some q) (hpos : 0 < q) :
    q ≤ r ∧ (∀ n, generateMeal.maxQuantity rem cal = .finite n → q ≤ n)
      ∧ cal * ((q : ℚ) / 100) ≤ rem := by
  unfold generateMeal.maxQuantity at hq ⊢
  by_cases hc : cal = 0
  · simp only [hc, if_true, hrem, generateMeal.quantity, Option.some.injEq] at hq ⊢
    subst hq
    refine ⟨le_refl _, ?_, ?_⟩
    · intro n hn
      simp at hn
    · simp [hrem.le]
  · simp only [hc, if_false, generateMeal.quantity, Option.some.injEq] at hq ⊢
    subst hq
    refine ⟨min_le_right _ _, ?_, ?_⟩
    · intro n hn
      simp only [MaxQuantity.finite.injEq] at hn
      subst hn
      exact min_le_left _ _
    · have hn : 0 < ⌊rem / cal * 100⌋ := lt_of_lt_of_le hpos (min_le_left _ _)
      have hfl : ((⌊rem / cal * 100⌋ : ℤ) : ℚ) ≤ rem / cal * 100 := Int.floor_le _
      have hpos' : (0 : ℚ) < ((⌊rem / cal * 100⌋ : ℤ) : ℚ) := by exact_mod_cast hn
      have hdiv : 0 < rem / cal := by nlinarith
      have hcal : 0 < cal := by
        rcases lt_or_gt_of_ne hc with h | h
        · exact absurd hdiv (not_lt.mpr (div_nonpos_of_nonneg_of_nonpos hrem.le h.le))
        · exact h
      have hqle : ((min ⌊rem / cal * 100⌋ r : ℤ) : ℚ) ≤ rem / cal * 100 :=
        le_trans (by exact_mod_cast min_le_left _ _) hfl
      have : cal * (rem / cal * 100) = rem * 100 := by field_simp
      nlinarith

theorem generateMeal.loop_trace (target : ℚ) (draws : Draws) (cat : List Food) :
    ∀ (fuel : ℕ) (st st' : MealLoop) (tr : List (Food × MealFood)),
      st.selectedFoods = tr.map Prod.snd →
      generateMeal.Trace target 0 tr →
      st.currentCalories = (tr.map (fun x => x.2.nutrition.calories)).sum →
      (tr.map Prod.fst ++ st.availableFoods).Subperm cat →
      generateMeal.loop target draws fuel st = .ok st' →
      ∃ tr', st'.selectedFoods = tr'.map Prod.snd ∧ generateMeal.Trace target 0 tr'
        ∧ st'.currentCalories = (tr'.map (fun x => x.2.nutrition.calories)).sum
        ∧ (tr'.map Prod.fst ++ st'.availableFoods).Subperm cat
        ∧ tr'.length ≤ tr.length + fuel := by
  intro fuel
  induction fuel with
  | zero =>
    intro st st' tr h1 h2 h3 h4 h
    simp only [generateMeal.loop, Except.ok.injEq] at h
    subst h
    exact ⟨tr, h1, h2, h3, h4, le_refl _⟩
  | succ n ih =>
    intro st st' tr h1 h2 h3 h4 h
    rw [generateMeal.loop] at h
    split_ifs at h with hc
    · cases hidx : jsIndex st.availableFoods ⌊(draws st.pos).val * st.availableFoods.length⌋ with
      | none => simp [hidx] at h
      | some sf =>
        simp only [hidx] at h
        have hget := jsIndex_some _ _ _ hidx
        have hperm := perm_cons_eraseIdx _ _ _ hget
        have hskip : (tr.map Prod.fst ++ st.availableFoods.eraseIdx
            ⌊(draws st.pos).val * st.availableFoods.length⌋.toNat).Subperm cat :=
          (((List.eraseIdx_sublist _ _).append_left _).subperm).trans h4
        cases hq : generateMeal.quantity
            (generateMeal.maxQuantity (target - st.currentCalories) sf.nutrition.calories)
            (⌊(draws (st.pos + 1)).val * 150⌋ + 50) with
        | none =>
          simp only [hq] at h
          obtain ⟨tr', a1, a2, a3, a4, a5⟩ := ih
            { st with
              availableFoods := st.availableFoods.eraseIdx
                ⌊(draws st.pos).val * st.availableFoods.length⌋.toNat
              pos := st.pos + 2 } st' tr h1 h2 h3 hskip h
          exact ⟨tr', a1, a2, a3, a4, by omega⟩
        | some q =>
          simp only [hq] at h
          split_ifs at h with hpos
          · have hrem : 0 < target - st.currentCalories := by linarith [hc.2]
            obtain ⟨f1, f2, f3⟩ := generateMeal.quantity_facts _ _ _ _ hrem hq hpos
            have hd := drawn_bounds (draws (st.pos + 1))
            have hadded : generateMeal.Added target
                (0 + (tr.map (fun x => x.2.nutrition.calories)).sum)
                (sf, generateMeal.item sf q) := by
              rw [zero_add, ← h3]
              exact ⟨hc.2, q, hpos, by omega, f2, f3, rfl⟩
            obtain ⟨tr', a1, a2, a3, a4, a5⟩ := ih _ st' (tr ++ [(sf, generateMeal.item sf q)])
              (by simp [h1, generateMeal.item])
              ((generateMeal.Trace_append _ _ _ _).mpr ⟨h2, hadded⟩)
              (by simp [h3, generateMeal.item])
              (by
                refine List.Subperm.trans (List.Perm.subperm ?_) h4
                simp only [List.map_append, List.map_cons, List.map_nil, List.append_assoc,
                  List.singleton_append]
                exact hperm.append_left _)
              h
            exact ⟨tr', a1, a2, a3, a4, by simp at a5; omega⟩
          · obtain ⟨tr', a1, a2, a3, a4, a5⟩ := ih
              { st with
                availableFoods := st.availableFoods.eraseIdx
                  ⌊(draws st.pos).val * st.availableFoods.length⌋.toNat
                pos := st.pos + 2 } st' tr h1 h2 h3 hskip h
            exact ⟨tr', a1, a2, a3, a4, by omega⟩
    · simp only [Except.ok.injEq] at h
      subst h
      exact ⟨tr, h1, h2, h3, h4, by omega⟩

theorem generateMeal.attempt_trace (mealType : String) (target : ℚ) (user : MealUser)
    (find : FoodQuery → Except JSError (List Food)) (draws : Draws) (pos : ℕ) (r : Meal × ℕ)
    (h : generateMeal.attempt mealType target user find draws pos = .ok r) :
    ∃ q foods tr, generateMeal.query user = .ok q ∧ find q = .ok foods
      ∧ r.1.foods = tr.map Prod.snd ∧ generateMeal.Trace target 0 tr
      ∧ (tr.map Prod.fst).Subperm (foods.filter (generateMeal.mealAppropriate mealType))
      ∧ tr.length ≤ (⌊(draws pos).val * 3⌋ + 2).toNat := by
  unfold generateMeal.attempt at h
  cases hq : generateMeal.query user with
  | error e => simp [hq, Except.mapError, bind, Except.bind] at h
  | ok q =>
    cases hfind : find q with
    | error e => simp [hq, hfind, Except.mapError, bind, Except.bind] at h
    | ok foods =>
      simp only [hq, hfind, Except.mapError, bind, Except.bind] at h
      cases hloop : generateMeal.loop target draws (⌊(draws pos).val * 3⌋ + 2).toNat
          { availableFoods := foods.filter (generateMeal.mealAppropriate mealType)
            currentCalories := 0, selectedFoods := [], pos := pos + 1 } with
      | error e => simp [hloop] at h
      | ok st =>
        simp only [hloop, pure, Except.pure, Except.ok.injEq] at h
        subst h
        obtain ⟨tr, a1, a2, _, a4, a5⟩ := generateMeal.loop_trace target draws
          (foods.filter (generateMeal.mealAppropriate mealType)) _
          { availableFoods := foods.filter (generateMeal.mealAppropriate mealType)
            currentCalories := 0, selectedFoods := [], pos := pos + 1 } st [] rfl trivial rfl
          (List.Subperm.refl _) hloop
        refine ⟨q, foods, tr, rfl, hfind, a1, a2, ?_, by simpa using a5⟩
        exact ((List.sublist_append_left _ _).subperm).trans a4

theorem generateMeal_trace (mealType : String) (target : ℚ) (user : MealUser)
    (find : FoodQuery → Except JSError (List Food)) (draws : Draws) (pos : ℕ) :
    ∃ tr : List (Food × MealFood),
      (generateMeal mealType target user find draws pos).1.foods = tr.map Prod.snd
      ∧ generateMeal.Trace target 0 tr
      ∧ tr.length ≤ (⌊(draws pos).val * 3⌋ + 2).toNat
      ∧ (tr ≠ [] → ∃ q foods, generateMeal.query user = .ok q ∧ find q = .ok foods)
      ∧ (∀ q foods, generateMeal.query user = .ok q → find q = .ok foods →
          (tr.map Prod.fst).Subperm (foods.filter (generateMeal.mealAppropriate mealType))) := by
  unfold generateMeal
  cases h : generateMeal.attempt mealType target user find draws pos with
  | error e => exact ⟨[], rfl, trivial, by simp, by simp, by simp⟩
  | ok r =>
    obtain ⟨q, foods, tr, hq, hf, a1, a2, a3, a4⟩ :=
      generateMeal.attempt_trace mealType target user find draws pos r h
    refine ⟨tr, a1, a2, a4, fun _ => ⟨q, foods, hq, hf⟩, ?_⟩
    intro q' foods' hq' hf'
    rw [hq] at hq'
    cases hq'
    rw [hf] at hf'
    cases hf'
    exact a3

theorem generateMeal.Trace_mem (target : ℚ) (tr : List (Food × MealFood)) (cur : ℚ)
    (h : generateMeal.Trace target cur tr) (p : Food × MealFood) (hp : p ∈ tr) :
    ∃ cur', generateMeal.Added target cur' p := by
  induction tr generalizing cur with
  | nil => simp at hp
  | cons x rest ih =>
    rcases List.mem_cons.mp hp with rfl | hmem
    · exact ⟨cur, h.1⟩
    · exact ih _ h.2 hmem

/-! ## Meal calories against calories per 100 g -/

theorem DEMO_MEALS_foods_known :
    ∀ e ∈ DEMO_MEALS, ∀ t ∈ e.2, ∀ tf ∈ t.foods,
      (DEMO_FOODS.find? (fun f => f.id == tf.foodId)).map (fun f => f.calories)
        = some (DemoBackend.caloriesPer100 tf.name) := by
  simp [DEMO_MEALS, DEMO_FOODS, DemoBackend.caloriesPer100, List.find?]

theorem lookup_mem {β : Type} (k : String) (l : List (String × β)) (v : β)
    (h : l.lookup k = some v) : (k, v) ∈ l := by
  induction l with
  | nil => simp at h
  | cons kv rest ih =>
    obtain ⟨k1, v1⟩ := kv
    rw [lookup_cons] at h
    split_ifs at h with hk
    · simp only [Option.some.injEq] at h
      subst h; subst hk
      exact List.mem_cons_self _ _
    · exact List.mem_cons_of_mem _ (ih h)

theorem DemoBackend.selectMeal.visit_rounded (acc : DemoNutrition × List DemoMealFood)
    (food : TemplateFood)
    (hk : (DEMO_FOODS.find? (fun f => f.id == food.foodId)).map (fun f => f.calories)
      = some (DemoBackend.caloriesPer100 food.name))
    (h : ∃ n : ℤ, acc.1.calories = n ∧ (acc.2.map (fun f =>
      (Math.round (DemoBackend.caloriesPer100 f.name * (f.quantity / 100)) : ℚ))).sum = n) :
    ∃ n : ℤ, (DemoBackend.selectMeal.visit acc food).1.calories = n
      ∧ ((DemoBackend.selectMeal.visit acc food).2.map (fun f =>
        (Math.round (DemoBackend.caloriesPer100 f.name * (f.quantity / 100)) : ℚ))).sum = n := by
  obtain ⟨n, h1, h2⟩ := h
  unfold DemoBackend.selectMeal.visit
  cases hf : DEMO_FOODS.find? (fun f => f.id == food.foodId) with
  | none => simp [hf] at hk
  | some foodData =>
    simp only [hf, Option.map_some', Option.some.injEq] at hk
    refine ⟨n + Math.round (foodData.calories * (food.quantity / 100)), ?_, ?_⟩
    · simp [h1]
    · simp [h2, hk]

theorem DemoBackend.selectMeal.foldl_rounded (foods : List TemplateFood)
    (acc : DemoNutrition × List DemoMealFood)
    (hk : ∀ tf ∈ foods,
      (DEMO_FOODS.find? (fun f => f.id == tf.foodId)).map (fun f => f.calories)
        = some (DemoBackend.caloriesPer100 tf.name))
    (h : ∃ n : ℤ, acc.1.calories = n ∧ (acc.2.map (fun f =>
      (Math.round (DemoBackend.caloriesPer100 f.name * (f.quantity / 100)) : ℚ))).sum = n) :
    ∃ n : ℤ, (foods.foldl DemoBackend.selectMeal.visit acc).1.calories = n
      ∧ ((foods.foldl DemoBackend.selectMeal.visit acc).2.map (fun f =>
        (Math.round (DemoBackend.caloriesPer100 f.name * (f.quantity / 100)) : ℚ))).sum = n := by
  induction foods generalizing acc with
  | nil => exact h
  | cons f rest ih =>
    exact ih _ (fun tf htf => hk tf (List.mem_cons_of_mem _ htf))
      (DemoBackend.selectMeal.visit_rounded acc f (hk f (List.mem_cons_self _ _)) h)

theorem DemoBackend.selectMeal_rounded (mealType : String) (targetCalories : ℚ) (draws : Draws)
    (pos : ℕ) :
    (DemoBackend.selectMeal mealType targetCalories draws pos).1.nutrition.calories =
      ((DemoBackend.selectMeal mealType targetCalories draws pos).1.foods.map (fun f =>
        (Math.round (DemoBackend.caloriesPer100 f.name * (f.quantity / 100)) : ℚ))).sum := by
  simp only [DemoBackend.selectMeal]
  cases hidx : jsIndex ((DEMO_MEALS.lookup mealType).getD [])
      ⌊(draws pos).val * ((DEMO_MEALS.lookup mealType).getD []).length⌋ with
  | none => simp
  | some selectedMeal =>
    have hmem : selectedMeal ∈ (DEMO_MEALS.lookup mealType).getD [] :=
      List.get?_mem (jsIndex_some _ _ _ hidx)
    have hk : ∀ tf ∈ selectedMeal.foods,
        (DEMO_FOODS.find? (fun f => f.id == tf.foodId)).map (fun f => f.calories)
          = some (DemoBackend.caloriesPer100 tf.name) := by
      cases hl : DEMO_MEALS.lookup mealType with
      | none => simp [hl] at hmem
      | some ms =>
        simp only [hl, Option.getD_some] at hmem
        exact DEMO_MEALS_foods_known (mealType, ms) (lookup_mem _ _ _ hl) selectedMeal hmem
    obtain ⟨n, h1, h2⟩ := DemoBackend.selectMeal.foldl_rounded selectedMeal.foods
      ({ calories := 0, protein := 0, carbs := 0, fats := 0 }, []) hk ⟨0, by simp, by simp⟩
    simp only [h1, h2, Math.round_intCast]

theorem sum_round_sub_le {α : Type} (l : List α) (x : α → ℚ) :
    |(l.map (fun a => (Math.round (x a) : ℚ))).sum - (l.map x).sum| ≤ (l.length : ℚ) / 2 := by
  induction l with
  | nil => simp
  | cons a rest ih =>
    have h1 := Math.round_le (x a)
    have h2 := Math.lt_round (x a)
    rw [abs_le] at ih ⊢
    simp only [List.map_cons, List.sum_cons, List.length_cons, Nat.cast_add, Nat.cast_one]
    constructor <;> linarith [ih.1, ih.2]

theorem generateMeal_item_fields (target cur : ℚ) (p : Food × MealFood)
    (h : generateMeal.Added target cur p) :
    p.2.foodId = p.1._id ∧ p.2.name = p.1.name ∧ p.2.unit = "g" := by
  obtain ⟨_, q, _, _, _, _, hitem⟩ := h
  rw [hitem]
  exact ⟨rfl, rfl, rfl⟩

theorem demo_lunch_calories :
    (DemoBackend.selectMeal "lunch" (1709 * 0.35) zeroDraws 0).1.nutrition.calories = 417 := by
  have r1 : Math.round (165 * (120 / 100)) = 198 := by rw [Math.round_eq_iff]; norm_num
  have r2 : Math.round (123 * (150 / 100)) = 185 := by rw [Math.round_eq_iff]; norm_num
  have r3 : Math.round 34 = 34 := by rw [Math.round_eq_iff]; norm_num
  have r4 : Math.round 417 = 417 := by rw [Math.round_eq_iff]; norm_num
  simp [DemoBackend.selectMeal, DEMO_MEALS, List.lookup, jsIndex, zeroDraws,
    DemoBackend.selectMeal.visit, DEMO_FOODS, List.find?, r1, r2, r3]
  norm_num [r4]

theorem demo_lunch_specCalories :
    DemoBackend.specCalories
      (DemoBackend.selectMeal "lunch" (1709 * 0.35) zeroDraws 0).1.foods = 833 / 2 := by
  simp [DemoBackend.selectMeal, DEMO_MEALS, List.lookup, jsIndex, zeroDraws,
    DemoBackend.selectMeal.visit, DEMO_FOODS, List.find?, DemoBackend.specCalories,
    DemoBackend.caloriesPer100]
  norm_num

/-- C11 as stated fails: the demo lunch selected by a draw of 0 ("Balanced Lunch": 120 g chicken
breast, 150 g brown rice, 100 g broccoli) has 417 calories, while the sum over its items of
calories per 100 g × quantity / 100 is 416.5. -/
theorem selectMeal_calories_ne_unrounded_sum :
    (DemoBackend.selectMeal "lunch" (1709 * 0.35) zeroDraws 0).1.nutrition.calories ≠
      DemoBackend.specCalories
        (DemoBackend.selectMeal "lunch" (1709 * 0.35) zeroDraws 0).1.foods := by
  rw [demo_lunch_calories, demo_lunch_specCalories]
  norm_num

/-! ## Quantities, item count and selection without replacement -/

theorem generateMeal_quantity_range (mealType : String) (target : ℚ) (user : MealUser)
    (find : FoodQuery → Except JSError (List Food)) (draws : Draws) (pos : ℕ) (f : MealFood)
    (hf : f ∈ (generateMeal mealType target user find draws pos).1.foods) :
    ∃ q : ℤ, f.quantity = q ∧ 0 < q ∧ q ≤ 199 := by
  obtain ⟨tr, a1, a2, _, _, _⟩ := generateMeal_trace mealType target user find draws pos
  rw [a1] at hf
  obtain ⟨p, hp, rfl⟩ := List.mem_map.mp hf
  obtain ⟨cur', _, q, h1, h2, _, _, hitem⟩ := generateMeal.Trace_mem target tr 0 a2 p hp
  exact ⟨q, by rw [hitem]; rfl, h1, h2⟩

theorem example_breakfast_foods :
    (generateMeal "breakfast" 400 veganUser (fun _ => .ok [lightFood]) zeroDraws 0).1.foods
      = [generateMeal.item lightFood 50] := by
  have f1 : ⌊(400 : ℚ) / 50 * 100⌋ = 800 := by rw [Int.floor_eq_iff]; norm_num
  simp [generateMeal, generateMeal.attempt, generateMeal.query, veganUser, Except.mapError, bind,
    Except.bind, generateMeal.mealAppropriate, lightFood, zeroDraws, generateMeal.loop, jsIndex,
    generateMeal.maxQuantity, generateMeal.quantity, f1, pure, Except.pure, generateMeal.item]

/-- C12: whatever the catalog query returns, the target and the random draws, every food item of
the meal `generateMeal` returns has an integer quantity `q` with `0 < q ≤ 200` grams. -/
theorem generateMeal_quantity_within_cap (mealType : String) (targetCalories : ℚ)
    (user : MealUser) (find : FoodQuery → Except JSError (List Food)) (draws : Draws) (pos : ℕ)
    (f : MealFood)
    (hf : f ∈ (generateMeal mealType targetCalories user find draws pos).1.foods) :
    ∃ q : ℤ, f.quantity = q ∧ 0 < q ∧ q ≤ 200 := by
  obtain ⟨q, h1, h2, h3⟩ :=
    generateMeal_quantity_range mealType targetCalories user find draws pos f hf
  exact ⟨q, h1, h2, by omega⟩

/-- Witness of C12, the spec's example: a breakfast with target 400 from a catalog of one food
of 50 kcal per 100 g has a single item, and its quantity is an integer in 1..200, not the 800 g
the calorie budget alone would allow. -/
theorem generateMeal_quantity_within_cap_witness :
    (generateMeal "breakfast" 400 veganUser (fun _ => .ok [lightFood]) zeroDraws 0).1.foods
        = [generateMeal.item lightFood 50]
      ∧ ∃ q : ℤ, (generateMeal.item lightFood 50).quantity = q ∧ 0 < q ∧ q ≤ 200 :=
  ⟨example_breakfast_foods,
    generateMeal_quantity_within_cap "breakfast" 400 veganUser (fun _ => .ok [lightFood])
      zeroDraws 0 (generateMeal.item lightFood 50)
      (by rw [example_breakfast_foods]; exact List.mem_singleton_self _)⟩

theorem numFoods_bounds (d : Draw) : 2 ≤ ⌊d.val * 3⌋ + 2 ∧ ⌊d.val * 3⌋ + 2 ≤ 4 := by
  have h0 : (0 : ℤ) ≤ ⌊d.val * 3⌋ := Int.floor_nonneg.mpr (by nlinarith [d.nonneg])
  have h1 : ⌊d.val * 3⌋ < 3 := by
    rw [Int.floor_lt]
    push_cast
    nlinarith [d.lt_one]
  omega

theorem generateMeal_foodIds (mealType : String) (target : ℚ) (user : MealUser)
    (find : FoodQuery → Except JSError (List Food)) (draws : Draws) (pos : ℕ) :
    ((generateMeal mealType target user find draws pos).1.foods.length : ℤ)
        ≤ ⌊(draws pos).val * 3⌋ + 2
      ∧ ∀ q foods, generateMeal.query user = .ok q → find q = .ok foods →
          ((generateMeal mealType target user find draws pos).1.foods.map
            (fun f => f.foodId)).Subperm (foods.map (fun food => food._id)) := by
  obtain ⟨tr, a1, a2, a3, _, a5⟩ := generateMeal_trace mealType target user find draws pos
  have hb := numFoods_bounds (draws pos)
  refine ⟨?_, ?_⟩
  · rw [a1, List.length_map]
    have : ((⌊(draws pos).val * 3⌋ + 2).toNat : ℤ) = ⌊(draws pos).val * 3⌋ + 2 :=
      Int.toNat_of_nonneg (by omega)
    have h3 : (tr.length : ℤ) ≤ ((⌊(draws pos).val * 3⌋ + 2).toNat : ℤ) := by exact_mod_cast a3
    omega
  · intro q foods hq hfind
    have hsub : (tr.map Prod.fst).Subperm foods :=
      (a5 q foods hq hfind).trans (List.filter_sublist _).subperm
    have hids : (generateMeal mealType target user find draws pos).1.foods.map
        (fun f => f.foodId) = (tr.map Prod.fst).map (fun food => food._id) := by
      rw [a1, List.map_map, List.map_map]
      apply List.map_congr_left
      intro p hp
      obtain ⟨cur', hadd⟩ := generateMeal.Trace_mem target tr 0 a2 p hp
      exact (generateMeal_item_fields _ _ _ hadd).1
    rw [hids]
    obtain ⟨l, hperm, hsl⟩ := hsub
    exact ⟨l.map (fun food => food._id), hperm.map _, hsl.map _⟩

theorem nodup_of_subperm {α : Type} (l₁ l₂ : List α) (h : l₁.Subperm l₂) (hn : l₂.Nodup) :
    l₁.Nodup := by
  obtain ⟨l, hperm, hsub⟩ := h
  exact hperm.nodup_iff.mp (hn.sublist hsub)

/-- C13: whatever the catalog query returns and the random draws, `generateMeal` draws an item
count in {2, 3, 4}, returns a meal with at most that many items (so at most 4), and selects
without replacement: the meal uses each entry the catalog query returned at most once, so when
those entries have distinct ids no id appears twice in the meal. -/
theorem generateMeal_count_and_no_repeat (mealType : String) (targetCalories : ℚ)
    (user : MealUser) (find : FoodQuery → Except JSError (List Food)) (draws : Draws) (pos : ℕ) :
    (⌊(draws pos).val * 3⌋ + 2 = 2 ∨ ⌊(draws pos).val * 3⌋ + 2 = 3
        ∨ ⌊(draws pos).val * 3⌋ + 2 = 4)
      ∧ ((generateMeal mealType targetCalories user find draws pos).1.foods.length : ℤ)
          ≤ ⌊(draws pos).val * 3⌋ + 2
      ∧ (generateMeal mealType targetCalories user find draws pos).1.foods.length ≤ 4
      ∧ ∀ q foods, generateMeal.query user = .ok q → find q = .ok foods →
          ((generateMeal mealType targetCalories user find draws pos).1.foods.map
              (fun f => f.foodId)).Subperm (foods.map (fun food => food._id))
          ∧ ((foods.map (fun food => food._id)).Nodup →
              ((generateMeal mealType targetCalories user find draws pos).1.foods.map
                (fun f => f.foodId)).Nodup) := by
  have hb := numFoods_bounds (draws pos)
  obtain ⟨h1, h2⟩ := generateMeal_foodIds mealType targetCalories user find draws pos
  refine ⟨by omega, h1, by omega, ?_⟩
  intro q foods hq hfind
  exact ⟨h2 q foods hq hfind, nodup_of_subperm _ _ (h2 q foods hq hfind)⟩

/-- Witness of C13 on the spec's example: the one-food catalog yields a one-item meal whose
ids are a sub-multiset of the catalog's. -/
theorem generateMeal_count_and_no_repeat_witness :
    ((generateMeal "breakfast" 400 veganUser (fun _ => .ok [lightFood]) zeroDraws 0).1.foods.map
        (fun f => f.foodId)).Subperm ([lightFood].map (fun food => food._id))
      ∧ (generateMeal "breakfast" 400 veganUser (fun _ => .ok [lightFood])
          zeroDraws 0).1.foods.length ≤ 4 :=
  ⟨((generateMeal_count_and_no_repeat "breakfast" 400 veganUser (fun _ => .ok [lightFood])
      zeroDraws 0).2.2.2 _ [lightFood] rfl rfl).1,
   (generateMeal_count_and_no_repeat "breakfast" 400 veganUser (fun _ => .ok [lightFood])
      zeroDraws 0).2.2.1⟩

/-! ## Degraded meals, meal-type tags and dietary constraints -/

theorem generateMeal_foods_nil (mealType : String) (target : ℚ) (user : MealUser)
    (find : FoodQuery → Except JSError (List Food)) (draws : Draws) (pos : ℕ)
    (hempty : ∀ q foods, find q = .ok foods →
      foods.filter (generateMeal.mealAppropriate mealType) = []) :
    (generateMeal mealType target user find draws pos).1.foods = [] := by
  obtain ⟨tr, a1, _, _, a4, a5⟩ := generateMeal_trace mealType target user find draws pos
  by_cases htr : tr = []
  · rw [a1, htr]; rfl
  · obtain ⟨q, foods, hq, hf⟩ := a4 htr
    have hsub := a5 q foods hq hf
    rw [hempty q foods hf] at hsub
    have hnil : tr.map Prod.fst = [] := List.subperm_nil.mp hsub
    exact absurd (List.map_eq_nil_iff.mp hnil) htr

theorem DemoBackend.selectMeal_placeholder (mealType : String) (target : ℚ) (draws : Draws)
    (pos : ℕ) (hnone : (DEMO_MEALS.lookup mealType).getD [] = []) :
    (DemoBackend.selectMeal mealType target draws pos).1.name = "Sample " ++ mealType
      ∧ (DemoBackend.selectMeal mealType target draws pos).1.foods = []
      ∧ (DemoBackend.selectMeal mealType target draws pos).1.nutrition
          = { calories := 0, protein := 0, carbs := 0, fats := 0 } := by
  simp [DemoBackend.selectMeal, hnone, jsIndex]

/-- C15: when no compatible item exists the meal selector returns a degraded meal instead of
failing: `generateMeal`, when the meal-appropriate part of what the catalog query returns is
empty, returns `foods = []` and a `totalNutrition` whose six fields are 0; and
`DemoBackend.selectMeal`, for a meal type with no templates, returns the name
`'Sample <mealType>'`, `foods = []` and all-zero nutrition. -/
theorem degraded_meal_when_nothing_compatible (mealType demoMealType : String)
    (targetCalories : ℚ) (user : MealUser) (find : FoodQuery → Except JSError (List Food))
    (draws : Draws) (pos : ℕ)
    (hempty : ∀ q foods, find q = .ok foods →
      foods.filter (generateMeal.mealAppropriate mealType) = [])
    (hnone : (DEMO_MEALS.lookup demoMealType).getD [] = []) :
    ((generateMeal mealType targetCalories user find draws pos).1.foods = []
        ∧ (generateMeal mealType targetCalories user find draws pos).1.totalNutrition
            = { calories := 0, protein := 0, carbs := 0, fats := 0, fiber := 0, sodium := 0 })
      ∧ (DemoBackend.selectMeal demoMealType targetCalories draws pos).1.name
          = "Sample " ++ demoMealType
      ∧ (DemoBackend.selectMeal demoMealType targetCalories draws pos).1.foods = []
      ∧ (DemoBackend.selectMeal demoMealType targetCalories draws pos).1.nutrition
          = { calories := 0, protein := 0, carbs := 0, fats := 0 } := by
  have h := generateMeal_foods_nil mealType targetCalories user find draws pos hempty
  refine ⟨⟨h, ?_⟩, DemoBackend.selectMeal_placeholder demoMealType targetCalories draws pos hnone⟩
  rw [generateMeal_totalNutrition, h]
  rfl

/-- Witness of C15: a catalog query that returns nothing, and the demo meal type `'brunch'`,
which has no templates. -/
theorem degraded_meal_when_nothing_compatible_witness :
    ((generateMeal "breakfast" 400 veganUser (fun _ => .ok []) zeroDraws 0).1.foods = []
        ∧ (generateMeal "breakfast" 400 veganUser (fun _ => .ok []) zeroDraws 0).1.totalNutrition
            = { calories := 0, protein := 0, carbs := 0, fats := 0, fiber := 0, sodium := 0 })
      ∧ (DemoBackend.selectMeal "brunch" 400 zeroDraws 0).1.name = "Sample " ++ "brunch"
      ∧ (DemoBackend.selectMeal "brunch" 400 zeroDraws 0).1.foods = []
      ∧ (DemoBackend.selectMeal "brunch" 400 zeroDraws 0).1.nutrition
          = { calories := 0, protein := 0, carbs := 0, fats := 0 } :=
  degraded_meal_when_nothing_compatible "breakfast" "brunch" 400 veganUser (fun _ => .ok [])
    zeroDraws 0
    (by
      intro q foods h
      simp only [Except.ok.injEq] at h
      subst h
      rfl)
    (by simp [DEMO_MEALS, List.lookup])

theorem generateMeal_food_source (mealType : String) (target : ℚ) (user : MealUser)
    (find : FoodQuery → Except JSError (List Food)) (draws : Draws) (pos : ℕ) (f : MealFood)
    (hf : f ∈ (generateMeal mealType target user find draws pos).1.foods) :
    ∃ q foods food, generateMeal.query user = .ok q ∧ find q = .ok foods ∧ food ∈ foods
      ∧ generateMeal.mealAppropriate mealType food = true
      ∧ food._id = f.foodId ∧ food.name = f.name := by
  obtain ⟨tr, a1, a2, _, a4, a5⟩ := generateMeal_trace mealType target user find draws pos
  rw [a1] at hf
  obtain ⟨p, hp, rfl⟩ := List.mem_map.mp hf
  have htr : tr ≠ [] := List.ne_nil_of_mem hp
  obtain ⟨q, foods, hq, hfind⟩ := a4 htr
  have hmem : p.1 ∈ foods.filter (generateMeal.mealAppropriate mealType) :=
    (a5 q foods hq hfind).subset (List.mem_map_of_mem _ hp)
  obtain ⟨cur', hadd⟩ := generateMeal.Trace_mem target tr 0 a2 p hp
  have hfields := generateMeal_item_fields _ _ _ hadd
  rw [List.mem_filter] at hmem
  exact ⟨q, foods, p.1, hq, hfind, hmem.1, hmem.2, hfields.1.symm, hfields.2.1.symm⟩

theorem generateMeal.mealAppropriate_iff (mealType : String) (food : Food) :
    generateMeal.mealAppropriate mealType food = true ↔
      (food.cuisineInfo.commonUses = none
        ∨ ∃ uses, food.cuisineInfo.commonUses = some uses ∧ (mealType ∈ uses ∨ uses = [])) := by
  unfold generateMeal.mealAppropriate
  cases h : food.cuisineInfo.commonUses with
  | none => simp
  | some uses => simp [List.length_eq_zero]

/-- C16: every food in the meal `generateMeal` returns was made from a food the catalog query
returned that either lists the meal type in its `cuisineInfo.commonUses` or has an empty or
missing `commonUses` list; a food tagged only for other meal types is never selected. -/
theorem generateMeal_foods_suit_meal_type (mealType : String) (targetCalories : ℚ)
    (user : MealUser) (find : FoodQuery → Except JSError (List Food)) (draws : Draws) (pos : ℕ)
    (f : MealFood)
    (hf : f ∈ (generateMeal mealType targetCalories user find draws pos).1.foods) :
    ∃ q foods food, generateMeal.query user = .ok q ∧ find q = .ok foods ∧ food ∈ foods
      ∧ food._id = f.foodId ∧ food.name = f.name
      ∧ (food.cuisineInfo.commonUses = none
        ∨ ∃ uses, food.cuisineInfo.commonUses = some uses
            ∧ (mealType ∈ uses ∨ uses = [])) := by
  obtain ⟨q, foods, food, h1, h2, h3, h4, h5, h6⟩ :=
    generateMeal_food_source mealType targetCalories user find draws pos f hf
  exact ⟨q, foods, food, h1, h2, h3, h5, h6,
    (generateMeal.mealAppropriate_iff mealType food).mp h4⟩

/-- Witness of C16 on the spec's example: the porridge item of the breakfast comes from a food
tagged for breakfast. -/
theorem generateMeal_foods_suit_meal_type_witness :
    ∃ q foods food, generateMeal.query veganUser = .ok q
      ∧ (fun _ => .ok [lightFood] : FoodQuery → Except JSError (List Food)) q = .ok foods
      ∧ food ∈ foods
      ∧ food._id = (generateMeal.item lightFood 50).foodId
      ∧ food.name = (generateMeal.item lightFood 50).name
      ∧ (food.cuisineInfo.commonUses = none
        ∨ ∃ uses, food.cuisineInfo.commonUses = some uses
            ∧ ("breakfast" ∈ uses ∨ uses = [])) :=
  generateMeal_foods_suit_meal_type "breakfast" 400 veganUser (fun _ => .ok [lightFood])
    zeroDraws 0 (generateMeal.item lightFood 50)
    (by rw [example_breakfast_foods]; exact List.mem_singleton_self _)

theorem generateMeal.query_spec (user : MealUser) (q : FoodQuery)
    (h : generateMeal.query user = .ok q) :
    q.isActive = true
      ∧ (user.dietType = "vegetarian" → q.isVegetarian = true)
      ∧ (user.dietType = "vegan" → q.isVegan = true)
      ∧ (user.dietType = "keto" → q.isKeto = true)
      ∧ (user.dietType = "paleo" → q.isPaleo = true)
      ∧ (∀ allergies, user.allergies = some allergies → allergies ≠ [] →
          q.allergensNin = some allergies) := by
  obtain ⟨dt, al⟩ := user
  cases al with
  | none => simp [generateMeal.query] at h
  | some allergies =>
    by_cases hlen : allergies.length > 0
    · by_cases h1 : dt = "vegetarian"
      · subst h1
        simp [generateMeal.query, hlen] at h
        subst h
        simp
      · by_cases h2 : dt = "vegan"
        · subst h2
          simp [generateMeal.query, hlen] at h
          subst h
          simp
        · by_cases h3 : dt = "keto"
          · subst h3
            simp [generateMeal.query, hlen] at h
            subst h
            simp
          · by_cases h4 : dt = "paleo"
            · subst h4
              simp [generateMeal.query, hlen] at h
              subst h
              simp
            · simp [generateMeal.query, hlen, h1, h2, h3, h4] at h
              subst h
              simp [h1, h2, h3, h4]
    · have hnil : allergies = [] := by
        cases allergies with
        | nil => rfl
        | cons a rest => simp at hlen
      subst hnil
      by_cases h1 : dt = "vegetarian"
      · subst h1
        simp [generateMeal.query] at h
        subst h
        simp
      · by_cases h2 : dt = "vegan"
        · subst h2
          simp [generateMeal.query] at h
          subst h
          simp
        · by_cases h3 : dt = "keto"
          · subst h3
            simp [generateMeal.query] at h
            subst h
            simp
          · by_cases h4 : dt = "paleo"
            · subst h4
              simp [generateMeal.query] at h
              subst h
              simp
            · simp [generateMeal.query, h1, h2, h3, h4] at h
              subst h
              simp [h1, h2, h3, h4]

theorem FoodQuery.matches_spec (q : FoodQuery) (food : Food) (h : q.matches food = true) :
    (q.isActive = true → food.isActive = true)
      ∧ (q.isVegetarian = true → food.dietaryInfo.isVegetarian = true)
      ∧ (q.isVegan = true → food.dietaryInfo.isVegan = true)
      ∧ (q.isKeto = true → food.dietaryInfo.isKeto = true)
      ∧ (q.isPaleo = true → food.dietaryInfo.isPaleo = true)
      ∧ (∀ list, q.allergensNin = some list → ∀ a ∈ list, a ∉ food.allergens) := by
  unfold FoodQuery.matches at h
  simp only [Bool.and_eq_true, Bool.or_eq_true, Bool.not_eq_true'] at h
  obtain ⟨⟨⟨⟨⟨h1, h2⟩, h3⟩, h4⟩, h5⟩, h6⟩ := h
  refine ⟨?_, ?_, ?_, ?_, ?_, ?_⟩
  · intro hq; rcases h1 with h | h
    · rw [hq] at h; cases h
    · exact h
  · intro hq; rcases h2 with h | h
    · rw [hq] at h; cases h
    · exact h
  · intro hq; rcases h3 with h | h
    · rw [hq] at h; cases h
    · exact h
  · intro hq; rcases h4 with h | h
    · rw [hq] at h; cases h
    · exact h
  · intro hq; rcases h5 with h | h
    · rw [hq] at h; cases h
    · exact h
  · intro list hl a ha hmem
    rw [hl] at h6
    simp only [List.all_eq_true, Bool.not_eq_true'] at h6
    have h7 := h6 a hmem
    have h8 : list.contains a = true := by simpa using ha
    rw [h7] at h8
    cases h8

theorem generateMeal_constraints (mealType : String) (target : ℚ) (user : MealUser)
    (find : FoodQuery → Except JSError (List Food)) (draws : Draws) (pos : ℕ)
    (hfind : ∀ q foods, find q = .ok foods → ∀ food ∈ foods, q.matches food = true)
    (f : MealFood) (hf : f ∈ (generateMeal mealType target user find draws pos).1.foods) :
    ∃ q foods food, generateMeal.query user = .ok q ∧ find q = .ok foods ∧ food ∈ foods
      ∧ food._id = f.foodId ∧ food.name = f.name
      ∧ food.isActive = true
      ∧ (user.dietType = "vegetarian" → food.dietaryInfo.isVegetarian = true)
      ∧ (user.dietType = "vegan" → food.dietaryInfo.isVegan = true)
      ∧ (user.dietType = "keto" → food.dietaryInfo.isKeto = true)
      ∧ (user.dietType = "paleo" → food.dietaryInfo.isPaleo = true)
      ∧ (∀ allergies, user.allergies = some allergies → allergies ≠ [] →
          ∀ a ∈ allergies, a ∉ food.allergens) := by
  obtain ⟨q, foods, food, hq, hfd, hmem, _, hid, hname⟩ :=
    generateMeal_food_source mealType target user find draws pos f hf
  obtain ⟨m1, m2, m3, m4, m5, m6⟩ := FoodQuery.matches_spec q food (hfind q foods hfd food hmem)
  obtain ⟨q1, q2, q3, q4, q5, q6⟩ := generateMeal.query_spec user q hq
  exact ⟨q, foods, food, hq, hfd, hmem, hid, hname, m1 q1, fun h => m2 (q2 h),
    fun h => m3 (q3 h), fun h => m4 (q4 h), fun h => m5 (q5 h),
    fun l hl hne => m6 l (q6 l hl hne)⟩

/-- C17: assuming `Food.find` returns only catalog entries that match the query `generateMeal`
builds, every food in a generated meal was made from an entry that `Food.find` returned for that
query, and this entry is active, has the dietary flag of the user's diet type when that type is
vegetarian, vegan, keto or paleo, and contains none of the allergens of the user's `allergies`
list whenever that list is non-empty. -/
theorem generateMeal_foods_meet_dietary_constraints (mealType : String) (targetCalories : ℚ)
    (user : MealUser) (find : FoodQuery → Except JSError (List Food)) (draws : Draws) (pos : ℕ)
    (hfind : ∀ q foods, find q = .ok foods → ∀ food ∈ foods, q.matches food = true)
    (f : MealFood)
    (hf : f ∈ (generateMeal mealType targetCalories user find draws pos).1.foods) :
    ∃ q foods food, generateMeal.query user = .ok q ∧ find q = .ok foods ∧ food ∈ foods
      ∧ food._id = f.foodId ∧ food.name = f.name
      ∧ food.isActive = true
      ∧ (user.dietType = "vegetarian" → food.dietaryInfo.isVegetarian = true)
      ∧ (user.dietType = "vegan" → food.dietaryInfo.isVegan = true)
      ∧ (user.dietType = "keto" → food.dietaryInfo.isKeto = true)
      ∧ (user.dietType = "paleo" → food.dietaryInfo.isPaleo = true)
      ∧ (∀ allergies, user.allergies = some allergies → allergies ≠ [] →
          ∀ a ∈ allergies, a ∉ food.allergens) :=
  generateMeal_constraints mealType targetCalories user find draws pos hfind f hf

theorem example_allergic_breakfast_foods :
    (generateMeal "breakfast" 400 allergicUser exampleFind zeroDraws 0).1.foods
      = [generateMeal.item lightFood 50] := by
  have f1 : ⌊(400 : ℚ) / 50 * 100⌋ = 800 := by rw [Int.floor_eq_iff]; norm_num
  simp [generateMeal, generateMeal.attempt, generateMeal.query, allergicUser, exampleFind,
    FoodQuery.matches, nutFood, Except.mapError, bind,
    Except.bind, generateMeal.mealAppropriate, lightFood, zeroDraws, generateMeal.loop, jsIndex,
    generateMeal.maxQuantity, generateMeal.quantity, f1, pure, Except.pure, generateMeal.item]

/-- Witness of C17: a vegan user allergic to nuts and a catalog of almond butter and porridge;
the breakfast holds the porridge only. -/
theorem generateMeal_foods_meet_dietary_constraints_witness :
    (generateMeal "breakfast" 400 allergicUser exampleFind zeroDraws 0).1.foods
        = [generateMeal.item lightFood 50]
      ∧ ∃ q foods food, generateMeal.query allergicUser = .ok q ∧ exampleFind q = .ok foods
        ∧ food ∈ foods
        ∧ food._id = (generateMeal.item lightFood 50).foodId
        ∧ food.name = (generateMeal.item lightFood 50).name
        ∧ food.isActive = true
        ∧ (allergicUser.dietType = "vegetarian" → food.dietaryInfo.isVegetarian = true)
        ∧ (allergicUser.dietType = "vegan" → food.dietaryInfo.isVegan = true)
        ∧ (allergicUser.dietType = "keto" → food.dietaryInfo.isKeto = true)
        ∧ (allergicUser.dietType = "paleo" → food.dietaryInfo.isPaleo = true)
        ∧ (∀ allergies, allergicUser.allergies = some allergies → allergies ≠ [] →
            ∀ a ∈ allergies, a ∉ food.allergens) :=
  ⟨example_allergic_breakfast_foods,
    generateMeal_foods_meet_dietary_constraints "breakfast" 400 allergicUser exampleFind
      zeroDraws 0
      (by
        intro q foods h food hfood
        simp only [exampleFind, Except.ok.injEq] at h
        subst h
        exact (List.mem_filter.mp hfood).2)
      (generateMeal.item lightFood 50)
      (by rw [example_allergic_breakfast_foods]; exact List.mem_singleton_self _)⟩

/-! ## The weekly plan -/

theorem generateWeeklyMealPlan.foldl_spec (user : MealUser) (dc : ℚ)
    (find : FoodQuery → Except JSError (List Food)) (draws : Draws) (days : List String)
    (acc : List DayPlan × ℕ) :
    ((days.foldl (generateWeeklyMealPlan.visit user dc find draws) acc).1.map (fun d => d.day)
        = acc.1.map (fun d => d.day) ++ days)
      ∧ ∀ d ∈ (days.foldl (generateWeeklyMealPlan.visit user dc find draws) acc).1,
          d ∈ acc.1 ∨ ∃ p1 p2 p3 p4 : ℕ,
            d.meals.breakfast = (generateMeal "breakfast" (0.25 * dc) user find draws p1).1
            ∧ d.meals.lunch = (generateMeal "lunch" (0.35 * dc) user find draws p2).1
            ∧ d.meals.dinner = (generateMeal "dinner" (0.30 * dc) user find draws p3).1
            ∧ d.meals.snacks = (generateMeal "snack" (0.10 * dc) user find draws p4).1 := by
  induction days generalizing acc with
  | nil => exact ⟨by simp, fun d hd => Or.inl hd⟩
  | cons day rest ih =>
    obtain ⟨h1, h2⟩ := ih (generateWeeklyMealPlan.visit user dc find draws acc day)
    rw [List.foldl_cons]
    refine ⟨?_, ?_⟩
    · rw [h1]
      simp [generateWeeklyMealPlan.visit]
    · intro d hd
      rcases h2 d hd with h | h
      · simp only [generateWeeklyMealPlan.visit, List.mem_append, List.mem_singleton] at h
        rcases h with h | h
        · exact Or.inl h
        · have e1 : dc * 0.25 = 0.25 * dc := mul_comm _ _
          have e2 : dc * 0.35 = 0.35 * dc := mul_comm _ _
          have e3 : dc * 0.3 = 0.30 * dc := by ring
          have e4 : dc * 0.1 = 0.10 * dc := by ring
          rw [e1, e2, e3, e4] at h
          subst h
          exact Or.inr ⟨_, _, _, _, rfl, rfl, rfl, rfl⟩
      · exact Or.inr h

theorem DemoBackend.generateWeeklyMealPlan.demo_foldl_spec (dc : ℚ) (draws : Draws)
    (days : List String) (acc : List DemoDayPlan × ℕ) :
    ((days.foldl (DemoBackend.generateWeeklyMealPlan.visit dc draws) acc).1.map (fun d => d.day)
        = acc.1.map (fun d => d.day) ++ days)
      ∧ ∀ d ∈ (days.foldl (DemoBackend.generateWeeklyMealPlan.visit dc draws) acc).1,
          d ∈ acc.1 ∨ ∃ p1 p2 p3 p4 : ℕ,
            d.meals.breakfast = (DemoBackend.selectMeal "breakfast" (0.25 * dc) draws p1).1
            ∧ d.meals.lunch = (DemoBackend.selectMeal "lunch" (0.35 * dc) draws p2).1
            ∧ d.meals.dinner = (DemoBackend.selectMeal "dinner" (0.30 * dc) draws p3).1
            ∧ d.meals.snack = (DemoBackend.selectMeal "snack" (0.10 * dc) draws p4).1 := by
  induction days generalizing acc with
  | nil => exact ⟨by simp, fun d hd => Or.inl hd⟩
  | cons day rest ih =>
    obtain ⟨h1, h2⟩ := ih (DemoBackend.generateWeeklyMealPlan.visit dc draws acc day)
    rw [List.foldl_cons]
    refine ⟨?_, ?_⟩
    · rw [h1]
      simp [DemoBackend.generateWeeklyMealPlan.visit]
    · intro d hd
      rcases h2 d hd with h | h
      · simp only [DemoBackend.generateWeeklyMealPlan.visit, List.mem_append,
          List.mem_singleton] at h
        rcases h with h | h
        · exact Or.inl h
        · have e1 : dc * 0.25 = 0.25 * dc := mul_comm _ _
          have e2 : dc * 0.35 = 0.35 * dc := mul_comm _ _
          have e3 : dc * 0.3 = 0.30 * dc := by ring
          have e4 : dc * 0.1 = 0.10 * dc := by ring
          rw [e1, e2, e3, e4] at h
          subst h
          exact Or.inr ⟨_, _, _, _, rfl, rfl, rfl, rfl⟩
      · exact Or.inr h

theorem generateWeeklyMealPlan_shape (user : MealUser) (dc : ℚ)
    (find : FoodQuery → Except JSError (List Food)) (draws : Draws) (pos : ℕ) :
    (generateWeeklyMealPlan user dc find draws pos).1.map (fun d => d.day) = specDays
      ∧ ∀ d ∈ (generateWeeklyMealPlan user dc find draws pos).1,
          ∃ p1 p2 p3 p4 : ℕ,
            d.meals.breakfast = (generateMeal "breakfast" (0.25 * dc) user find draws p1).1
            ∧ d.meals.lunch = (generateMeal "lunch" (0.35 * dc) user find draws p2).1
            ∧ d.meals.dinner = (generateMeal "dinner" (0.30 * dc) user find draws p3).1
            ∧ d.meals.snacks = (generateMeal "snack" (0.10 * dc) user find draws p4).1 := by
  obtain ⟨h1, h2⟩ := generateWeeklyMealPlan.foldl_spec user dc find draws specDays ([], pos)
  refine ⟨by simpa [generateWeeklyMealPlan, specDays] using h1, ?_⟩
  intro d hd
  rcases h2 d hd with h | h
  · simp at h
  · exact h

theorem DemoBackend.generateWeeklyMealPlan_demo_shape (dc : ℚ) (draws : Draws) (pos : ℕ) :
    (DemoBackend.generateWeeklyMealPlan dc draws pos).1.map (fun d => d.day) = specDays
      ∧ ∀ d ∈ (DemoBackend.generateWeeklyMealPlan dc draws pos).1,
          ∃ p1 p2 p3 p4 : ℕ,
            d.meals.breakfast = (DemoBackend.selectMeal "breakfast" (0.25 * dc) draws p1).1
            ∧ d.meals.lunch = (DemoBackend.selectMeal "lunch" (0.35 * dc) draws p2).1
            ∧ d.meals.dinner = (DemoBackend.selectMeal "dinner" (0.30 * dc) draws p3).1
            ∧ d.meals.snack = (DemoBackend.selectMeal "snack" (0.10 * dc) draws p4).1 := by
  obtain ⟨h1, h2⟩ := DemoBackend.generateWeeklyMealPlan.demo_foldl_spec dc draws specDays ([], pos)
  refine ⟨by simpa [DemoBackend.generateWeeklyMealPlan, specDays] using h1, ?_⟩
  intro d hd
  rcases h2 d hd with h | h
  · simp at h
  · exact h

/-- C18: for every `dailyCalories`, `generateWeeklyMealPlan` (of `routes/api.js` and of the demo
backend) returns exactly 7 day plans, for monday..sunday in that order, each holding exactly
four meals: a breakfast, a lunch, a dinner and one snack slot, generated with target calories
0.25, 0.35, 0.30 and 0.10 times `dailyCalories`, fractions that sum to 1. -/
theorem weekly_plan_has_seven_days_of_four_meals (user : MealUser) (dailyCalories : ℚ)
    (find : FoodQuery → Except JSError (List Food)) (draws : Draws) (pos : ℕ) :
    ((generateWeeklyMealPlan user dailyCalories find draws pos).1.length = 7
      ∧ (generateWeeklyMealPlan user dailyCalories find draws pos).1.map (fun d => d.day)
          = specDays
      ∧ ∀ d ∈ (generateWeeklyMealPlan user dailyCalories find draws pos).1,
          d.meals.values.length = 4
          ∧ ∃ p1 p2 p3 p4 : ℕ,
            d.meals.breakfast
                = (generateMeal "breakfast" (0.25 * dailyCalories) user find draws p1).1
            ∧ d.meals.lunch = (generateMeal "lunch" (0.35 * dailyCalories) user find draws p2).1
            ∧ d.meals.dinner = (generateMeal "dinner" (0.30 * dailyCalories) user find draws p3).1
            ∧ d.meals.snacks = (generateMeal "snack" (0.10 * dailyCalories) user find draws p4).1)
    ∧ ((DemoBackend.generateWeeklyMealPlan dailyCalories draws pos).1.length = 7
      ∧ (DemoBackend.generateWeeklyMealPlan dailyCalories draws pos).1.map (fun d => d.day)
          = specDays
      ∧ ∀ d ∈ (DemoBackend.generateWeeklyMealPlan dailyCalories draws pos).1,
          d.meals.values.length = 4
          ∧ ∃ p1 p2 p3 p4 : ℕ,
            d.meals.breakfast
                = (DemoBackend.selectMeal "breakfast" (0.25 * dailyCalories) draws p1).1
            ∧ d.meals.lunch = (DemoBackend.selectMeal "lunch" (0.35 * dailyCalories) draws p2).1
            ∧ d.meals.dinner = (DemoBackend.selectMeal "dinner" (0.30 * dailyCalories) draws p3).1
            ∧ d.meals.snack = (DemoBackend.selectMeal "snack" (0.10 * dailyCalories) draws p4).1)
    ∧ 0.25 * dailyCalories + 0.35 * dailyCalories + 0.30 * dailyCalories + 0.10 * dailyCalories
        = dailyCalories := by
  obtain ⟨a1, a2⟩ := generateWeeklyMealPlan_shape user dailyCalories find draws pos
  obtain ⟨b1, b2⟩ := DemoBackend.generateWeeklyMealPlan_demo_shape dailyCalories draws pos
  refine ⟨⟨?_, a1, fun d hd => ⟨rfl, a2 d hd⟩⟩, ⟨?_, b1, fun d hd => ⟨rfl, b2 d hd⟩⟩, by ring⟩
  · have := congrArg List.length a1
    simpa [specDays] using this
  · have := congrArg List.length b1
    simpa [specDays] using this

/-! ## Weekly totals -/

theorem calculateWeeklyNutrition.meals_foldl (meals : List Meal) (init : Nutrition) :
    meals.foldl (fun (total : Nutrition) meal =>
      ({ calories := total.calories + meal.totalNutrition.calories
         protein := total.protein + meal.totalNutrition.protein
         carbs := total.carbs + meal.totalNutrition.carbs
         fats := total.fats + meal.totalNutrition.fats
         fiber := total.fiber + meal.totalNutrition.fiber
         sodium := total.sodium + meal.totalNutrition.sodium } : Nutrition)) init =
      { calories := init.calories + (meals.map (fun m => m.totalNutrition.calories)).sum
        protein := init.protein + (meals.map (fun m => m.totalNutrition.protein)).sum
        carbs := init.carbs + (meals.map (fun m => m.totalNutrition.carbs)).sum
        fats := init.fats + (meals.map (fun m => m.totalNutrition.fats)).sum
        fiber := init.fiber + (meals.map (fun m => m.totalNutrition.fiber)).sum
        sodium := init.sodium + (meals.map (fun m => m.totalNutrition.sodium)).sum } := by
  induction meals generalizing init with
  | nil => simp
  | cons m rest ih =>
    rw [List.foldl_cons, ih]
    simp only [List.map_cons, List.sum_cons, add_assoc]

theorem calculateWeeklyNutrition.days_foldl (days : List DayPlan) (init : Nutrition) :
    days.foldl (fun total day =>
      day.meals.values.foldl (fun (total : Nutrition) meal =>
        ({ calories := total.calories + meal.totalNutrition.calories
           protein := total.protein + meal.totalNutrition.protein
           carbs := total.carbs + meal.totalNutrition.carbs
           fats := total.fats + meal.totalNutrition.fats
           fiber := total.fiber + meal.totalNutrition.fiber
           sodium := total.sodium + meal.totalNutrition.sodium } : Nutrition)) total) init =
      { calories := init.calories + (days.map (fun d =>
          (d.meals.values.map (fun m => m.totalNutrition.calories)).sum)).sum
        protein := init.protein + (days.map (fun d =>
          (d.meals.values.map (fun m => m.totalNutrition.protein)).sum)).sum
        carbs := init.carbs + (days.map (fun d =>
          (d.meals.values.map (fun m => m.totalNutrition.carbs)).sum)).sum
        fats := init.fats + (days.map (fun d =>
          (d.meals.values.map (fun m => m.totalNutrition.fats)).sum)).sum
        fiber := init.fiber + (days.map (fun d =>
          (d.meals.values.map (fun m => m.totalNutrition.fiber)).sum)).sum
        sodium := init.sodium + (days.map (fun d =>
          (d.meals.values.map (fun m => m.totalNutrition.sodium)).sum)).sum } := by
  induction days generalizing init with
  | nil => simp
  | cons d rest ih =>
    rw [List.foldl_cons, ih, calculateWeeklyNutrition.meals_foldl]
    simp only [List.map_cons, List.sum_cons, add_assoc]

theorem calculateWeeklyNutrition_weekly (plan : List DayPlan) :
    (calculateWeeklyNutrition plan).weekly =
      { calories := (plan.map (fun d =>
          (d.meals.values.map (fun m => m.totalNutrition.calories)).sum)).sum
        protein := (plan.map (fun d =>
          (d.meals.values.map (fun m => m.totalNutrition.protein)).sum)).sum
        carbs := (plan.map (fun d =>
          (d.meals.values.map (fun m => m.totalNutrition.carbs)).sum)).sum
        fats := (plan.map (fun d =>
          (d.meals.values.map (fun m => m.totalNutrition.fats)).sum)).sum
        fiber := (plan.map (fun d =>
          (d.meals.values.map (fun m => m.totalNutrition.fiber)).sum)).sum
        sodium := (plan.map (fun d =>
          (d.meals.values.map (fun m => m.totalNutrition.sodium)).sum)).sum } := by
  simp only [calculateWeeklyNutrition, calculateWeeklyNutrition.total]
  rw [calculateWeeklyNutrition.days_foldl]
  simp

theorem getWeeklyNutritionSummary.totals_foldl (days : List StoredDay) (init : Nutrition) :
    days.foldl (fun (acc : Nutrition) day =>
      ({ calories := acc.calories + day.dailyTotals.calories
         protein := acc.protein + day.dailyTotals.protein
         carbs := acc.carbs + day.dailyTotals.carbs
         fats := acc.fats + day.dailyTotals.fats
         fiber := acc.fiber + orElse day.dailyTotals.fiber 0
         sodium := acc.sodium + orElse day.dailyTotals.sodium 0 } : Nutrition)) init =
      { calories := init.calories + (days.map (fun d => d.dailyTotals.calories)).sum
        protein := init.protein + (days.map (fun d => d.dailyTotals.protein)).sum
        carbs := init.carbs + (days.map (fun d => d.dailyTotals.carbs)).sum
        fats := init.fats + (days.map (fun d => d.dailyTotals.fats)).sum
        fiber := init.fiber + (days.map (fun d => orElse d.dailyTotals.fiber 0)).sum
        sodium := init.sodium + (days.map (fun d => orElse d.dailyTotals.sodium 0)).sum } := by
  induction days generalizing init with
  | nil => simp
  | cons d rest ih =>
    rw [List.foldl_cons, ih]
    simp only [List.map_cons, List.sum_cons, add_assoc]

theorem getWeeklyNutritionSummary_weekly (stored : List StoredDay) (h : stored ≠ []) :
    ∃ summary, getWeeklyNutritionSummary (some stored) = some summary
      ∧ summary.weekly.calories = (stored.map (fun d => d.dailyTotals.calories)).sum
      ∧ summary.weekly.protein = (stored.map (fun d => d.dailyTotals.protein)).sum
      ∧ summary.weekly.carbs = (stored.map (fun d => d.dailyTotals.carbs)).sum
      ∧ summary.weekly.fats = (stored.map (fun d => d.dailyTotals.fats)).sum := by
  have hlen : stored.length ≠ 0 := fun h0 => h (List.length_eq_zero.mp h0)
  simp only [getWeeklyNutritionSummary, hlen, if_false]
  refine ⟨_, rfl, ?_, ?_, ?_, ?_⟩ <;>
    simp [getWeeklyNutritionSummary.totals, getWeeklyNutritionSummary.totals_foldl]

/-- C19: weekly totals are a pure aggregation. For every weekly plan,
`calculateWeeklyNutrition(plan).weekly.calories` is the sum over all days and all of each day's
meals of `meal.totalNutrition.calories`; and for every stored plan with a non-empty
`weeklyMealPlan`, `getWeeklyNutritionSummary()` returns a summary whose `weekly.calories` is the
sum over its days of `dailyTotals.calories`. The same holds for protein, carbs and fats. -/
theorem weekly_totals_are_sums (plan : List DayPlan) (stored : List StoredDay)
    (h : stored ≠ []) :
    ((calculateWeeklyNutrition plan).weekly.calories = (plan.map (fun d =>
          (d.meals.values.map (fun m => m.totalNutrition.calories)).sum)).sum
      ∧ (calculateWeeklyNutrition plan).weekly.protein = (plan.map (fun d =>
          (d.meals.values.map (fun m => m.totalNutrition.protein)).sum)).sum
      ∧ (calculateWeeklyNutrition plan).weekly.carbs = (plan.map (fun d =>
          (d.meals.values.map (fun m => m.totalNutrition.carbs)).sum)).sum
      ∧ (calculateWeeklyNutrition plan).weekly.fats = (plan.map (fun d =>
          (d.meals.values.map (fun m => m.totalNutrition.fats)).sum)).sum)
    ∧ ∃ summary, getWeeklyNutritionSummary (some stored) = some summary
      ∧ summary.weekly.calories = (stored.map (fun d => d.dailyTotals.calories)).sum
      ∧ summary.weekly.protein = (stored.map (fun d => d.dailyTotals.protein)).sum
      ∧ summary.weekly.carbs = (stored.map (fun d => d.dailyTotals.carbs)).sum
      ∧ summary.weekly.fats = (stored.map (fun d => d.dailyTotals.fats)).sum := by
  refine ⟨?_, getWeeklyNutritionSummary_weekly stored h⟩
  rw [calculateWeeklyNutrition_weekly]
  exact ⟨rfl, rfl, rfl, rfl⟩

/-- Witness of C19: the week generated for the one-food catalog, and a stored week of two
days. -/
theorem weekly_totals_are_sums_witness :
    exampleStoredWeek ≠ []
      ∧ ∃ summary, getWeeklyNutritionSummary (some exampleStoredWeek) = some summary
        ∧ summary.weekly.calories
            = (exampleStoredWeek.map (fun d => d.dailyTotals.calories)).sum :=
  ⟨by simp [exampleStoredWeek],
    let ⟨summary, h1, h2, _⟩ :=
      (weekly_totals_are_sums
        (generateWeeklyMealPlan veganUser 1709 (fun _ => .ok [lightFood]) zeroDraws 0).1
        exampleStoredWeek (by simp [exampleStoredWeek])).2
    ⟨summary, h1, h2⟩⟩

/-! ## The shopping list -/

theorem lookup_mapSet {β : Type} (m : List (String × β)) (k : String) (v : β) (n : String) :
    (mapSet m k v).lookup n = if n = k then some v else m.lookup n := by
  induction m with
  | nil =>
    simp only [mapSet, lookup_cons, List.lookup_nil]
  | cons kv rest ih =>
    obtain ⟨k1, v1⟩ := kv
    simp only [mapSet]
    by_cases h1 : k1 = k
    · subst h1
      simp only [if_true, lookup_cons]
      split_ifs <;> rfl
    · simp only [h1, if_false, lookup_cons, ih]
      by_cases h2 : n = k1
      · have : ¬ n = k := fun h => h1 (h2 ▸ h)
        simp [h2, h1]
      · simp [h2]

theorem keys_mapSet {β : Type} (m : List (String × β)) (k : String) (v : β) :
    (mapSet m k v).map Prod.fst =
      if k ∈ m.map Prod.fst then m.map Prod.fst else m.map Prod.fst ++ [k] := by
  induction m with
  | nil => simp [mapSet]
  | cons kv rest ih =>
    obtain ⟨k1, v1⟩ := kv
    simp only [mapSet]
    by_cases h1 : k1 = k
    · subst h1
      simp
    · have h1' : ¬ k = k1 := fun h => h1 h.symm
      simp only [h1, if_false, List.map_cons, ih, List.mem_cons, h1', false_or]
      split_ifs <;> simp

theorem keys_groupVisit {α β : Type} (key : α → String) (new : α → β) (add : β → α → β)
    (m : List (String × β)) (x : α) :
    (groupVisit key new add m x).map Prod.fst =
      if key x ∈ m.map Prod.fst then m.map Prod.fst else m.map Prod.fst ++ [key x] := by
  unfold groupVisit
  cases h : m.lookup (key x) with
  | none => simp only [keys_mapSet]
  | some e => simp only [keys_mapSet]

theorem lookup_groupVisit {α β : Type} (key : α → String) (new : α → β) (add : β → α → β)
    (m : List (String × β)) (x : α) (n : String) :
    (groupVisit key new add m x).lookup n =
      if n = key x then
        (match m.lookup n with
         | some e => some (add e x)
         | none => some (new x))
      else m.lookup n := by
  unfold groupVisit
  by_cases hn : n = key x
  · subst hn
    cases h : m.lookup (key x) with
    | none => simp [lookup_mapSet]
    | some e => simp [lookup_mapSet]
  · cases h : m.lookup (key x) with
    | none => simp [lookup_mapSet, hn]
    | some e => simp [lookup_mapSet, hn]

theorem lookup_foldl_groupVisit {α β : Type} (key : α → String) (new : α → β)
    (add : β → α → β) (xs : List α) (m : List (String × β)) (n : String) :
    (xs.foldl (groupVisit key new add) m).lookup n =
      match m.lookup n with
      | some e => some ((xs.filter (fun x => decide (key x = n))).foldl add e)
      | none =>
        match xs.filter (fun x => decide (key x = n)) with
        | [] => none
        | x :: rest => some (rest.foldl add (new x)) := by
  induction xs generalizing m with
  | nil =>
    simp only [List.foldl_nil, List.filter_nil]
    cases h : m.lookup n <;> rfl
  | cons x rest ih =>
    rw [List.foldl_cons, ih, lookup_groupVisit]
    by_cases hn : n = key x
    · subst hn
      cases h : m.lookup (key x) with
      | none => simp [List.filter_cons]
      | some e => simp [List.filter_cons]
    · have hn' : ¬ key x = n := fun h => hn h.symm
      cases h : m.lookup n with
      | none => simp [hn, hn', List.filter_cons]
      | some e => simp [hn, hn', List.filter_cons]

theorem keys_foldl_groupVisit {α β : Type} (key : α → String) (new : α → β)
    (add : β → α → β) (xs : List α) (m : List (String × β))
    (hm : (m.map Prod.fst).Nodup) :
    ((xs.foldl (groupVisit key new add) m).map Prod.fst).Nodup
      ∧ (∀ k, k ∈ (xs.foldl (groupVisit key new add) m).map Prod.fst ↔
          k ∈ m.map Prod.fst ∨ k ∈ xs.map key)
      ∧ (xs.foldl (groupVisit key new add) m).length ≤ m.length + xs.length := by
  induction xs generalizing m with
  | nil => exact ⟨hm, by simp, by simp⟩
  | cons x rest ih =>
    have hk := keys_groupVisit key new add m x
    have hlen : (groupVisit key new add m x).length ≤ m.length + 1 := by
      have := congrArg List.length hk
      simp only [List.length_map] at this
      rw [this]
      split_ifs <;> simp
    have hnodup : ((groupVisit key new add m x).map Prod.fst).Nodup := by
      rw [hk]
      split_ifs with h
      · exact hm
      · exact List.Nodup.append hm (List.nodup_singleton _) (by simpa using h)
    obtain ⟨a1, a2, a3⟩ := ih (groupVisit key new add m x) hnodup
    rw [List.foldl_cons]
    refine ⟨a1, ?_, ?_⟩
    · intro k
      rw [a2 k, hk]
      split_ifs with h
      · simp only [List.map_cons, List.mem_cons]
        constructor
        · rintro (h1 | h1)
          · exact Or.inl h1
          · exact Or.inr (Or.inr h1)
        · rintro (h1 | h1 | h1)
          · exact Or.inl h1
          · exact Or.inl (h1 ▸ h)
          · exact Or.inr h1
      · simp only [List.mem_append, List.mem_singleton, List.map_cons, List.mem_cons]
        tauto
    · simp only [List.length_cons]
      omega

theorem filter_ne_nil_of_mem_map {α : Type} (xs : List α) (key : α → String) (n : String)
    (hn : n ∈ xs.map key) :
    ∃ first rest, xs.filter (fun x => decide (key x = n)) = first :: rest ∧ key first = n := by
  obtain ⟨x, hx, hkey⟩ := List.mem_map.mp hn
  have hmem : x ∈ xs.filter (fun x => decide (key x = n)) :=
    List.mem_filter.mpr ⟨hx, by simpa using hkey⟩
  cases hf : xs.filter (fun x => decide (key x = n)) with
  | nil => rw [hf] at hmem; simp at hmem
  | cons first rest =>
    refine ⟨first, rest, rfl, ?_⟩
    have : first ∈ xs.filter (fun x => decide (key x = n)) := by
      rw [hf]; exact List.mem_cons_self _ _
    simpa using (List.mem_filter.mp this).2

theorem mem_lookup_of_nodup {β : Type} (m : List (String × β))
    (h : (m.map Prod.fst).Nodup) (k : String) (v : β) (hmem : (k, v) ∈ m) :
    m.lookup k = some v := by
  induction m with
  | nil => simp at hmem
  | cons kv rest ih =>
    obtain ⟨k1, v1⟩ := kv
    rw [List.map_cons, List.nodup_cons] at h
    rw [lookup_cons]
    rcases List.mem_cons.mp hmem with heq | htl
    · obtain ⟨h1, h2⟩ := Prod.mk.inj heq
      simp [h1, h2]
    · have hne : ¬ k = k1 := by
        intro hk
        apply h.1
        rw [← hk]
        exact List.mem_map.mpr ⟨(k, v), htl, rfl⟩
      simp only [hne, if_false]
      exact ih h.2 htl

theorem foldl_preserves {α β γ : Type} (add : β → α → β) (name : β → γ)
    (hadd : ∀ e x, name (add e x) = name e) (xs : List α) (e : β) :
    name (xs.foldl add e) = name e := by
  induction xs generalizing e with
  | nil => rfl
  | cons x rest ih => rw [List.foldl_cons, ih, hadd]

theorem names_foldl_groupVisit {α β : Type} (key : α → String) (new : α → β)
    (add : β → α → β) (name : β → String) (hnew : ∀ x, name (new x) = key x)
    (hadd : ∀ e x, name (add e x) = name e) (xs : List α) :
    (xs.foldl (groupVisit key new add) []).map (fun kv => name kv.2)
      = (xs.foldl (groupVisit key new add) []).map Prod.fst := by
  apply List.map_congr_left
  rintro ⟨k, e⟩ hmem
  have hnodup := (keys_foldl_groupVisit key new add xs [] (by simp)).1
  have hl := mem_lookup_of_nodup _ hnodup k e hmem
  rw [lookup_foldl_groupVisit] at hl
  simp only [List.lookup_nil] at hl
  cases hf : xs.filter (fun x => decide (key x = k)) with
  | nil => rw [hf] at hl; simp at hl
  | cons x rest =>
    rw [hf] at hl
    have he : e = rest.foldl add (new x) := (Option.some.inj hl).symm
    have hx : x ∈ xs.filter (fun x => decide (key x = k)) := by
      rw [hf]; exact List.mem_cons_self _ _
    have hk : key x = k := by simpa using (List.mem_filter.mp hx).2
    show name e = k
    rw [he, foldl_preserves add name hadd, hnew, hk]

theorem planItems_length (plan : List DayPlan) :
    (planItems plan).length
      = (plan.map (fun d => (d.meals.values.map (fun m => m.foods.length)).sum)).sum := by
  simp only [planItems, List.length_flatten, List.map_map]
  congr 1
  apply List.map_congr_left
  intro d _
  simp only [Function.comp_apply, List.length_flatten, List.map_map]
  rfl

theorem DemoBackend.planItems_demo_length (plan : List DemoDayPlan) :
    (DemoBackend.planItems plan).length
      = (plan.map (fun d => (d.meals.values.map (fun m => m.foods.length)).sum)).sum := by
  simp only [DemoBackend.planItems, List.length_flatten, List.map_map]
  congr 1
  apply List.map_congr_left
  intro d _
  simp only [Function.comp_apply, List.length_flatten, List.map_map]
  rfl

/-! ## Determinism of the calculator stage -/

/-- C22: the calculator stage is deterministic. For a stored user, two runs of
`DemoBackend.generateDietPlan` with arbitrary random draws, the second on the state the first
leaves or on the same state, both succeed and give the same `goals.dailyCalories` and
`goals.macroTargets`, namely the values the stored `tdee`, `primaryGoal` and `macroRatios`
determine. -/
theorem calculator_stage_deterministic (self : DemoBackend) (userId planId1 planId2 : String)
    (user : StoredUser) (draws1 draws2 : Draws)
    (hu : self.users.lookup userId = some user) :
    ∃ plan1 plan2 plan3,
      (self.generateDietPlan userId planId1 draws1).1 = .ok plan1
      ∧ ((self.generateDietPlan userId planId1 draws1).2.generateDietPlan userId planId2
          draws2).1 = .ok plan2
      ∧ (self.generateDietPlan userId planId2 draws2).1 = .ok plan3
      ∧ plan1.goals.dailyCalories = dailyCaloriesFor user.tdee user.userData.primaryGoal
      ∧ plan1.goals.macroTargets
          = macroTargetsFor (dailyCaloriesFor user.tdee user.userData.primaryGoal)
              user.macroRatios
      ∧ plan2.goals.dailyCalories = plan1.goals.dailyCalories
      ∧ plan2.goals.macroTargets = plan1.goals.macroTargets
      ∧ plan3.goals.dailyCalories = plan1.goals.dailyCalories
      ∧ plan3.goals.macroTargets = plan1.goals.macroTargets := by
  have h1 : (self.generateDietPlan userId planId1 draws1).2.users = self.users := by
    simp only [DemoBackend.generateDietPlan, hu]
  have h2 : (self.generateDietPlan userId planId1 draws1).2.users.lookup userId = some user := by
    rw [h1, hu]
  simp only [DemoBackend.generateDietPlan, h2]
  simp only [hu]
  exact ⟨_, _, _, rfl, rfl, rfl, rfl, rfl, rfl, rfl, rfl, rfl⟩

/-- Witness of C22: the demo backend holding the worked example's user, with draws that are
all `0` in one run and all `1/2` in the other. -/
theorem calculator_stage_deterministic_witness :
    ∃ plan1 plan2,
      (exampleBackend.generateDietPlan "user_1" "plan_1" zeroDraws).1 = .ok plan1
      ∧ (exampleBackend.generateDietPlan "user_1" "plan_2" halfDraws).1 = .ok plan2
      ∧ plan2.goals.dailyCalories = plan1.goals.dailyCalories
      ∧ plan2.goals.macroTargets = plan1.goals.macroTargets := by
  obtain ⟨plan1, _, plan3, h1, _, h3, _, _, _, _, h8, h9⟩ :=
    calculator_stage_deterministic exampleBackend "user_1" "plan_1" "plan_2"
      { id := "user_1", userData := exampleData,
        bmr := (DemoBackend.calculateBMR exampleData : ℚ),
        tdee := (DemoBackend.calculateTDEE (DemoBackend.calculateBMR exampleData)
          "sedentary" : ℚ),
        macroRatios := DemoBackend.calculateMacroRatios "weight_loss" }
      zeroDraws halfDraws
      (by simp [exampleBackend, DemoBackend.createUser, DemoBackend.new, mapSet, List.lookup,
        exampleData])
  exact ⟨plan1, plan3, h1, h3, h8, h9⟩

/-- C29: `DemoBackend.selectMeal` does not depend on its `targetCalories` argument: for
every meal type, every two targets and the same random draws it returns the same meal, so the
weekly demo plan is the same for every `dailyCalories`. -/
theorem selectMeal_ignores_targetCalories (mealType : String) (t1 t2 : ℚ) (draws : Draws)
    (pos : ℕ) (dailyCalories1 dailyCalories2 : ℚ) :
    DemoBackend.selectMeal mealType t1 draws pos = DemoBackend.selectMeal mealType t2 draws pos
      ∧ DemoBackend.generateWeeklyMealPlan dailyCalories1 draws pos
          = DemoBackend.generateWeeklyMealPlan dailyCalories2 draws pos := by
  have h : ∀ (m : String) (a b : ℚ) (p : ℕ),
      DemoBackend.selectMeal m a draws p = DemoBackend.selectMeal m b draws p :=
    fun _ _ _ _ => rfl
  refine ⟨h _ _ _ _, ?_⟩
  have hv : DemoBackend.generateWeeklyMealPlan.visit dailyCalories1 draws
      = DemoBackend.generateWeeklyMealPlan.visit dailyCalories2 draws := by
    funext acc day
    simp only [DemoBackend.generateWeeklyMealPlan.visit]
    rw [h "breakfast" (dailyCalories1 * 0.25) (dailyCalories2 * 0.25),
      h "lunch" (dailyCalories1 * 0.35) (dailyCalories2 * 0.35),
      h "dinner" (dailyCalories1 * 0.3) (dailyCalories2 * 0.3),
      h "snack" (dailyCalories1 * 0.1) (dailyCalories2 * 0.1)]
  simp only [DemoBackend.generateWeeklyMealPlan, hv]

/-! ## The two calculators against the User schema -/

/-- C26: the two TDEE implementations disagree on the top activity level of the User schema:
for the BMR 1780 and `'extremely_active'`, `DemoBackend.calculateTDEE` returns 2136 (its table
names the tier `'extra_active'`, so the `|| 1.2` fallback applies) and `User.calculateTDEE`
returns 3382. On the other four levels of the enum they agree for every non-zero stored
BMR. -/
theorem calculateTDEE_disagree_on_top_tier :
    DemoBackend.calculateTDEE 1780 "extremely_active" = 2136
      ∧ (User.calculateTDEE topTierUser).1 = 3382
      ∧ ∀ (b : ℚ) (u : User), u.calculations.bmr = some b → b ≠ 0 →
          u.goals.activityLevel ∈
            ["sedentary", "lightly_active", "moderately_active", "very_active"] →
          DemoBackend.calculateTDEE b u.goals.activityLevel = (User.calculateTDEE u).1 := by
  have hd : specMultiplier "extra_active" "extremely_active" = 1.2 := by
    simp [specMultiplier]
  have hu : specMultiplier "extremely_active" "extremely_active" = 1.9 := by
    simp [specMultiplier]
  refine ⟨?_, ?_, ?_⟩
  · rw [DemoBackend.calculateTDEE_eq, hd, Math.round_eq_iff]
    norm_num
  · have ha : topTierUser.goals.activityLevel = "extremely_active" := rfl
    rw [User.calculateTDEE_of_stored topTierUser 1780 rfl (by norm_num), ha, hu,
      Math.round_eq_iff]
    norm_num
  · intro b u hb hb0 ha
    rw [DemoBackend.calculateTDEE_eq, User.calculateTDEE_of_stored u b hb hb0]
    simp only [List.mem_cons, List.mem_singleton, List.not_mem_nil, or_false] at ha
    rcases ha with h | h | h | h <;> rw [h] <;> simp [specMultiplier]

/-! ## Form validation -/

/-- C23: `validateFormDataForSubmission` accepts form data whose age is not a number:
with every required field filled in, a well-formed email and the age `abc`, `parseInt` gives
`NaN`, both comparisons of the range check are false, and the result is `isValid: true`. -/
theorem validateFormDataForSubmission_accepts_non_numeric_age :
    parseInt "abc" = .nan
      ∧ validateFormDataForSubmission nonNumericAgeForm = { isValid := true, message := none } :=
  ⟨by decide, by decide⟩

/-- C25: `validateField` applies the `min` and `max` of `validationRules` (120..250 for
`height`, 30..300 for `currentWeight`) whatever the unit is, before the unit-specific check:
with the unit `ft` it rejects every height, and with the unit `lbs` it rejects every weight
above 300, such as `400`. -/
theorem validateField_rejects_feet_and_heavy_pounds :
    (∀ value : String, validateField ⟨"height", value, some "ft"⟩ = false)
      ∧ (∀ (value : String) (q : ℚ), parseFloat value = .finite q → 300 < q →
          validateField ⟨"currentWeight", value, some "lbs"⟩ = false)
      ∧ parseFloat "6" = .finite 6
      ∧ parseFloat "400" = .finite 400 := by
  have hh : validationRules.lookup "height" = some (Rules.number true 120 250) := rfl
  have hw : validationRules.lookup "currentWeight" = some (Rules.number true 30 300) := rfl
  refine ⟨fun value => ?_, fun value q hq h300 => ?_, ?_, ?_⟩
  · simp only [validateField, hh, Rules.number, performCustomValidation, validateHeight]
    cases hb : blank value
    · cases hp : parseFloat value with
      | nan => simp [JSNumber.isNaN]
      | posInf => simp [JSNumber.isNaN, JSNumber.lt, JSNumber.gt]
      | negInf => simp [JSNumber.isNaN, JSNumber.lt, JSNumber.gt]
      | finite q =>
        simp only [JSNumber.isNaN, JSNumber.lt, JSNumber.gt]
        by_cases h1 : q < 120
        · simp [h1]
        · have h2 : q > 8 := by linarith [not_lt.mp h1]
          simp [h1, h2]
    · simp
  · simp only [validateField, hw, Rules.number, hq]
    cases hb : blank value
    · simp [JSNumber.isNaN, JSNumber.lt, JSNumber.gt, h300]
    · simp
  · simp [parseFloat, afterSign, signOf, isWhiteSpace, isDigitIn, digitValue, digitsValue,
      parseFloat.exponent]
    exact_mod_cast Float64.ofRat_intCast 6 (by norm_num)
  · simp [parseFloat, afterSign, signOf, isWhiteSpace, isDigitIn, digitValue, digitsValue,
      parseFloat.exponent]
    exact_mod_cast Float64.ofRat_intCast 400 (by norm_num)

/-! ## The seeded catalog against the save-time check -/

/-- C30: three seeded foods fail the macro check of the Food model's save hook: Broccoli
(42.8 kcal from macros against 1.1 * 34 = 37.4), Apple (59 against 57.2) and Spinach (29.6
against 25.3), all in `sampleFoods`; the other seven and the two of `addMoreFoods` pass. -/
theorem seed_foods_failing_macro_check :
    ((sampleFoods ++ addMoreFoods.additionalFoods).filter
        (fun food => decide (macroCalories food > food.calories * 1.1))).map (fun food => food.name)
      = ["Broccoli", "Apple", "Spinach"]
    ∧ ∃ food ∈ sampleFoods, food.name = "Broccoli" ∧ macroCalories food = 42.8
        ∧ food.calories * 1.1 = 37.4
        ∧ foodPreSave food = .error (.error "Macro nutrients exceed total calories") := by
  constructor
  · simp [sampleFoods, addMoreFoods.additionalFoods, macroCalories, List.filter]
    norm_num
  · refine ⟨{ name := "Broccoli", category := "vegetables", calories := 34, protein := 2.8,
              carbohydrates := 7, fats := 0.4, fiber := 2.6, sugar := 1.5 }, ?_, rfl, ?_, ?_, ?_⟩
    · simp [sampleFoods]
    · norm_num [macroCalories]
    · norm_num
    · simp only [foodPreSave, macroCalories]
      rw [if_pos (by norm_num)]

/-! ## Lemmas on double-precision arithmetic -/

theorem JSNumber.natLit (n : ℕ) (h : n ≤ 2 ^ 53) :
    (no_index (@OfNat.ofNat JSNumber n _)) = JSNumber.finite (n : ℚ) := by
  show Float64.ofRat (n : ℚ) = _
  have := Float64.ofRat_intCast (n : ℤ) (by
    rw [abs_of_nonneg (by positivity)]
    exact_mod_cast h)
  exact_mod_cast this

theorem JSNumber.finite_mul (a b : ℚ) :
    (JSNumber.finite a * JSNumber.finite b : JSNumber) = Float64.ofRat (a * b) := rfl

theorem JSNumber.finite_add (a b : ℚ) :
    (JSNumber.finite a + JSNumber.finite b : JSNumber) = Float64.ofRat (a + b) := rfl

theorem JSNumber.finite_sub (a b : ℚ) :
    (JSNumber.finite a - JSNumber.finite b : JSNumber) = Float64.ofRat (a - b) := by
  show Float64.ofRat (a + -b) = _
  rw [sub_eq_add_neg]

theorem JSNumber.finite_div (a b : ℚ) (hb : b ≠ 0) :
    (JSNumber.finite a / JSNumber.finite b : JSNumber) = Float64.ofRat (a / b) := by
  show JSNumber.div _ _ = _
  simp [JSNumber.div, hb]

theorem JSNumber.mul_nan (x : JSNumber) : x * JSNumber.nan = JSNumber.nan := by
  cases x <;> rfl

theorem JSNumber.add_nan (x : JSNumber) : x + JSNumber.nan = JSNumber.nan := by
  cases x <;> rfl

theorem JSNumber.div_finite_nan (x : JSNumber) : JSNumber.nan / x = JSNumber.nan := by
  cases x <;> rfl

theorem JSNumber.round_finite (a : ℚ) :
    (JSNumber.finite a).round = JSNumber.finite ((Math.round a : ℤ) : ℚ) := rfl

theorem Float64.lit_1_2 : Float64.ofRat (1.2) = .finite (5404319552844595 * 2 ^ (-52 : ℤ)) := by
  have h := Float64.ofRat_eq (1.2) (-52) (5404319552844595) (by norm_num)
    (by norm_num [abs_of_pos, abs_of_neg]) (by norm_num [abs_of_pos, abs_of_neg])
    (by rw [abs_lt]; constructor <;> norm_num) (by norm_num [abs_of_pos, abs_of_neg])
  exact_mod_cast h

theorem Float64.lit_1_15 : Float64.ofRat (1.15) = .finite (5179139571476070 * 2 ^ (-52 : ℤ)) := by
  have h := Float64.ofRat_eq (1.15) (-52) (5179139571476070) (by norm_num)
    (by norm_num [abs_of_pos, abs_of_neg]) (by norm_num [abs_of_pos, abs_of_neg])
    (by rw [abs_lt]; constructor <;> norm_num) (by norm_num [abs_of_pos, abs_of_neg])
  exact_mod_cast h

/-! ## Activity multipliers and inherited properties -/

theorem DemoBackend.multipliers_orElse (a : String) :
    (getProperty DemoBackend.multipliers a).orElse 1.2
      = if a ∈ Object.prototype then JSNumber.nan
        else Float64.ofRat (specMultiplier "extra_active" a) := by
  unfold getProperty
  simp only [DemoBackend.multipliers, lookup_cons, List.lookup_nil, specMultiplier]
  split_ifs with h1 h2 h3 h4 h5 h6 h7 h8 h9 <;>
    first
    | rfl
    | (exfalso; subst_vars; revert ‹_ ∈ Object.prototype›; decide)
    | (simp [Property.orElse]; try norm_num)

theorem User.activityMultipliers_orElse (a : String) :
    (getProperty User.activityMultipliers a).orElse 1.2
      = if a ∈ Object.prototype then JSNumber.nan
        else Float64.ofRat (specMultiplier "extremely_active" a) := by
  unfold getProperty
  simp only [User.activityMultipliers, lookup_cons, List.lookup_nil, specMultiplier]
  split_ifs with h1 h2 h3 h4 h5 h6 h7 h8 h9 <;>
    first
    | rfl
    | (exfalso; subst_vars; revert ‹_ ∈ Object.prototype›; decide)
    | (simp [Property.orElse]; try norm_num)

theorem Runtime.User.calculateTDEE_stored_eq (u : Runtime.User) (b : JSNumber)
    (hb : u.calculations.bmr = some b) (hf : b.falsy = false) :
    (Runtime.User.calculateTDEE u).1
      = (b * (getProperty User.activityMultipliers u.goals.activityLevel).orElse 1.2).round := by
  simp [Runtime.User.calculateTDEE, Runtime.falsy, hb, hf]

theorem Runtime.User.calculateTDEE_unset_eq (u : Runtime.User)
    (hf : Runtime.falsy u.calculations.bmr = true) :
    (Runtime.User.calculateTDEE u).1
      = ((Runtime.User.calculateBMR u).1
          * (getProperty User.activityMultipliers u.goals.activityLevel).orElse 1.2).round := by
  simp [Runtime.User.calculateTDEE, hf, Runtime.User.calculateBMR]

/-- C2, counterexample: for the activity level `'constructor'`, which is none of the five
tiers, `calculateTDEE` returns `NaN` in the demo backend and in the User model, where the claim
has `round(1780 * 1.2) = 2136`: the lookup finds the function every object inherits under that
name, which is truthy, so the `|| 1.2` fallback is not taken. -/
theorem calculateTDEE_constructor_is_nan :
    Runtime.DemoBackend.calculateTDEE 1780 "constructor" = JSNumber.nan
      ∧ (Runtime.User.calculateTDEE constructorUser).1 = JSNumber.nan
      ∧ specMultiplier "extra_active" "constructor" = 1.2
      ∧ Math.round ((1780 : ℚ) * 1.2) = 2136 := by
  refine ⟨?_, ?_, by simp [specMultiplier], by rw [Math.round_eq_iff]; norm_num⟩
  · rw [Runtime.DemoBackend.calculateTDEE, DemoBackend.multipliers_orElse,
      if_pos (by decide), JSNumber.mul_nan]
    rfl
  · rw [Runtime.User.calculateTDEE_stored_eq constructorUser (JSNumber.finite 1780) rfl rfl,
      User.activityMultipliers_orElse]
    have : constructorUser.goals.activityLevel = "constructor" := rfl
    rw [this, if_pos (by decide), JSNumber.mul_nan]
    rfl

/-- C2 (amended): for every BMR `b` and every activity level `a` that is not the name of a
property inherited from `Object.prototype`, `calculateTDEE` returns `Math.round` of the double
product `b * m(a)`, where `m` maps the five tiers (the top one `'extra_active'` in the demo
backend, `'extremely_active'` in the User model) to 1.2, 1.375, 1.55, 1.725 and 1.9 and every
other such value to 1.2; the User model multiplies the stored `calculations.bmr` when that is
truthy and the value `calculateBMR` returns otherwise. For an inherited name the result is
`NaN`. No case raises. -/
theorem calculateTDEE_eq_round_of_product (b : JSNumber) (a : String) (u : Runtime.User)
    (hu : u.goals.activityLevel = a) :
    (a ∉ Object.prototype →
        Runtime.DemoBackend.calculateTDEE b a
            = (b * Float64.ofRat (specMultiplier "extra_active" a)).round
          ∧ (u.calculations.bmr = some b → b.falsy = false →
              (Runtime.User.calculateTDEE u).1
                = (b * Float64.ofRat (specMultiplier "extremely_active" a)).round)
          ∧ (Runtime.falsy u.calculations.bmr = true →
              (Runtime.User.calculateTDEE u).1
                = ((Runtime.User.calculateBMR u).1
                    * Float64.ofRat (specMultiplier "extremely_active" a)).round))
      ∧ (a ∈ Object.prototype →
          Runtime.DemoBackend.calculateTDEE b a = JSNumber.nan
            ∧ (Runtime.User.calculateTDEE u).1 = JSNumber.nan) := by
  subst hu
  refine ⟨fun ha => ⟨?_, fun hb hf => ?_, fun hf => ?_⟩, fun ha => ⟨?_, ?_⟩⟩
  · rw [Runtime.DemoBackend.calculateTDEE, DemoBackend.multipliers_orElse, if_neg ha]
  · rw [Runtime.User.calculateTDEE_stored_eq u b hb hf, User.activityMultipliers_orElse,
      if_neg ha]
  · rw [Runtime.User.calculateTDEE_unset_eq u hf, User.activityMultipliers_orElse, if_neg ha]
  · rw [Runtime.DemoBackend.calculateTDEE, DemoBackend.multipliers_orElse, if_pos ha,
      JSNumber.mul_nan]
    rfl
  · by_cases hf : Runtime.falsy u.calculations.bmr = true
    · rw [Runtime.User.calculateTDEE_unset_eq u hf, User.activityMultipliers_orElse, if_pos ha,
        JSNumber.mul_nan]
      rfl
    · cases hb : u.calculations.bmr with
      | none => simp [Runtime.falsy, hb] at hf
      | some b1 =>
        have hf1 : b1.falsy = false := by simpa [Runtime.falsy, hb] using hf
        rw [Runtime.User.calculateTDEE_stored_eq u b1 hb hf1, User.activityMultipliers_orElse,
          if_pos ha, JSNumber.mul_nan]
        rfl

theorem Float64.ofRat_ofNat (n : ℕ) (h : n ≤ 2 ^ 53) :
    Float64.ofRat (no_index (@OfNat.ofNat ℚ n _)) = JSNumber.finite (@OfNat.ofNat ℚ n _) := by
  have := Float64.ofRat_intCast (n : ℤ) (by
    rw [abs_of_nonneg (by positivity)]
    exact_mod_cast h)
  exact_mod_cast this

theorem Float64.mul_1780_1_2 : Float64.ofRat (1780 * (5404319552844595 * 2 ^ (-52 : ℤ))) = .finite (4697113673859072 * 2 ^ (-41 : ℤ)) := by
  have h := Float64.ofRat_eq (1780 * (5404319552844595 * 2 ^ (-52 : ℤ))) (-41) (4697113673859072) (by norm_num)
    (by norm_num [abs_of_pos, abs_of_neg]) (by norm_num [abs_of_pos, abs_of_neg])
    (by rw [abs_lt]; constructor <;> norm_num) (by norm_num [abs_of_pos, abs_of_neg])
  exact_mod_cast h

theorem Float64.mul_1880_1_2 : Float64.ofRat (1880 * (5404319552844595 * 2 ^ (-52 : ℤ))) = .finite (4960996464525312 * 2 ^ (-41 : ℤ)) := by
  have h := Float64.ofRat_eq (1880 * (5404319552844595 * 2 ^ (-52 : ℤ))) (-41) (4960996464525312) (by norm_num)
    (by norm_num [abs_of_pos, abs_of_neg]) (by norm_num [abs_of_pos, abs_of_neg])
    (by rw [abs_lt]; constructor <;> norm_num) (by norm_num [abs_of_pos, abs_of_neg])
  exact_mod_cast h

theorem Float64.mul_2136_1_15 : Float64.ofRat (2136 * (5179139571476070 * 2 ^ (-52 : ℤ))) = .finite (5401680724937932 * 2 ^ (-41 : ℤ)) := by
  have h := Float64.ofRat_eq (2136 * (5179139571476070 * 2 ^ (-52 : ℤ))) (-41) (5401680724937932) (by norm_num)
    (by norm_num [abs_of_pos, abs_of_neg]) (by norm_num [abs_of_pos, abs_of_neg])
    (by rw [abs_lt]; constructor <;> norm_num) (by norm_num [abs_of_pos, abs_of_neg])
  exact_mod_cast h

theorem Float64.mul_2790_1_15 : Float64.ofRat (2790 * (5179139571476070 * 2 ^ (-52 : ℤ))) = .finite (7055566115438591 * 2 ^ (-41 : ℤ)) := by
  have h := Float64.ofRat_eq (2790 * (5179139571476070 * 2 ^ (-52 : ℤ))) (-41) (7055566115438591) (by norm_num)
    (by norm_num [abs_of_pos, abs_of_neg]) (by norm_num [abs_of_pos, abs_of_neg])
    (by rw [abs_lt]; constructor <;> norm_num) (by norm_num [abs_of_pos, abs_of_neg])
  exact_mod_cast h

theorem JSNumber.sci_1_15 :
    (1.15 : JSNumber) = JSNumber.finite (5179139571476070 * 2 ^ (-52 : ℤ)) :=
  Float64.lit_1_15

theorem sedentary_2136 :
    (JSNumber.finite 1780 * Float64.ofRat (1.2 : ℚ)).round = JSNumber.finite 2136 := by
  rw [Float64.lit_1_2, JSNumber.finite_mul, Float64.mul_1780_1_2, JSNumber.round_finite]
  congr 1
  have : Math.round ((4697113673859072 : ℚ) * 2 ^ (-41 : ℤ)) = 2136 := by
    rw [Math.round_eq_iff]; norm_num
  exact_mod_cast this

/-- Witness of C2 (amended): the worked example's BMR 1780 at `'sedentary'` gives 2136 in both
implementations. -/
theorem calculateTDEE_eq_round_of_product_witness :
    storedBmrUser.goals.activityLevel = "sedentary"
      ∧ Runtime.DemoBackend.calculateTDEE (.finite 1780) "sedentary" = .finite 2136
      ∧ (Runtime.User.calculateTDEE storedBmrUser).1 = .finite 2136 := by
  have h := calculateTDEE_eq_round_of_product (.finite 1780) "sedentary" storedBmrUser rfl
  obtain ⟨h1, h2, _⟩ := h.1 (by decide)
  have hm1 : specMultiplier "extra_active" "sedentary" = 1.2 := by simp [specMultiplier]
  have hm2 : specMultiplier "extremely_active" "sedentary" = 1.2 := by simp [specMultiplier]
  refine ⟨rfl, ?_, ?_⟩
  · rw [h1, hm1]; exact sedentary_2136
  · rw [h2 rfl rfl, hm2]; exact sedentary_2136

theorem JSNumber.sci_6_25 : (6.25 : JSNumber) = JSNumber.finite (25 / 4) := by
  show Float64.ofRat (6.25 : ℚ) = _
  have h := Float64.ofRat_eq (6.25) (-50) (7036874417766400) (by norm_num)
    (by norm_num [abs_of_pos, abs_of_neg]) (by norm_num [abs_of_pos, abs_of_neg])
    (by rw [abs_lt]; constructor <;> norm_num) (by norm_num [abs_of_pos, abs_of_neg])
  rw [h]; congr 1; norm_num

theorem Math.round_ofNat (n : ℕ) :
    Math.round (no_index (@OfNat.ofNat ℚ n _)) = (n : ℤ) := by
  have := Math.round_intCast (n : ℤ)
  exact_mod_cast this

theorem runtimeUser_calculateBMR : (Runtime.User.calculateBMR runtimeUser).1 = .finite 1780 := by
  simp only [Runtime.User.calculateBMR, runtimeUser, if_true]
  simp (disch := norm_num) only [JSNumber.natLit, JSNumber.sci_6_25, Nat.cast_ofNat]
  norm_num [JSNumber.finite_mul, JSNumber.finite_add, JSNumber.finite_sub,
    Float64.ofRat_ofNat, JSNumber.round_finite, Math.round_ofNat]

theorem runtimeStaleUser_calculateBMR :
    (Runtime.User.calculateBMR runtimeStaleUser).1 = .finite 1880 := by
  simp only [Runtime.User.calculateBMR, runtimeStaleUser, runtimeUser, if_true]
  simp (disch := norm_num) only [JSNumber.natLit, JSNumber.sci_6_25, Nat.cast_ofNat]
  norm_num [JSNumber.finite_mul, JSNumber.finite_add, JSNumber.finite_sub,
    Float64.ofRat_ofNat, JSNumber.round_finite, Math.round_ofNat]

theorem round_1880_sedentary :
    (JSNumber.finite 1880 * Float64.ofRat (1.2 : ℚ)).round = JSNumber.finite 2256 := by
  rw [Float64.lit_1_2, JSNumber.finite_mul, Float64.mul_1880_1_2, JSNumber.round_finite]
  congr 1
  have : Math.round ((4960996464525312 : ℚ) * 2 ^ (-41 : ℤ)) = 2256 := by
    rw [Math.round_eq_iff]; norm_num
  exact_mod_cast this

theorem Runtime.User.calculateBMR_keeps_goals (u : Runtime.User) :
    (Runtime.User.calculateBMR u).2.goals = u.goals := rfl

/-! ## The stored BMR in `User.calculateTDEE` -/

/-- C28, counterexample: after `calculateBMR` stored 1780 for the worked example's profile and
the weight was changed from 80 kg to 90 kg, `calculateTDEE` still returns 2136, the value for
the stored BMR, although `calculateBMR` gives 1880 for the current attributes and
`Math.round(1880 * 1.2)` is 2256. -/
theorem calculateTDEE_uses_stale_bmr :
    (Runtime.User.calculateTDEE runtimeStaleUser).1 = .finite 2136
      ∧ (Runtime.User.calculateBMR runtimeStaleUser).1 = .finite 1880
      ∧ (JSNumber.finite 1880 * Float64.ofRat (1.2 : ℚ)).round = .finite 2256 := by
  have hs : runtimeStaleUser.calculations.bmr = some (.finite 1780) := by
    show some (Runtime.User.calculateBMR runtimeUser).1 = _
    rw [runtimeUser_calculateBMR]
  refine ⟨?_, runtimeStaleUser_calculateBMR, round_1880_sedentary⟩
  rw [Runtime.User.calculateTDEE_stored_eq runtimeStaleUser _ hs rfl,
    User.activityMultipliers_orElse]
  have hg : runtimeStaleUser.goals.activityLevel = "sedentary" := rfl
  have hm2 : specMultiplier "extremely_active" "sedentary" = 1.2 := by simp [specMultiplier]
  rw [hg, if_neg (by decide), hm2]
  exact sedentary_2136

/-- C28 (amended): `User.calculateTDEE` returns `Math.round(b * m)` in double arithmetic, where
`m` is the multiplier of the current activity level (1.2 for a level that is not one of the five
tiers, and the result is `NaN` when the level is the name of a property inherited from
`Object.prototype`) and `b` is the stored `calculations.bmr` whenever that is truthy, whatever
the current weight, height, age and gender are. Only when the stored value is falsy does
`calculateTDEE` call `calculateBMR`, and `b` is then the value `calculateBMR` returns for the
current attributes; the same holds when `calculateTDEE` is called right after `calculateBMR`
returned a truthy value. `calculateBMR` returns `Math.round` of
`10 * w + 6.25 * h - 5 * age + s` with `w` the weight (times 0.453592 unless the unit is
`'kg'`), `h` the height (times 30.48 unless the unit is `'cm'`) and `s` +5 for `'male'`, -161
otherwise. -/
theorem calculateTDEE_multiplies_stored_bmr (u : Runtime.User) :
    (∀ b : JSNumber, u.calculations.bmr = some b → b.falsy = false →
        (Runtime.User.calculateTDEE u).1
          = (b * Runtime.activityMultiplier u.goals.activityLevel).round)
      ∧ (Runtime.falsy u.calculations.bmr = true →
          (Runtime.User.calculateTDEE u).1
            = ((Runtime.User.calculateBMR u).1
                * Runtime.activityMultiplier u.goals.activityLevel).round)
      ∧ ((Runtime.User.calculateBMR u).1.falsy = false →
          (Runtime.User.calculateTDEE (Runtime.User.calculateBMR u).2).1
            = ((Runtime.User.calculateBMR u).1
                * Runtime.activityMultiplier u.goals.activityLevel).round)
      ∧ (Runtime.User.calculateBMR u).1
          = (if u.personalInfo.gender = "male" then
              (10 * (if u.physicalData.weightUnit = "kg" then .finite u.physicalData.currentWeight
                     else .finite u.physicalData.currentWeight * 0.453592)
                + 6.25 * (if u.physicalData.heightUnit = "cm" then .finite u.physicalData.height
                          else .finite u.physicalData.height * 30.48)
                - 5 * .finite u.personalInfo.age + 5 : JSNumber).round
             else
              (10 * (if u.physicalData.weightUnit = "kg" then .finite u.physicalData.currentWeight
                     else .finite u.physicalData.currentWeight * 0.453592)
                + 6.25 * (if u.physicalData.heightUnit = "cm" then .finite u.physicalData.height
                          else .finite u.physicalData.height * 30.48)
                - 5 * .finite u.personalInfo.age - 161 : JSNumber).round) := by
  have hm : ∀ a : String, (getProperty User.activityMultipliers a).orElse 1.2
      = Runtime.activityMultiplier a := User.activityMultipliers_orElse
  refine ⟨fun b hb hf => ?_, fun hf => ?_, fun hf => ?_, ?_⟩
  · rw [Runtime.User.calculateTDEE_stored_eq u b hb hf, hm]
  · rw [Runtime.User.calculateTDEE_unset_eq u hf, hm]
  · have hs : (Runtime.User.calculateBMR u).2.calculations.bmr
        = some (Runtime.User.calculateBMR u).1 := rfl
    rw [Runtime.User.calculateTDEE_stored_eq _ _ hs hf, hm, Runtime.User.calculateBMR_keeps_goals]
  · simp only [Runtime.User.calculateBMR]
    split_ifs <;> rfl

/-- The error of a rounding below the overflow threshold: at most `2 ^ -53` of the magnitude,
up to half the spacing of the subnormal doubles. -/
theorem Float64.ofRat_near (x : ℚ) (h2 : |x| ≤ (2 : ℚ) ^ (1023 : ℤ)) :
    ∃ y, Float64.ofRat x = .finite y ∧ |y - x| ≤ |x| / 2 ^ 53 + 2 ^ (-1075 : ℤ) := by
  by_cases hx0 : x = 0
  · subst hx0
    exact ⟨0, Float64.ofRat_zero, by simp; positivity⟩
  obtain ⟨l1, l2⟩ := Float64.log_spec x hx0
  set e := Float64.exponent x with hedef
  have hpe : (0 : ℚ) < 2 ^ e := by positivity
  have hr := roundHalfEven_sub_le (x / 2 ^ e)
  have herr : |(roundHalfEven (x / 2 ^ e) : ℚ) * 2 ^ e - x| ≤ 2 ^ e / 2 := by
    have : (roundHalfEven (x / 2 ^ e) : ℚ) * 2 ^ e - x
        = ((roundHalfEven (x / 2 ^ e) : ℚ) - x / 2 ^ e) * 2 ^ e := by
      field_simp
    rw [this, abs_mul, abs_of_pos hpe]
    calc |(roundHalfEven (x / 2 ^ e) : ℚ) - x / 2 ^ e| * 2 ^ e ≤ 1 / 2 * 2 ^ e :=
          mul_le_mul_of_nonneg_right hr hpe.le
      _ = 2 ^ e / 2 := by ring
  have hsp : (2 : ℚ) ^ e ≤ |x| / 2 ^ 52 + 2 ^ (-1074 : ℤ) := by
    have hcases : e = Int.log 2 |x| - 52 ∨ e = -1074 := by
      rw [hedef]; unfold Float64.exponent
      rcases max_cases (Int.log 2 |x| - 52) (-1074) with h | h
      · exact Or.inl h.1
      · exact Or.inr h.1
    rcases hcases with h | h
    · have : (2 : ℚ) ^ e ≤ |x| / 2 ^ 52 := by
        rw [le_div_iff₀ (by positivity)]
        calc (2 : ℚ) ^ e * 2 ^ 52 = 2 ^ (e + 52) := by
              rw [zpow_add₀ (by norm_num)]; norm_num
          _ = 2 ^ Int.log 2 |x| := by rw [h]; congr 1; ring
          _ ≤ |x| := l1
      have : (0 : ℚ) < 2 ^ (-1074 : ℤ) := by positivity
      linarith
    · rw [h]
      have : (0 : ℚ) ≤ |x| / 2 ^ 52 := by positivity
      linarith
  have h1075 : (2 : ℚ) ^ (-1074 : ℤ) / 2 = 2 ^ (-1075 : ℤ) := by
    rw [show (-1074 : ℤ) = -1075 + 1 by norm_num, zpow_add₀ (by norm_num)]
    norm_num
  have hbound : |(roundHalfEven (x / 2 ^ e) : ℚ) * 2 ^ e - x| ≤ |x| / 2 ^ 53 + 2 ^ (-1075 : ℤ) := by
    calc _ ≤ 2 ^ e / 2 := herr
      _ ≤ (|x| / 2 ^ 52 + 2 ^ (-1074 : ℤ)) / 2 := by linarith
      _ = |x| / 2 ^ 53 + 2 ^ (-1075 : ℤ) := by rw [← h1075]; ring
  have hfin : |(roundHalfEven (x / 2 ^ e) : ℚ) * 2 ^ e| < (2 : ℚ) ^ (1024 : ℤ) := by
    have t := abs_sub_abs_le_abs_sub ((roundHalfEven (x / 2 ^ e) : ℚ) * 2 ^ e) x
    have hxpos : 0 < |x| := abs_pos.mpr hx0
    have hx53 : |x| / 2 ^ 53 ≤ |x| / 2 := by
      apply div_le_div_of_nonneg_left hxpos.le (by norm_num) (by norm_num)
    have hsmall : (2 : ℚ) ^ (-1075 : ℤ) < 1 := by
      apply zpow_lt_one_of_neg₀ (by norm_num) (by norm_num)
    have hbig : (2 : ℚ) ^ (1024 : ℤ) = 2 * 2 ^ (1023 : ℤ) := by norm_num
    have hone : (1 : ℚ) ≤ 2 ^ (1023 : ℤ) / 2 := by norm_num
    rw [hbig]
    linarith
  exact ⟨_, Float64.ofRat_of_exponent x e rfl hfin, hbound⟩

/-! ## Target calories of the User model in double arithmetic -/

theorem User.goalAdjustments_orElse (g : String) :
    (getProperty User.goalAdjustments g).orElse 0
      = if g ∈ Object.prototype then JSNumber.nan else Float64.ofRat (specAdjustment g) := by
  unfold getProperty
  simp only [User.goalAdjustments, lookup_cons, List.lookup_nil, specAdjustment]
  split_ifs with h1 h2 h3 h4 h5 h6 h7 h8 h9 <;>
    first
    | rfl
    | (exfalso; subst_vars; revert ‹_ ∈ Object.prototype›; decide)

theorem JSNumber.nan_round_less (x : JSNumber) : JSNumber.nan.round.less x = false := by
  cases x <;> rfl

theorem Runtime.User.calculateTargetCalories_stored_eq (u : Runtime.User) (t : JSNumber)
    (ht : u.calculations.tdee = some t) (hf : t.falsy = false) :
    (Runtime.User.calculateTargetCalories u).1
      = (if ((t + (getProperty User.goalAdjustments u.goals.primaryGoal).orElse 0).round).less
            (if u.personalInfo.gender = "male" then 1500 else 1200)
         then (if u.personalInfo.gender = "male" then 1500 else 1200)
         else (t + (getProperty User.goalAdjustments u.goals.primaryGoal).orElse 0).round) := by
  simp [Runtime.User.calculateTargetCalories, Runtime.falsy, ht, hf]

theorem specAdjustment_abs_le (g : String) : |specAdjustment g| ≤ 500 := by
  unfold specAdjustment
  split_ifs <;> norm_num [abs_of_pos, abs_of_neg]

theorem specAdjustment_int (g : String) : ∃ a : ℤ, specAdjustment g = a ∧ |a| ≤ 500 := by
  unfold specAdjustment
  split_ifs
  · exact ⟨-500, by norm_num, by norm_num [abs_of_neg]⟩
  · exact ⟨500, by norm_num, by norm_num [abs_of_pos]⟩
  · exact ⟨300, by norm_num, by norm_num [abs_of_pos]⟩
  · exact ⟨0, by norm_num, by norm_num⟩

theorem Float64.ofRat_specAdjustment (g : String) :
    Float64.ofRat (specAdjustment g) = .finite (specAdjustment g) := by
  obtain ⟨a, ha, hb⟩ := specAdjustment_int g
  rw [ha]
  exact Float64.ofRat_intCast a (le_trans hb (by norm_num))

theorem JSNumber.minimum_eq (gender : String) :
    (if gender = "male" then 1500 else 1200 : JSNumber)
      = .finite (if gender = "male" then 1500 else 1200) := by
  split_ifs
  · exact (JSNumber.natLit 1500 (by norm_num)).trans (by norm_num)
  · exact (JSNumber.natLit 1200 (by norm_num)).trans (by norm_num)

/-- C24, counterexample: for the worked example's document with `calculations.tdee` stored as
2136 and the primary goal `'constructor'`, `calculateTargetCalories` returns `NaN`, which is
not `max(1500, round(2136 + 0)) = 2136`: the lookup finds the function every object inherits
under that name, `tdee +` it is a string, `Math.round` of it is `NaN`, and `NaN < 1500` is
false, so the floor is not applied either. -/
theorem calculateTargetCalories_constructor_is_nan :
    constructorGoalUser.calculations.tdee = some (.finite 2136)
      ∧ (Runtime.User.calculateTargetCalories constructorGoalUser).1 = JSNumber.nan
      ∧ specAdjustment "constructor" = 0
      ∧ max (1500 : ℤ) (Math.round ((2136 : ℚ) + 0)) = 2136 := by
  refine ⟨rfl, ?_, by simp [specAdjustment], ?_⟩
  · rw [Runtime.User.calculateTargetCalories_stored_eq constructorGoalUser (.finite 2136) rfl rfl,
      User.goalAdjustments_orElse]
    have hg : constructorGoalUser.goals.primaryGoal = "constructor" := rfl
    have hp : "constructor" ∈ Object.prototype := by decide
    simp only [hg, hp, if_true, JSNumber.add_nan, JSNumber.nan_round_less]
    rfl
  · have : Math.round ((2136 : ℚ) + 0) = 2136 := by rw [Math.round_eq_iff]; norm_num
    rw [this]; norm_num

/-- C24 (amended): for every user whose `calculations.tdee` is stored as a positive `t` (at most
`2 ^ 52`) and whose primary goal is not the name of a property inherited from
`Object.prototype`, `User.calculateTargetCalories` returns `max(floor, Math.round(t + adj))`,
the sum being a double addition (exact when `t` is an integer), where `adj` is -500 for
`weight_loss`, +500 for `weight_gain`, +300 for `muscle_building` and 0 for `maintenance` and
every other such goal, and `floor` is 1500 when the gender is `'male'` and 1200 otherwise; the
result is then never below that floor. For a goal that is an inherited name the result is
`NaN` and no floor applies. -/
theorem calculateTargetCalories_eq_max_floor (u : Runtime.User) (t : ℚ)
    (ht : u.calculations.tdee = some (.finite t)) (hpos : 0 < t) (hle : t ≤ 2 ^ 52) :
    (u.goals.primaryGoal ∉ Object.prototype →
        ∃ r : ℤ,
          (JSNumber.finite t + Float64.ofRat (specAdjustment u.goals.primaryGoal)).round
              = .finite r
            ∧ (Runtime.User.calculateTargetCalories u).1
                = .finite ((max (if u.personalInfo.gender = "male" then 1500 else 1200) r : ℤ) : ℚ)
            ∧ (if u.personalInfo.gender = "male" then (1500 : ℤ) else 1200)
                ≤ max (if u.personalInfo.gender = "male" then 1500 else 1200) r
            ∧ (∀ n : ℤ, t = n → (r : ℚ) = n + specAdjustment u.goals.primaryGoal))
      ∧ (u.goals.primaryGoal ∈ Object.prototype →
          (Runtime.User.calculateTargetCalories u).1 = JSNumber.nan) := by
  have hf : (JSNumber.finite t).falsy = false := by simp [JSNumber.falsy, hpos.ne']
  have hval := Runtime.User.calculateTargetCalories_stored_eq u (.finite t) ht hf
  rw [User.goalAdjustments_orElse] at hval
  refine ⟨fun hg => ?_, fun hg => ?_⟩
  · rw [if_neg hg] at hval
    rw [Float64.ofRat_specAdjustment, JSNumber.finite_add] at hval ⊢
    have habs : |t + specAdjustment u.goals.primaryGoal| ≤ (2 : ℚ) ^ (1023 : ℤ) := by
      have h1 := abs_add t (specAdjustment u.goals.primaryGoal)
      have h2 := specAdjustment_abs_le u.goals.primaryGoal
      have h3 : |t| = t := abs_of_pos hpos
      have h4 : (2 : ℚ) ^ 52 + 500 ≤ (2 : ℚ) ^ (1023 : ℤ) := by norm_num
      linarith
    obtain ⟨y, hy, _⟩ := Float64.ofRat_near _ habs
    rw [hy, JSNumber.round_finite] at hval ⊢
    refine ⟨Math.round y, rfl, ?_, le_max_left _ _, fun n hn => ?_⟩
    · rw [hval, JSNumber.minimum_eq]
      simp only [JSNumber.less]
      split_ifs with hm hlt hlt
      · simp at hlt; rw [max_eq_left (by exact_mod_cast hlt.le)]; norm_num
      · simp at hlt; rw [max_eq_right (by exact_mod_cast hlt)]
      · simp at hlt; rw [max_eq_left (by exact_mod_cast hlt.le)]; norm_num
      · simp at hlt; rw [max_eq_right (by exact_mod_cast hlt)]
    · obtain ⟨a, ha, hb⟩ := specAdjustment_int u.goals.primaryGoal
      have hn2 : (n : ℚ) ≤ 2 ^ 52 := by rw [← hn]; exact hle
      have hn0 : (0 : ℚ) < n := by rw [← hn]; exact hpos
      have hsum : Float64.ofRat (t + specAdjustment u.goals.primaryGoal)
          = .finite ((n + a : ℤ) : ℚ) := by
        rw [hn, ha]
        have := Float64.ofRat_intCast (n + a) (by
          have hn2' : n ≤ 2 ^ 52 := by exact_mod_cast hn2
          have hn0' : 0 < n := by exact_mod_cast hn0
          rw [abs_le] at hb ⊢
          constructor <;> norm_num <;> omega)
        exact_mod_cast this
      rw [hsum] at hy
      have hyv : ((n + a : ℤ) : ℚ) = y := by injection hy
      rw [← hyv, Math.round_intCast, ha]
      push_cast; ring
  · rw [hval]
    simp only [hg, if_true, JSNumber.add_nan, JSNumber.nan_round_less]
    rfl

/-- Witness of C24 (amended): the worked example's document with `calculations.tdee` stored as
2136; the target is 1636. -/
theorem calculateTargetCalories_eq_max_floor_witness :
    runtimeStoredTdeeUser.calculations.tdee = some (.finite 2136) ∧ (0 : ℚ) < 2136
      ∧ (2136 : ℚ) ≤ 2 ^ 52
      ∧ (Runtime.User.calculateTargetCalories runtimeStoredTdeeUser).1 = .finite 1636 := by
  have h := (calculateTargetCalories_eq_max_floor runtimeStoredTdeeUser 2136 rfl (by norm_num)
    (by norm_num)).1 (by decide)
  obtain ⟨r, _, h2, _, h4⟩ := h
  have hr := h4 2136 (by norm_num)
  have hg : runtimeStoredTdeeUser.goals.primaryGoal = "weight_loss" := rfl
  have hm : runtimeStoredTdeeUser.personalInfo.gender = "male" := rfl
  rw [hg] at hr
  have hr2 : r = 1636 := by
    have : (r : ℚ) = 1636 := by rw [hr]; norm_num [specAdjustment]
    exact_mod_cast this
  refine ⟨rfl, by norm_num, by norm_num, ?_⟩
  rw [h2, hm, hr2]
  norm_num

/-! ## The macro split and inherited properties -/

theorem getRecord_cases {β : Type} (table : List (String × β)) (key : String) (fallback : β) :
    (key ∈ Object.prototype → table.lookup key = none → getRecord table key fallback = .inheritedObject)
      ∧ (key ∉ Object.prototype →
          getRecord table key fallback = .record ((table.lookup key).getD fallback)) := by
  unfold getRecord getProperty
  constructor
  · intro hk hl
    simp [hl, hk]
  · intro hk
    cases h : table.lookup key <;> simp [hk]

/-- C7, counterexample: for the goal `'constructor'`, which is none of the named goals, the
lookup `ratios[goal] || ratios['maintenance']` of `DemoBackend.calculateMacroRatios` and the
lookup `macroRatios[goal] || macroRatios.maintenance` of `User.calculateMacros` find the
function every object inherits under that name, which is truthy: the fallback is not taken and
the split has no `protein`, `carbs` or `fats`, so nothing sums to 100 or to 1. -/
theorem macro_split_constructor_is_inherited :
    Runtime.DemoBackend.calculateMacroRatios "constructor" = .inheritedObject
      ∧ Runtime.User.calculateMacros.ratios "constructor" = .inheritedObject
      ∧ (Runtime.DemoBackend.calculateMacroRatios "constructor").field (fun r => r.protein)
          = JSNumber.nan := by
  refine ⟨by decide, by decide, by decide⟩

/-- C7 (amended): for every goal that is not the name of a property inherited from
`Object.prototype` (the four named goals, and every other such value, for which the
maintenance split is used), the protein/carbs/fats split sums to exactly 100 % as written: the
percent integers of `DemoBackend.calculateMacroRatios` sum to 100 and the decimal fractions of
`User.calculateMacros` sum to 1. For an inherited name the lookup returns the inherited
object, which has no split. -/
theorem macro_split_sums_to_whole (goal : String) :
    (goal ∉ Object.prototype →
        (∃ r, Runtime.DemoBackend.calculateMacroRatios goal = .record r
            ∧ r.protein + r.carbs + r.fats = 100)
          ∧ (∃ r, Runtime.User.calculateMacros.ratios goal = .record r
              ∧ r.protein + r.carbs + r.fats = 1))
      ∧ (goal ∈ Object.prototype →
          Runtime.DemoBackend.calculateMacroRatios goal = .inheritedObject
            ∧ Runtime.User.calculateMacros.ratios goal = .inheritedObject) := by
  refine ⟨fun hg => ⟨⟨_, (getRecord_cases _ _ _).2 hg, ?_⟩, ⟨_, (getRecord_cases _ _ _).2 hg, ?_⟩⟩,
    fun hg => ⟨(getRecord_cases _ _ _).1 hg ?_, (getRecord_cases _ _ _).1 hg ?_⟩⟩
  · exact DemoBackend.calculateMacroRatios_sum goal
  · exact User.calculateMacros.ratios_sum goal
  · simp only [DemoBackend.ratios, lookup_cons, List.lookup_nil]
    split_ifs <;> first | rfl | (exfalso; subst_vars; revert hg; decide)
  · simp only [User.macroRatios, lookup_cons, List.lookup_nil]
    split_ifs <;> first | rfl | (exfalso; subst_vars; revert hg; decide)

/-! ## The goal switch of plan generation -/

theorem round_2136_muscle :
    (JSNumber.finite 2136 * 1.15).round = JSNumber.finite 2456 := by
  rw [JSNumber.sci_1_15, JSNumber.finite_mul, Float64.mul_2136_1_15, JSNumber.round_finite]
  congr 1
  have : Math.round ((5401680724937932 : ℚ) * 2 ^ (-41 : ℤ)) = 2456 := by
    rw [Math.round_eq_iff]; norm_num
  exact_mod_cast this

theorem round_2790_muscle :
    (JSNumber.finite 2790 * 1.15).round = JSNumber.finite 3208 := by
  rw [JSNumber.sci_1_15, JSNumber.finite_mul, Float64.mul_2790_1_15, JSNumber.round_finite]
  congr 1
  have : Math.round ((7055566115438591 : ℚ) * 2 ^ (-41 : ℤ)) = 3208 := by
    rw [Math.round_eq_iff]; norm_num
  exact_mod_cast this

/-- C27: the goal `muscle_building` of the User schema gets no calorie adjustment in plan
generation: the goal `switch` of `generatePersonalizedDietPlan` has a case `'muscle_gain'` and
none for `'muscle_building'`, which takes the `default` branch, so `dailyCalories` is the TDEE
itself for every TDEE; for the TDEE 2136 of the worked example it is 2136, where
`Math.round(2136 * 1.15)` is 2456. -/
theorem muscle_building_not_adjusted :
    (∀ t : JSNumber, Runtime.dailyCaloriesFor t "muscle_building" = t)
      ∧ Runtime.dailyCaloriesFor (.finite 2136) "muscle_building" = .finite 2136
      ∧ (JSNumber.finite 2136 * 1.15).round = .finite 2456 := by
  have h0 : ∀ t : JSNumber, Runtime.dailyCaloriesFor t "muscle_building" = t := by
    intro t
    simp [Runtime.dailyCaloriesFor]
  exact ⟨h0, h0 _, round_2136_muscle⟩

/-- C3, counterexample: for the TDEE 2790 and the goal `'muscle_gain'` plan generation stores
`dailyCalories` 3208, not `round(1.15 * 2790) = round(3208.5) = 3209`: the double product
`2790 * 1.15` is 3208.4999999999995. -/
theorem dailyCalories_muscle_gain_2790 :
    Runtime.dailyCaloriesFor (.finite 2790) "muscle_gain" = .finite 3208
      ∧ (Runtime.DemoBackend.generateDietPlan.goals muscleGainUser).dailyCalories = .finite 3208
      ∧ Math.round ((1.15 : ℚ) * 2790) = 3209 := by
  have h : Runtime.dailyCaloriesFor (.finite 2790) "muscle_gain" = .finite 3208 := by
    simp only [Runtime.dailyCaloriesFor]
    rw [if_neg (by decide), if_neg (by decide), if_pos (by decide)]
    exact round_2790_muscle
  refine ⟨h, h, ?_⟩
  rw [Math.round_eq_iff]; norm_num

/-- One more rounding: when `y` is within `n` relative errors of `2 ^ -52` of `x`, the double
nearest to `y` is within `n + 1` of them. -/
theorem Float64.ofRat_step (x y : ℚ) (n : ℕ) (hn : n ≤ 2 ^ 20)
    (hxy : |y - x| ≤ n * |x| / 2 ^ 52)
    (hlo : (2 : ℚ) ^ (-1000 : ℤ) ≤ |x|) (hhi : |x| ≤ (2 : ℚ) ^ (1000 : ℤ)) :
    ∃ z, Float64.ofRat y = .finite z ∧ |z - x| ≤ ((n : ℚ) + 1) * |x| / 2 ^ 52 := by
  have hx0 : 0 ≤ |x| := abs_nonneg x
  have hnq : (n : ℚ) ≤ 2 ^ 20 := by exact_mod_cast hn
  have hhalf : (n : ℚ) * |x| / 2 ^ 52 ≤ |x| / 2 := by
    have : (n : ℚ) * |x| ≤ 2 ^ 20 * |x| := mul_le_mul_of_nonneg_right hnq hx0
    have h2 : (n : ℚ) * |x| / 2 ^ 52 ≤ 2 ^ 20 * |x| / 2 ^ 52 :=
      div_le_div_of_nonneg_right this (by positivity)
    have h3 : (2 : ℚ) ^ 20 * |x| / 2 ^ 52 ≤ |x| / 2 := by
      rw [div_le_div_iff₀ (by positivity) (by positivity)]
      nlinarith
    linarith
  have hy1 : |y| ≤ |x| + |y - x| := by
    have := abs_add (y - x) x
    simp only [sub_add_cancel] at this
    linarith
  have hy2 : |x| ≤ |y| + |y - x| := by
    have := abs_add (x - y) y
    simp only [sub_add_cancel] at this
    rw [abs_sub_comm x y] at this
    linarith
  have hya : |x| / 2 ≤ |y| := by linarith
  have hyb : |y| ≤ 3 / 2 * |x| := by linarith
  have hylo : (2 : ℚ) ^ (-1022 : ℤ) ≤ |y| := by
    have h1 : (2 : ℚ) ^ (-1022 : ℤ) ≤ 2 ^ (-1000 : ℤ) / 2 := by norm_num
    have h2 : (2 : ℚ) ^ (-1000 : ℤ) / 2 ≤ |x| / 2 := by
      apply div_le_div_of_nonneg_right hlo (by norm_num)
    exact le_trans h1 (le_trans h2 hya)
  have hyhi : |y| ≤ (2 : ℚ) ^ (1023 : ℤ) := by
    have h1 : 3 / 2 * (2 : ℚ) ^ (1000 : ℤ) ≤ 2 ^ (1023 : ℤ) := by norm_num
    have h2 : 3 / 2 * |x| ≤ 3 / 2 * (2 : ℚ) ^ (1000 : ℤ) :=
      mul_le_mul_of_nonneg_left hhi (by norm_num)
    exact le_trans hyb (le_trans h2 h1)
  obtain ⟨z, hz, hzy⟩ := Float64.ofRat_error y hylo hyhi
  refine ⟨z, hz, ?_⟩
  have h53 : |y| / 2 ^ 53 ≤ |x| / 2 ^ 52 := by
    rw [div_le_div_iff₀ (by positivity) (by positivity)]
    nlinarith
  have hzx : |z - x| ≤ |z - y| + |y - x| := by
    have := abs_add (z - y) (y - x)
    simp only [sub_add_sub_cancel] at this
    exact this
  calc |z - x| ≤ |z - y| + |y - x| := hzx
    _ ≤ |x| / 2 ^ 52 + n * |x| / 2 ^ 52 := by linarith
    _ = ((n : ℚ) + 1) * |x| / 2 ^ 52 := by ring

/-- The product of a number with a decimal literal: two roundings. -/
theorem JSNumber.mul_ofRat_near (q c : ℚ) (hq1 : 1 ≤ q) (hq2 : q ≤ 2 ^ 53)
    (hc1 : 1 / 1024 ≤ c) (hc2 : c ≤ 1024) :
    ∃ y, JSNumber.finite q * Float64.ofRat c = .finite y
      ∧ |y - q * c| ≤ 2 * (q * c) / 2 ^ 52 := by
  have hc0 : 0 < c := lt_of_lt_of_le (by norm_num) hc1
  have hq0 : 0 < q := lt_of_lt_of_le (by norm_num) hq1
  obtain ⟨c1, hc, hcc⟩ := Float64.ofRat_step c c 0 (by norm_num) (by simp)
    (by rw [abs_of_pos hc0]; exact le_trans (by norm_num) hc1)
    (by rw [abs_of_pos hc0]; exact le_trans hc2 (by norm_num))
  rw [abs_of_pos hc0] at hcc
  have hqc0 : 0 < q * c := mul_pos hq0 hc0
  have h1 : |q * c1 - q * c| ≤ ((1 : ℕ) : ℚ) * |q * c| / 2 ^ 52 := by
    rw [← mul_sub, abs_mul, abs_of_pos hq0, abs_of_pos hqc0]
    have := mul_le_mul_of_nonneg_left hcc hq0.le
    calc q * |c1 - c| ≤ q * ((((0 : ℕ) : ℚ) + 1) * c / 2 ^ 52) := this
      _ = ((1 : ℕ) : ℚ) * (q * c) / 2 ^ 52 := by push_cast; ring
  have hlo : (2 : ℚ) ^ (-1000 : ℤ) ≤ |q * c| := by
    rw [abs_of_pos hqc0]
    have : (1 : ℚ) / 1024 ≤ q * c := by nlinarith
    exact le_trans (by norm_num) this
  have hhi : |q * c| ≤ (2 : ℚ) ^ (1000 : ℤ) := by
    rw [abs_of_pos hqc0]
    have : q * c ≤ 2 ^ 53 * 1024 := by nlinarith
    exact le_trans this (by norm_num)
  obtain ⟨y, hy, hyy⟩ := Float64.ofRat_step (q * c) (q * c1) 1 (by norm_num) h1 hlo hhi
  refine ⟨y, ?_, ?_⟩
  · rw [hc, JSNumber.finite_mul, hy]
  · rw [abs_of_pos hqc0] at hyy
    calc |y - q * c| ≤ (((1 : ℕ) : ℚ) + 1) * (q * c) / 2 ^ 52 := hyy
      _ = 2 * (q * c) / 2 ^ 52 := by push_cast; ring

theorem Math.abs_round_sub_le (y : ℚ) : |(Math.round y : ℚ) - y| ≤ 1 / 2 := by
  have h1 := Math.round_le y
  have h2 := Math.lt_round y
  rw [abs_le]
  constructor <;> linarith

theorem specFactor_of_mem (g : String) (hg : g ∈ ["weight_loss", "weight_gain", "muscle_gain"]) :
    specFactor g = 0.8 ∨ specFactor g = 1.2 ∨ specFactor g = 1.15 := by
  unfold specFactor
  split_ifs
  · exact Or.inl rfl
  · exact Or.inr (Or.inl rfl)
  · exact Or.inr (Or.inr rfl)
  · simp only [List.mem_cons, List.mem_singleton, List.not_mem_nil, or_false] at hg
    rcases hg with h | h | h <;> contradiction

theorem Runtime.dailyCaloriesFor_of_mem (t : JSNumber) (g : String)
    (hg : g ∈ ["weight_loss", "weight_gain", "muscle_gain"]) :
    Runtime.dailyCaloriesFor t g = (t * Float64.ofRat (specFactor g)).round := by
  simp only [List.mem_cons, List.mem_singleton, List.not_mem_nil, or_false] at hg
  rcases hg with h | h | h <;> subst h <;> simp [Runtime.dailyCaloriesFor, specFactor] <;> rfl

/-- C3 (amended): the `dailyCalories` of plan generation is computed by the goal `switch` that
`generatePersonalizedDietPlan` and `DemoBackend.generateDietPlan` share: `Math.round` of the
double product `t * 0.8` for `'weight_loss'`, `t * 1.2` for `'weight_gain'` and `t * 1.15` for
`'muscle_gain'`, and `t` itself for `'maintenance'` and every other goal. For a TDEE between 1
and `2 ^ 53` the rounded value is an integer within `1/2 + t / 2 ^ 50` of the exact product, so
it is the rounding of the exact product or next to it. -/
theorem dailyCalories_eq_goal_adjusted (t : JSNumber) (g : String) (user : Runtime.StoredUser) :
    (Runtime.DemoBackend.generateDietPlan.goals user).dailyCalories
        = Runtime.dailyCaloriesFor user.tdee user.userData.primaryGoal
      ∧ (g ∈ ["weight_loss", "weight_gain", "muscle_gain"] →
          Runtime.dailyCaloriesFor t g = (t * Float64.ofRat (specFactor g)).round)
      ∧ (g ∉ ["weight_loss", "weight_gain", "muscle_gain"] → Runtime.dailyCaloriesFor t g = t)
      ∧ (g ∈ ["weight_loss", "weight_gain", "muscle_gain"] →
          ∀ q : ℚ, t = .finite q → 1 ≤ q → q ≤ 2 ^ 53 →
            ∃ r : ℤ, Runtime.dailyCaloriesFor t g = .finite r
              ∧ |(r : ℚ) - specFactor g * q| ≤ 1 / 2 + q / 2 ^ 50) := by
  refine ⟨rfl, Runtime.dailyCaloriesFor_of_mem t g, fun hg => ?_, fun hg q ht h1 h2 => ?_⟩
  · simp only [List.mem_cons, List.mem_singleton, List.not_mem_nil, or_false, not_or] at hg
    simp [Runtime.dailyCaloriesFor, hg.1, hg.2.1, hg.2.2]
  · subst ht
    have hf := specFactor_of_mem g hg
    have hf1 : 1 / 1024 ≤ specFactor g := by rcases hf with h | h | h <;> rw [h] <;> norm_num
    have hf2 : specFactor g ≤ 2 := by rcases hf with h | h | h <;> rw [h] <;> norm_num
    obtain ⟨y, hy, hyy⟩ := JSNumber.mul_ofRat_near q (specFactor g) h1 h2 hf1
      (le_trans hf2 (by norm_num))
    rw [Runtime.dailyCaloriesFor_of_mem _ g hg, hy, JSNumber.round_finite]
    refine ⟨Math.round y, rfl, ?_⟩
    have hr := Math.abs_round_sub_le y
    have hq0 : 0 < q := lt_of_lt_of_le (by norm_num) h1
    have hb : 2 * (q * specFactor g) / 2 ^ 52 ≤ q / 2 ^ 50 := by
      rw [div_le_div_iff₀ (by positivity) (by positivity)]
      nlinarith
    have htri : |(Math.round y : ℚ) - specFactor g * q|
        ≤ |(Math.round y : ℚ) - y| + |y - q * specFactor g| := by
      have := abs_add ((Math.round y : ℚ) - y) (y - q * specFactor g)
      simp only [sub_add_sub_cancel] at this
      rw [mul_comm (specFactor g) q]
      exact this
    linarith

/-- The error of a rounding of a number of magnitude at most `2 ^ 17`. -/
theorem Float64.ofRat_abs (x : ℚ) (h : |x| ≤ 2 ^ 17) :
    ∃ y, Float64.ofRat x = .finite y ∧ |y - x| ≤ 1 / 2 ^ 35 := by
  obtain ⟨y, hy, hyx⟩ := Float64.ofRat_near x (le_trans h (by norm_num))
  refine ⟨y, hy, le_trans hyx ?_⟩
  have h1 : |x| / 2 ^ 53 ≤ 2 ^ 17 / 2 ^ 53 := div_le_div_of_nonneg_right h (by positivity)
  have h2 : (2 : ℚ) ^ (-1075 : ℤ) ≤ 1 / 2 ^ 36 := by norm_num
  have h3 : (2 : ℚ) ^ 17 / 2 ^ 53 + 1 / 2 ^ 36 ≤ 1 / 2 ^ 35 := by norm_num
  linarith

theorem JSNumber.sci_0_453592 :
    ∃ c, (0.453592 : JSNumber) = JSNumber.finite c ∧ |c - 0.453592| ≤ 1 / 2 ^ 35 :=
  Float64.ofRat_abs 0.453592 (by norm_num [abs_of_pos])

theorem JSNumber.sci_30_48 :
    ∃ c, (30.48 : JSNumber) = JSNumber.finite c ∧ |c - 30.48| ≤ 1 / 2 ^ 35 :=
  Float64.ofRat_abs 30.48 (by norm_num [abs_of_pos])

theorem Runtime.weightInKg_bounds (unit : String) (w : ℚ) (h1 : 30 ≤ w) (h2 : w ≤ 500) :
    ∃ wk, (if unit = "kg" then JSNumber.finite w else JSNumber.finite w * 0.453592)
        = JSNumber.finite wk ∧ 13 ≤ wk ∧ wk ≤ 500 := by
  split_ifs
  · exact ⟨w, rfl, by linarith, h2⟩
  · obtain ⟨c, hc, hcc⟩ := JSNumber.sci_0_453592
    rw [abs_le] at hcc
    have hc1 : (0.4535 : ℚ) ≤ c := by
      have : (0.4535 : ℚ) ≤ 0.453592 - 1 / 2 ^ 35 := by norm_num
      linarith
    have hc2 : c ≤ (0.4536 : ℚ) := by
      have : (0.453592 : ℚ) + 1 / 2 ^ 35 ≤ 0.4536 := by norm_num
      linarith
    have hp1 : (13.6 : ℚ) ≤ w * c := by nlinarith
    have hp2 : w * c ≤ (226.8 : ℚ) := by nlinarith
    obtain ⟨y, hy, hyy⟩ := Float64.ofRat_abs (w * c) (by
      rw [abs_of_pos (by linarith)]; linarith)
    rw [abs_le] at hyy
    refine ⟨y, by rw [hc, JSNumber.finite_mul, hy], ?_, ?_⟩
    · have : (0 : ℚ) ≤ 1 / 2 ^ 35 ∧ (1 : ℚ) / 2 ^ 35 ≤ 0.1 := by norm_num
      linarith
    · have : (1 : ℚ) / 2 ^ 35 ≤ 0.1 := by norm_num
      linarith

theorem Runtime.heightInCm_bounds (unit : String) (h : ℚ) (h1 : 100 ≤ h) (h2 : h ≤ 300) :
    ∃ hc, (if unit = "cm" then JSNumber.finite h else JSNumber.finite h * 30.48)
        = JSNumber.finite hc ∧ 100 ≤ hc ∧ hc ≤ 9145 := by
  split_ifs
  · exact ⟨h, rfl, h1, by linarith⟩
  · obtain ⟨c, hc, hcc⟩ := JSNumber.sci_30_48
    rw [abs_le] at hcc
    have hc1 : (30.47 : ℚ) ≤ c := by
      have : (30.47 : ℚ) ≤ 30.48 - 1 / 2 ^ 35 := by norm_num
      linarith
    have hc2 : c ≤ (30.481 : ℚ) := by
      have : (30.48 : ℚ) + 1 / 2 ^ 35 ≤ 30.481 := by norm_num
      linarith
    have hp1 : (3047 : ℚ) ≤ h * c := by nlinarith
    have hp2 : h * c ≤ (9144.3 : ℚ) := by nlinarith
    obtain ⟨y, hy, hyy⟩ := Float64.ofRat_abs (h * c) (by
      rw [abs_of_pos (by linarith)]; linarith)
    rw [abs_le] at hyy
    refine ⟨y, by rw [hc, JSNumber.finite_mul, hy], ?_, ?_⟩
    · have : (1 : ℚ) / 2 ^ 35 ≤ 0.1 := by norm_num
      linarith
    · have : (1 : ℚ) / 2 ^ 35 ≤ 0.1 := by norm_num
      linarith

/-- The Mifflin-St Jeor expression in double arithmetic stays within `10 ^ -6` of its exact
value on the ranges of a valid profile. -/
theorem Runtime.mifflin_near (wk hc age : ℚ) (male : Bool)
    (hw1 : 13 ≤ wk) (hw2 : wk ≤ 500) (hh1 : 100 ≤ hc) (hh2 : hc ≤ 9145)
    (ha1 : 18 ≤ age) (ha2 : age ≤ 100) :
    ∃ y, (if male then
            (10 * JSNumber.finite wk + 6.25 * JSNumber.finite hc - 5 * JSNumber.finite age + 5
              : JSNumber)
          else 10 * JSNumber.finite wk + 6.25 * JSNumber.finite hc - 5 * JSNumber.finite age - 161)
        = JSNumber.finite y
      ∧ |y - (10 * wk + 6.25 * hc - 5 * age + (if male then 5 else -161))| ≤ 1 / 10 ^ 6 := by
  have hδ : (1 : ℚ) / 2 ^ 35 ≤ 1 / (6 * 10 ^ 6) := by norm_num
  have hδ0 : (0 : ℚ) ≤ 1 / 2 ^ 35 := by positivity
  have e10 : (10 : JSNumber) = JSNumber.finite 10 :=
    (JSNumber.natLit 10 (by norm_num)).trans (by norm_num)
  have e5 : (5 : JSNumber) = JSNumber.finite 5 :=
    (JSNumber.natLit 5 (by norm_num)).trans (by norm_num)
  have e161 : (161 : JSNumber) = JSNumber.finite 161 :=
    (JSNumber.natLit 161 (by norm_num)).trans (by norm_num)
  obtain ⟨a1, ha1e, hb1⟩ := Float64.ofRat_abs (10 * wk) (by
    rw [abs_of_pos (by linarith)]; norm_num; linarith)
  obtain ⟨a2, ha2e, hb2⟩ := Float64.ofRat_abs (25 / 4 * hc) (by
    rw [abs_of_pos (by linarith)]; norm_num; linarith)
  rw [abs_le] at hb1 hb2
  obtain ⟨a3, ha3e, hb3⟩ := Float64.ofRat_abs (a1 + a2) (by
    rw [abs_le]; norm_num; constructor <;> linarith)
  obtain ⟨a4, ha4e, hb4⟩ := Float64.ofRat_abs (5 * age) (by
    rw [abs_of_pos (by linarith)]; norm_num; linarith)
  rw [abs_le] at hb3 hb4
  obtain ⟨a5, ha5e, hb5⟩ := Float64.ofRat_abs (a3 - a4) (by
    rw [abs_le]; norm_num; constructor <;> linarith)
  rw [abs_le] at hb5
  rw [e10, e5, e161, JSNumber.sci_6_25, JSNumber.finite_mul, JSNumber.finite_mul,
    JSNumber.finite_mul, ha1e, ha2e, ha4e, JSNumber.finite_add, ha3e, JSNumber.finite_sub, ha5e,
    JSNumber.finite_add, JSNumber.finite_sub]
  cases male
  · obtain ⟨a6, ha6e, hb6⟩ := Float64.ofRat_abs (a5 - 161) (by
      rw [abs_le]; norm_num; constructor <;> linarith)
    rw [abs_le] at hb6
    refine ⟨a6, by simpa using ha6e, ?_⟩
    rw [abs_le]
    simp only [Bool.false_eq_true, if_false]
    constructor <;> linarith
  · obtain ⟨a6, ha6e, hb6⟩ := Float64.ofRat_abs (a5 + 5) (by
      rw [abs_le]; norm_num; constructor <;> linarith)
    rw [abs_le] at hb6
    refine ⟨a6, by simpa using ha6e, ?_⟩
    rw [abs_le]
    simp only [if_true]
    constructor <;> linarith

theorem specMultiplier_bounds (top a : String) :
    6 / 5 ≤ specMultiplier top a ∧ specMultiplier top a ≤ 2 := by
  unfold specMultiplier
  split_ifs <;> norm_num

/-- The TDEE product for an integer BMR and a multiplier of at least 1.2 rounds to an integer
that is not below the BMR. -/
theorem Runtime.round_mul_ge (b : ℤ) (m : ℚ) (hb1 : 1 ≤ b) (hb2 : b ≤ 2 ^ 53)
    (hm1 : 6 / 5 ≤ m) (hm2 : m ≤ 2) :
    ∃ t : ℤ, (JSNumber.finite b * Float64.ofRat m).round = .finite t ∧ b ≤ t := by
  have hbq1 : (1 : ℚ) ≤ b := by exact_mod_cast hb1
  have hbq2 : (b : ℚ) ≤ 2 ^ 53 := by exact_mod_cast hb2
  obtain ⟨y, hy, hyy⟩ := JSNumber.mul_ofRat_near b m hbq1 hbq2 (by linarith) (by linarith)
  rw [hy, JSNumber.round_finite]
  refine ⟨Math.round y, rfl, Math.le_round_of_le b y ?_⟩
  rw [abs_le] at hyy
  have h1 : (b : ℚ) * (6 / 5) ≤ b * m := mul_le_mul_of_nonneg_left hm1 (by linarith)
  have h2 : 2 * ((b : ℚ) * m) / 2 ^ 52 ≤ (b : ℚ) * m / 12 := by
    have : (0 : ℚ) ≤ b * m := by nlinarith
    rw [div_le_div_iff₀ (by positivity) (by positivity)]
    nlinarith
  linarith

theorem Runtime.mifflin_round (wk hc age : ℚ) (male : Bool)
    (hw1 : 13 ≤ wk) (hw2 : wk ≤ 500) (hh1 : 100 ≤ hc) (hh2 : hc ≤ 9145)
    (ha1 : 18 ≤ age) (ha2 : age ≤ 100) :
    ∃ b : ℤ, (if male then
            (10 * JSNumber.finite wk + 6.25 * JSNumber.finite hc - 5 * JSNumber.finite age + 5
              : JSNumber)
          else 10 * JSNumber.finite wk + 6.25 * JSNumber.finite hc - 5 * JSNumber.finite age
            - 161).round
        = JSNumber.finite b ∧ 93 ≤ b ∧ b ≤ 2 ^ 17 := by
  obtain ⟨y, hy, hyy⟩ := Runtime.mifflin_near wk hc age male hw1 hw2 hh1 hh2 ha1 ha2
  rw [hy, JSNumber.round_finite]
  rw [abs_le] at hyy
  have hs1 : (-161 : ℚ) ≤ (if male then 5 else -161) := by split_ifs <;> norm_num
  have hs2 : (if male then 5 else -161 : ℚ) ≤ 5 := by split_ifs <;> norm_num
  refine ⟨Math.round y, rfl, Math.le_round_of_le 93 y (by push_cast; linarith), ?_⟩
  have h1 := Math.round_le y
  have h2 : ((Math.round y : ℤ) : ℚ) ≤ ((2 ^ 17 : ℤ) : ℚ) := by push_cast; linarith
  exact_mod_cast h2

theorem Runtime.User.calculateBMR_round (u : Runtime.User)
    (hua : 18 ≤ u.personalInfo.age ∧ u.personalInfo.age ≤ 100)
    (huw : 30 ≤ u.physicalData.currentWeight ∧ u.physicalData.currentWeight ≤ 500)
    (huh : 100 ≤ u.physicalData.height ∧ u.physicalData.height ≤ 300) :
    ∃ b : ℤ, (Runtime.User.calculateBMR u).1 = .finite b ∧ 93 ≤ b ∧ b ≤ 2 ^ 17 := by
  obtain ⟨wk, hwk, hw1, hw2⟩ := Runtime.weightInKg_bounds u.physicalData.weightUnit
    u.physicalData.currentWeight huw.1 huw.2
  obtain ⟨hc, hhc, hh1, hh2⟩ := Runtime.heightInCm_bounds u.physicalData.heightUnit
    u.physicalData.height huh.1 huh.2
  obtain ⟨b, hb, hb1, hb2⟩ := Runtime.mifflin_round wk hc u.personalInfo.age
    (decide (u.personalInfo.gender = "male")) hw1 hw2 hh1 hh2 hua.1 hua.2
  refine ⟨b, ?_, hb1, hb2⟩
  rw [← hb]
  simp only [Runtime.User.calculateBMR, hwk, hhc, decide_eq_true_eq]

theorem Runtime.DemoBackend.calculateBMR_demo_round (d : UserData)
    (hda : 18 ≤ d.age ∧ d.age ≤ 100) (hdw : 30 ≤ d.weight ∧ d.weight ≤ 500)
    (hdh : 100 ≤ d.height ∧ d.height ≤ 300) :
    ∃ b : ℤ, Runtime.DemoBackend.calculateBMR d = .finite b ∧ 93 ≤ b ∧ b ≤ 2 ^ 17 := by
  obtain ⟨b, hb, hb1, hb2⟩ := Runtime.mifflin_round d.weight d.height d.age
    (decide (d.gender = "male")) (by linarith [hdw.1]) hdw.2 hdh.1 (by linarith [hdh.2])
    hda.1 hda.2
  refine ⟨b, ?_, hb1, hb2⟩
  rw [← hb]
  simp only [Runtime.DemoBackend.calculateBMR, decide_eq_true_eq]
  split_ifs <;> rfl

/-- C5, counterexample: for the worked example's profile, which is valid, with the activity
level `'constructor'`, the demo backend stores the BMR 1780 and the TDEE `NaN`, and `NaN` is
not at least 1780: the multiplier lookup finds the function every object inherits under that
name, which is truthy, and the product with it is `NaN`. -/
theorem tdee_constructor_not_ge_bmr :
    (18 ≤ constructorData.age ∧ constructorData.age ≤ 100)
      ∧ (30 ≤ constructorData.weight ∧ constructorData.weight ≤ 500)
      ∧ (100 ≤ constructorData.height ∧ constructorData.height ≤ 300)
      ∧ (Runtime.DemoBackend.createUser.user "user_1" constructorData).bmr = .finite 1780
      ∧ (Runtime.DemoBackend.createUser.user "user_1" constructorData).tdee = JSNumber.nan := by
  have hb : Runtime.DemoBackend.calculateBMR constructorData = .finite 1780 := by
    simp only [Runtime.DemoBackend.calculateBMR, constructorData, if_true]
    simp (disch := norm_num) only [JSNumber.natLit, JSNumber.sci_6_25, Nat.cast_ofNat]
    norm_num [JSNumber.finite_mul, JSNumber.finite_add, JSNumber.finite_sub,
      Float64.ofRat_ofNat, JSNumber.round_finite, Math.round_ofNat]
  refine ⟨by norm_num [constructorData], by norm_num [constructorData],
    by norm_num [constructorData], hb, ?_⟩
  show Runtime.DemoBackend.calculateTDEE (Runtime.DemoBackend.calculateBMR constructorData)
    constructorData.activityLevel = JSNumber.nan
  rw [Runtime.DemoBackend.calculateTDEE, DemoBackend.multipliers_orElse]
  have ha : constructorData.activityLevel = "constructor" := rfl
  rw [ha, if_pos (by decide), JSNumber.mul_nan]
  rfl

/-- C5 (amended): for every valid profile (age 18..100, weight 30..500, height 100..300, any
gender, any units) `calculateBMR` returns a positive integer, and for every activity level that
is not the name of a property inherited from `Object.prototype` (the five tiers and every
other such value) `calculateTDEE` applied to that BMR returns an integer that is at least the
BMR, in the User model and in the demo backend. For an inherited name the TDEE is `NaN`. -/
theorem bmr_pos_and_tdee_ge_bmr (u : Runtime.User) (d : UserData)
    (hua : 18 ≤ u.personalInfo.age ∧ u.personalInfo.age ≤ 100)
    (huw : 30 ≤ u.physicalData.currentWeight ∧ u.physicalData.currentWeight ≤ 500)
    (huh : 100 ≤ u.physicalData.height ∧ u.physicalData.height ≤ 300)
    (hda : 18 ≤ d.age ∧ d.age ≤ 100) (hdw : 30 ≤ d.weight ∧ d.weight ≤ 500)
    (hdh : 100 ≤ d.height ∧ d.height ≤ 300) :
    (∃ b : ℤ, (Runtime.User.calculateBMR u).1 = .finite b ∧ 0 < b
        ∧ (u.goals.activityLevel ∉ Object.prototype →
            ∃ t : ℤ, (Runtime.User.calculateTDEE (Runtime.User.calculateBMR u).2).1 = .finite t
              ∧ b ≤ t)
        ∧ (u.goals.activityLevel ∈ Object.prototype →
            (Runtime.User.calculateTDEE (Runtime.User.calculateBMR u).2).1 = JSNumber.nan))
      ∧ (∃ b : ℤ, Runtime.DemoBackend.calculateBMR d = .finite b ∧ 0 < b
        ∧ (d.activityLevel ∉ Object.prototype →
            ∃ t : ℤ, Runtime.DemoBackend.calculateTDEE (Runtime.DemoBackend.calculateBMR d)
                d.activityLevel = .finite t ∧ b ≤ t)
        ∧ (d.activityLevel ∈ Object.prototype →
            Runtime.DemoBackend.calculateTDEE (Runtime.DemoBackend.calculateBMR d)
              d.activityLevel = JSNumber.nan)) := by
  obtain ⟨b, hb, hb1, hb2⟩ := Runtime.User.calculateBMR_round u hua huw huh
  obtain ⟨c, hc, hc1, hc2⟩ := Runtime.DemoBackend.calculateBMR_demo_round d hda hdw hdh
  have hstored : (Runtime.User.calculateBMR u).2.calculations.bmr
      = some (JSNumber.finite b) := by
    show some (Runtime.User.calculateBMR u).1 = _
    rw [hb]
  have hf : (JSNumber.finite (b : ℚ)).falsy = false := by
    have : (b : ℚ) ≠ 0 := by
      have : b ≠ 0 := by omega
      exact_mod_cast this
    simp [JSNumber.falsy, this]
  have htdee := Runtime.User.calculateTDEE_stored_eq _ _ hstored hf
  rw [Runtime.User.calculateBMR_keeps_goals, User.activityMultipliers_orElse] at htdee
  refine ⟨⟨b, hb, by omega, fun ha => ?_, fun ha => ?_⟩, ⟨c, hc, by omega, fun ha => ?_, fun ha => ?_⟩⟩
  · rw [htdee, if_neg ha]
    obtain ⟨m1, m2⟩ := specMultiplier_bounds "extremely_active" u.goals.activityLevel
    exact Runtime.round_mul_ge b _ (by omega) (le_trans hb2 (by norm_num)) m1 m2
  · rw [htdee, if_pos ha, JSNumber.mul_nan]
    rfl
  · rw [hc, Runtime.DemoBackend.calculateTDEE, DemoBackend.multipliers_orElse, if_neg ha]
    obtain ⟨m1, m2⟩ := specMultiplier_bounds "extra_active" d.activityLevel
    exact Runtime.round_mul_ge c _ (by omega) (le_trans hc2 (by norm_num)) m1 m2
  · rw [Runtime.DemoBackend.calculateTDEE, DemoBackend.multipliers_orElse, if_pos ha,
      JSNumber.mul_nan]
    rfl

/-- Witness of C5 (amended) at the profile of the worked example, whose activity level is
`'sedentary'`. -/
theorem bmr_pos_and_tdee_ge_bmr_witness :
    (18 ≤ runtimeUser.personalInfo.age ∧ runtimeUser.personalInfo.age ≤ 100)
      ∧ (30 ≤ exampleData.weight ∧ exampleData.weight ≤ 500)
      ∧ (∃ b t : ℤ, (Runtime.User.calculateBMR runtimeUser).1 = .finite b ∧ 0 < b
          ∧ (Runtime.User.calculateTDEE (Runtime.User.calculateBMR runtimeUser).2).1 = .finite t
          ∧ b ≤ t)
      ∧ (∃ b t : ℤ, Runtime.DemoBackend.calculateBMR exampleData = .finite b ∧ 0 < b
          ∧ Runtime.DemoBackend.calculateTDEE (Runtime.DemoBackend.calculateBMR exampleData)
              exampleData.activityLevel = .finite t
          ∧ b ≤ t) := by
  have h := bmr_pos_and_tdee_ge_bmr runtimeUser exampleData
    (by norm_num [runtimeUser]) (by norm_num [runtimeUser]) (by norm_num [runtimeUser])
    (by norm_num [exampleData]) (by norm_num [exampleData]) (by norm_num [exampleData])
  obtain ⟨⟨b, hb, hb0, hbt, _⟩, ⟨c, hc, hc0, hct, _⟩⟩ := h
  obtain ⟨t, ht, hle⟩ := hbt (by decide)
  obtain ⟨t2, ht2, hle2⟩ := hct (by decide)
  exact ⟨by norm_num [runtimeUser], by norm_num [exampleData], ⟨b, t, hb, hb0, ht, hle⟩,
    ⟨c, t2, hc, hc0, ht2, hle2⟩⟩

/-- A division by an exact positive number: one more rounding. -/
theorem JSNumber.div_near (y x k : ℚ) (n : ℕ) (hn : n ≤ 2 ^ 20) (hk : 0 < k)
    (hxy : |y - x| ≤ n * |x| / 2 ^ 52)
    (hlo : (2 : ℚ) ^ (-1000 : ℤ) ≤ |x / k|) (hhi : |x / k| ≤ (2 : ℚ) ^ (1000 : ℤ)) :
    ∃ z, JSNumber.finite y / JSNumber.finite k = .finite z
      ∧ |z - x / k| ≤ ((n : ℚ) + 1) * |x / k| / 2 ^ 52 := by
  have h1 : |y / k - x / k| ≤ n * |x / k| / 2 ^ 52 := by
    rw [← sub_div, abs_div, abs_div, abs_of_pos hk]
    calc |y - x| / k ≤ (n * |x| / 2 ^ 52) / k := div_le_div_of_nonneg_right hxy hk.le
      _ = n * (|x| / k) / 2 ^ 52 := by ring
  obtain ⟨z, hz, hzz⟩ := Float64.ofRat_step (x / k) (y / k) n hn h1 hlo hhi
  exact ⟨z, by rw [JSNumber.finite_div _ _ hk.ne', hz], hzz⟩

/-- The grams `Math.round((calories * fraction) / k)` of `User.calculateMacros`. -/
theorem Runtime.macro_grams (D p k : ℚ) (hD1 : 1 ≤ D) (hD2 : D ≤ 2 ^ 53)
    (hp1 : 1 / 8 ≤ p) (hp2 : p ≤ 64) (hk1 : 1 ≤ k) (hk2 : k ≤ 16) :
    ∃ P : ℤ, ((JSNumber.finite D * Float64.ofRat p) / JSNumber.finite k).round = .finite P
      ∧ |(P : ℚ) - D * p / k| ≤ 1 / 2 + 3 * (D * p / k) / 2 ^ 52 := by
  have hk0 : 0 < k := by linarith
  have hp0 : 0 < p := by linarith
  have hD0 : 0 < D := by linarith
  have hx0 : 0 < D * p := mul_pos hD0 hp0
  have hxk0 : 0 < D * p / k := div_pos hx0 hk0
  obtain ⟨y1, hy1, hb1⟩ := JSNumber.mul_ofRat_near D p hD1 hD2 (by linarith) (by linarith)
  have hb1' : |y1 - D * p| ≤ ((2 : ℕ) : ℚ) * |D * p| / 2 ^ 52 := by
    rw [abs_of_pos hx0]; exact_mod_cast hb1
  have hlo : (2 : ℚ) ^ (-1000 : ℤ) ≤ |D * p / k| := by
    rw [abs_of_pos hxk0, le_div_iff₀ hk0]
    have : (2 : ℚ) ^ (-1000 : ℤ) * k ≤ 1 / 8 := by
      calc (2 : ℚ) ^ (-1000 : ℤ) * k ≤ 2 ^ (-1000 : ℤ) * 16 :=
            mul_le_mul_of_nonneg_left hk2 (by positivity)
        _ ≤ 1 / 8 := by norm_num
    have hDp1 : 1 / 8 ≤ D * p := by nlinarith
    exact le_trans this hDp1
  have hhi : |D * p / k| ≤ (2 : ℚ) ^ (1000 : ℤ) := by
    rw [abs_of_pos hxk0, div_le_iff₀ hk0]
    have h1 : D * p ≤ 2 ^ 53 * 64 := by nlinarith
    have h2 : (2 : ℚ) ^ 53 * 64 ≤ 2 ^ (1000 : ℤ) * 1 := by norm_num
    have h3 : (2 : ℚ) ^ (1000 : ℤ) * 1 ≤ 2 ^ (1000 : ℤ) * k :=
      mul_le_mul_of_nonneg_left hk1 (by positivity)
    exact le_trans h1 (le_trans h2 h3)
  obtain ⟨y2, hy2, hb2⟩ := JSNumber.div_near y1 (D * p) k 2 (by norm_num) hk0 hb1' hlo hhi
  rw [hy1, hy2, JSNumber.round_finite]
  refine ⟨Math.round y2, rfl, ?_⟩
  have hr := Math.abs_round_sub_le y2
  rw [abs_of_pos hxk0] at hb2
  have htri : |(Math.round y2 : ℚ) - D * p / k|
      ≤ |(Math.round y2 : ℚ) - y2| + |y2 - D * p / k| := by
    have := abs_add ((Math.round y2 : ℚ) - y2) (y2 - D * p / k)
    simp only [sub_add_sub_cancel] at this
    exact this
  have : (((2 : ℕ) : ℚ) + 1) * (D * p / k) / 2 ^ 52 = 3 * (D * p / k) / 2 ^ 52 := by
    push_cast; ring
  linarith

/-- The grams `Math.round((calories * percent / 100) / k)` of plan generation. -/
theorem Runtime.macro_grams_percent (D p k : ℚ) (hD1 : 1 ≤ D) (hD2 : D ≤ 2 ^ 53)
    (hp1 : 1 / 8 ≤ p) (hp2 : p ≤ 64) (hk1 : 1 ≤ k) (hk2 : k ≤ 16) :
    ∃ P : ℤ, (((JSNumber.finite D * Float64.ofRat p) / JSNumber.finite 100)
          / JSNumber.finite k).round = .finite P
      ∧ |(P : ℚ) - D * p / 100 / k| ≤ 1 / 2 + 4 * (D * p / 100 / k) / 2 ^ 52 := by
  have hk0 : 0 < k := by linarith
  have hp0 : 0 < p := by linarith
  have hD0 : 0 < D := by linarith
  have hx0 : 0 < D * p := mul_pos hD0 hp0
  have hx1 : 0 < D * p / 100 := div_pos hx0 (by norm_num)
  have hxk0 : 0 < D * p / 100 / k := div_pos hx1 hk0
  obtain ⟨y1, hy1, hb1⟩ := JSNumber.mul_ofRat_near D p hD1 hD2 (by linarith) (by linarith)
  have hb1' : |y1 - D * p| ≤ ((2 : ℕ) : ℚ) * |D * p| / 2 ^ 52 := by
    rw [abs_of_pos hx0]; exact_mod_cast hb1
  have hDp1 : 1 / 8 ≤ D * p := by nlinarith
  have hDp2 : D * p ≤ 2 ^ 53 * 64 := by nlinarith
  have hlo1 : (2 : ℚ) ^ (-1000 : ℤ) ≤ |D * p / 100| := by
    rw [abs_of_pos hx1, le_div_iff₀ (by norm_num)]
    have : (2 : ℚ) ^ (-1000 : ℤ) * 100 ≤ 1 / 8 := by norm_num
    exact le_trans this hDp1
  have hhi1 : |D * p / 100| ≤ (2 : ℚ) ^ (1000 : ℤ) := by
    rw [abs_of_pos hx1, div_le_iff₀ (by norm_num)]
    have h2 : (2 : ℚ) ^ 53 * 64 ≤ 2 ^ (1000 : ℤ) * 100 := by norm_num
    exact le_trans hDp2 h2
  obtain ⟨y2, hy2, hb2⟩ := JSNumber.div_near y1 (D * p) 100 2 (by norm_num) (by norm_num) hb1'
    hlo1 hhi1
  have hb2' : |y2 - D * p / 100| ≤ ((3 : ℕ) : ℚ) * |D * p / 100| / 2 ^ 52 := by
    have : (((2 : ℕ) : ℚ) + 1) = ((3 : ℕ) : ℚ) := by push_cast; norm_num
    rw [← this]; exact hb2
  have hlo : (2 : ℚ) ^ (-1000 : ℤ) ≤ |D * p / 100 / k| := by
    rw [abs_of_pos hxk0, le_div_iff₀ hk0, le_div_iff₀ (by norm_num)]
    have : (2 : ℚ) ^ (-1000 : ℤ) * k * 100 ≤ 1 / 8 := by
      calc (2 : ℚ) ^ (-1000 : ℤ) * k * 100 ≤ 2 ^ (-1000 : ℤ) * 16 * 100 := by
            have := mul_le_mul_of_nonneg_left hk2 (show (0 : ℚ) ≤ 2 ^ (-1000 : ℤ) by positivity)
            exact mul_le_mul_of_nonneg_right this (by norm_num)
        _ ≤ 1 / 8 := by norm_num
    exact le_trans this hDp1
  have hhi : |D * p / 100 / k| ≤ (2 : ℚ) ^ (1000 : ℤ) := by
    rw [abs_of_pos hxk0, div_le_iff₀ hk0, div_le_iff₀ (by norm_num)]
    have h2 : (2 : ℚ) ^ 53 * 64 ≤ 2 ^ (1000 : ℤ) * 1 * 100 := by norm_num
    have h3 : (2 : ℚ) ^ (1000 : ℤ) * 1 * 100 ≤ 2 ^ (1000 : ℤ) * k * 100 :=
      mul_le_mul_of_nonneg_right (mul_le_mul_of_nonneg_left hk1 (by positivity)) (by norm_num)
    exact le_trans hDp2 (le_trans h2 h3)
  obtain ⟨y3, hy3, hb3⟩ := JSNumber.div_near y2 (D * p / 100) k 3 (by norm_num) hk0 hb2' hlo hhi
  rw [hy1, hy2, hy3, JSNumber.round_finite]
  refine ⟨Math.round y3, rfl, ?_⟩
  have hr := Math.abs_round_sub_le y3
  rw [abs_of_pos hxk0] at hb3
  have htri : |(Math.round y3 : ℚ) - D * p / 100 / k|
      ≤ |(Math.round y3 : ℚ) - y3| + |y3 - D * p / 100 / k| := by
    have := abs_add ((Math.round y3 : ℚ) - y3) (y3 - D * p / 100 / k)
    simp only [sub_add_sub_cancel] at this
    exact this
  have : (((3 : ℕ) : ℚ) + 1) * (D * p / 100 / k) / 2 ^ 52 = 4 * (D * p / 100 / k) / 2 ^ 52 := by
    push_cast; ring
  linarith

theorem DemoBackend.ratios_facts (goal : String) :
    (25 ≤ ((DemoBackend.ratios.lookup goal).getD DemoBackend.ratios.maintenance).protein
      ∧ ((DemoBackend.ratios.lookup goal).getD DemoBackend.ratios.maintenance).protein ≤ 45)
    ∧ (25 ≤ ((DemoBackend.ratios.lookup goal).getD DemoBackend.ratios.maintenance).carbs
      ∧ ((DemoBackend.ratios.lookup goal).getD DemoBackend.ratios.maintenance).carbs ≤ 45)
    ∧ (25 ≤ ((DemoBackend.ratios.lookup goal).getD DemoBackend.ratios.maintenance).fats
      ∧ ((DemoBackend.ratios.lookup goal).getD DemoBackend.ratios.maintenance).fats ≤ 45)
    ∧ ((DemoBackend.ratios.lookup goal).getD DemoBackend.ratios.maintenance).protein
        + ((DemoBackend.ratios.lookup goal).getD DemoBackend.ratios.maintenance).carbs
        + ((DemoBackend.ratios.lookup goal).getD DemoBackend.ratios.maintenance).fats = 100 :=
  lookup_getD_cases (fun r : MacroRatios => (25 ≤ r.protein ∧ r.protein ≤ 45)
      ∧ (25 ≤ r.carbs ∧ r.carbs ≤ 45) ∧ (25 ≤ r.fats ∧ r.fats ≤ 45)
      ∧ r.protein + r.carbs + r.fats = 100)
    DemoBackend.ratios DemoBackend.ratios.maintenance goal
    (by norm_num [DemoBackend.ratios.maintenance])
    (by
      intro kv hkv
      simp only [DemoBackend.ratios, List.mem_cons, List.mem_singleton, List.not_mem_nil,
        or_false] at hkv
      rcases hkv with h | h | h | h <;> subst h <;> norm_num [DemoBackend.ratios.maintenance])

theorem User.macroRatios_facts (goal : String) :
    (1 / 4 ≤ ((User.macroRatios.lookup goal).getD User.macroRatios.maintenance).protein
      ∧ ((User.macroRatios.lookup goal).getD User.macroRatios.maintenance).protein ≤ 1 / 2)
    ∧ (1 / 4 ≤ ((User.macroRatios.lookup goal).getD User.macroRatios.maintenance).carbs
      ∧ ((User.macroRatios.lookup goal).getD User.macroRatios.maintenance).carbs ≤ 1 / 2)
    ∧ (1 / 4 ≤ ((User.macroRatios.lookup goal).getD User.macroRatios.maintenance).fats
      ∧ ((User.macroRatios.lookup goal).getD User.macroRatios.maintenance).fats ≤ 1 / 2)
    ∧ ((User.macroRatios.lookup goal).getD User.macroRatios.maintenance).protein
        + ((User.macroRatios.lookup goal).getD User.macroRatios.maintenance).carbs
        + ((User.macroRatios.lookup goal).getD User.macroRatios.maintenance).fats = 1 :=
  lookup_getD_cases (fun r : MacroRatios => (1 / 4 ≤ r.protein ∧ r.protein ≤ 1 / 2)
      ∧ (1 / 4 ≤ r.carbs ∧ r.carbs ≤ 1 / 2) ∧ (1 / 4 ≤ r.fats ∧ r.fats ≤ 1 / 2)
      ∧ r.protein + r.carbs + r.fats = 1)
    User.macroRatios User.macroRatios.maintenance goal
    (by norm_num [User.macroRatios.maintenance])
    (by
      intro kv hkv
      simp only [User.macroRatios, List.mem_cons, List.mem_singleton, List.not_mem_nil,
        or_false] at hkv
      rcases hkv with h | h | h | h <;> subst h <;> norm_num [User.macroRatios.maintenance])

/-- Three gram targets, each within `1/2 + n x / 2 ^ 52` of its exact value `x`, convert back
to within 5 % of the calories when these are at least 200. -/
theorem macro_grams_bound (D xp xc xf : ℚ) (P C F : ℤ) (hD : 200 ≤ D)
    (hsum : 4 * xp + 4 * xc + 9 * xf = D)
    (hP : |(P : ℚ) - xp| ≤ 1 / 2 + 4 * xp / 2 ^ 52)
    (hC : |(C : ℚ) - xc| ≤ 1 / 2 + 4 * xc / 2 ^ 52)
    (hF : |(F : ℚ) - xf| ≤ 1 / 2 + 4 * xf / 2 ^ 52) :
    |4 * (P : ℚ) + 4 * C + 9 * F - D| ≤ 0.05 * D := by
  rw [abs_le] at hP hC hF ⊢
  have e : 4 * (4 * xp / 2 ^ 52) + 4 * (4 * xc / 2 ^ 52) + 9 * (4 * xf / 2 ^ 52)
      = 4 * D / 2 ^ 52 := by rw [← hsum]; ring
  have hsmall : 4 * D / 2 ^ 52 ≤ D / 1000 := by
    rw [div_le_div_iff₀ (by positivity) (by positivity)]
    nlinarith
  constructor <;> norm_num <;> linarith

theorem Runtime.macroTargetsFor_inherited (c : JSNumber) :
    Runtime.macroTargetsFor c .inheritedObject
      = { protein := .nan, carbs := .nan, fats := .nan } := by
  simp only [Runtime.macroTargetsFor, TableEntry.field, JSNumber.mul_nan,
    JSNumber.div_finite_nan]
  rfl

theorem Runtime.User.calculateMacros.macros_inherited (c : JSNumber) :
    Runtime.User.calculateMacros.macros c .inheritedObject
      = { protein := .nan, carbs := .nan, fats := .nan } := by
  simp only [Runtime.User.calculateMacros.macros, TableEntry.field, JSNumber.mul_nan,
    JSNumber.div_finite_nan]
  rfl

/-- C8, counterexample: for the goal `'constructor'` and the calorie target 1709 all three macro
targets are `NaN`, in plan generation and in `User.calculateMacros`: the split lookup returns
the object every object inherits under that name, whose `protein`, `carbs` and `fats` are
`undefined`. -/
theorem macro_targets_constructor_are_nan :
    Runtime.macroTargetsFor (.finite 1709) (Runtime.DemoBackend.calculateMacroRatios "constructor")
        = { protein := .nan, carbs := .nan, fats := .nan }
      ∧ (Runtime.User.calculateMacros constructorTargetUser).1
        = { protein := .nan, carbs := .nan, fats := .nan } := by
  have h1 : Runtime.DemoBackend.calculateMacroRatios "constructor" = .inheritedObject := by
    decide
  have h2 : Runtime.User.calculateMacros.ratios "constructor" = .inheritedObject := by decide
  constructor
  · rw [h1, Runtime.macroTargetsFor_inherited]
  · have hf : Runtime.falsy constructorTargetUser.calculations.targetCalories = false := by
      simp [Runtime.falsy, constructorTargetUser, JSNumber.falsy]
    have hg : constructorTargetUser.goals.primaryGoal = "constructor" := rfl
    simp only [Runtime.User.calculateMacros, hf, Bool.false_eq_true, if_false, hg, h2,
      Runtime.User.calculateMacros.macros_inherited]

/-- C8 (amended): for every goal that is not the name of a property inherited from
`Object.prototype` and every integer `dailyCalories` from 200 to `2 ^ 53`, the macro targets
computed in double arithmetic with that goal's split, `P = Math.round((D * p / 100) / 4)`,
`C = Math.round((D * c / 100) / 4)`, `F = Math.round((D * f / 100) / 9)` in plan generation and
`Math.round((D * p) / 4)`, `Math.round((D * c) / 4)`, `Math.round((D * f) / 9)` in
`User.calculateMacros`, are integers with `|4 P + 4 C + 9 F - D| ≤ 0.05 D`. For an inherited
name all three targets are `NaN`. -/
theorem macro_calories_within_five_percent (goal : String) (dailyCalories : ℤ)
    (hD : 200 ≤ dailyCalories) (hD2 : dailyCalories ≤ 2 ^ 53) :
    (goal ∉ Object.prototype →
        (∃ P C F : ℤ,
            Runtime.macroTargetsFor (.finite dailyCalories)
                (Runtime.DemoBackend.calculateMacroRatios goal)
              = { protein := .finite P, carbs := .finite C, fats := .finite F }
            ∧ |4 * (P : ℚ) + 4 * C + 9 * F - dailyCalories| ≤ 0.05 * dailyCalories)
          ∧ (∃ P C F : ℤ,
              Runtime.User.calculateMacros.macros (.finite dailyCalories)
                  (Runtime.User.calculateMacros.ratios goal)
                = { protein := .finite P, carbs := .finite C, fats := .finite F }
              ∧ |4 * (P : ℚ) + 4 * C + 9 * F - dailyCalories| ≤ 0.05 * dailyCalories))
      ∧ (goal ∈ Object.prototype →
          Runtime.macroTargetsFor (.finite dailyCalories)
              (Runtime.DemoBackend.calculateMacroRatios goal)
            = { protein := .nan, carbs := .nan, fats := .nan }
          ∧ Runtime.User.calculateMacros.macros (.finite dailyCalories)
              (Runtime.User.calculateMacros.ratios goal)
            = { protein := .nan, carbs := .nan, fats := .nan }) := by
  have hDq : (200 : ℚ) ≤ dailyCalories := by exact_mod_cast hD
  have hDq2 : (dailyCalories : ℚ) ≤ 2 ^ 53 := by exact_mod_cast hD2
  have e4 : (4 : JSNumber) = JSNumber.finite 4 :=
    (JSNumber.natLit 4 (by norm_num)).trans (by norm_num)
  have e9 : (9 : JSNumber) = JSNumber.finite 9 :=
    (JSNumber.natLit 9 (by norm_num)).trans (by norm_num)
  have e100 : (100 : JSNumber) = JSNumber.finite 100 :=
    (JSNumber.natLit 100 (by norm_num)).trans (by norm_num)
  refine ⟨fun hg => ⟨?_, ?_⟩, fun hg => ?_⟩
  · obtain ⟨⟨p1, p2⟩, ⟨c1, c2⟩, ⟨f1, f2⟩, hs⟩ := DemoBackend.ratios_facts goal
    have hr : Runtime.DemoBackend.calculateMacroRatios goal
        = .record ((DemoBackend.ratios.lookup goal).getD DemoBackend.ratios.maintenance) :=
      (getRecord_cases _ _ _).2 hg
    set r := (DemoBackend.ratios.lookup goal).getD DemoBackend.ratios.maintenance
    obtain ⟨P, hP, hPb⟩ := Runtime.macro_grams_percent dailyCalories r.protein 4
      (by linarith) hDq2 (by linarith) (by linarith) (by norm_num) (by norm_num)
    obtain ⟨C, hC, hCb⟩ := Runtime.macro_grams_percent dailyCalories r.carbs 4
      (by linarith) hDq2 (by linarith) (by linarith) (by norm_num) (by norm_num)
    obtain ⟨F, hF, hFb⟩ := Runtime.macro_grams_percent dailyCalories r.fats 9
      (by linarith) hDq2 (by linarith) (by linarith) (by norm_num) (by norm_num)
    refine ⟨P, C, F, ?_, ?_⟩
    · rw [hr]
      simp only [Runtime.macroTargetsFor, TableEntry.field, e4, e9, e100, hP, hC, hF]
    · refine macro_grams_bound dailyCalories _ _ _ P C F hDq ?_ hPb hCb hFb
      have : (dailyCalories : ℚ) * (r.protein + r.carbs + r.fats) = dailyCalories * 100 := by
        rw [hs]
      linarith
  · obtain ⟨⟨p1, p2⟩, ⟨c1, c2⟩, ⟨f1, f2⟩, hs⟩ := User.macroRatios_facts goal
    have hr : Runtime.User.calculateMacros.ratios goal
        = .record ((User.macroRatios.lookup goal).getD User.macroRatios.maintenance) :=
      (getRecord_cases _ _ _).2 hg
    set r := (User.macroRatios.lookup goal).getD User.macroRatios.maintenance
    obtain ⟨P, hP, hPb⟩ := Runtime.macro_grams dailyCalories r.protein 4
      (by linarith) hDq2 (by linarith) (by linarith) (by norm_num) (by norm_num)
    obtain ⟨C, hC, hCb⟩ := Runtime.macro_grams dailyCalories r.carbs 4
      (by linarith) hDq2 (by linarith) (by linarith) (by norm_num) (by norm_num)
    obtain ⟨F, hF, hFb⟩ := Runtime.macro_grams dailyCalories r.fats 9
      (by linarith) hDq2 (by linarith) (by linarith) (by norm_num) (by norm_num)
    have hDp : (0 : ℚ) ≤ dailyCalories := by linarith
    refine ⟨P, C, F, ?_, ?_⟩
    · rw [hr]
      simp only [Runtime.User.calculateMacros.macros, TableEntry.field, e4, e9, hP, hC, hF]
    · refine macro_grams_bound dailyCalories (dailyCalories * r.protein / 4)
        (dailyCalories * r.carbs / 4) (dailyCalories * r.fats / 9) P C F hDq ?_ ?_ ?_ ?_
      · have : (dailyCalories : ℚ) * (r.protein + r.carbs + r.fats) = dailyCalories := by
          rw [hs, mul_one]
        linarith
      · refine le_trans hPb ?_
        have : (0 : ℚ) ≤ dailyCalories * r.protein / 4 / 2 ^ 52 := by positivity
        linarith
      · refine le_trans hCb ?_
        have : (0 : ℚ) ≤ dailyCalories * r.carbs / 4 / 2 ^ 52 := by positivity
        linarith
      · refine le_trans hFb ?_
        have : (0 : ℚ) ≤ dailyCalories * r.fats / 9 / 2 ^ 52 := by positivity
        linarith
  · have hl1 : DemoBackend.ratios.lookup goal = none := by
      simp only [DemoBackend.ratios, lookup_cons, List.lookup_nil]
      split_ifs <;> first | rfl | (exfalso; subst_vars; revert hg; decide)
    have hl2 : User.macroRatios.lookup goal = none := by
      simp only [User.macroRatios, lookup_cons, List.lookup_nil]
      split_ifs <;> first | rfl | (exfalso; subst_vars; revert hg; decide)
    have h1 : Runtime.DemoBackend.calculateMacroRatios goal = .inheritedObject :=
      (getRecord_cases _ _ _).1 hg hl1
    have h2 : Runtime.User.calculateMacros.ratios goal = .inheritedObject :=
      (getRecord_cases _ _ _).1 hg hl2
    rw [h1, h2, Runtime.macroTargetsFor_inherited, Runtime.User.calculateMacros.macros_inherited]
    exact ⟨rfl, rfl⟩

/-- Witness of C8 (amended): the goal `'weight_loss'` and the calorie target 1709 of the worked
example. -/
theorem macro_calories_within_five_percent_witness :
    (200 : ℤ) ≤ 1709 ∧ (1709 : ℤ) ≤ 2 ^ 53
      ∧ (∃ P C F : ℤ,
          Runtime.macroTargetsFor (.finite ((1709 : ℤ) : ℚ))
              (Runtime.DemoBackend.calculateMacroRatios "weight_loss")
            = { protein := .finite P, carbs := .finite C, fats := .finite F }
          ∧ |4 * (P : ℚ) + 4 * C + 9 * F - ((1709 : ℤ) : ℚ)| ≤ 0.05 * ((1709 : ℤ) : ℚ)) :=
  ⟨by norm_num, by norm_num,
    ((macro_calories_within_five_percent "weight_loss" 1709 (by norm_num) (by norm_num)).1
      (by decide)).1⟩

/-! ## The shopping list with inherited property names -/

theorem Object.keys_perm {β : Type} (object : List (String × β)) :
    (Object.keys object).Perm (object.map Prod.fst) :=
  List.perm_insertionSort _ _

theorem filterMap_lookup_of_nodup {β γ : Type} (m : List (String × β)) (f : String → β → γ)
    (h : (m.map Prod.fst).Nodup) :
    (m.map Prod.fst).filterMap (fun k => (m.lookup k).map (f k))
      = m.map (fun kv => f kv.1 kv.2) := by
  have : ∀ kv ∈ m, ((fun k => (m.lookup k).map (f k)) ∘ Prod.fst) kv = some (f kv.1 kv.2) := by
    rintro ⟨k, v⟩ hkv
    simp [mem_lookup_of_nodup m h k v hkv]
  rw [List.filterMap_map, List.filterMap_congr this]
  clear this h
  induction m with
  | nil => rfl
  | cons kv rest ih => simp [List.filterMap_cons, ih]

/-- The entries `Object.keys(shoppingList).map(...)` lists are those of the object, in another
order. -/
theorem entries_perm {β γ : Type} (m : List (String × β)) (f : String → β → γ)
    (h : (m.map Prod.fst).Nodup) :
    ((Object.keys m).filterMap (fun k => (m.lookup k).map (f k))).Perm
      (m.map (fun kv => f kv.1 kv.2)) := by
  rw [← filterMap_lookup_of_nodup m f h]
  exact (Object.keys_perm m).filterMap _

theorem Runtime.generateShoppingList.visit_eq
    (m : List (String × Runtime.ShoppingValue)) (food : DietPlanner.MealFood)
    (hm : ∀ k ∈ m.map Prod.fst, k ∉ Object.prototype) :
    Runtime.generateShoppingList.visit m food
      = if food.name ∈ Object.prototype then m
        else groupVisit (fun food : DietPlanner.MealFood => food.name)
          (fun food => ({ foodId := food.foodId, quantity := JSNumber.finite food.quantity,
                          unit := food.unit, category := "general" } : Runtime.ShoppingValue))
          (fun entry food =>
            { entry with quantity := entry.quantity + JSNumber.finite food.quantity }) m food := by
  unfold Runtime.generateShoppingList.visit getProperty groupVisit
  cases hl : m.lookup food.name with
  | some e =>
    have hk : food.name ∈ m.map Prod.fst :=
      List.mem_map.mpr ⟨(food.name, e), lookup_mem _ _ _ hl, rfl⟩
    simp [hm _ hk]
  | none =>
    by_cases hp : food.name ∈ Object.prototype
    · simp [hp]
    · simp [hp]

theorem Runtime.generateShoppingList.foldl_eq (items : List DietPlanner.MealFood)
    (m : List (String × Runtime.ShoppingValue))
    (hm : ∀ k ∈ m.map Prod.fst, k ∉ Object.prototype) :
    items.foldl Runtime.generateShoppingList.visit m
      = (items.filter (fun f => decide (f.name ∉ Object.prototype))).foldl
          (groupVisit (fun food : DietPlanner.MealFood => food.name)
            (fun food => ({ foodId := food.foodId, quantity := JSNumber.finite food.quantity,
                            unit := food.unit, category := "general" } : Runtime.ShoppingValue))
            (fun entry food =>
              { entry with quantity := entry.quantity + JSNumber.finite food.quantity })) m := by
  induction items generalizing m with
  | nil => rfl
  | cons x rest ih =>
    rw [List.foldl_cons, Runtime.generateShoppingList.visit_eq m x hm]
    by_cases hp : x.name ∈ Object.prototype
    · rw [if_pos hp, ih m hm, List.filter_cons_of_neg (by simpa using hp)]
    · rw [if_neg hp, List.filter_cons_of_pos (by simpa using hp), List.foldl_cons]
      apply ih
      intro k hk
      rw [keys_groupVisit] at hk
      split_ifs at hk
      · exact hm k hk
      · rcases List.mem_append.mp hk with h | h
        · exact hm k h
        · rw [List.mem_singleton.mp h]; exact hp

theorem Runtime.generateShoppingList_eq (plan : List DayPlan) :
    (plan.foldl (fun shoppingList day =>
        day.meals.values.foldl (fun shoppingList meal =>
          meal.foods.foldl Runtime.generateShoppingList.visit shoppingList) shoppingList) [])
      = ((planItems plan).filter (fun f => decide (f.name ∉ Object.prototype))).foldl
          (groupVisit (fun food : DietPlanner.MealFood => food.name)
            (fun food => ({ foodId := food.foodId, quantity := JSNumber.finite food.quantity,
                            unit := food.unit, category := "general" } : Runtime.ShoppingValue))
            (fun entry food =>
              { entry with quantity := entry.quantity + JSNumber.finite food.quantity })) [] := by
  rw [← Runtime.generateShoppingList.foldl_eq _ [] (by simp)]
  unfold planItems
  rw [List.foldl_flatten, List.foldl_map]
  congr 1
  funext items day
  rw [List.foldl_flatten, List.foldl_map]

theorem filter_filter_name {α : Type} (items : List α) (name : α → String) (n : String)
    (hn : n ∉ Object.prototype) :
    (items.filter (fun f => decide (name f ∉ Object.prototype))).filter
        (fun f => decide (name f = n))
      = items.filter (fun f => decide (name f = n)) := by
  rw [List.filter_filter]
  apply List.filter_congr
  intro x _
  by_cases h : name x = n
  · simp [h, hn]
  · simp [h]

theorem foldl_addValue (rest : List MealFood) (e : Runtime.ShoppingValue) :
    (rest.foldl (fun (entry : Runtime.ShoppingValue) (food : MealFood) =>
        { entry with quantity := entry.quantity + JSNumber.finite food.quantity }) e) =
      { e with
        quantity :=
          List.foldl (fun total quantity => total + JSNumber.finite quantity) e.quantity
            (rest.map (fun f => f.quantity)) } := by
  induction rest generalizing e with
  | nil => rfl
  | cons f tl ih => rw [List.foldl_cons, ih]; rfl

theorem foldl_addDemoValue (rest : List DemoMealFood) (e : Runtime.ShoppingItem) :
    (rest.foldl (fun (item : Runtime.ShoppingItem) (food : DemoMealFood) =>
        { item with quantity := item.quantity + JSNumber.finite food.quantity }) e) =
      { e with
        quantity :=
          List.foldl (fun total quantity => total + JSNumber.finite quantity) e.quantity
            (rest.map (fun f => f.quantity)) } := by
  induction rest generalizing e with
  | nil => rfl
  | cons f tl ih => rw [List.foldl_cons, ih]; rfl

theorem Runtime.generateShoppingList_perm (plan : List DayPlan) :
    (Runtime.generateShoppingList plan).Perm
      ((((planItems plan).filter (fun f => decide (f.name ∉ Object.prototype))).foldl
          (groupVisit (fun food : DietPlanner.MealFood => food.name)
            (fun food => ({ foodId := food.foodId, quantity := JSNumber.finite food.quantity,
                            unit := food.unit, category := "general" } : Runtime.ShoppingValue))
            (fun entry food =>
              { entry with quantity := entry.quantity + JSNumber.finite food.quantity })) []).map
        (fun kv => (⟨kv.1, kv.2.foodId, kv.2.quantity, kv.2.unit, kv.2.category⟩
          : Runtime.ShoppingEntry))) := by
  unfold Runtime.generateShoppingList
  simp only [Runtime.generateShoppingList_eq]
  exact entries_perm _ (fun name (entry : Runtime.ShoppingValue) =>
      (⟨name, entry.foodId, entry.quantity, entry.unit, entry.category⟩ : Runtime.ShoppingEntry))
    (keys_foldl_groupVisit _ _ _ _ [] (by simp)).1

theorem Runtime.generateShoppingList_entry (plan : List DayPlan) (n : String)
    (hn : n ∈ (planItems plan).map (fun f => f.name)) (hp : n ∉ Object.prototype) :
    ∃ e ∈ Runtime.generateShoppingList plan, e.name = n
      ∧ ∃ first rest, (planItems plan).filter (fun f => decide (f.name = n)) = first :: rest
          ∧ e.quantity = addedQuantities first.quantity (rest.map (fun f => f.quantity))
          ∧ e.unit = first.unit := by
  obtain ⟨first, rest, hf, hname⟩ :=
    filter_ne_nil_of_mem_map (planItems plan) (fun f => f.name) n hn
  have hl := lookup_foldl_groupVisit (fun food : DietPlanner.MealFood => food.name)
    (fun food => ({ foodId := food.foodId, quantity := JSNumber.finite food.quantity,
                    unit := food.unit, category := "general" } : Runtime.ShoppingValue))
    (fun entry food => { entry with quantity := entry.quantity + JSNumber.finite food.quantity })
    ((planItems plan).filter (fun f => decide (f.name ∉ Object.prototype))) [] n
  rw [filter_filter_name (planItems plan) (fun f => f.name) n hp] at hl
  simp only [List.lookup_nil, hf, foldl_addValue] at hl
  have hmem := lookup_mem _ _ _ hl
  refine ⟨{ name := n, foodId := first.foodId,
            quantity := addedQuantities first.quantity (rest.map (fun f => f.quantity)),
            unit := first.unit, category := "general" }, ?_, rfl, first, rest, hf, rfl, rfl⟩
  rw [(Runtime.generateShoppingList_perm plan).mem_iff]
  exact List.mem_map.mpr ⟨_, hmem, rfl⟩

theorem Runtime.generateShoppingList_names (plan : List DayPlan) :
    ((Runtime.generateShoppingList plan).map (fun e => e.name)).Nodup
      ∧ (∀ n, n ∈ (Runtime.generateShoppingList plan).map (fun e => e.name)
            ↔ n ∈ (planItems plan).map (fun f => f.name) ∧ n ∉ Object.prototype)
      ∧ (Runtime.generateShoppingList plan).length ≤ (planItems plan).length := by
  have hk := keys_foldl_groupVisit (fun food : DietPlanner.MealFood => food.name)
    (fun food => ({ foodId := food.foodId, quantity := JSNumber.finite food.quantity,
                    unit := food.unit, category := "general" } : Runtime.ShoppingValue))
    (fun entry food => { entry with quantity := entry.quantity + JSNumber.finite food.quantity })
    ((planItems plan).filter (fun f => decide (f.name ∉ Object.prototype))) [] (by simp)
  have hperm := Runtime.generateShoppingList_perm plan
  have hnames := hperm.map (fun e => e.name)
  rw [List.map_map] at hnames
  have hfst : ((fun e : Runtime.ShoppingEntry => e.name) ∘
      (fun kv : String × Runtime.ShoppingValue =>
        (⟨kv.1, kv.2.foodId, kv.2.quantity, kv.2.unit, kv.2.category⟩
          : Runtime.ShoppingEntry)))
      = Prod.fst := rfl
  rw [hfst] at hnames
  refine ⟨hnames.nodup_iff.mpr hk.1, fun n => ?_, ?_⟩
  · rw [hnames.mem_iff, hk.2.1 n]
    simp only [List.map_nil, List.not_mem_nil, false_or, List.mem_map, List.mem_filter,
      decide_eq_true_eq]
    constructor
    · rintro ⟨f, ⟨hf, hp⟩, rfl⟩
      exact ⟨⟨f, hf, rfl⟩, hp⟩
    · rintro ⟨⟨f, hf, rfl⟩, hp⟩
      exact ⟨f, ⟨hf, hp⟩, rfl⟩
  · rw [hperm.length_eq, List.length_map]
    have h1 := hk.2.2
    have h2 := List.length_filter_le (fun f : DietPlanner.MealFood => decide (f.name ∉ Object.prototype))
      (planItems plan)
    simp only [List.length_nil, zero_add] at h1
    omega

theorem foldl_add_natural (rest : List ℚ) (a : ℚ) (ha : ∃ k : ℕ, a = k)
    (hint : ∀ q ∈ rest, ∃ k : ℕ, q = k) (hsum : a + rest.sum ≤ 2 ^ 53) :
    rest.foldl (fun total quantity => total + JSNumber.finite quantity) (JSNumber.finite a)
      = JSNumber.finite (a + rest.sum) := by
  induction rest generalizing a with
  | nil => simp
  | cons q tl ih =>
    obtain ⟨k, hk⟩ := ha
    obtain ⟨j, hj⟩ := hint q (List.mem_cons_self _ _)
    have htl0 : 0 ≤ tl.sum := by
      apply List.sum_nonneg
      intro x hx
      obtain ⟨i, hi⟩ := hint x (List.mem_cons_of_mem _ hx)
      rw [hi]; positivity
    rw [List.sum_cons] at hsum
    have hstep : JSNumber.finite a + JSNumber.finite q = JSNumber.finite (a + q) := by
      rw [JSNumber.finite_add, hk, hj]
      have h := Float64.ofRat_intCast ((k + j : ℕ) : ℤ) (by
        rw [abs_of_nonneg (by positivity)]
        have : ((k + j : ℕ) : ℚ) ≤ 2 ^ 53 := by push_cast; rw [← hk, ← hj]; linarith
        exact_mod_cast this)
      push_cast at h ⊢
      exact h
    rw [List.foldl_cons, hstep, ih (a + q) ⟨k + j, by rw [hk, hj]; push_cast; ring⟩
      (fun x hx => hint x (List.mem_cons_of_mem _ hx)) (by linarith), List.sum_cons]
    congr 1
    ring

theorem addedQuantities_eq_sum (first : ℚ) (rest : List ℚ)
    (hint : ∀ q ∈ first :: rest, ∃ k : ℕ, q = k) (hsum : first + rest.sum ≤ 2 ^ 53) :
    addedQuantities first rest = JSNumber.finite (first + rest.sum) :=
  foldl_add_natural rest first (hint first (List.mem_cons_self _ _))
    (fun q hq => hint q (List.mem_cons_of_mem _ hq)) hsum

theorem Runtime.DemoBackend.generateShoppingList.runtime_visit_eq :
    Runtime.DemoBackend.generateShoppingList.visit =
      groupVisit (fun food : DemoMealFood => food.name)
        (fun food => ({ name := food.name, quantity := JSNumber.finite food.quantity,
                        unit := food.unit, category := "General" } : Runtime.ShoppingItem))
        (fun item food =>
          { item with quantity := item.quantity + JSNumber.finite food.quantity }) := by
  funext m food
  simp only [Runtime.DemoBackend.generateShoppingList.visit, groupVisit]
  cases m.lookup food.name <;> rfl

theorem Runtime.DemoBackend.generateShoppingList_runtime_eq (plan : List DemoDayPlan) :
    Runtime.DemoBackend.generateShoppingList plan =
      ((DemoBackend.planItems plan).foldl Runtime.DemoBackend.generateShoppingList.visit []).map
        Prod.snd := by
  unfold Runtime.DemoBackend.generateShoppingList DemoBackend.planItems
  rw [List.foldl_flatten, List.foldl_map]
  congr 1
  congr 1
  funext items day
  rw [List.foldl_flatten, List.foldl_map]

theorem Runtime.DemoBackend.generateShoppingList_runtime_entry (plan : List DemoDayPlan)
    (n : String) (hn : n ∈ (DemoBackend.planItems plan).map (fun f => f.name)) :
    ∃ e ∈ Runtime.DemoBackend.generateShoppingList plan, e.name = n
      ∧ ∃ first rest,
          (DemoBackend.planItems plan).filter (fun f => decide (f.name = n)) = first :: rest
          ∧ e.quantity = addedQuantities first.quantity (rest.map (fun f => f.quantity))
          ∧ e.unit = first.unit := by
  obtain ⟨first, rest, hf, hname⟩ :=
    filter_ne_nil_of_mem_map (DemoBackend.planItems plan) (fun f => f.name) n hn
  have hl := lookup_foldl_groupVisit (fun food : DemoMealFood => food.name)
    (fun food => ({ name := food.name, quantity := JSNumber.finite food.quantity,
                    unit := food.unit, category := "General" } : Runtime.ShoppingItem))
    (fun item food => { item with quantity := item.quantity + JSNumber.finite food.quantity })
    (DemoBackend.planItems plan) [] n
  rw [← Runtime.DemoBackend.generateShoppingList.runtime_visit_eq] at hl
  simp only [List.lookup_nil, hf, foldl_addDemoValue] at hl
  have hmem := lookup_mem _ _ _ hl
  refine ⟨{ name := first.name,
            quantity := addedQuantities first.quantity (rest.map (fun f => f.quantity)),
            unit := first.unit, category := "General" }, ?_, hname, first, rest, hf, rfl, rfl⟩
  rw [Runtime.DemoBackend.generateShoppingList_runtime_eq]
  exact List.mem_map.mpr ⟨_, hmem, rfl⟩

theorem Runtime.DemoBackend.generateShoppingList_runtime_names (plan : List DemoDayPlan) :
    ((Runtime.DemoBackend.generateShoppingList plan).map (fun e => e.name)).Nodup
      ∧ (∀ n, n ∈ (Runtime.DemoBackend.generateShoppingList plan).map (fun e => e.name)
            ↔ n ∈ (DemoBackend.planItems plan).map (fun f => f.name))
      ∧ (Runtime.DemoBackend.generateShoppingList plan).length
          ≤ (DemoBackend.planItems plan).length := by
  have hk := keys_foldl_groupVisit (fun food : DemoMealFood => food.name)
    (fun food => ({ name := food.name, quantity := JSNumber.finite food.quantity,
                    unit := food.unit, category := "General" } : Runtime.ShoppingItem))
    (fun item food => { item with quantity := item.quantity + JSNumber.finite food.quantity })
    (DemoBackend.planItems plan) [] (by simp)
  have hn := names_foldl_groupVisit (fun food : DemoMealFood => food.name)
    (fun food => ({ name := food.name, quantity := JSNumber.finite food.quantity,
                    unit := food.unit, category := "General" } : Runtime.ShoppingItem))
    (fun item food => { item with quantity := item.quantity + JSNumber.finite food.quantity })
    (fun e => e.name) (fun _ => rfl) (fun _ _ => rfl) (DemoBackend.planItems plan)
  rw [← Runtime.DemoBackend.generateShoppingList.runtime_visit_eq] at hk hn
  have hnames : (Runtime.DemoBackend.generateShoppingList plan).map (fun e => e.name)
      = ((DemoBackend.planItems plan).foldl Runtime.DemoBackend.generateShoppingList.visit
          []).map Prod.fst := by
    rw [Runtime.DemoBackend.generateShoppingList_runtime_eq, List.map_map, ← hn]
    rfl
  rw [hnames]
  refine ⟨hk.1, fun n => ?_, ?_⟩
  · rw [hk.2.1 n]; simp
  · rw [Runtime.DemoBackend.generateShoppingList_runtime_eq, List.length_map]
    simpa using hk.2.2

theorem constructorWeek_items :
    planItems constructorWeek
      = [exampleItem "constructor" 120, exampleItem "Rice" 80, exampleItem "Rice" 150] := by
  simp [planItems, constructorWeek, DayMeals.values, exampleMeal]

theorem constructorWeek_shoppingList :
    Runtime.generateShoppingList constructorWeek
      = [{ name := "Rice", foodId := "food_light", quantity := .finite 230, unit := "g",
           category := "general" }] := by
  have h1 : "constructor" ∈ Object.prototype := by decide
  have h2 : "Rice" ∉ Object.prototype := by decide
  have h3 : JSNumber.finite 80 + JSNumber.finite 150 = JSNumber.finite 230 := by
    rw [JSNumber.finite_add]
    norm_num [Float64.ofRat_ofNat]
  unfold Runtime.generateShoppingList
  simp only [Runtime.generateShoppingList_eq, constructorWeek_items]
  simp [exampleItem, groupVisit, mapSet, Object.keys, h1, h2, h3, List.filter_cons]

/-- C20, counterexample: in a plan whose Monday breakfast has 120 g of a food called
"constructor", `generateShoppingList` of `routes/api.js` lists no entry for that name:
`shoppingList['constructor']` is the function every object inherits, which is truthy, so the
quantity is added to that function and no property is created. The list is the single entry
for "Rice". -/
theorem shopping_list_omits_constructor :
    "constructor" ∈ (planItems constructorWeek).map (fun f => f.name)
      ∧ (∀ e ∈ Runtime.generateShoppingList constructorWeek, e.name ≠ "constructor")
      ∧ Runtime.generateShoppingList constructorWeek
          = [{ name := "Rice", foodId := "food_light", quantity := .finite 230, unit := "g",
               category := "general" }] := by
  refine ⟨?_, ?_, constructorWeek_shoppingList⟩
  · rw [constructorWeek_items]
    simp [exampleItem]
  · rw [constructorWeek_shoppingList]
    intro e he
    rw [List.mem_singleton.mp he]
    decide

/-- C20 (amended): for every weekly plan and every food name `n` occurring in it that is not
the name of a property inherited from `Object.prototype`, the shopping list built by
`generateShoppingList` of `routes/api.js` has an entry named `n` whose quantity is the
quantities of all meal items whose name is exactly `n`, added one after the other in double
arithmetic starting from the first, which is their exact sum when they are natural numbers
with a sum of at most `2 ^ 53`, and whose unit is that of the first such item; for a name that
is an inherited property name the list has no entry. The list of the demo backend, which is
built on a `Map`, has such an entry for every name occurring in the plan. -/
theorem shopping_list_sums_quantities_by_name (plan : List DayPlan) (demoPlan : List DemoDayPlan)
    (n m : String)
    (hn : n ∈ (planItems plan).map (fun f => f.name))
    (hm : m ∈ (DemoBackend.planItems demoPlan).map (fun f => f.name)) :
    (n ∉ Object.prototype →
        ∃ e ∈ Runtime.generateShoppingList plan, e.name = n
          ∧ ∃ first rest, (planItems plan).filter (fun f => decide (f.name = n)) = first :: rest
              ∧ e.quantity = addedQuantities first.quantity (rest.map (fun f => f.quantity))
              ∧ e.unit = first.unit
              ∧ ((∀ q ∈ first.quantity :: rest.map (fun f => f.quantity), ∃ k : ℕ, q = k) →
                  first.quantity + (rest.map (fun f => f.quantity)).sum ≤ 2 ^ 53 →
                  e.quantity = .finite ((((planItems plan).filter
                      (fun f => decide (f.name = n))).map (fun f => f.quantity)).sum)))
      ∧ (n ∈ Object.prototype → ∀ e ∈ Runtime.generateShoppingList plan, e.name ≠ n)
      ∧ ∃ e ∈ Runtime.DemoBackend.generateShoppingList demoPlan, e.name = m
          ∧ ∃ first rest,
              (DemoBackend.planItems demoPlan).filter (fun f => decide (f.name = m))
                = first :: rest
              ∧ e.quantity = addedQuantities first.quantity (rest.map (fun f => f.quantity))
              ∧ e.unit = first.unit
              ∧ ((∀ q ∈ first.quantity :: rest.map (fun f => f.quantity), ∃ k : ℕ, q = k) →
                  first.quantity + (rest.map (fun f => f.quantity)).sum ≤ 2 ^ 53 →
                  e.quantity = .finite ((((DemoBackend.planItems demoPlan).filter
                      (fun f => decide (f.name = m))).map (fun f => f.quantity)).sum)) := by
  refine ⟨fun hp => ?_, fun hp e he hname => ?_, ?_⟩
  · obtain ⟨e, he, hname, first, rest, hf, hq, hu⟩ :=
      Runtime.generateShoppingList_entry plan n hn hp
    refine ⟨e, he, hname, first, rest, hf, hq, hu, fun hint hsum => ?_⟩
    rw [hq, addedQuantities_eq_sum _ _ hint hsum, hf]
    simp
  · have := ((Runtime.generateShoppingList_names plan).2.1 n).mp
      (List.mem_map.mpr ⟨e, he, hname⟩)
    exact this.2 hp
  · obtain ⟨e, he, hname, first, rest, hf, hq, hu⟩ :=
      Runtime.DemoBackend.generateShoppingList_runtime_entry demoPlan m hm
    refine ⟨e, he, hname, first, rest, hf, hq, hu, fun hint hsum => ?_⟩
    rw [hq, addedQuantities_eq_sum _ _ hint hsum, hf]
    simp

/-- Witness of C20 (amended): "Porridge" in the two-day plan and "Banana" in the demo day. -/
theorem shopping_list_sums_quantities_by_name_witness :
    ("Porridge" ∈ (planItems exampleWeek).map (fun f => f.name)
      ∧ "Banana" ∈ (DemoBackend.planItems exampleDemoWeek).map (fun f => f.name))
    ∧ (∃ e ∈ Runtime.generateShoppingList exampleWeek, e.name = "Porridge"
        ∧ ∃ first rest, (planItems exampleWeek).filter
              (fun f => decide (f.name = "Porridge")) = first :: rest
            ∧ e.quantity = addedQuantities first.quantity (rest.map (fun f => f.quantity))
            ∧ e.unit = first.unit)
    ∧ ∃ e ∈ Runtime.DemoBackend.generateShoppingList exampleDemoWeek, e.name = "Banana"
        ∧ ∃ first rest, (DemoBackend.planItems exampleDemoWeek).filter
              (fun f => decide (f.name = "Banana")) = first :: rest
            ∧ e.quantity = addedQuantities first.quantity (rest.map (fun f => f.quantity))
            ∧ e.unit = first.unit := by
  have h1 : "Porridge" ∈ (planItems exampleWeek).map (fun f => f.name) := by
    simp [planItems, exampleWeek, DayMeals.values, exampleMeal, exampleItem]
  have h2 : "Banana" ∈ (DemoBackend.planItems exampleDemoWeek).map (fun f => f.name) := by
    simp [DemoBackend.planItems, exampleDemoWeek, DemoDayMeals.values, exampleDemoMeal,
      exampleDemoItem]
  have h := shopping_list_sums_quantities_by_name exampleWeek exampleDemoWeek "Porridge" "Banana"
    h1 h2
  obtain ⟨e, he, hname, first, rest, hf, hq, hu, _⟩ := h.1 (by decide)
  obtain ⟨d, hd, hdname, dfirst, drest, hdf, hdq, hdu, _⟩ := h.2.2
  exact ⟨⟨h1, h2⟩, ⟨e, he, hname, first, rest, hf, hq, hu⟩,
    ⟨d, hd, hdname, dfirst, drest, hdf, hdq, hdu⟩⟩

/-- C21, counterexample: a plan with the two distinct food names "constructor" and "Rice" gets
a shopping list of one entry from `generateShoppingList` of `routes/api.js`: the name
"constructor" occurs in the plan and is not listed. -/
theorem shopping_list_shorter_than_names :
    ((planItems constructorWeek).map (fun f => f.name)).dedup = ["constructor", "Rice"]
      ∧ (Runtime.generateShoppingList constructorWeek).map (fun e => e.name) = ["Rice"]
      ∧ (Runtime.generateShoppingList constructorWeek).length = 1 := by
  rw [constructorWeek_shoppingList, constructorWeek_items]
  refine ⟨by decide, rfl, rfl⟩

/-- C21 (amended): the shopping list `generateShoppingList` of `routes/api.js` builds has
exactly one entry per distinct food name of the plan that is not the name of a property
inherited from `Object.prototype`: the names of its entries are pairwise distinct, and a name
is listed exactly when it occurs in the plan and is not such an inherited name. The list of
the demo backend, built on a `Map`, has exactly one entry per distinct food name of the plan.
Both lists are at most as long as the number of (meal, item) entries of the plan. -/
theorem shopping_list_one_entry_per_name (plan : List DayPlan) (demoPlan : List DemoDayPlan) :
    (((Runtime.generateShoppingList plan).map (fun e => e.name)).Nodup
      ∧ (∀ n, n ∈ (Runtime.generateShoppingList plan).map (fun e => e.name)
            ↔ n ∈ (planItems plan).map (fun f => f.name) ∧ n ∉ Object.prototype)
      ∧ (Runtime.generateShoppingList plan).length
          ≤ (plan.map (fun d => (d.meals.values.map (fun m => m.foods.length)).sum)).sum)
    ∧ ((Runtime.DemoBackend.generateShoppingList demoPlan).map (fun e => e.name)).Nodup
      ∧ (∀ n, n ∈ (Runtime.DemoBackend.generateShoppingList demoPlan).map (fun e => e.name)
            ↔ n ∈ (DemoBackend.planItems demoPlan).map (fun f => f.name))
      ∧ (Runtime.DemoBackend.generateShoppingList demoPlan).length
          ≤ (demoPlan.map (fun d => (d.meals.values.map (fun m => m.foods.length)).sum)).sum := by
  obtain ⟨a1, a2, a3⟩ := Runtime.generateShoppingList_names plan
  obtain ⟨b1, b2, b3⟩ := Runtime.DemoBackend.generateShoppingList_runtime_names demoPlan
  rw [planItems_length] at a3
  rw [DemoBackend.planItems_demo_length] at b3
  exact ⟨⟨a1, a2, a3⟩, b1, b2, b3⟩

/-! ## The meal generator in double arithmetic -/

theorem roundHalfEven_nonneg (x : ℚ) (hx : 0 ≤ x) : 0 ≤ roundHalfEven x := by
  have h : 0 ≤ ⌊x⌋ := Int.floor_nonneg.mpr hx
  unfold roundHalfEven
  split_ifs <;> omega

/-- The double nearest to a number that is not negative is not negative. -/
theorem Float64.ofRat_nonneg (x y : ℚ) (hx : 0 ≤ x) (h : Float64.ofRat x = .finite y) :
    0 ≤ y := by
  unfold Float64.ofRat at h
  simp only at h
  split_ifs at h
  injection h with h
  rw [← h]
  have := roundHalfEven_nonneg (x / 2 ^ Float64.exponent x) (by positivity)
  have h2 : (0 : ℚ) ≤ (roundHalfEven (x / 2 ^ Float64.exponent x) : ℚ) := by exact_mod_cast this
  positivity

/-- The rounding of a number between 0 and a bound `B`: within `B / 2 ^ 53` of it, up to
half the spacing of the subnormal doubles. -/
theorem Float64.ofRat_bounded (x B : ℚ) (h0 : 0 ≤ x) (hB : x ≤ B)
    (hB2 : B ≤ (2 : ℚ) ^ (1023 : ℤ)) :
    ∃ y, Float64.ofRat x = .finite y ∧ 0 ≤ y
      ∧ y ≤ x + (B / 2 ^ 53 + 2 ^ (-1075 : ℤ)) ∧ x - (B / 2 ^ 53 + 2 ^ (-1075 : ℤ)) ≤ y := by
  obtain ⟨y, hy, hyx⟩ := Float64.ofRat_near x (by rw [abs_of_nonneg h0]; exact le_trans hB hB2)
  rw [abs_of_nonneg h0, abs_le] at hyx
  have h1 : x / 2 ^ 53 ≤ B / 2 ^ 53 := div_le_div_of_nonneg_right hB (by positivity)
  exact ⟨y, hy, Float64.ofRat_nonneg x y h0 hy, by linarith, by linarith⟩

theorem JSNumber.zero_eq : (0 : JSNumber) = JSNumber.finite 0 :=
  (JSNumber.natLit 0 (by norm_num)).trans (by norm_num)

theorem JSNumber.min_eq_finite (M : JSNumber) (r q : ℚ)
    (h : JSNumber.min M (.finite r) = .finite q) :
    (M = .posInf ∧ q = r) ∨ ∃ m, M = .finite m ∧ q = Min.min m r := by
  cases M with
  | nan => simp [JSNumber.min] at h
  | posInf =>
    left
    simp only [JSNumber.min] at h
    injection h with h
    exact ⟨rfl, h.symm⟩
  | negInf => simp [JSNumber.min] at h
  | finite m =>
    right
    simp only [JSNumber.min] at h
    injection h with h
    exact ⟨m, rfl, h.symm⟩

theorem JSNumber.floor_cases (x : JSNumber) :
    x.floor = .nan ∨ x.floor = .posInf ∨ x.floor = .negInf ∨ ∃ n : ℤ, x.floor = .finite n := by
  cases x with
  | nan => exact Or.inl rfl
  | posInf => exact Or.inr (Or.inl rfl)
  | negInf => exact Or.inr (Or.inr (Or.inl rfl))
  | finite a => exact Or.inr (Or.inr (Or.inr ⟨⌊a⌋, rfl⟩))

/-- `Math.floor(Math.random() * n) + k` is an integer from `k` to `k + n`. -/
theorem Runtime.randomBelow_add (d : Draw) (n k : ℕ) (hn : 0 < n) (hn2 : n ≤ 1000)
    (hk : k ≤ 1000) :
    ∃ r : ℤ, Runtime.randomBelow d n + JSNumber.finite k = .finite r ∧ (k : ℤ) ≤ r
      ∧ r ≤ k + n := by
  have hn1 : (1 : ℚ) ≤ n := by exact_mod_cast hn
  have hnq : (n : ℚ) ≤ 1000 := by exact_mod_cast hn2
  have hkq : (k : ℚ) ≤ 1000 := by exact_mod_cast hk
  have hx0 : 0 ≤ d.val * n := mul_nonneg d.nonneg (by positivity)
  have hx1 : d.val * n ≤ n := by nlinarith [d.lt_one, d.nonneg]
  obtain ⟨y, hy, hy0, hy1, _⟩ := Float64.ofRat_bounded (d.val * n) n hx0 hx1
    (le_trans hnq (by norm_num))
  have hsmall : (n : ℚ) / 2 ^ 53 + 2 ^ (-1075 : ℤ) < 1 := by
    have h1 : (n : ℚ) / 2 ^ 53 ≤ 1000 / 2 ^ 53 := div_le_div_of_nonneg_right hnq (by positivity)
    have h2 : (1000 : ℚ) / 2 ^ 53 + 2 ^ (-1075 : ℤ) < 1 := by norm_num
    linarith
  have hf0 : 0 ≤ ⌊y⌋ := Int.floor_nonneg.mpr hy0
  have hf1 : ⌊y⌋ ≤ n := by
    have : ⌊y⌋ < (n : ℤ) + 1 := by
      rw [Int.floor_lt]; push_cast; linarith
    omega
  refine ⟨⌊y⌋ + k, ?_, by omega, by omega⟩
  unfold Runtime.randomBelow
  rw [JSNumber.finite_mul, hy]
  show JSNumber.finite ((⌊y⌋ : ℤ) : ℚ) + JSNumber.finite k = _
  rw [JSNumber.finite_add]
  have h := Float64.ofRat_intCast (⌊y⌋ + (k : ℤ)) (by
    rw [abs_of_nonneg (by omega)]
    have : ⌊y⌋ + (k : ℤ) ≤ 2000 := by omega
    exact le_trans this (by norm_num))
  push_cast at h ⊢
  exact h

theorem Runtime.generateMeal.Trace_snoc (target : JSNumber) (tr : List (Food × Runtime.MealFood))
    (cur : JSNumber) (p : Food × Runtime.MealFood) :
    Runtime.generateMeal.Trace target cur (tr ++ [p]) ↔
      Runtime.generateMeal.Trace target cur tr ∧
        Runtime.generateMeal.Added target (Runtime.caloriesAfter cur tr) p := by
  induction tr generalizing cur with
  | nil => simp [Runtime.generateMeal.Trace, Runtime.caloriesAfter]
  | cons x rest ih =>
    have h := ih (cur + x.2.nutrition.calories)
    show Runtime.generateMeal.Added target cur x ∧
        Runtime.generateMeal.Trace target (cur + x.2.nutrition.calories) (rest ++ [p]) ↔ _
    rw [h]
    simp only [Runtime.generateMeal.Trace, Runtime.caloriesAfter, List.foldl_cons, and_assoc]

theorem Runtime.caloriesAfter_snoc (cur : JSNumber) (tr : List (Food × Runtime.MealFood))
    (p : Food × Runtime.MealFood) :
    Runtime.caloriesAfter cur (tr ++ [p])
      = Runtime.caloriesAfter cur tr + p.2.nutrition.calories := by
  simp [Runtime.caloriesAfter, List.foldl_append]

theorem Runtime.jsIndex_finite {α : Type} (xs : List α) (i : JSNumber) (x : α)
    (h : Runtime.jsIndex xs i = some x) :
    ∃ a : ℚ, i = .finite a ∧ xs.get? ⌊a⌋.toNat = some x := by
  cases i with
  | finite a =>
    simp only [Runtime.jsIndex] at h
    split_ifs at h
    exact ⟨a, rfl, DietPlanner.jsIndex_some _ _ _ h⟩
  | nan => simp [Runtime.jsIndex] at h
  | posInf => simp [Runtime.jsIndex] at h
  | negInf => simp [Runtime.jsIndex] at h

/-- The quantity of a turn that adds an item is a positive integer. -/
theorem Runtime.generateMeal.quantity_int (M : JSNumber) (r : ℤ) (hM : ∃ x : JSNumber, M = x.floor)
    (h : JSNumber.less (JSNumber.finite 0) (JSNumber.min M (.finite r)) = true) :
    ∃ q : ℤ, 0 < q ∧ JSNumber.min M (.finite r) = .finite q := by
  obtain ⟨x, hx⟩ := hM
  rcases JSNumber.floor_cases x with h1 | h1 | h1 | ⟨n, h1⟩
  · rw [hx, h1] at h; simp [JSNumber.min, JSNumber.less] at h
  · rw [hx, h1] at h ⊢
    simp only [JSNumber.min, JSNumber.less, decide_eq_true_eq] at h ⊢
    exact ⟨r, by exact_mod_cast h, rfl⟩
  · rw [hx, h1] at h; simp [JSNumber.min, JSNumber.less] at h
  · rw [hx, h1] at h ⊢
    simp only [JSNumber.min, JSNumber.less, decide_eq_true_eq] at h ⊢
    refine ⟨min n r, ?_, by push_cast; rfl⟩
    have : ((0 : ℤ) : ℚ) < ((min n r : ℤ) : ℚ) := by push_cast; exact h
    exact_mod_cast this

theorem Runtime.generateMeal.loop_items (target : JSNumber) (draws : Draws) (cat : List Food) :
    ∀ (fuel : ℕ) (st st' : Runtime.MealLoop) (tr : List (Food × Runtime.MealFood)),
      st.selectedFoods = tr.map Prod.snd →
      Runtime.generateMeal.Trace target 0 tr →
      st.currentCalories = Runtime.caloriesAfter 0 tr →
      (tr.map Prod.fst ++ st.availableFoods).Subperm cat →
      Runtime.generateMeal.loop target draws fuel st = .ok st' →
      ∃ tr', st'.selectedFoods = tr'.map Prod.snd ∧ Runtime.generateMeal.Trace target 0 tr'
        ∧ st'.currentCalories = Runtime.caloriesAfter 0 tr'
        ∧ (tr'.map Prod.fst ++ st'.availableFoods).Subperm cat
        ∧ tr'.length ≤ tr.length + fuel := by
  intro fuel
  induction fuel with
  | zero =>
    intro st st' tr h1 h2 h3 h4 h
    simp only [Runtime.generateMeal.loop, Except.ok.injEq] at h
    subst h
    exact ⟨tr, h1, h2, h3, h4, le_refl _⟩
  | succ n ih =>
    intro st st' tr h1 h2 h3 h4 h
    rw [Runtime.generateMeal.loop] at h
    split_ifs at h with hc
    · cases hidx : Runtime.jsIndex st.availableFoods
          (Runtime.randomBelow (draws st.pos) st.availableFoods.length) with
      | none => simp [hidx] at h
      | some sf =>
        simp only [hidx] at h
        obtain ⟨a, ha, hget⟩ := Runtime.jsIndex_finite _ _ _ hidx
        simp only [ha] at h
        have hperm := perm_cons_eraseIdx _ _ _ hget
        have hskip : (tr.map Prod.fst ++ st.availableFoods.eraseIdx ⌊a⌋.toNat).Subperm cat :=
          (((List.eraseIdx_sublist _ _).append_left _).subperm).trans h4
        obtain ⟨r, hr, _, hr2⟩ := Runtime.randomBelow_add (draws (st.pos + 1)) 150 50
          (by norm_num) (by norm_num) (by norm_num)
        have hr2' : r ≤ 200 := by push_cast at hr2; omega
        have e50 : JSNumber.finite (50 : ℚ) = JSNumber.finite ((50 : ℕ) : ℚ) := by norm_num
        rw [e50, hr] at h
        split_ifs at h with hpos
        · obtain ⟨q, hq0, hq⟩ := Runtime.generateMeal.quantity_int
            (Runtime.generateMeal.maxQuantity (target - st.currentCalories)
              sf.nutrition.calories) r ⟨_, rfl⟩ hpos
          rw [hq] at h
          have hadded : Runtime.generateMeal.Added target (Runtime.caloriesAfter 0 tr)
              (sf, Runtime.generateMeal.item sf q) := by
            rw [← h3]
            exact ⟨hc.2, q, r, hq0, hr2', hq, rfl⟩
          obtain ⟨tr', a1, a2, a3, a4, a5⟩ := ih _ st'
            (tr ++ [(sf, Runtime.generateMeal.item sf q)])
            (by simp [h1, Runtime.generateMeal.item])
            ((Runtime.generateMeal.Trace_snoc _ _ _ _).mpr ⟨h2, hadded⟩)
            (by rw [Runtime.caloriesAfter_snoc, ← h3]; rfl)
            (by
              refine List.Subperm.trans (List.Perm.subperm ?_) h4
              simp only [List.map_append, List.map_cons, List.map_nil, List.append_assoc,
                List.singleton_append]
              exact hperm.append_left _)
            h
          exact ⟨tr', a1, a2, a3, a4, by simp at a5; omega⟩
        · obtain ⟨tr', a1, a2, a3, a4, a5⟩ := ih
            { st with availableFoods := st.availableFoods.eraseIdx ⌊a⌋.toNat
                      pos := st.pos + 2 } st' tr h1 h2 h3 hskip h
          exact ⟨tr', a1, a2, a3, a4, by omega⟩
    · simp only [Except.ok.injEq] at h
      subst h
      exact ⟨tr, h1, h2, h3, h4, by omega⟩

theorem Runtime.generateMeal.attempt_items (mealType : String) (target : JSNumber)
    (user : MealUser) (find : FoodQuery → Except JSError (List Food)) (draws : Draws) (pos : ℕ)
    (r : Runtime.Meal × ℕ)
    (h : Runtime.generateMeal.attempt mealType target user find draws pos = .ok r) :
    ∃ q foods tr, generateMeal.query user = .ok q ∧ find q = .ok foods
      ∧ r.1.foods = tr.map Prod.snd ∧ Runtime.generateMeal.Trace target 0 tr
      ∧ (tr.map Prod.fst).Subperm (foods.filter (generateMeal.mealAppropriate mealType))
      ∧ r.1.totalNutrition = Runtime.generateMeal.totalNutrition (tr.map Prod.snd)
      ∧ tr.length ≤ 5 := by
  unfold Runtime.generateMeal.attempt at h
  cases hq : generateMeal.query user with
  | error e => simp [hq, Except.mapError, bind, Except.bind] at h
  | ok q =>
    cases hfind : find q with
    | error e => simp [hq, hfind, Except.mapError, bind, Except.bind] at h
    | ok foods =>
      simp only [hq, hfind, Except.mapError, bind, Except.bind] at h
      split at h
      · simp at h
      · rename_i st hloop
        simp only [pure, Except.pure, Except.ok.injEq] at h
        subst h
        obtain ⟨tr, a1, a2, _, a4, a5⟩ := Runtime.generateMeal.loop_items target draws
          (foods.filter (generateMeal.mealAppropriate mealType)) _
          { availableFoods := foods.filter (generateMeal.mealAppropriate mealType)
            currentCalories := 0, selectedFoods := [], pos := pos + 1 } st [] rfl trivial rfl
          (List.Subperm.refl _) hloop
        refine ⟨q, foods, tr, rfl, hfind, a1, a2, ?_, ?_, ?_⟩
        · exact ((List.sublist_append_left _ _).subperm).trans a4
        · show Runtime.generateMeal.totalNutrition st.selectedFoods = _
          rw [a1]
        · obtain ⟨r, hr, _, hr5⟩ := Runtime.randomBelow_add (draws pos) 3 2 (by norm_num)
            (by norm_num) (by norm_num)
          rw [← JSNumber.natLit 2 (by norm_num)] at hr
          rw [hr] at a5
          have h5 : ⌈((r : ℤ) : ℚ)⌉.toNat ≤ 5 := by
            rw [Int.ceil_intCast]; omega
          simpa using le_trans a5 (by simpa using h5)

theorem Runtime.generateMeal_items (mealType : String) (target : JSNumber) (user : MealUser)
    (find : FoodQuery → Except JSError (List Food)) (draws : Draws) (pos : ℕ) :
    ∃ tr : List (Food × Runtime.MealFood),
      (Runtime.generateMeal mealType target user find draws pos).1.foods = tr.map Prod.snd
      ∧ Runtime.generateMeal.Trace target 0 tr
      ∧ (tr = [] ∨ ∃ q foods, generateMeal.query user = .ok q ∧ find q = .ok foods ∧
          (tr.map Prod.fst).Subperm (foods.filter (generateMeal.mealAppropriate mealType)))
      ∧ (Runtime.generateMeal mealType target user find draws pos).1.totalNutrition
          = Runtime.generateMeal.totalNutrition (tr.map Prod.snd)
      ∧ tr.length ≤ 5 := by
  unfold Runtime.generateMeal
  cases h : Runtime.generateMeal.attempt mealType target user find draws pos with
  | error e => exact ⟨[], rfl, trivial, Or.inl rfl, rfl, by simp⟩
  | ok r =>
    obtain ⟨q, foods, tr, hq, hf, a1, a2, a3, a4, a5⟩ :=
      Runtime.generateMeal.attempt_items mealType target user find draws pos r h
    exact ⟨tr, a1, a2, Or.inr ⟨q, foods, hq, hf, a3⟩, a4, a5⟩

/-- The relative form of the rounding error for a number that is not negative. -/
theorem Float64.ofRat_rel (x : ℚ) (h0 : 0 ≤ x) (h1 : x ≤ (2 : ℚ) ^ (1023 : ℤ)) :
    ∃ y, Float64.ofRat x = .finite y ∧ 0 ≤ y
      ∧ y ≤ x * (1 + 1 / 2 ^ 53) + 2 ^ (-1075 : ℤ) := by
  obtain ⟨y, hy, hyx⟩ := Float64.ofRat_near x (by rw [abs_of_nonneg h0]; exact h1)
  rw [abs_of_nonneg h0, abs_le] at hyx
  exact ⟨y, hy, Float64.ofRat_nonneg x y h0 hy, by linarith [hyx.2]⟩

theorem Float64.pow_le_max (n : ℕ) (hn : n ≤ 1023) : (2 : ℚ) ^ n ≤ (2 : ℚ) ^ (1023 : ℤ) := by
  rw [show (1023 : ℤ) = ((1023 : ℕ) : ℤ) from rfl, zpow_natCast]
  exact pow_le_pow_right₀ (by norm_num) hn

theorem JSNumber.hundred_eq : (100 : JSNumber) = JSNumber.finite 100 :=
  (JSNumber.natLit 100 (by norm_num)).trans (by norm_num)

set_option maxRecDepth 8000 in
/-- The calories `cal * q / 100` of a quantity `q` that passed the calorie-based bound
`Math.floor((rem / cal) * 100)` exceed `rem` by a rounding error at most. -/
theorem Runtime.generateMeal.maxQuantity_bound (rho cal : ℚ) (q r : ℤ)
    (hrho0 : 0 ≤ rho) (hrho1 : rho ≤ 2 * 10 ^ 6) (hcal0 : 0 < cal) (hcal1 : cal ≤ 10 ^ 6)
    (hr : r ≤ 200)
    (h : JSNumber.min (Runtime.generateMeal.maxQuantity (.finite rho) cal) (.finite r)
      = .finite q) :
    cal * q / 100 ≤ rho + 1 / 10 ^ 8 := by
  have hqr : (q : ℚ) ≤ 200 := by
    rcases JSNumber.min_eq_finite _ _ _ h with ⟨_, h2⟩ | ⟨m, _, h2⟩
    · have : q = r := by exact_mod_cast h2
      exact_mod_cast (by omega : q ≤ 200)
    · have h3 : (q : ℚ) ≤ r := by rw [h2]; exact min_le_right _ _
      have h4 : (r : ℚ) ≤ 200 := by exact_mod_cast hr
      linarith
  by_cases hbig : rho / cal ≤ 2 ^ 100
  · have hd0 : 0 ≤ rho / cal := div_nonneg hrho0 hcal0.le
    obtain ⟨d, hd, hd0', hd1⟩ := Float64.ofRat_rel (rho / cal) hd0
      (le_trans hbig (Float64.pow_le_max 100 (by norm_num)))
    have heta : (2 : ℚ) ^ (-1075 : ℤ) ≤ 1 / 10 ^ 30 := by norm_num
    have heta0 : (0 : ℚ) ≤ 2 ^ (-1075 : ℤ) := by positivity
    have hE : (1 : ℚ) / 2 ^ 53 ≤ 1 / 10 ^ 15 := by norm_num
    have hE0 : (0 : ℚ) ≤ 1 / 2 ^ 53 := by positivity
    have hd2 : d * 100 ≤ (2 : ℚ) ^ (1023 : ℤ) := by
      have h1 : rho / cal * (1 / 2 ^ 53) ≤ rho / cal * 1 :=
        mul_le_mul_of_nonneg_left (by norm_num) hd0
      have h2 : d ≤ 2 * 2 ^ 100 + 1 := by
        have : (2 : ℚ) ^ (-1075 : ℤ) ≤ 1 := le_trans heta (by norm_num)
        linarith
      have h3 : (2 * (2 : ℚ) ^ 100 + 1) * 100 ≤ (2 : ℚ) ^ 110 := by norm_num
      have h4 := Float64.pow_le_max 110 (by norm_num)
      linarith
    obtain ⟨mu, hmu, _, hmu1⟩ := Float64.ofRat_rel (d * 100) (by positivity) hd2
    have hM : Runtime.generateMeal.maxQuantity (.finite rho) cal
        = .finite ((⌊mu⌋ : ℤ) : ℚ) := by
      unfold Runtime.generateMeal.maxQuantity
      rw [JSNumber.finite_div _ _ hcal0.ne', hd, JSNumber.hundred_eq, JSNumber.finite_mul, hmu]
      rfl
    rw [hM] at h
    have hqmu : (q : ℚ) ≤ mu := by
      simp only [JSNumber.min] at h
      injection h with h
      have : (q : ℚ) ≤ ((⌊mu⌋ : ℤ) : ℚ) := by rw [← h]; exact min_le_left _ _
      exact le_trans this (Int.floor_le mu)
    generalize (2 : ℚ) ^ (-1075 : ℤ) = eta at hd1 hmu1 heta heta0
    generalize (1 : ℚ) / 2 ^ 53 = E at hd1 hmu1 hE hE0
    have key : cal * d ≤ rho * (1 + E) + cal * eta := by
      have h1 := mul_le_mul_of_nonneg_left hd1 hcal0.le
      have e : cal * (rho / cal * (1 + E) + eta) = rho * (1 + E) + cal * eta := by
        field_simp
        ring
      linarith
    have key2 : cal * mu ≤ cal * (d * 100 * (1 + E) + eta) :=
      mul_le_mul_of_nonneg_left hmu1 hcal0.le
    have key3 : cal * q ≤ cal * mu := mul_le_mul_of_nonneg_left hqmu hcal0.le
    have hBE : rho * E ≤ (2 * 10 ^ 6) * (1 / 10 ^ 15) := mul_le_mul hrho1 hE hE0 (by norm_num)
    have hce : cal * eta ≤ 10 ^ 6 * (1 / 10 ^ 30) := mul_le_mul hcal1 heta heta0 (by norm_num)
    have hce0 : 0 ≤ cal * eta := mul_nonneg hcal0.le heta0
    have hA0 : 0 ≤ cal * d := mul_nonneg hcal0.le hd0'
    have hA1 : cal * d ≤ 2 * 10 ^ 6 + 1 := by
      have : rho * (1 + E) = rho + rho * E := by ring
      norm_num at hBE hce
      linarith
    have hAE : cal * d * E ≤ (2 * 10 ^ 6 + 1) * (1 / 10 ^ 15) := mul_le_mul hA1 hE hE0 (by norm_num)
    have e2 : cal * (d * 100 * (1 + E) + eta) = 100 * (cal * d) + 100 * (cal * d * E) + cal * eta := by
      ring
    have e3 : rho * (1 + E) = rho + rho * E := by ring
    norm_num at hBE hce hAE
    rw [e2] at key2
    rw [e3] at key
    have : cal * ↑q / 100 = (cal * ↑q) / 100 := by ring
    rw [div_le_iff₀ (by norm_num : (0 : ℚ) < 100)]
    linarith
  · have h1 : (2 : ℚ) ^ 100 < rho / cal := not_le.mp hbig
    rw [lt_div_iff₀ hcal0] at h1
    have h2 : cal * q ≤ cal * 200 := mul_le_mul_of_nonneg_left hqr hcal0.le
    have h3 : (200 : ℚ) ≤ 2 ^ 100 := by norm_num
    have h4 : cal * 200 ≤ cal * 2 ^ 100 := mul_le_mul_of_nonneg_left h3 hcal0.le
    rw [div_le_iff₀ (by norm_num : (0 : ℚ) < 100)]
    have h5 : (0 : ℚ) ≤ rho := hrho0
    nlinarith

theorem Math.round_nonneg (x : ℚ) (hx : 0 ≤ x) : 0 ≤ Math.round x :=
  Math.le_round_of_le 0 x (by simpa using hx)

/-- The calories recorded for `q` grams of a food of `cal` kcal per 100 g:
`Math.round(cal * (q / 100))` in double arithmetic is an integer within `1/2 + 10 ^ -8` of
`cal * q / 100`. -/
theorem Runtime.item_calories_near (food : Food) (q : ℤ) (hq0 : 0 < q) (hq1 : q ≤ 200)
    (hcal0 : 0 ≤ food.nutrition.calories) (hcal1 : food.nutrition.calories ≤ 10 ^ 6) :
    ∃ k : ℤ, (Runtime.generateMeal.item food q).nutrition.calories = .finite k ∧ 0 ≤ k
      ∧ |(k : ℚ) - food.nutrition.calories * q / 100| ≤ 1 / 2 + 1 / 10 ^ 8 := by
  have hq0' : (0 : ℚ) < q := by exact_mod_cast hq0
  have hq1' : (q : ℚ) ≤ 200 := by exact_mod_cast hq1
  set cal := food.nutrition.calories with hcal
  obtain ⟨m, hm, hm0, hm1, hm2⟩ := Float64.ofRat_bounded ((q : ℚ) / 100) 2 (by positivity)
    (by rw [div_le_iff₀ (by norm_num)]; linarith) (by
      have := Float64.pow_le_max 1 (by norm_num); linarith)
  have hmle : m ≤ 3 := by
    have : (q : ℚ) / 100 ≤ 2 := by rw [div_le_iff₀ (by norm_num)]; linarith
    have h2 : (2 : ℚ) / 2 ^ 53 + 2 ^ (-1075 : ℤ) ≤ 1 := by norm_num
    linarith
  have hx0 : 0 ≤ cal * m := mul_nonneg hcal0 hm0
  have hx1 : cal * m ≤ 3 * 10 ^ 6 := by nlinarith
  obtain ⟨y, hy, hy0, hy1, hy2⟩ := Float64.ofRat_bounded (cal * m) (3 * 10 ^ 6) hx0 hx1 (by
      have := Float64.pow_le_max 30 (by norm_num)
      have h2 : (3 : ℚ) * 10 ^ 6 ≤ 2 ^ 30 := by norm_num
      linarith)
  have hval : (Runtime.generateMeal.item food q).nutrition.calories
      = .finite ((Math.round y : ℤ) : ℚ) := by
    show (JSNumber.finite cal * (JSNumber.finite q / 100)).round = _
    rw [JSNumber.hundred_eq, JSNumber.finite_div _ _ (by norm_num), hm, JSNumber.finite_mul, hy,
      JSNumber.round_finite]
  refine ⟨Math.round y, hval, Math.round_nonneg y hy0, ?_⟩
  have hr := Math.abs_round_sub_le y
  have hs1 : (2 : ℚ) / 2 ^ 53 + 2 ^ (-1075 : ℤ) ≤ 1 / 10 ^ 15 := by norm_num
  have hs2 : (3 : ℚ) * 10 ^ 6 / 2 ^ 53 + 2 ^ (-1075 : ℤ) ≤ 1 / 10 ^ 9 := by norm_num
  have hcm1 : cal * m ≤ cal * (q / 100 + 1 / 10 ^ 15) :=
    mul_le_mul_of_nonneg_left (by linarith) hcal0
  have hcm2 : cal * (q / 100 - 1 / 10 ^ 15) ≤ cal * m :=
    mul_le_mul_of_nonneg_left (by linarith) hcal0
  have hce : cal * (1 / 10 ^ 15) ≤ 10 ^ 6 * (1 / 10 ^ 15) :=
    mul_le_mul_of_nonneg_right hcal1 (by positivity)
  have hce0 : 0 ≤ cal * (1 / 10 ^ 15) := mul_nonneg hcal0 (by positivity)
  have e1 : cal * (q / 100 + 1 / 10 ^ 15) = cal * q / 100 + cal * (1 / 10 ^ 15) := by ring
  have e2 : cal * (q / 100 - 1 / 10 ^ 15) = cal * q / 100 - cal * (1 / 10 ^ 15) := by ring
  rw [e1] at hcm1
  rw [e2] at hcm2
  norm_num at hce
  rw [abs_le] at hr ⊢
  constructor <;> norm_num <;> linarith

set_option maxRecDepth 8000 in
/-- What a turn that adds an item implies when the target and the food's calories per 100 g
are at most `10 ^ 6` and the calories accumulated before are an integer `c` that is not
negative. -/
theorem Runtime.generateMeal.Added_facts (t : ℚ) (c : ℤ) (p : Food × Runtime.MealFood)
    (ht2 : t ≤ 10 ^ 6) (hc0 : 0 ≤ c)
    (hcal0 : 0 ≤ p.1.nutrition.calories) (hcal1 : p.1.nutrition.calories ≤ 10 ^ 6)
    (h : Runtime.generateMeal.Added (.finite t) (.finite c) p) :
    Runtime.generateMeal.WithinBudget t c p
      ∧ ∃ k : ℤ, p.2.nutrition.calories = .finite k
        ∧ JSNumber.finite c + p.2.nutrition.calories = .finite ((c + k : ℤ) : ℚ) := by
  obtain ⟨hless, q, r, hq0, hr, hmin, hitem⟩ := h
  have hct : (c : ℚ) < t := by simpa [JSNumber.less] using hless
  have hc0' : (0 : ℚ) ≤ c := by exact_mod_cast hc0
  have hqr : q ≤ 200 := by
    rcases JSNumber.min_eq_finite _ _ _ hmin with ⟨_, h2⟩ | ⟨m, _, h2⟩
    · have : q = r := by exact_mod_cast h2
      omega
    · have h3 : (q : ℚ) ≤ r := by rw [h2]; exact min_le_right _ _
      have h4 : q ≤ r := by exact_mod_cast h3
      omega
  obtain ⟨k, hk, hk0, hknear⟩ := Runtime.item_calories_near p.1 q hq0 hqr hcal0 hcal1
  have hq0' : (0 : ℚ) < q := by exact_mod_cast hq0
  -- the remaining budget
  obtain ⟨rho, hrho, hrho0, hrho1, _⟩ := Float64.ofRat_bounded (t - c) (10 ^ 6) (by linarith)
    (by linarith) (by
      have := Float64.pow_le_max 20 (by norm_num)
      have h2 : (10 : ℚ) ^ 6 ≤ 2 ^ 20 := by norm_num
      linarith)
  have hrem : JSNumber.finite t - JSNumber.finite c = JSNumber.finite rho := by
    rw [JSNumber.finite_sub, hrho]
  have hs0 : (10 : ℚ) ^ 6 / 2 ^ 53 + 2 ^ (-1075 : ℤ) ≤ 1 / 10 ^ 8 := by norm_num
  have hunr : p.1.nutrition.calories * q / 100 ≤ t - c + 1 / 10 ^ 6 := by
    rcases eq_or_lt_of_le hcal0 with h0 | hpos
    · rw [← h0]
      norm_num
      linarith
    · rw [hrem] at hmin
      have := Runtime.generateMeal.maxQuantity_bound rho p.1.nutrition.calories q r hrho0
        (by linarith) hpos hcal1 hr hmin
      have h8 : (1 : ℚ) / 10 ^ 8 + 1 / 10 ^ 8 ≤ 1 / 10 ^ 6 := by norm_num
      linarith
  have hbound : (k : ℚ) ≤ t - c + 1 / 2 + 1 / 10 ^ 6 := by
    rw [abs_le] at hknear
    have h8 : (1 : ℚ) / 10 ^ 8 ≤ 1 / 10 ^ 6 := by norm_num
    have h9 : (1 : ℚ) / 10 ^ 8 + 1 / 10 ^ 8 ≤ 1 / 10 ^ 6 := by norm_num
    rcases eq_or_lt_of_le hcal0 with h0 | hpos
    · rw [← h0] at hknear
      norm_num at hknear ⊢
      linarith [hknear.2]
    · have hmin2 := hmin
      rw [hrem] at hmin2
      have := Runtime.generateMeal.maxQuantity_bound rho p.1.nutrition.calories q r hrho0
        (by linarith) hpos hcal1 hr hmin2
      have h8 : (1 : ℚ) / 10 ^ 8 + 1 / 10 ^ 8 + 1 / 10 ^ 8 ≤ 1 / 10 ^ 6 := by norm_num
      linarith [hknear.2]
  have hkq : (k : ℚ) ≤ 10 ^ 6 + 1 := by
    have : (1 : ℚ) / 2 + 1 / 10 ^ 6 ≤ 1 := by norm_num
    linarith
  refine ⟨⟨hct, q, k, hq0, hqr, hitem, ?_, ?_, ?_, hk0, hunr, ?_, hbound⟩, k, ?_, ?_⟩
  · rcases JSNumber.min_eq_finite _ _ _ hmin with ⟨h1, _⟩ | ⟨m, h1, h2⟩
    · rw [h1]; rfl
    · rw [h1]
      have : 0 < m := by
        have : (q : ℚ) ≤ m := by rw [h2]; exact min_le_left _ _
        linarith
      simp [JSNumber.less, this]
  · intro n hn
    rcases JSNumber.min_eq_finite _ _ _ hmin with ⟨h1, _⟩ | ⟨m, h1, h2⟩
    · rw [h1] at hn; cases hn
    · rw [h1] at hn
      injection hn with hn
      rw [← hn, h2]; exact min_le_left _ _
  · rw [hitem]; exact hk
  · exact hknear
  · rw [hitem]; exact hk
  · rw [hitem, hk, JSNumber.finite_add]
    have h := Float64.ofRat_intCast (c + k) (by
      rw [abs_of_nonneg (by omega)]
      have h1 : ((c + k : ℤ) : ℚ) ≤ 2 ^ 53 := by
        push_cast
        have : (10 : ℚ) ^ 6 + (10 ^ 6 + 1) ≤ 2 ^ 53 := by norm_num
        linarith
      exact_mod_cast h1)
    push_cast at h ⊢
    exact h

theorem Runtime.caloriesAfter_cons (start : JSNumber) (p : Food × Runtime.MealFood)
    (tr : List (Food × Runtime.MealFood)) :
    Runtime.caloriesAfter start (p :: tr)
      = Runtime.caloriesAfter (start + p.2.nutrition.calories) tr := rfl

theorem Runtime.generateMeal.totalNutrition_fold (init : Runtime.Nutrition)
    (tr : List (Food × Runtime.MealFood)) :
    ((tr.map Prod.snd).foldl (fun (total : Runtime.Nutrition) (food : Runtime.MealFood) =>
      ({ calories := total.calories + food.nutrition.calories
         protein := total.protein + food.nutrition.protein
         carbs := total.carbs + food.nutrition.carbs
         fats := total.fats + food.nutrition.fats
         fiber := total.fiber + food.nutrition.fiber
         sodium := total.sodium + food.nutrition.sodium } : Runtime.Nutrition)) init).calories
      = Runtime.caloriesAfter init.calories tr := by
  induction tr generalizing init with
  | nil => rfl
  | cons p rest ih =>
    rw [List.map_cons, List.foldl_cons, ih, Runtime.caloriesAfter_cons]

theorem Runtime.generateMeal.totalNutrition_calories (tr : List (Food × Runtime.MealFood)) :
    (Runtime.generateMeal.totalNutrition (tr.map Prod.snd)).calories
      = Runtime.caloriesAfter 0 tr :=
  Runtime.generateMeal.totalNutrition_fold _ tr

/-- Along a trace below a target of at most a million calories, over foods of at most a million
calories per 100 g: before every item the accumulated calories are an integer, the item is
within its budget, and the final total is the exact sum of the item calories. -/
theorem Runtime.generateMeal.Trace_facts (t : ℚ) (ht2 : t ≤ 10 ^ 6)
    (tr : List (Food × Runtime.MealFood)) :
    ∀ c : ℤ, 0 ≤ c →
      (∀ p ∈ tr, 0 ≤ p.1.nutrition.calories ∧ p.1.nutrition.calories ≤ 10 ^ 6) →
      Runtime.generateMeal.Trace (.finite t) (.finite c) tr →
      (∀ i (hi : i < tr.length), ∃ ci : ℤ,
          Runtime.caloriesAfter (.finite c) (tr.take i) = .finite ci ∧ 0 ≤ ci
            ∧ Runtime.generateMeal.WithinBudget t ci (tr.get ⟨i, hi⟩))
        ∧ ∃ ks : List ℤ,
            tr.map (fun p => p.2.nutrition.calories) = ks.map (fun k : ℤ => JSNumber.finite (k : ℚ))
              ∧ (∀ k ∈ ks, 0 ≤ k)
              ∧ Runtime.caloriesAfter (.finite c) tr = .finite ((c + ks.sum : ℤ) : ℚ)
              ∧ (tr ≠ [] → ((c + ks.sum : ℤ) : ℚ) ≤ t + 1 / 2 + 1 / 10 ^ 6) := by
  induction tr with
  | nil =>
    intro c _ _ _
    refine ⟨fun i hi => absurd hi (by simp), [], rfl, by simp, by simp [Runtime.caloriesAfter],
      fun h => absurd rfl h⟩
  | cons p rest ih =>
    intro c hc0 hcal htr
    obtain ⟨hadd, hrest⟩ := htr
    have hp := hcal p (List.mem_cons_self _ _)
    obtain ⟨hwb, k, hk, hsum⟩ :=
      Runtime.generateMeal.Added_facts t c p ht2 hc0 hp.1 hp.2 hadd
    have hk0 : 0 ≤ k := by
      obtain ⟨_, q, k1, _, _, _, _, _, hk1, hk10, _⟩ := hwb
      rw [hk] at hk1
      have : (k : ℚ) = k1 := by injection hk1
      have : k = k1 := by exact_mod_cast this
      omega
    have hkb : (k : ℚ) ≤ t - c + 1 / 2 + 1 / 10 ^ 6 := by
      obtain ⟨_, q, k1, _, _, _, _, _, hk1, _, _, _, hb⟩ := hwb
      rw [hk] at hk1
      have : (k : ℚ) = k1 := by injection hk1
      rw [this]; exact hb
    rw [hsum] at hrest
    obtain ⟨hidx, ks, hks, hks0, htot, _⟩ :=
      ih (c + k) (by omega) (fun p1 h1 => hcal p1 (List.mem_cons_of_mem _ h1)) hrest
    refine ⟨?_, k :: ks, ?_, ?_, ?_, ?_⟩
    · intro i hi
      cases i with
      | zero => exact ⟨c, rfl, hc0, hwb⟩
      | succ j =>
        have hj : j < rest.length := by simpa using hi
        obtain ⟨ci, h1, h2, h3⟩ := hidx j hj
        refine ⟨ci, ?_, h2, h3⟩
        rw [List.take_succ_cons, Runtime.caloriesAfter_cons, hsum]; exact h1
    · rw [List.map_cons, List.map_cons, hks, hk]
    · intro k1 hk1
      rcases List.mem_cons.1 hk1 with h | h
      · rw [h]; exact hk0
      · exact hks0 k1 h
    · rw [Runtime.caloriesAfter_cons, hsum, htot, List.sum_cons, add_assoc]
    · intro _
      rw [List.sum_cons]
      by_cases hr : rest = []
      · subst hr
        have : ks = [] := by
          cases ks with
          | nil => rfl
          | cons a b => simp at hks
        subst this
        simp only [List.sum_nil, add_zero]
        push_cast
        linarith
      · obtain ⟨_, ks2, hks2, _, htot2, hb2⟩ :=
          ih (c + k) (by omega) (fun p1 h1 => hcal p1 (List.mem_cons_of_mem _ h1)) hrest
        have hb := hb2 hr
        have e : ks2 = ks := by
          have h := hks.symm.trans hks2
          have hinj : Function.Injective (fun k : ℤ => JSNumber.finite (k : ℚ)) := by
            intro a b hab
            have : (a : ℚ) = b := by injection hab
            exact_mod_cast this
          exact (List.map_injective_iff.2 hinj h).symm
        rw [e] at hb
        rw [← add_assoc]; exact hb

/-! ## The dinner of the worked example in double arithmetic -/

theorem Float64.ofRat_one_half : Float64.ofRat (1 / 2) = .finite (1 / 2) := by
  have h := Float64.ofRat_eq (1 / 2) (-53) (4503599627370496) (by norm_num)
    (by norm_num [abs_of_pos, abs_of_neg]) (by norm_num [abs_of_pos, abs_of_neg])
    (by rw [abs_lt]; constructor <;> norm_num) (by norm_num [abs_of_pos, abs_of_neg])
  rw [h]; congr 1; norm_num

theorem Float64.ofRat_three_halves : Float64.ofRat (3 / 2) = .finite (3 / 2) := by
  have h := Float64.ofRat_eq (3 / 2) (-52) (6755399441055744) (by norm_num)
    (by norm_num [abs_of_pos, abs_of_neg]) (by norm_num [abs_of_pos, abs_of_neg])
    (by rw [abs_lt]; constructor <;> norm_num) (by norm_num [abs_of_pos, abs_of_neg])
  rw [h]; congr 1; norm_num

theorem Float64.ofRat_five_fourths : Float64.ofRat (5 / 4) = .finite (5 / 4) := by
  have h := Float64.ofRat_eq (5 / 4) (-52) (5629499534213120) (by norm_num)
    (by norm_num [abs_of_pos, abs_of_neg]) (by norm_num [abs_of_pos, abs_of_neg])
    (by rw [abs_lt]; constructor <;> norm_num) (by norm_num [abs_of_pos, abs_of_neg])
  rw [h]; congr 1; norm_num

theorem Float64.ofRat_1025_halves : Float64.ofRat (1025 / 2) = .finite (1025 / 2) := by
  have h := Float64.ofRat_eq (1025 / 2) (-43) (4507997673881600) (by norm_num)
    (by norm_num [abs_of_pos, abs_of_neg]) (by norm_num [abs_of_pos, abs_of_neg])
    (by rw [abs_lt]; constructor <;> norm_num) (by norm_num [abs_of_pos, abs_of_neg])
  rw [h]; congr 1; norm_num

theorem Float64.lit_0_3 : Float64.ofRat (0.3) = .finite (5404319552844595 * 2 ^ (-54 : ℤ)) := by
  have h := Float64.ofRat_eq (0.3) (-54) (5404319552844595) (by norm_num)
    (by norm_num [abs_of_pos, abs_of_neg]) (by norm_num [abs_of_pos, abs_of_neg])
    (by rw [abs_lt]; constructor <;> norm_num) (by norm_num [abs_of_pos, abs_of_neg])
  exact_mod_cast h

theorem Float64.mul_1709_0_3 : Float64.ofRat (1709 * (5404319552844595 * 2 ^ (-54 : ℤ))) = .finite (4509756892486041 * 2 ^ (-43 : ℤ)) := by
  have h := Float64.ofRat_eq (1709 * (5404319552844595 * 2 ^ (-54 : ℤ))) (-43) (4509756892486041) (by norm_num)
    (by norm_num [abs_of_pos, abs_of_neg]) (by norm_num [abs_of_pos, abs_of_neg])
    (by rw [abs_lt]; constructor <;> norm_num) (by norm_num [abs_of_pos, abs_of_neg])
  exact_mod_cast h

theorem Float64.ofRat_dinner_target : Float64.ofRat ((4509756892486041 * 2 ^ (-43 : ℤ))) = .finite ((4509756892486041 * 2 ^ (-43 : ℤ))) := by
  have h := Float64.ofRat_eq ((4509756892486041 * 2 ^ (-43 : ℤ))) (-43) (4509756892486041) (by norm_num)
    (by norm_num [abs_of_pos, abs_of_neg]) (by norm_num [abs_of_pos, abs_of_neg])
    (by rw [abs_lt]; constructor <;> norm_num) (by norm_num [abs_of_pos, abs_of_neg])
  exact_mod_cast h

theorem Float64.div_dinner_410 : Float64.ofRat ((4509756892486041 * 2 ^ (-43 : ℤ)) / 410) = .finite (5631696412080129 * 2 ^ (-52 : ℤ)) := by
  have h := Float64.ofRat_eq ((4509756892486041 * 2 ^ (-43 : ℤ)) / 410) (-52) (5631696412080129) (by norm_num)
    (by norm_num [abs_of_pos, abs_of_neg]) (by norm_num [abs_of_pos, abs_of_neg])
    (by rw [abs_lt]; constructor <;> norm_num) (by norm_num [abs_of_pos, abs_of_neg])
  exact_mod_cast h

theorem Float64.mul_dinner_100 : Float64.ofRat ((5631696412080129 * 2 ^ (-52 : ℤ)) * 100) = .finite (8799525643875202 * 2 ^ (-46 : ℤ)) := by
  have h := Float64.ofRat_eq ((5631696412080129 * 2 ^ (-52 : ℤ)) * 100) (-46) (8799525643875202) (by norm_num)
    (by norm_num [abs_of_pos, abs_of_neg]) (by norm_num [abs_of_pos, abs_of_neg])
    (by rw [abs_lt]; constructor <;> norm_num) (by norm_num [abs_of_pos, abs_of_neg])
  exact_mod_cast h

theorem Runtime.dinnerTarget :
    (1709 : JSNumber) * 0.3 = JSNumber.finite (4509756892486041 * 2 ^ (-43 : ℤ)) := by
  have h : (0.3 : JSNumber) = Float64.ofRat (0.3 : ℚ) := rfl
  rw [h, Float64.lit_0_3, JSNumber.natLit 1709 (by norm_num), JSNumber.finite_mul]
  exact_mod_cast Float64.mul_1709_0_3

theorem Runtime.dinner_maxQuantity :
    Runtime.generateMeal.maxQuantity (JSNumber.finite (4509756892486041 * 2 ^ (-43 : ℤ)) - 0)
        denseFood.nutrition.calories
      = JSNumber.finite 125 := by
  show Runtime.generateMeal.maxQuantity _ 410 = _
  unfold Runtime.generateMeal.maxQuantity
  rw [JSNumber.zero_eq, JSNumber.finite_sub, sub_zero, Float64.ofRat_dinner_target,
    JSNumber.finite_div _ _ (by norm_num), Float64.div_dinner_410, JSNumber.hundred_eq,
    JSNumber.finite_mul, Float64.mul_dinner_100]
  show JSNumber.finite ((⌊_⌋ : ℤ) : ℚ) = _
  have : ⌊((8799525643875202 * 2 ^ (-46 : ℤ)) : ℚ)⌋ = 125 := by
    rw [Int.floor_eq_iff]; constructor <;> norm_num
  rw [this]; norm_num

theorem Runtime.randomBelow_half_3 (n : ℕ) :
    Runtime.randomBelow (halfDraws n) 3 = JSNumber.finite 1 := by
  unfold Runtime.randomBelow
  rw [JSNumber.finite_mul]
  have : (halfDraws n).val * ((3 : ℕ) : ℚ) = 3 / 2 := by simp [halfDraws]; norm_num
  rw [this, Float64.ofRat_three_halves]
  show JSNumber.finite ((⌊_⌋ : ℤ) : ℚ) = _
  have : ⌊(3 / 2 : ℚ)⌋ = 1 := by rw [Int.floor_eq_iff]; constructor <;> norm_num
  rw [this]; norm_num

theorem Runtime.randomBelow_half_1 (n : ℕ) :
    Runtime.randomBelow (halfDraws n) 1 = JSNumber.finite 0 := by
  unfold Runtime.randomBelow
  rw [JSNumber.finite_mul]
  have : (halfDraws n).val * ((1 : ℕ) : ℚ) = 1 / 2 := by simp [halfDraws]
  rw [this, Float64.ofRat_one_half]
  show JSNumber.finite ((⌊_⌋ : ℤ) : ℚ) = _
  have : ⌊(1 / 2 : ℚ)⌋ = 0 := by rw [Int.floor_eq_iff]; constructor <;> norm_num
  rw [this]; norm_num

theorem Runtime.randomBelow_half_150 (n : ℕ) :
    Runtime.randomBelow (halfDraws n) 150 = JSNumber.finite 75 := by
  unfold Runtime.randomBelow
  rw [JSNumber.finite_mul]
  have : (halfDraws n).val * ((150 : ℕ) : ℚ) = 75 := by simp [halfDraws]; norm_num
  rw [this, Float64.ofRat_ofNat 75 (by norm_num)]
  show JSNumber.finite ((⌊_⌋ : ℤ) : ℚ) = _
  have : ⌊(75 : ℚ)⌋ = 75 := by rw [Int.floor_eq_iff]; constructor <;> norm_num
  rw [this]; norm_num

theorem Runtime.item_dense_calories :
    (Runtime.generateMeal.item denseFood 125).nutrition.calories = JSNumber.finite 513 := by
  show (JSNumber.finite 410 * (JSNumber.finite ((125 : ℤ) : ℚ) / 100)).round = _
  rw [JSNumber.hundred_eq, JSNumber.finite_div _ _ (by norm_num)]
  have h1 : (((125 : ℤ) : ℚ) / 100) = 5 / 4 := by norm_num
  rw [h1, Float64.ofRat_five_fourths, JSNumber.finite_mul]
  have h2 : (410 : ℚ) * (5 / 4) = 1025 / 2 := by norm_num
  rw [h2, Float64.ofRat_1025_halves, JSNumber.round_finite]
  have : Math.round (1025 / 2 : ℚ) = 513 := by rw [Math.round_eq_iff]; norm_num
  rw [this]; norm_num

theorem Runtime.example_dinner_loop :
    Runtime.generateMeal.loop ((1709 : JSNumber) * 0.3) halfDraws 3
        { availableFoods := [denseFood], currentCalories := 0, selectedFoods := [], pos := 1 }
      = .ok { availableFoods := [], currentCalories := 0 + JSNumber.finite 513
              selectedFoods := [Runtime.generateMeal.item denseFood 125], pos := 3 } := by
  rw [Runtime.dinnerTarget]
  have hless : JSNumber.less 0 (JSNumber.finite (4509756892486041 * 2 ^ (-43 : ℤ))) = true := by
    rw [JSNumber.zero_eq]
    simp only [JSNumber.less, decide_eq_true_eq]
    norm_num
  have hq : Runtime.randomBelow (halfDraws (1 + 1)) 150 + JSNumber.finite 50
      = JSNumber.finite 125 := by
    rw [Runtime.randomBelow_half_150, JSNumber.finite_add]
    have : (75 : ℚ) + 50 = 125 := by norm_num
    rw [this, Float64.ofRat_ofNat 125 (by norm_num)]
  have hcal : (410 : ℚ) = denseFood.nutrition.calories := rfl
  have hidx : DietPlanner.jsIndex [denseFood] 0 = some denseFood := rfl
  have h125 : ((125 : ℤ) : ℚ) = 125 := by norm_num
  have hpos : JSNumber.less (JSNumber.finite 0) (JSNumber.finite 125) = true := by
    simp [JSNumber.less]
  have hitem : Runtime.MealFood.mk denseFood._id denseFood.name (JSNumber.finite 125) "g"
      (Runtime.Food.calculateNutritionForQuantity denseFood (JSNumber.finite 125))
        = Runtime.generateMeal.item denseFood 125 := by
    simp [Runtime.generateMeal.item]
  have hc : (Runtime.Food.calculateNutritionForQuantity denseFood (JSNumber.finite 125)).calories
      = JSNumber.finite 513 := by
    rw [← Runtime.item_dense_calories]
    simp [Runtime.generateMeal.item]
  rw [Runtime.generateMeal.loop]
  simp only [List.length_singleton, gt_iff_lt, Nat.lt_one_iff, pos_of_gt, hless, and_self,
    if_true, Runtime.randomBelow_half_1, Runtime.jsIndex, Int.floor_zero, Int.cast_zero, hidx,
    Runtime.dinner_maxQuantity, hq, JSNumber.min, min_self, hpos, hitem, hc, Int.toNat_zero,
    List.eraseIdx_cons_zero, List.nil_append]
  rw [Runtime.generateMeal.loop]
  simp

/-- The result of the `try` block of `generateMeal` when the query, the catalog lookup and
the selection loop succeed. -/
theorem Runtime.generateMeal.attempt_ok (mealType : String) (target : JSNumber)
    (user : MealUser) (find : FoodQuery → Except JSError (List Food)) (draws : Draws) (pos : ℕ)
    (q : FoodQuery) (foods : List Food) (a : ℚ) (st : Runtime.MealLoop)
    (hq : generateMeal.query user = .ok q) (hf : find q = .ok foods)
    (hn : Runtime.randomBelow (draws pos) 3 + 2 = JSNumber.finite a)
    (hloop : Runtime.generateMeal.loop target draws ⌈a⌉.toNat
      { availableFoods := foods.filter (generateMeal.mealAppropriate mealType)
        currentCalories := 0, selectedFoods := [], pos := pos + 1 } = .ok st) :
    ∃ r, Runtime.generateMeal.attempt mealType target user find draws pos = .ok r
      ∧ r.1.foods = st.selectedFoods
      ∧ r.1.totalNutrition = Runtime.generateMeal.totalNutrition st.selectedFoods := by
  unfold Runtime.generateMeal.attempt
  simp only [hq, hf, Except.mapError, bind, Except.bind, hn, hloop, pure, Except.pure]
  exact ⟨_, rfl, rfl, rfl⟩

theorem Runtime.example_dinner_attempt :
    ∃ r, Runtime.generateMeal.attempt "dinner" ((1709 : JSNumber) * 0.3) veganUser
        (fun _ => .ok [denseFood]) halfDraws 0 = .ok r
      ∧ r.1.foods = [Runtime.generateMeal.item denseFood 125]
      ∧ r.1.totalNutrition.calories = JSNumber.finite 513 := by
  have hn : Runtime.randomBelow (halfDraws 0) 3 + 2 = JSNumber.finite 3 := by
    rw [Runtime.randomBelow_half_3, JSNumber.natLit 2 (by norm_num), JSNumber.finite_add]
    have : (1 : ℚ) + ((2 : ℕ) : ℚ) = 3 := by norm_num
    rw [this, Float64.ofRat_ofNat 3 (by norm_num)]
  have hceil : ⌈(3 : ℚ)⌉.toNat = 3 := by
    have : ⌈(3 : ℚ)⌉ = 3 := by rw [Int.ceil_eq_iff]; constructor <;> norm_num
    rw [this]; rfl
  have hfilter : [denseFood].filter (generateMeal.mealAppropriate "dinner") = [denseFood] := by
    simp [generateMeal.mealAppropriate, denseFood]
  have hsum : (0 : JSNumber) + JSNumber.finite 513 = JSNumber.finite 513 := by
    rw [JSNumber.zero_eq, JSNumber.finite_add]
    have : (0 : ℚ) + 513 = 513 := by norm_num
    rw [this, Float64.ofRat_ofNat 513 (by norm_num)]
  obtain ⟨q, hquery⟩ : ∃ q, generateMeal.query veganUser = .ok q := by
    cases hq : generateMeal.query veganUser with
    | error e => simp [generateMeal.query, veganUser] at hq
    | ok q => exact ⟨q, rfl⟩
  obtain ⟨r, h1, h2, h3⟩ := Runtime.generateMeal.attempt_ok "dinner" ((1709 : JSNumber) * 0.3)
    veganUser (fun _ => .ok [denseFood]) halfDraws 0 q [denseFood] 3
    { availableFoods := [], currentCalories := 0 + JSNumber.finite 513
      selectedFoods := [Runtime.generateMeal.item denseFood 125], pos := 3 } hquery rfl hn
    (by rw [hceil, hfilter]; exact Runtime.example_dinner_loop)
  refine ⟨r, h1, h2, ?_⟩
  rw [h3]
  show (0 : JSNumber) + (Runtime.generateMeal.item denseFood 125).nutrition.calories = _
  rw [Runtime.item_dense_calories, hsum]

/-- Every item of a trace is the item of its catalog food at a positive integer quantity of at
most 200. -/
theorem Runtime.generateMeal.Trace_quantities (target : JSNumber)
    (tr : List (Food × Runtime.MealFood)) :
    ∀ cur : JSNumber, Runtime.generateMeal.Trace target cur tr →
      ∀ p ∈ tr, ∃ q : ℤ, 0 < q ∧ q ≤ 200 ∧ p.2 = Runtime.generateMeal.item p.1 q := by
  induction tr with
  | nil => intro _ _ p hp; cases hp
  | cons p0 rest ih =>
    intro cur htr p hp
    obtain ⟨hadd, hrest⟩ := htr
    rcases List.mem_cons.1 hp with h | h
    · subst h
      obtain ⟨_, q, r, hq0, hr, hmin, hitem⟩ := hadd
      refine ⟨q, hq0, ?_, hitem⟩
      rcases JSNumber.min_eq_finite _ _ _ hmin with ⟨_, h2⟩ | ⟨m, _, h2⟩
      · have : q = r := by exact_mod_cast h2
        omega
      · have h3 : (q : ℚ) ≤ r := by rw [h2]; exact min_le_right _ _
        have h4 : q ≤ r := by exact_mod_cast h3
        omega
    · exact ih _ hrest p h

/-- Adding up to five integers of at most 2000001 each in double arithmetic is exact. -/
theorem Runtime.caloriesAfter_exact (tr : List (Food × Runtime.MealFood)) :
    ∀ c : ℤ, 0 ≤ c → c + 2000001 * (tr.length : ℤ) ≤ 2 ^ 53 →
      (∀ p ∈ tr, ∃ k : ℤ, p.2.nutrition.calories = .finite k ∧ 0 ≤ k ∧ k ≤ 2000001) →
      ∃ ks : List ℤ,
        tr.map (fun p => p.2.nutrition.calories) = ks.map (fun k : ℤ => JSNumber.finite (k : ℚ))
          ∧ Runtime.caloriesAfter (.finite c) tr = .finite ((c + ks.sum : ℤ) : ℚ) := by
  induction tr with
  | nil =>
    intro c _ _ _
    exact ⟨[], rfl, by simp [Runtime.caloriesAfter]⟩
  | cons p rest ih =>
    intro c hc0 hlen hk
    obtain ⟨k, hk1, hk0, hk2⟩ := hk p (List.mem_cons_self _ _)
    have hlen2 : c + k + 2000001 * (rest.length : ℤ) ≤ 2 ^ 53 := by
      rw [List.length_cons] at hlen
      push_cast at hlen
      linarith
    have hsum : JSNumber.finite c + p.2.nutrition.calories = .finite ((c + k : ℤ) : ℚ) := by
      rw [hk1, JSNumber.finite_add]
      have h := Float64.ofRat_intCast (c + k) (by
        rw [abs_of_nonneg (by omega)]
        have : (0 : ℤ) ≤ 2000001 * (rest.length : ℤ) := by positivity
        linarith)
      push_cast at h ⊢
      exact h
    obtain ⟨ks, hks, htot⟩ := ih (c + k) (by omega) hlen2
      (fun p1 h1 => hk p1 (List.mem_cons_of_mem _ h1))
    refine ⟨k :: ks, ?_, ?_⟩
    · rw [List.map_cons, List.map_cons, hks, hk1]
    · rw [Runtime.caloriesAfter_cons, hsum, htot, List.sum_cons, add_assoc]

/-! ## The calorie budget of a meal -/

theorem JSNumber.min_not_pos (M r : JSNumber)
    (h : JSNumber.less (JSNumber.finite 0) M = false) :
    JSNumber.less (JSNumber.finite 0) (JSNumber.min M r) = false := by
  cases M with
  | nan => cases r <;> rfl
  | posInf => simp [JSNumber.less] at h
  | negInf => cases r <;> rfl
  | finite a =>
    have ha : ¬ 0 < a := by simpa [JSNumber.less] using h
    cases r with
    | nan => rfl
    | posInf => simpa [JSNumber.min, JSNumber.less] using ha
    | negInf => rfl
    | finite b =>
      simp only [JSNumber.min, JSNumber.less, decide_eq_false_iff_not, not_lt]
      exact le_trans (min_le_left a b) (not_lt.1 ha)

theorem Runtime.generateMeal_catalog (mealType : String) (user : MealUser)
    (find : FoodQuery → Except JSError (List Food)) (tr : List (Food × Runtime.MealFood))
    (hcat : ∀ q foods, find q = .ok foods → ∀ food ∈ foods,
      0 ≤ food.nutrition.calories ∧ food.nutrition.calories ≤ 10 ^ 6)
    (h : tr = [] ∨ ∃ q foods, generateMeal.query user = .ok q ∧ find q = .ok foods ∧
      (tr.map Prod.fst).Subperm (foods.filter (generateMeal.mealAppropriate mealType))) :
    ∀ p ∈ tr, 0 ≤ p.1.nutrition.calories ∧ p.1.nutrition.calories ≤ 10 ^ 6 := by
  intro p hp
  rcases h with h | ⟨q, foods, _, hf, hsub⟩
  · subst h; cases hp
  · have h1 : p.1 ∈ tr.map Prod.fst := List.mem_map_of_mem _ hp
    have h2 := hsub.subset h1
    exact hcat q foods hf p.1 (List.mem_of_mem_filter h2)

theorem Runtime.generateMeal_of_attempt (mealType : String) (target : JSNumber)
    (user : MealUser) (find : FoodQuery → Except JSError (List Food)) (draws : Draws) (pos : ℕ)
    (r : Runtime.Meal × ℕ)
    (h : Runtime.generateMeal.attempt mealType target user find draws pos = .ok r) :
    Runtime.generateMeal mealType target user find draws pos = r := by
  unfold Runtime.generateMeal
  rw [h]

/-- C14 as stated fails: for the dinner of the worked example (target `1709 * 0.3`, the double
512.6999999999999), a catalog of one food of 410 kcal per 100 g and draws of 1/2,
`generateMeal` adds 125 g, whose calories round to 513: the item exceeds the remaining budget
and the meal's total exceeds `targetCalories`. -/
theorem generateMeal_total_exceeds_target :
    JSNumber.less 0 ((1709 : JSNumber) * 0.3) = true
      ∧ (Runtime.generateMeal "dinner" ((1709 : JSNumber) * 0.3) veganUser
          (fun _ => .ok [denseFood]) halfDraws 0).1.foods
          = [Runtime.generateMeal.item denseFood 125]
      ∧ (Runtime.generateMeal.item denseFood 125).nutrition.calories = JSNumber.finite 513
      ∧ JSNumber.less ((1709 : JSNumber) * 0.3 - 0) (JSNumber.finite 513) = true
      ∧ (Runtime.generateMeal "dinner" ((1709 : JSNumber) * 0.3) veganUser
          (fun _ => .ok [denseFood]) halfDraws 0).1.totalNutrition.calories = JSNumber.finite 513
      ∧ JSNumber.less ((1709 : JSNumber) * 0.3) (JSNumber.finite 513) = true := by
  obtain ⟨r, h1, h2, h3⟩ := Runtime.example_dinner_attempt
  rw [Runtime.generateMeal_of_attempt _ _ _ _ _ _ r h1]
  refine ⟨?_, h2, Runtime.item_dense_calories, ?_, h3, ?_⟩
  · rw [Runtime.dinnerTarget, JSNumber.zero_eq]
    simp only [JSNumber.less, decide_eq_true_eq]
    norm_num
  · rw [Runtime.dinnerTarget, JSNumber.zero_eq, JSNumber.finite_sub, sub_zero,
      Float64.ofRat_dinner_target]
    simp only [JSNumber.less, decide_eq_true_eq]
    norm_num
  · rw [Runtime.dinnerTarget]
    simp only [JSNumber.less, decide_eq_true_eq]
    norm_num

/-- C14 as amended: for a target `0 < targetCalories ≤ 10 ^ 6` and a catalog whose foods have
between 0 and `10 ^ 6` kcal per 100 g, the items of the meal `generateMeal` returns are made
from distinct entries `tr` of the meal-appropriate catalog foods, and each of them is within its
budget as `Runtime.generateMeal.WithinBudget` says: it is added while the integer calories
accumulated before it are below the target, its quantity is a positive integer of at most 200
not above the calorie-based `maxQuantity`, which is above 0, its unrounded calories exceed the
remaining budget by at most `10 ^ -6`, and the calories recorded for it, an integer within
`1/2 + 10 ^ -8` of the unrounded ones, exceed that budget by at most `1/2 + 10 ^ -6`. The
meal's total calories are an integer of at most `targetCalories + 1/2 + 10 ^ -6`. A quantity
whose calorie-based bound is not above 0 is not above 0 either, and the loop skips it. -/
theorem generateMeal_within_budget_up_to_rounding (mealType : String) (targetCalories : ℚ)
    (user : MealUser) (find : FoodQuery → Except JSError (List Food)) (draws : Draws) (pos : ℕ)
    (hpos : 0 < targetCalories) (hle : targetCalories ≤ 10 ^ 6)
    (hcat : ∀ q foods, find q = .ok foods → ∀ food ∈ foods,
      0 ≤ food.nutrition.calories ∧ food.nutrition.calories ≤ 10 ^ 6) :
    (∃ tr : List (Food × Runtime.MealFood),
      (Runtime.generateMeal mealType (.finite targetCalories) user find draws pos).1.foods
          = tr.map Prod.snd
        ∧ (tr = [] ∨ ∃ q foods, generateMeal.query user = .ok q ∧ find q = .ok foods ∧
            (tr.map Prod.fst).Subperm (foods.filter (generateMeal.mealAppropriate mealType)))
        ∧ (∀ (i : ℕ) (hi : i < tr.length), ∃ c : ℤ,
            Runtime.caloriesAfter 0 (tr.take i) = .finite c ∧ 0 ≤ c
              ∧ Runtime.generateMeal.WithinBudget targetCalories c (tr.get ⟨i, hi⟩))
        ∧ ∃ K : ℤ,
            (Runtime.generateMeal mealType (.finite targetCalories) user find draws
                pos).1.totalNutrition.calories = .finite K
              ∧ 0 ≤ K ∧ (K : ℚ) ≤ targetCalories + 1 / 2 + 1 / 10 ^ 6)
      ∧ ∀ (remainingCalories r : JSNumber) (calories : ℚ),
          JSNumber.less (JSNumber.finite 0)
              (Runtime.generateMeal.maxQuantity remainingCalories calories) = false →
            JSNumber.less (JSNumber.finite 0)
              (JSNumber.min (Runtime.generateMeal.maxQuantity remainingCalories calories) r)
              = false := by
  refine ⟨?_, fun rem r cal h => JSNumber.min_not_pos _ r h⟩
  obtain ⟨tr, h1, h2, h3, h4, _⟩ :=
    Runtime.generateMeal_items mealType (.finite targetCalories) user find draws pos
  have hcal := Runtime.generateMeal_catalog mealType user find tr hcat h3
  have hz : (0 : JSNumber) = JSNumber.finite ((0 : ℤ) : ℚ) := by
    rw [JSNumber.zero_eq, Int.cast_zero]
  rw [hz] at h2
  obtain ⟨hidx, ks, _, hks0, htot, hb⟩ :=
    Runtime.generateMeal.Trace_facts targetCalories hle tr 0 le_rfl hcal h2
  refine ⟨tr, h1, h3, ?_, 0 + ks.sum, ?_, ?_, ?_⟩
  · intro i hi
    obtain ⟨c, a, b, d⟩ := hidx i hi
    exact ⟨c, by rw [hz]; exact a, b, d⟩
  · rw [h4, Runtime.generateMeal.totalNutrition_calories, hz]
    exact htot
  · have := List.sum_nonneg hks0
    omega
  · by_cases hnil : tr = []
    · subst hnil
      simp only [Runtime.caloriesAfter, List.foldl_nil, JSNumber.finite.injEq] at htot
      rw [← htot]
      push_cast
      linarith
    · exact hb hnil

/-- Witness of C14 as amended, at a breakfast target of 400 kcal over a catalog of one food:
the total calories of the meal are an integer of at most `400 + 1/2 + 10 ^ -6`. -/
theorem generateMeal_within_budget_up_to_rounding_witness :
    (0 : ℚ) < 400 ∧ (400 : ℚ) ≤ 10 ^ 6
      ∧ ∃ K : ℤ,
          (Runtime.generateMeal "breakfast" (.finite 400) veganUser (fun _ => .ok [lightFood])
              zeroDraws 0).1.totalNutrition.calories = .finite K
            ∧ (K : ℚ) ≤ 400 + 1 / 2 + 1 / 10 ^ 6 := by
  refine ⟨by norm_num, by norm_num, ?_⟩
  obtain ⟨⟨tr, _, _, _, K, hK, _, hb⟩, _⟩ :=
    generateMeal_within_budget_up_to_rounding "breakfast" 400 veganUser
      (fun _ => .ok [lightFood]) zeroDraws 0 (by norm_num) (by norm_num) (by
        intro q foods h food hf
        simp only [Except.ok.injEq] at h
        subst h
        simp only [List.mem_singleton] at hf
        subst hf
        simp only [lightFood]
        norm_num)
  exact ⟨K, hK, hb⟩

/-! ## Meal totals as sums of rounded items -/

/-- C11 as amended: the total calories of a meal are the sum of the calories recorded for its
items, each of them rounded to an integer before the sum is taken. In `DemoBackend.selectMeal`
the total is the sum over the items of `Math.round(calories per 100 g × quantity / 100)`, within
half a calorie per item of the unrounded sum. In `generateMeal` the items are made from distinct
entries `tr` of the meal-appropriate catalog foods, at integer quantities from 1 to 200; the
calories of an item are `Math.round(calories * (quantity / 100))` in double arithmetic and the
total is their sum, added from 0 in the order of the items; when the catalog foods have between
0 and `10 ^ 6` kcal per 100 g, the calories of each item are an integer within `1/2 + 10 ^ -8`
of calories per 100 g × quantity / 100 and the total is the exact sum of these integers. -/
theorem meal_calories_eq_sum_of_rounded_items (mealType : String) (demoTarget : ℚ)
    (targetCalories : JSNumber) (user : MealUser)
    (find : FoodQuery → Except JSError (List Food)) (draws : Draws) (pos : ℕ) :
    ((DemoBackend.selectMeal mealType demoTarget draws pos).1.nutrition.calories =
        ((DemoBackend.selectMeal mealType demoTarget draws pos).1.foods.map (fun f =>
          (Math.round (DemoBackend.caloriesPer100 f.name * (f.quantity / 100)) : ℚ))).sum
      ∧ |(DemoBackend.selectMeal mealType demoTarget draws pos).1.nutrition.calories
          - DemoBackend.specCalories
              (DemoBackend.selectMeal mealType demoTarget draws pos).1.foods|
        ≤ ((DemoBackend.selectMeal mealType demoTarget draws pos).1.foods.length : ℚ) / 2)
      ∧ ∃ tr : List (Food × Runtime.MealFood),
        (Runtime.generateMeal mealType targetCalories user find draws pos).1.foods
            = tr.map Prod.snd
          ∧ (tr = [] ∨ ∃ q foods, generateMeal.query user = .ok q ∧ find q = .ok foods ∧
              (tr.map Prod.fst).Subperm (foods.filter (generateMeal.mealAppropriate mealType)))
          ∧ (∀ p ∈ tr, ∃ q : ℤ, 0 < q ∧ q ≤ 200 ∧ p.2 = Runtime.generateMeal.item p.1 q
              ∧ p.2.nutrition.calories
                  = (JSNumber.finite p.1.nutrition.calories * (JSNumber.finite q / 100)).round)
          ∧ (Runtime.generateMeal mealType targetCalories user find draws
                pos).1.totalNutrition.calories
              = (tr.map (fun p => p.2.nutrition.calories)).foldl (fun total c => total + c) 0
          ∧ ((∀ q foods, find q = .ok foods → ∀ food ∈ foods,
                0 ≤ food.nutrition.calories ∧ food.nutrition.calories ≤ 10 ^ 6) →
              ∃ ks : List ℤ,
                tr.map (fun p => p.2.nutrition.calories)
                    = ks.map (fun k : ℤ => JSNumber.finite (k : ℚ))
                  ∧ (Runtime.generateMeal mealType targetCalories user find draws
                        pos).1.totalNutrition.calories = .finite ((ks.sum : ℤ) : ℚ)
                  ∧ ∀ p ∈ tr, ∃ q k : ℤ, p.2.quantity = .finite q
                      ∧ p.2.nutrition.calories = .finite k
                      ∧ |(k : ℚ) - p.1.nutrition.calories * q / 100| ≤ 1 / 2 + 1 / 10 ^ 8) := by
  refine ⟨⟨DemoBackend.selectMeal_rounded mealType demoTarget draws pos, ?_⟩, ?_⟩
  · rw [DemoBackend.selectMeal_rounded mealType demoTarget draws pos]
    have h := sum_round_sub_le (DemoBackend.selectMeal mealType demoTarget draws pos).1.foods
      (fun f => DemoBackend.caloriesPer100 f.name * (f.quantity / 100))
    have he : DemoBackend.specCalories
        (DemoBackend.selectMeal mealType demoTarget draws pos).1.foods =
        ((DemoBackend.selectMeal mealType demoTarget draws pos).1.foods.map
          (fun f => DemoBackend.caloriesPer100 f.name * (f.quantity / 100))).sum := by
      unfold DemoBackend.specCalories
      congr 1
      apply List.map_congr_left
      intro f _
      ring
    rw [he]
    exact h
  · obtain ⟨tr, h1, h2, h3, h4, h5⟩ :=
      Runtime.generateMeal_items mealType targetCalories user find draws pos
    have hq := Runtime.generateMeal.Trace_quantities targetCalories tr 0 h2
    have htotal : (Runtime.generateMeal mealType targetCalories user find draws
        pos).1.totalNutrition.calories = Runtime.caloriesAfter 0 tr := by
      rw [h4, Runtime.generateMeal.totalNutrition_calories]
    refine ⟨tr, h1, h3, ?_, ?_, ?_⟩
    · intro p hp
      obtain ⟨q, hq0, hq1, hitem⟩ := hq p hp
      exact ⟨q, hq0, hq1, hitem, by rw [hitem]; rfl⟩
    · rw [htotal, List.foldl_map]
      rfl
    · intro hcat
      have hcal := Runtime.generateMeal_catalog mealType user find tr hcat h3
      have hnear : ∀ p ∈ tr, ∃ q k : ℤ, p.2.quantity = .finite q
          ∧ p.2.nutrition.calories = .finite k ∧ 0 ≤ k
          ∧ |(k : ℚ) - p.1.nutrition.calories * q / 100| ≤ 1 / 2 + 1 / 10 ^ 8 := by
        intro p hp
        obtain ⟨q, hq0, hq1, hitem⟩ := hq p hp
        obtain ⟨k, hk, hk0, hkn⟩ :=
          Runtime.item_calories_near p.1 q hq0 hq1 (hcal p hp).1 (hcal p hp).2
        exact ⟨q, k, by rw [hitem]; rfl, by rw [hitem]; exact hk, hk0, hkn⟩
      have hz : (0 : JSNumber) = JSNumber.finite ((0 : ℤ) : ℚ) := by
        rw [JSNumber.zero_eq, Int.cast_zero]
      obtain ⟨ks, hks, hsum⟩ := Runtime.caloriesAfter_exact tr 0 le_rfl (by
          have : (tr.length : ℤ) ≤ 5 := by exact_mod_cast h5
          have h53 : (2000001 : ℤ) * 5 ≤ 2 ^ 53 := by norm_num
          linarith) (by
          intro p hp
          obtain ⟨q, k, hqty, hk, hk0, hkn⟩ := hnear p hp
          obtain ⟨q1, hq0, hq1, hitem⟩ := hq p hp
          have hqq : q = q1 := by
            rw [hitem] at hqty
            have : ((q1 : ℤ) : ℚ) = q := by
              have := hqty
              simp only [Runtime.generateMeal.item, JSNumber.finite.injEq] at this
              exact this
            exact_mod_cast this.symm
          subst hqq
          refine ⟨k, hk, hk0, ?_⟩
          have hc := hcal p hp
          have hq1r : (q : ℚ) ≤ 200 := by exact_mod_cast hq1
          have hq0r : (0 : ℚ) ≤ q := by exact_mod_cast hq0.le
          have hprod : p.1.nutrition.calories * q ≤ 10 ^ 6 * 200 :=
            mul_le_mul hc.2 hq1r hq0r (by norm_num)
          have hk1 : (k : ℚ) ≤ 2000001 := by
            rw [abs_le] at hkn
            have : p.1.nutrition.calories * q / 100 ≤ 2000000 := by
              rw [div_le_iff₀ (by norm_num)]; linarith
            have h8 : (1 : ℚ) / 2 + 1 / 10 ^ 8 ≤ 1 := by norm_num
            linarith [hkn.2]
          exact_mod_cast hk1)
      refine ⟨ks, hks, ?_, ?_⟩
      · rw [htotal, hz, hsum, zero_add]
      · intro p hp
        obtain ⟨q, k, a, b, _, c⟩ := hnear p hp
        exact ⟨q, k, a, b, c⟩

/-- Witness of C11 as amended, at the dinner of the worked example over a catalog of one food
of 410 kcal per 100 g: the meal's total calories are the exact sum of integer item calories. -/
theorem meal_calories_eq_sum_of_rounded_items_witness :
    ∃ ks : List ℤ,
      (Runtime.generateMeal "dinner" ((1709 : JSNumber) * 0.3) veganUser
          (fun _ => .ok [denseFood]) halfDraws 0).1.totalNutrition.calories
        = .finite ((ks.sum : ℤ) : ℚ) := by
  obtain ⟨tr, _, _, _, _, h⟩ :=
    (meal_calories_eq_sum_of_rounded_items "dinner" 0 ((1709 : JSNumber) * 0.3) veganUser
      (fun _ => .ok [denseFood]) halfDraws 0).2
  obtain ⟨ks, _, hk, _⟩ := h (by
    intro q foods h food hf
    simp only [Except.ok.injEq] at h
    subst h
    simp only [List.mem_singleton] at hf
    subst hf
    simp only [denseFood]
    norm_num)
  exact ⟨ks, hk⟩

end DietPlanner
